import Mathlib

/-!
# Verification of the BBR+ TCP congestion-control core (`net/ipv4/tcp_bbrplus.c`)

This file gives a shallow embedding of the per-connection congestion-control
state machine of `tcp_bbrplus.c` and settles the specification claims about it.

Modelling conventions:
* Machine integers are `Nat`/`Int`; where C truncation or wraparound matters
  (u32/u64 stores, bitfield stores, `before`/`after` sequence comparisons),
  an explicit `% 2^w` or a signed-view helper is applied at that spot.
* The host TCP stack (`tp`/`sk` fields the core only reads, the collaborators
  `tcp_tso_autosize`, `tcp_send_head`, `tcp_snd_wnd_test`, and the randomness
  source `prandom_u32_max`) is an `Input` snapshot supplied at each event.
* The state the core owns across events is `Conn`: the `struct bbrplus`
  control block plus the published `tp->snd_cwnd` and `sk->sk_pacing_rate`.
* The windowed max filter (`lib/win_minmax`) is not part of the repository
  sources; it is modelled from the spec (see `minmax_running_max`).
-/

/-! ## Basic machine-integer helpers -/

def u32mod : Nat := 2 ^ 32

def u64mod : Nat := 2 ^ 64

/-- u32 subtraction with wraparound. -/
def u32sub (a b : Nat) : Nat := (a % u32mod + u32mod - b % u32mod) % u32mod

/-- u64 subtraction with wraparound. -/
def u64sub (a b : Nat) : Nat := (a % u64mod + u64mod - b % u64mod) % u64mod

/-- View a u32 bit pattern as a signed 32-bit value. -/
def s32val (n : Nat) : Int :=
  if n % u32mod < 2 ^ 31 then (n % u32mod : Int) else (n % u32mod : Int) - (u32mod : Int)

/-- View a u64 bit pattern as a signed 64-bit value. -/
def s64val (n : Nat) : Int :=
  if n % u64mod < 2 ^ 63 then (n % u64mod : Int) else (n % u64mod : Int) - (u64mod : Int)

/-- `before(seq1, seq2)` of the kernel: `(s32)(seq1 - seq2) < 0`. -/
def u32before (a b : Nat) : Bool := s32val (u32sub a b) < 0

/-- `after(seq2, seq1) = before(seq1, seq2)`. -/
def u32after (a b : Nat) : Bool := u32before b a

/-- `tcp_stamp_us_delta(t1, t0) = max((s64)(t1 - t0), 0)` on u64 stamps. -/
def tcp_stamp_us_delta (t1 t0 : Nat) : Nat := (max (s64val (u64sub t1 t0)) 0).toNat

/-- Kernel timer frequency.  A configuration constant of the host kernel; the
claims do not depend on its value, the concrete traces just pick jiffies
values consistently with it. -/
def HZ : Nat := 1000

def USEC_PER_MSEC : Nat := 1000

def USEC_PER_SEC : Nat := 1000000

def msecs_to_jiffies (m : Nat) : Nat := m * HZ / 1000

def TCP_INIT_CWND : Nat := 10

def TCP_INFINITE_SSTHRESH : Nat := 0x7fffffff

/-- `enum tcp_ca_state` values used by the core. -/
def TCP_CA_Open : Nat := 0

def TCP_CA_Recovery : Nat := 3

def TCP_CA_Loss : Nat := 4

/-- `enum tcp_ca_event`: `CA_EVENT_TX_START` is the first enumerator. -/
def CA_EVENT_TX_START : Nat := 0

/-! ## Windowed max filter (`lib/win_minmax`)

Modelled from the spec: the win_minmax library is not among the repository
source files (only its header is included by `tcp_bbrplus.c`), so the filter
is modelled from spec section 4.1: three candidate samples best/2nd/3rd, each
tagged with the monotone time key at which it was admitted; on update,
candidates whose key has left the window are discarded (by promotion), a
sample at least as large as the best (or arriving when nothing is left in the
window) resets all three slots, and otherwise it replaces the lower-ranked
candidates it dominates.  Queries return the current best; reset initializes
all three slots to a given value with the current key. -/

structure MinmaxSample where
  t : Nat
  v : Nat
deriving DecidableEq, Repr

structure Minmax where
  s0 : MinmaxSample
  s1 : MinmaxSample
  s2 : MinmaxSample
deriving DecidableEq, Repr

/-- Modelled from the spec: reset all three candidate slots. -/
def minmax_reset (t v : Nat) : Minmax := ⟨⟨t, v⟩, ⟨t, v⟩, ⟨t, v⟩⟩

/-- Modelled from the spec: the query returns the best candidate. -/
def minmax_get (m : Minmax) : Nat := m.s0.v

/-- Modelled from the spec: age out candidates that have left the window,
promoting the remaining ones. -/
def minmax_subwin_update (m : Minmax) (win t v : Nat) : Minmax :=
  let dt := t - m.s0.t
  if dt > win then
    let m' : Minmax := ⟨m.s1, m.s2, ⟨t, v⟩⟩
    if t - m'.s0.t > win then ⟨m'.s1, m'.s2, ⟨t, v⟩⟩ else m'
  else if m.s1.t = m.s0.t ∧ dt > win / 4 then
    { m with s1 := ⟨t, v⟩, s2 := ⟨t, v⟩ }
  else if m.s2.t = m.s1.t ∧ dt > win / 2 then
    { m with s2 := ⟨t, v⟩ }
  else m

/-- Modelled from the spec: admit a sample into the windowed max filter. -/
def minmax_running_max (m : Minmax) (win t v : Nat) : Minmax :=
  if v ≥ m.s0.v ∨ t - m.s2.t > win then minmax_reset t v
  else
    let m' :=
      if v ≥ m.s1.v then { m with s1 := (⟨t, v⟩ : MinmaxSample), s2 := (⟨t, v⟩ : MinmaxSample) }
      else if v ≥ m.s2.v then { m with s2 := (⟨t, v⟩ : MinmaxSample) }
      else m
    minmax_subwin_update m' win t v

/-! ## Constants of the algorithm (`tcp_bbrplus.c` lines 72-206) -/

def BW_SCALE : Nat := 24

def BW_UNIT : Nat := 2 ^ BW_SCALE

def BBRPLUS_SCALE : Nat := 8

def BBRPLUS_UNIT : Nat := 2 ^ BBRPLUS_SCALE

def CYCLE_LEN : Nat := 8

def bbrplus_bw_rtts : Nat := CYCLE_LEN + 2

def bbrplus_min_rtt_win_sec : Nat := 10

def bbrplus_probe_rtt_mode_ms : Nat := 200

def bbrplus_min_tso_rate : Nat := 1200000

def bbrplus_high_gain : Nat := BBRPLUS_UNIT * 2885 / 1000 + 1

def bbrplus_drain_gain : Nat := BBRPLUS_UNIT * 1000 / 2885

def bbrplus_cwnd_gain : Nat := BBRPLUS_UNIT * 2

/-- The PROBE_BW pacing-gain cycle table, as a function of the index:
`{5/4, 3/4, 1, 1, 1, 1, 1, 1}` scaled by `BBRPLUS_UNIT`. -/
def bbrplus_pacing_gain (i : Nat) : Nat :=
  if i = 0 then BBRPLUS_UNIT * 5 / 4
  else if i = 1 then BBRPLUS_UNIT * 3 / 4
  else BBRPLUS_UNIT

def BBRPLUS_BW_PROBE_UP : Nat := 0

def BBRPLUS_BW_PROBE_DOWN : Nat := 1

def BBRPLUS_BW_PROBE_CRUISE : Nat := 2

def bbrplus_cycle_rand : Nat := 7

def bbrplus_cwnd_min_target : Nat := 4

def bbrplus_full_bw_thresh : Nat := BBRPLUS_UNIT * 5 / 4

def bbrplus_full_bw_cnt : Nat := 3

def bbrplus_lt_intvl_min_rtts : Nat := 4

def bbrplus_lt_loss_thresh : Nat := 50

/-- `bbrplus_lt_bw_ratio` in the source (renamed here for lexical reasons). -/
def bbrplus_lt_bw_rat : Nat := BBRPLUS_UNIT / 8

def bbrplus_lt_bw_diff : Nat := 4000 / 8

def bbrplus_lt_bw_max_rtts : Nat := 48

def bbrplus_extra_acked_gain : Nat := BBRPLUS_UNIT

def bbrplus_extra_acked_win_rtts : Nat := 10

def bbrplus_ack_epoch_acked_reset_thresh : Nat := 2 ^ 20

def bbrplus_extra_acked_max_us : Nat := 100 * 1000

def bbrplus_drain_to_target : Bool := true

/-! ## Data model -/

/-- `enum bbrplus_mode`. -/
inductive Mode where
  | STARTUP
  | DRAIN
  | PROBE_BW
  | PROBE_RTT
deriving DecidableEq, Repr

/-- `struct bbrplus`: the per-connection congestion-control block.
Bitfield widths of the source are enforced at the store sites via `% 2^w`
where a store could exceed the width. -/
structure Bbrplus where
  min_rtt_us : Nat
  min_rtt_stamp : Nat
  probe_rtt_done_stamp : Nat
  bw : Minmax
  rtt_cnt : Nat
  next_rtt_delivered : Nat
  cycle_mstamp : Nat
  mode : Mode
  prev_ca_state : Nat
  packet_conservation : Bool
  restore_cwnd : Bool
  round_start : Bool
  cycle_len : Nat
  tso_segs_goal : Nat
  idle_restart : Bool
  probe_rtt_round_done : Bool
  lt_is_sampling : Bool
  lt_rtt_cnt : Nat
  lt_use_bw : Bool
  lt_bw : Nat
  lt_last_delivered : Nat
  lt_last_stamp : Nat
  lt_last_lost : Nat
  pacing_gain : Nat
  cwnd_gain : Nat
  full_bw_cnt : Nat
  cycle_idx : Nat
  has_seen_rtt : Bool
  prior_cwnd : Nat
  full_bw : Nat
  ack_epoch_mstamp : Nat
  extra_acked0 : Nat
  extra_acked1 : Nat
  ack_epoch_acked : Nat
  extra_acked_win_rtts : Nat
  extra_acked_win_idx : Nat
deriving DecidableEq, Repr

/-- The connection state owned by the core across events: the control block
plus the two published values the core reads back (`tp->snd_cwnd`,
`sk->sk_pacing_rate`). -/
structure Conn where
  bbr : Bbrplus
  snd_cwnd : Nat
  sk_pacing_rate : Nat
deriving DecidableEq, Repr

/-- The host-side snapshot visible to the core at one event: the `tp`/`sk`
fields it reads, the collaborator call results, and the randomness oracle
(`prandom_u32_max` is modelled as `rand %` the requested bound). -/
structure Input where
  tp_delivered : Nat
  tp_lost : Nat
  tp_delivered_mstamp : Nat
  tp_tcp_mstamp : Nat
  jiffies : Nat
  inflight : Nat
  mss_to_mtu : Nat
  srtt_us : Nat
  snd_cwnd_clamp : Nat
  sk_max_pacing_rate : Nat
  tp_app_limited : Nat
  ca_state : Nat
  send_head : Bool
  snd_wnd_ok : Bool
  tso_autosize1 : Nat
  tso_autosize2 : Nat
  tp_min_rtt : Nat
  rand : Nat
deriving DecidableEq, Repr

/-- `struct rate_sample`, the fields the core reads. -/
structure RateSample where
  prior_delivered : Nat
  rtt_us : Int
  losses : Nat
  acked_sacked : Nat
  prior_in_flight : Nat
  delivered : Int
  interval_us : Int
  is_app_limited : Bool
deriving DecidableEq, Repr

/-! ## Core functions, translated from `tcp_bbrplus.c` -/

/-- `bbrplus_full_bw_reached`. -/
def bbrplus_full_bw_reached (b : Bbrplus) : Bool :=
  b.full_bw_cnt ≥ bbrplus_full_bw_cnt

/-- `bbrplus_set_cycle_idx` (the `cycle_idx` store is a 3-bit bitfield). -/
def bbrplus_set_cycle_idx (b : Bbrplus) (cycle_idx : Nat) : Bbrplus :=
  let b := { b with cycle_idx := cycle_idx % 8 }
  { b with pacing_gain := if b.lt_use_bw then BBRPLUS_UNIT else bbrplus_pacing_gain b.cycle_idx }

/-- `bbrplus_extra_acked`. -/
def bbrplus_extra_acked (b : Bbrplus) : Nat := max b.extra_acked0 b.extra_acked1

/-- `bbrplus_max_bw`. -/
def bbrplus_max_bw (b : Bbrplus) : Nat := minmax_get b.bw

/-- `bbrplus_bw`. -/
def bbrplus_bw (b : Bbrplus) : Nat := if b.lt_use_bw then b.lt_bw else bbrplus_max_bw b

/-- `bbrplus_rate_bytes_per_sec`; u64 arithmetic throughout, preserving the
source's operand order. -/
def bbrplus_rate_bytes_per_sec (i : Input) (rate gain : Nat) : Nat :=
  let rate := rate * i.mss_to_mtu % u64mod
  let rate := rate * gain % u64mod
  let rate := rate >>> BBRPLUS_SCALE
  let rate := rate * USEC_PER_SEC % u64mod
  rate >>> BW_SCALE

/-- `bbrplus_bw_to_pacing_rate`; the u32 return narrows the u64 min. -/
def bbrplus_bw_to_pacing_rate (i : Input) (bw gain : Nat) : Nat :=
  min (bbrplus_rate_bytes_per_sec i bw gain) i.sk_max_pacing_rate % u32mod

/-- `bbrplus_init_pacing_rate_from_rtt`. -/
def bbrplus_init_pacing_rate_from_rtt (c : Conn) (i : Input) : Conn :=
  let rtt_us := if i.srtt_us ≠ 0 then max (i.srtt_us >>> 3) 1 else USEC_PER_MSEC
  let c := if i.srtt_us ≠ 0 then { c with bbr := { c.bbr with has_seen_rtt := true } } else c
  let bw := c.snd_cwnd * BW_UNIT % u64mod / rtt_us
  { c with sk_pacing_rate := bbrplus_bw_to_pacing_rate i bw bbrplus_high_gain }

/-- `bbrplus_set_pacing_rate`. -/
def bbrplus_set_pacing_rate (c : Conn) (i : Input) (bw gain : Nat) : Conn :=
  let rate := bbrplus_bw_to_pacing_rate i bw gain
  let c := if ¬ c.bbr.has_seen_rtt ∧ i.srtt_us ≠ 0 then bbrplus_init_pacing_rate_from_rtt c i else c
  if bbrplus_full_bw_reached c.bbr ∨ rate > c.sk_pacing_rate then
    { c with sk_pacing_rate := rate }
  else c

/-- `bbrplus_tso_segs_goal`. -/
def bbrplus_tso_segs_goal (b : Bbrplus) : Nat := b.tso_segs_goal

/-- `bbrplus_set_tso_segs_goal`; `tcp_tso_autosize(sk, mss, min_segs)` is a
host collaborator, supplied as the two inputs `tso_autosize1`/`tso_autosize2`
for the two possible `min_segs` arguments. -/
def bbrplus_set_tso_segs_goal (c : Conn) (i : Input) : Conn :=
  let min_segs := if c.sk_pacing_rate < bbrplus_min_tso_rate >>> 3 then 1 else 2
  { c with bbr := { c.bbr with
      tso_segs_goal := min (if min_segs = 1 then i.tso_autosize1 else i.tso_autosize2) 0x7F } }

/-- `bbrplus_save_cwnd`. -/
def bbrplus_save_cwnd (c : Conn) : Conn :=
  if c.bbr.prev_ca_state < TCP_CA_Recovery ∧ c.bbr.mode ≠ Mode.PROBE_RTT then
    { c with bbr := { c.bbr with prior_cwnd := c.snd_cwnd } }
  else
    { c with bbr := { c.bbr with prior_cwnd := max c.bbr.prior_cwnd c.snd_cwnd } }

/-- `bbrplus_bdp`. -/
def bbrplus_bdp (b : Bbrplus) (bw : Nat) (gain : Nat) : Nat :=
  if b.min_rtt_us = u32mod - 1 then TCP_INIT_CWND
  else
    let w := bw * b.min_rtt_us % u64mod
    (((w * gain % u64mod) >>> BBRPLUS_SCALE) + BW_UNIT - 1) / BW_UNIT % u32mod

/-- `bbrplus_quantization_budget`. -/
def bbrplus_quantization_budget (b : Bbrplus) (cwnd : Nat) : Nat :=
  cwnd + 3 * bbrplus_tso_segs_goal b

/-- `bbrplus_inflight`. -/
def bbrplus_inflight (b : Bbrplus) (bw : Nat) (gain : Nat) : Nat :=
  bbrplus_quantization_budget b (bbrplus_bdp b bw gain)

/-- `bbrplus_ack_aggregation_cwnd`. -/
def bbrplus_ack_aggregation_cwnd (b : Bbrplus) : Nat :=
  if bbrplus_extra_acked_gain ≠ 0 ∧ bbrplus_full_bw_reached b then
    let max_aggr_cwnd := bbrplus_bw b * bbrplus_extra_acked_max_us % u64mod / BW_UNIT
    let aggr_cwnd := (bbrplus_extra_acked_gain * bbrplus_extra_acked b) >>> BBRPLUS_SCALE
    min aggr_cwnd max_aggr_cwnd
  else 0

/-- Result of `bbrplus_set_cwnd_to_recover_or_restore`: the updated state, the
cwnd written through the out-parameter, and the boolean return. -/
structure RecoverResult where
  conn : Conn
  cwnd : Nat
  conserv : Bool

/-- `bbrplus_set_cwnd_to_recover_or_restore`. -/
def bbrplus_set_cwnd_to_recover_or_restore (c : Conn) (i : Input) (rs : RateSample)
    (acked : Nat) : RecoverResult :=
  let prev_state := c.bbr.prev_ca_state
  let state := i.ca_state
  let cwnd := c.snd_cwnd
  let cwnd := if rs.losses > 0 then (max ((cwnd : Int) - (rs.losses : Int)) 1).toNat else cwnd
  let c :=
    if state = TCP_CA_Recovery ∧ prev_state ≠ TCP_CA_Recovery then
      { c with bbr := { c.bbr with packet_conservation := true,
                                   next_rtt_delivered := i.tp_delivered } }
    else if prev_state ≥ TCP_CA_Recovery ∧ state < TCP_CA_Recovery then
      { c with bbr := { c.bbr with restore_cwnd := true, packet_conservation := false } }
    else c
  let cwnd :=
    if state = TCP_CA_Recovery ∧ prev_state ≠ TCP_CA_Recovery then i.inflight + acked else cwnd
  let c := { c with bbr := { c.bbr with prev_ca_state := state } }
  let cwnd := if c.bbr.restore_cwnd then max cwnd c.bbr.prior_cwnd else cwnd
  let c :=
    if c.bbr.restore_cwnd then { c with bbr := { c.bbr with restore_cwnd := false } } else c
  if c.bbr.packet_conservation then ⟨c, max cwnd (i.inflight + acked), true⟩
  else ⟨c, cwnd, false⟩

/-- `bbrplus_set_cwnd`. -/
def bbrplus_set_cwnd (c : Conn) (i : Input) (rs : RateSample) (acked bw gain : Nat) : Conn :=
  if acked = 0 then c
  else
    let r := bbrplus_set_cwnd_to_recover_or_restore c i rs acked
    let c := r.conn
    let cwnd :=
      if r.conserv then r.cwnd
      else
        let cwnd := r.cwnd
        let target_cwnd := bbrplus_bdp c.bbr bw gain
        let target_cwnd := target_cwnd + bbrplus_ack_aggregation_cwnd c.bbr
        let target_cwnd := bbrplus_quantization_budget c.bbr target_cwnd
        let cwnd :=
          if bbrplus_full_bw_reached c.bbr then min (cwnd + acked) target_cwnd
          else if cwnd < target_cwnd ∨ i.tp_delivered < TCP_INIT_CWND then cwnd + acked
          else cwnd
        max cwnd bbrplus_cwnd_min_target
    let c := { c with snd_cwnd := min cwnd i.snd_cwnd_clamp }
    if c.bbr.mode = Mode.PROBE_RTT then
      { c with snd_cwnd := min c.snd_cwnd bbrplus_cwnd_min_target }
    else c

/-- `bbrplus_is_next_cycle_phase`. -/
def bbrplus_is_next_cycle_phase (c : Conn) (i : Input) (rs : RateSample) : Bool :=
  let is_full_length :=
    tcp_stamp_us_delta i.tp_delivered_mstamp c.bbr.cycle_mstamp > c.bbr.min_rtt_us
  if c.bbr.pacing_gain = BBRPLUS_UNIT then is_full_length
  else
    let inflight := rs.prior_in_flight
    let bw := bbrplus_max_bw c.bbr
    if c.bbr.pacing_gain > BBRPLUS_UNIT then
      is_full_length ∧
        (rs.losses ≠ 0 ∨ inflight ≥ bbrplus_inflight c.bbr bw c.bbr.pacing_gain)
    else
      is_full_length ∨ inflight ≤ bbrplus_inflight c.bbr bw BBRPLUS_UNIT

/-- `bbrplus_advance_cycle_phase`. -/
def bbrplus_advance_cycle_phase (b : Bbrplus) (i : Input) : Bbrplus :=
  let b := { b with cycle_idx := (b.cycle_idx + 1) % CYCLE_LEN,
                    cycle_mstamp := i.tp_delivered_mstamp }
  { b with pacing_gain := bbrplus_pacing_gain b.cycle_idx }

/-- `bbrplus_drain_to_target_cycling`; the `elapsed_us` and `cycle_len *
min_rtt_us` computations are u32, and the `cycle_len` store is a 4-bit
bitfield. -/
def bbrplus_drain_to_target_cycling (c : Conn) (i : Input) (rs : RateSample) : Conn :=
  let elapsed_us := tcp_stamp_us_delta i.tp_delivered_mstamp c.bbr.cycle_mstamp % u32mod
  if c.bbr.mode ≠ Mode.PROBE_BW then c
  else if elapsed_us > c.bbr.cycle_len * c.bbr.min_rtt_us % u32mod then
    let b := { c.bbr with cycle_mstamp := i.tp_delivered_mstamp,
                          cycle_len := (CYCLE_LEN - i.rand % bbrplus_cycle_rand) % 16 }
    { c with bbr := bbrplus_set_cycle_idx b BBRPLUS_BW_PROBE_UP }
  else if c.bbr.pacing_gain = BBRPLUS_UNIT then c
  else
    let inflight := rs.prior_in_flight
    let bw := bbrplus_max_bw c.bbr
    if c.bbr.pacing_gain < BBRPLUS_UNIT then
      if inflight ≤ bbrplus_inflight c.bbr bw BBRPLUS_UNIT then
        { c with bbr := bbrplus_set_cycle_idx c.bbr BBRPLUS_BW_PROBE_CRUISE }
      else c
    else
      if elapsed_us > c.bbr.min_rtt_us ∧
          (inflight ≥ bbrplus_inflight c.bbr bw c.bbr.pacing_gain ∨
           rs.losses ≠ 0 ∨ rs.is_app_limited ∨ ¬ i.send_head ∨ ¬ i.snd_wnd_ok) then
        { c with bbr := bbrplus_set_cycle_idx c.bbr BBRPLUS_BW_PROBE_DOWN }
      else c

/-- `bbrplus_update_cycle_phase`. -/
def bbrplus_update_cycle_phase (c : Conn) (i : Input) (rs : RateSample) : Conn :=
  if bbrplus_drain_to_target then bbrplus_drain_to_target_cycling c i rs
  else if c.bbr.mode = Mode.PROBE_BW ∧ ¬ c.bbr.lt_use_bw ∧ bbrplus_is_next_cycle_phase c i rs then
    { c with bbr := bbrplus_advance_cycle_phase c.bbr i }
  else c

/-- `bbrplus_reset_startup_mode`. -/
def bbrplus_reset_startup_mode (b : Bbrplus) : Bbrplus :=
  { b with mode := Mode.STARTUP, pacing_gain := bbrplus_high_gain,
           cwnd_gain := bbrplus_high_gain }

/-- `bbrplus_reset_probe_bw_mode`. -/
def bbrplus_reset_probe_bw_mode (b : Bbrplus) (i : Input) : Bbrplus :=
  let b := { b with mode := Mode.PROBE_BW, pacing_gain := BBRPLUS_UNIT,
                    cwnd_gain := bbrplus_cwnd_gain,
                    cycle_idx := (CYCLE_LEN - 1 - i.rand % bbrplus_cycle_rand) % 8 }
  bbrplus_advance_cycle_phase b i

/-- `bbrplus_reset_mode`. -/
def bbrplus_reset_mode (b : Bbrplus) (i : Input) : Bbrplus :=
  if ¬ bbrplus_full_bw_reached b then bbrplus_reset_startup_mode b
  else bbrplus_reset_probe_bw_mode b i

/-- `bbrplus_reset_lt_bw_sampling_interval` (`lt_last_stamp` is a u32 store of
`div_u64(tp->delivered_mstamp, USEC_PER_MSEC)`). -/
def bbrplus_reset_lt_bw_sampling_interval (c : Conn) (i : Input) : Conn :=
  { c with bbr := { c.bbr with
      lt_last_stamp := i.tp_delivered_mstamp / USEC_PER_MSEC % u32mod,
      lt_last_delivered := i.tp_delivered,
      lt_last_lost := i.tp_lost,
      lt_rtt_cnt := 0 } }

/-- `bbrplus_reset_lt_bw_sampling`. -/
def bbrplus_reset_lt_bw_sampling (c : Conn) (i : Input) : Conn :=
  let c := { c with bbr := { c.bbr with lt_bw := 0, lt_use_bw := false,
                                        lt_is_sampling := false } }
  bbrplus_reset_lt_bw_sampling_interval c i

/-- `bbrplus_lt_bw_interval_done`; `diff` is `abs()` of a u32 difference,
which the kernel's `abs()` evaluates on the signed 32-bit view. -/
def bbrplus_lt_bw_interval_done (c : Conn) (i : Input) (bw : Nat) : Conn :=
  let diff := (s32val (u32sub bw c.bbr.lt_bw)).natAbs
  if c.bbr.lt_bw ≠ 0 ∧
      (diff * BBRPLUS_UNIT % u32mod ≤ bbrplus_lt_bw_rat * c.bbr.lt_bw % u32mod ∨
       bbrplus_rate_bytes_per_sec i diff BBRPLUS_UNIT ≤ bbrplus_lt_bw_diff) then
    { c with bbr := { c.bbr with
        lt_bw := ((bw + c.bbr.lt_bw) % u32mod) >>> 1,
        lt_use_bw := true,
        pacing_gain := BBRPLUS_UNIT,
        lt_rtt_cnt := 0 } }
  else
    let c := { c with bbr := { c.bbr with lt_bw := bw } }
    bbrplus_reset_lt_bw_sampling_interval c i

/-- Tail of `bbrplus_lt_bw_sampling` (source lines 782-801): compute packets
lost and delivered over the sampling interval, require the loss-rate
threshold and at least 1 ms (u32 arithmetic with an overflow guard), then
compute the interval's average delivery rate and finish the interval. -/
def bbrplus_lt_interval_finish (c : Conn) (i : Input) : Conn :=
  let lost := u32sub i.tp_lost c.bbr.lt_last_lost
  let delivered := u32sub i.tp_delivered c.bbr.lt_last_delivered
  if delivered = 0 ∨
      lost * 2 ^ BBRPLUS_SCALE % u32mod < bbrplus_lt_loss_thresh * delivered % u32mod then
    c
  else
    let t := u32sub (i.tp_delivered_mstamp / USEC_PER_MSEC) c.bbr.lt_last_stamp
    if s32val t < 1 then c
    else if t ≥ (u32mod - 1) / USEC_PER_MSEC then bbrplus_reset_lt_bw_sampling c i
    else
      let t := t * USEC_PER_MSEC % u32mod
      let bw := delivered * BW_UNIT % u64mod / t
      bbrplus_lt_bw_interval_done c i (bw % u32mod)

/-- Main sampling block of `bbrplus_lt_bw_sampling` (source lines 760-801),
entered once sampling is armed: reset on app-limited samples, count rounds,
bound the interval length, and end the interval on a loss event. -/
def bbrplus_lt_sampling_body (c : Conn) (i : Input) (rs : RateSample) : Conn :=
  if rs.is_app_limited then bbrplus_reset_lt_bw_sampling c i
  else
    let c :=
      if c.bbr.round_start then
        { c with bbr := { c.bbr with lt_rtt_cnt := (c.bbr.lt_rtt_cnt + 1) % 128 } }
      else c
    if c.bbr.lt_rtt_cnt < bbrplus_lt_intvl_min_rtts then c
    else if c.bbr.lt_rtt_cnt > 4 * bbrplus_lt_intvl_min_rtts then
      bbrplus_reset_lt_bw_sampling c i
    else if rs.losses = 0 then c
    else bbrplus_lt_interval_finish c i

/-- `bbrplus_lt_bw_sampling` (`lt_rtt_cnt` is a 7-bit bitfield): handle the
already-using-lt_bw case, otherwise wait for a first loss to arm sampling and
run the sampling block. -/
def bbrplus_lt_bw_sampling (c : Conn) (i : Input) (rs : RateSample) : Conn :=
  if c.bbr.lt_use_bw then
    if c.bbr.mode = Mode.PROBE_BW ∧ c.bbr.round_start then
      let c := { c with bbr := { c.bbr with lt_rtt_cnt := (c.bbr.lt_rtt_cnt + 1) % 128 } }
      if c.bbr.lt_rtt_cnt ≥ bbrplus_lt_bw_max_rtts then
        let c := bbrplus_reset_lt_bw_sampling c i
        { c with bbr := bbrplus_reset_probe_bw_mode c.bbr i }
      else c
    else c
  else
    if ¬ c.bbr.lt_is_sampling ∧ rs.losses = 0 then c
    else
      let c :=
        if ¬ c.bbr.lt_is_sampling then
          let c := bbrplus_reset_lt_bw_sampling_interval c i
          { c with bbr := { c.bbr with lt_is_sampling := true } }
        else c
      bbrplus_lt_sampling_body c i rs

/-- `bbrplus_update_bw` (`rtt_cnt` is u32; the bandwidth sample is computed in
u64 and narrowed to u32 at the `minmax_running_max` call). -/
def bbrplus_update_bw (c : Conn) (i : Input) (rs : RateSample) : Conn :=
  let c := { c with bbr := { c.bbr with round_start := false } }
  if rs.delivered < 0 ∨ rs.interval_us ≤ 0 then c
  else
    let c :=
      if ¬ u32before rs.prior_delivered c.bbr.next_rtt_delivered then
        { c with bbr := { c.bbr with
            next_rtt_delivered := i.tp_delivered,
            rtt_cnt := (c.bbr.rtt_cnt + 1) % u32mod,
            round_start := true,
            packet_conservation := false } }
      else c
    let c := bbrplus_lt_bw_sampling c i rs
    let bw := rs.delivered.toNat * BW_UNIT % u64mod / rs.interval_us.toNat
    if ¬ rs.is_app_limited ∨ bw ≥ bbrplus_max_bw c.bbr then
      { c with bbr := { c.bbr with
          bw := minmax_running_max c.bbr.bw bbrplus_bw_rtts c.bbr.rtt_cnt (bw % u32mod) } }
    else c

/-- `bbrplus_check_full_bw_reached` (`full_bw_cnt` is a 3-bit bitfield;
`bw_thresh` is a u64 product shifted down). -/
def bbrplus_check_full_bw_reached (c : Conn) (rs : RateSample) : Conn :=
  if bbrplus_full_bw_reached c.bbr ∨ ¬ c.bbr.round_start ∨ rs.is_app_limited then c
  else
    let bw_thresh := (c.bbr.full_bw * bbrplus_full_bw_thresh % u64mod) >>> BBRPLUS_SCALE
    if bbrplus_max_bw c.bbr ≥ bw_thresh then
      { c with bbr := { c.bbr with full_bw := bbrplus_max_bw c.bbr, full_bw_cnt := 0 } }
    else
      { c with bbr := { c.bbr with full_bw_cnt := (c.bbr.full_bw_cnt + 1) % 8 } }

/-- `bbrplus_check_drain`. -/
def bbrplus_check_drain (c : Conn) (i : Input) : Conn :=
  let c :=
    if c.bbr.mode = Mode.STARTUP ∧ bbrplus_full_bw_reached c.bbr then
      { c with bbr := { c.bbr with mode := Mode.DRAIN, pacing_gain := bbrplus_drain_gain,
                                   cwnd_gain := bbrplus_high_gain } }
    else c
  if c.bbr.mode = Mode.DRAIN ∧
      i.inflight ≤ bbrplus_inflight c.bbr (bbrplus_max_bw c.bbr) BBRPLUS_UNIT then
    { c with bbr := bbrplus_reset_probe_bw_mode c.bbr i }
  else c

/-- First block of `bbrplus_update_ack_aggregation` (source lines 913-921):
on a round start, age the extra-acked window and rotate the slot when it is
ten rounds old (`extra_acked_win_rtts` is a 5-bit saturating counter). -/
def bbrplus_ack_aggregation_rotate_win (c : Conn) : Conn :=
  if c.bbr.round_start then
    let wr := min 0x1F (c.bbr.extra_acked_win_rtts + 1)
    if wr ≥ bbrplus_extra_acked_win_rtts then
      let idx := if c.bbr.extra_acked_win_idx ≠ 0 then 0 else 1
      let c := { c with bbr := { c.bbr with extra_acked_win_rtts := 0,
                                            extra_acked_win_idx := idx } }
      if idx = 0 then { c with bbr := { c.bbr with extra_acked0 := 0 } }
      else { c with bbr := { c.bbr with extra_acked1 := 0 } }
    else { c with bbr := { c.bbr with extra_acked_win_rtts := wr } }
  else c

/-- Second block of `bbrplus_update_ack_aggregation` (source lines 922-943):
epoch bookkeeping and extra-acked computation (`ack_epoch_acked` is a 20-bit
bitfield, `extra_acked[...]` are u16 slots; `epoch_us` and `expected_acked`
are u32 stores). -/
def bbrplus_ack_aggregation_epoch (c : Conn) (i : Input) (rs : RateSample) : Conn :=
  let epoch_us := tcp_stamp_us_delta i.tp_delivered_mstamp c.bbr.ack_epoch_mstamp % u32mod
  let expected_acked := bbrplus_bw c.bbr * epoch_us % u64mod / BW_UNIT % u32mod
  let reset_epoch := c.bbr.ack_epoch_acked ≤ expected_acked ∨
    c.bbr.ack_epoch_acked + rs.acked_sacked ≥ bbrplus_ack_epoch_acked_reset_thresh
  let c :=
    if reset_epoch then
      { c with bbr := { c.bbr with ack_epoch_acked := 0,
                                   ack_epoch_mstamp := i.tp_delivered_mstamp } }
    else c
  let expected_acked := if reset_epoch then 0 else expected_acked
  let c := { c with bbr := { c.bbr with
      ack_epoch_acked := min 0xFFFFF (c.bbr.ack_epoch_acked + rs.acked_sacked) } }
  let extra_acked := c.bbr.ack_epoch_acked - expected_acked
  let extra_acked := min extra_acked c.snd_cwnd
  if c.bbr.extra_acked_win_idx = 0 then
    if extra_acked > c.bbr.extra_acked0 then
      { c with bbr := { c.bbr with extra_acked0 := extra_acked % 2 ^ 16 } }
    else c
  else
    if extra_acked > c.bbr.extra_acked1 then
      { c with bbr := { c.bbr with extra_acked1 := extra_acked % 2 ^ 16 } }
    else c

/-- `bbrplus_update_ack_aggregation`, as the composition of its two blocks
behind the validity guard. -/
def bbrplus_update_ack_aggregation (c : Conn) (i : Input) (rs : RateSample) : Conn :=
  if bbrplus_extra_acked_gain = 0 ∨ rs.acked_sacked = 0 ∨ rs.delivered < 0 ∨
      rs.interval_us ≤ 0 then c
  else bbrplus_ack_aggregation_epoch (bbrplus_ack_aggregation_rotate_win c) i rs

/-- The min-RTT filter-expiry test of `bbrplus_update_min_rtt` (a u32
jiffies comparison through the kernel's `after`). -/
def bbrplus_min_rtt_expired (c : Conn) (i : Input) : Bool :=
  u32after i.jiffies ((c.bbr.min_rtt_stamp + bbrplus_min_rtt_win_sec * HZ) % u32mod)

/-- First block of `bbrplus_update_min_rtt` (source lines 975-979): refresh
the windowed min (the `min_rtt_us` store narrows `rs->rtt_us` to u32).
`filter_expired` is the local computed before this block in the source. -/
def bbrplus_min_rtt_refresh (c : Conn) (i : Input) (rs : RateSample)
    (filter_expired : Bool) : Conn :=
  if rs.rtt_us ≥ 0 ∧ (rs.rtt_us ≤ (c.bbr.min_rtt_us : Int) ∨ filter_expired) then
    { c with bbr := { c.bbr with min_rtt_us := rs.rtt_us.toNat % u32mod,
                                 min_rtt_stamp := i.jiffies } }
  else c

/-- Second block of `bbrplus_update_min_rtt` (source lines 981-988): enter
PROBE_RTT when the filter expired outside PROBE_RTT and not restarting from
idle. -/
def bbrplus_probe_rtt_enter (c : Conn) (filter_expired : Bool) : Conn :=
  if bbrplus_probe_rtt_mode_ms > 0 ∧ filter_expired ∧ ¬ c.bbr.idle_restart ∧
      c.bbr.mode ≠ Mode.PROBE_RTT then
    let c := { c with bbr := { c.bbr with mode := Mode.PROBE_RTT,
                                          pacing_gain := BBRPLUS_UNIT,
                                          cwnd_gain := BBRPLUS_UNIT } }
    let c := bbrplus_save_cwnd c
    { c with bbr := { c.bbr with probe_rtt_done_stamp := 0 } }
  else c

/-- Third block of `bbrplus_update_min_rtt` (source lines 990-1011): while in
PROBE_RTT, arm the 200 ms done-stamp once in-flight has dropped to the
minimum, track the round, and leave via `bbrplus_reset_mode` when both have
elapsed (`probe_rtt_done_stamp` is a u32 jiffies value).  The write of
`tp->app_limited` done here in the source is an output to the host `tp`, not
part of the state object. -/
def bbrplus_probe_rtt_handle (c : Conn) (i : Input) : Conn :=
  if c.bbr.mode = Mode.PROBE_RTT then
    if c.bbr.probe_rtt_done_stamp = 0 ∧ i.inflight ≤ bbrplus_cwnd_min_target then
      { c with bbr := { c.bbr with
          probe_rtt_done_stamp := (i.jiffies + msecs_to_jiffies bbrplus_probe_rtt_mode_ms) % u32mod,
          probe_rtt_round_done := false,
          next_rtt_delivered := i.tp_delivered } }
    else if c.bbr.probe_rtt_done_stamp ≠ 0 then
      let c :=
        if c.bbr.round_start then
          { c with bbr := { c.bbr with probe_rtt_round_done := true } }
        else c
      if c.bbr.probe_rtt_round_done ∧ u32after i.jiffies c.bbr.probe_rtt_done_stamp then
        let c := { c with bbr := { c.bbr with min_rtt_stamp := i.jiffies,
                                              restore_cwnd := true } }
        { c with bbr := bbrplus_reset_mode c.bbr i }
      else c
    else c
  else c

/-- `bbrplus_update_min_rtt`, as the composition of its blocks; the source
ends by clearing `idle_restart` unconditionally. -/
def bbrplus_update_min_rtt (c : Conn) (i : Input) (rs : RateSample) : Conn :=
  let filter_expired := bbrplus_min_rtt_expired c i
  let c := bbrplus_min_rtt_refresh c i rs filter_expired
  let c := bbrplus_probe_rtt_enter c filter_expired
  let c := bbrplus_probe_rtt_handle c i
  { c with bbr := { c.bbr with idle_restart := false } }

/-- `bbrplus_update_model`. -/
def bbrplus_update_model (c : Conn) (i : Input) (rs : RateSample) : Conn :=
  let c := bbrplus_update_bw c i rs
  let c := bbrplus_update_ack_aggregation c i rs
  let c := bbrplus_update_cycle_phase c i rs
  let c := bbrplus_check_full_bw_reached c rs
  let c := bbrplus_check_drain c i
  bbrplus_update_min_rtt c i rs

/-- `bbrplus_main`: the `cong_control` hook. -/
def bbrplus_main (c : Conn) (i : Input) (rs : RateSample) : Conn :=
  let c := bbrplus_update_model c i rs
  let bw := bbrplus_bw c.bbr
  let c := bbrplus_set_pacing_rate c i bw c.bbr.pacing_gain
  let c := bbrplus_set_tso_segs_goal c i
  bbrplus_set_cwnd c i rs rs.acked_sacked bw c.bbr.cwnd_gain

/-- `bbrplus_init`.  `cwnd0` is the host's `tp->snd_cwnd` at init, which the
core reads for the initial pacing rate but does not write. -/
def bbrplus_init (i : Input) (cwnd0 : Nat) : Conn :=
  let b : Bbrplus := {
    prior_cwnd := 0
    tso_segs_goal := 0
    rtt_cnt := 0
    next_rtt_delivered := 0
    prev_ca_state := TCP_CA_Open
    packet_conservation := false
    probe_rtt_done_stamp := 0
    probe_rtt_round_done := false
    min_rtt_us := i.tp_min_rtt
    min_rtt_stamp := i.jiffies
    bw := minmax_reset 0 0
    has_seen_rtt := false
    restore_cwnd := false
    round_start := false
    idle_restart := false
    full_bw := 0
    full_bw_cnt := 0
    cycle_mstamp := 0
    cycle_idx := 0
    cycle_len := 0
    lt_bw := 0
    lt_use_bw := false
    lt_is_sampling := false
    lt_rtt_cnt := 0
    lt_last_stamp := 0
    lt_last_delivered := 0
    lt_last_lost := 0
    mode := Mode.STARTUP
    pacing_gain := bbrplus_high_gain
    cwnd_gain := bbrplus_high_gain
    ack_epoch_mstamp := i.tp_tcp_mstamp
    ack_epoch_acked := 0
    extra_acked_win_rtts := 0
    extra_acked_win_idx := 0
    extra_acked0 := 0
    extra_acked1 := 0 }
  let c : Conn := { bbr := b, snd_cwnd := cwnd0, sk_pacing_rate := 0 }
  let c := bbrplus_init_pacing_rate_from_rtt c i
  let c := bbrplus_reset_lt_bw_sampling c i
  { c with bbr := bbrplus_reset_startup_mode c.bbr }

/-- `bbrplus_sndbuf_expand`. -/
def bbrplus_sndbuf_expand : Nat := 3

/-- `bbrplus_undo_cwnd`. -/
def bbrplus_undo_cwnd (c : Conn) : Nat := c.snd_cwnd

/-- `bbrplus_ssthresh`: saves the cwnd and returns the infinite sentinel. -/
def bbrplus_ssthresh (c : Conn) : Conn × Nat :=
  (bbrplus_save_cwnd c, TCP_INFINITE_SSTHRESH)

/-- `bbrplus_cwnd_event`. -/
def bbrplus_cwnd_event (c : Conn) (i : Input) (event : Nat) : Conn :=
  if event = CA_EVENT_TX_START ∧ i.tp_app_limited ≠ 0 then
    let c := { c with bbr := { c.bbr with idle_restart := true,
                                          ack_epoch_mstamp := i.tp_tcp_mstamp,
                                          ack_epoch_acked := 0 } }
    if c.bbr.mode = Mode.PROBE_BW then
      bbrplus_set_pacing_rate c i (bbrplus_bw c.bbr) BBRPLUS_UNIT
    else c
  else c

/-- `bbrplus_set_state`; on `TCP_CA_Loss` the source builds a
`struct rate_sample rs = { .losses = 1 }` with every other field zero. -/
def bbrplus_set_state (c : Conn) (i : Input) (new_state : Nat) : Conn :=
  if new_state = TCP_CA_Loss then
    let rs : RateSample := { prior_delivered := 0, rtt_us := 0, losses := 1,
                             acked_sacked := 0, prior_in_flight := 0, delivered := 0,
                             interval_us := 0, is_app_limited := false }
    let c := { c with bbr := { c.bbr with prev_ca_state := TCP_CA_Loss, full_bw := 0,
                                          round_start := true } }
    bbrplus_lt_bw_sampling c i rs
  else c

/-! ## Event-sequence semantics -/

/-- One externally visible event delivered to the core after `init`. -/
inductive Event where
  | ack (i : Input) (rs : RateSample)
  | cwndEvent (i : Input) (ev : Nat)
  | setState (i : Input) (st : Nat)
  | ssthreshEv
deriving Repr

/-- Dispatch one event to the corresponding hook. -/
def bbrplus_step (c : Conn) (e : Event) : Conn :=
  match e with
  | .ack i rs => bbrplus_main c i rs
  | .cwndEvent i ev => bbrplus_cwnd_event c i ev
  | .setState i st => bbrplus_set_state c i st
  | .ssthreshEv => (bbrplus_ssthresh c).1

/-- Run a sequence of events. -/
def bbrplus_run (c : Conn) (evs : List Event) : Conn :=
  evs.foldl bbrplus_step c

/-! ## Concrete host snapshots and traces used by witnesses and counterexamples -/

/-- A quiescent host snapshot: nothing delivered or lost, zero timestamps, a
100-packet clamp, a 10 ms `tcp_min_rtt` seed and no smoothed RTT yet. -/
def inp0 : Input := {
  tp_delivered := 0, tp_lost := 0, tp_delivered_mstamp := 0, tp_tcp_mstamp := 0,
  jiffies := 0, inflight := 0, mss_to_mtu := 1500, srtt_us := 0,
  snd_cwnd_clamp := 100, sk_max_pacing_rate := 2 ^ 31, tp_app_limited := 0,
  ca_state := 0, send_head := true, snd_wnd_ok := true,
  tso_autosize1 := 2, tso_autosize2 := 2, tp_min_rtt := 10000, rand := 0 }

/-- A null rate sample: nothing delivered, no interval, nothing acked, no RTT. -/
def rs0 : RateSample := {
  prior_delivered := 0, rtt_us := -1, losses := 0, acked_sacked := 0,
  prior_in_flight := 0, delivered := 0, interval_us := 0, is_app_limited := false }

/-- Host snapshot for the C1 counterexample: the connection has just entered
loss recovery (`icsk_ca_state = TCP_CA_Recovery`). -/
def c1_inp : Input := { inp0 with ca_state := 3 }

/-- Rate sample for the C1 counterexample: nine losses, one packet acked. -/
def c1_rs : RateSample := { rs0 with losses := 9, acked_sacked := 1 }

/-- Host snapshot for the C2 counterexample: jiffies has advanced past the
10-second min-RTT window of the freshly initialized connection. -/
def c2_inp : Input := { inp0 with jiffies := 10001 }

/-- Rate sample for the C2 witness: like the null sample but with one packet
acked, so that the cwnd update actually runs. -/
def c2w_rs : RateSample := { rs0 with acked_sacked := 1 }

/-- Host snapshot for the C4 counterexample: the host's `tcp_tso_autosize`
answers 5 segments. -/
def c4_inp : Input := { inp0 with tso_autosize2 := 5 }

/-- Host snapshots for the C5 counterexample trace: the delivered counter and
delivered timestamp advance by 100 packets / 1 ms per ACK. -/
def c5_inp (k : Nat) : Input :=
  { inp0 with tp_delivered := 100 * k, tp_delivered_mstamp := 1000 * k }

/-- Rate samples for the C5 counterexample trace: each ACK starts a new round
(`prior_delivered` equals the previous round's snapshot) and reports a
constant 80 pkt / 1 ms delivery rate. -/
def c5_rs (k : Nat) : RateSample :=
  { rs0 with prior_delivered := 100 * (k - 1), delivered := 80, interval_us := 1000 }

/-- C5 counterexample trace: four round-starting ACKs at constant bandwidth.
The first latches `full_bw`; the next three raise `full_bw_cnt` to 3, so the
fourth ACK moves STARTUP → DRAIN → PROBE_BW within one invocation, before any
PROBE_BW cycle has ever set `cycle_len`. -/
def c5_trace : List Event :=
  [ .ack (c5_inp 1) (c5_rs 1), .ack (c5_inp 2) (c5_rs 2),
    .ack (c5_inp 3) (c5_rs 3), .ack (c5_inp 4) (c5_rs 4) ]

/-- Delivered timestamps (µs) for the C3 counterexample trace. -/
def c3_ms (k : Nat) : Nat :=
  if k = 1 then 1000 else if k = 2 then 3000 else if k = 3 then 5000
  else if k = 4 then 11000 else if k = 5 then 13000 else if k = 6 then 15000
  else if k = 7 then 17000 else if k = 8 then 24000 else 16000 + 1000 * k

/-- `tp->lost` values for the C3 counterexample trace. -/
def c3_lost (k : Nat) : Nat := if k ≤ 3 then 5 else if k ≤ 7 then 64 else 143

/-- Per-sample loss counts for the C3 counterexample trace: losses on the
arming ACK and at the end of each LT interval. -/
def c3_loss (k : Nat) : Nat := if k = 1 ∨ k = 4 ∨ k = 8 then 1 else 0

/-- Delivered counts of the rate samples for the C3 counterexample trace:
doubling while the LT intervals run (so full-bw detection keeps resetting),
then constant so that `full_bw_cnt` can reach 3. -/
def c3_del (k : Nat) : Int := if k ≤ 8 then 4 * 2 ^ (k - 1) else 512

/-- Host snapshots for the C3 counterexample trace. -/
def c3_inp (k : Nat) : Input :=
  { inp0 with tp_delivered := 100 * k, tp_delivered_mstamp := c3_ms k, tp_lost := c3_lost k }

/-- Rate samples for the C3 counterexample trace. -/
def c3_rs (k : Nat) : RateSample :=
  { rs0 with prior_delivered := 100 * (k - 1), delivered := c3_del k,
             interval_us := 1000, losses := c3_loss k }

/-- C3 counterexample trace: events 1-4 form the first lossy LT interval
(its bandwidth is saved), events 5-8 the second consistent one (on event 8
`lt_use_bw` is latched and `pacing_gain` forced to 1.0); events 9-11 then let
`full_bw_cnt` reach 3, and on event 11 the DRAIN exit re-enters PROBE_BW via
`bbrplus_advance_cycle_phase`, which overwrites `pacing_gain` with the 5/4
probing gain although `lt_use_bw` is still set. -/
def c3_trace : List Event := (List.range 11).map (fun j => .ack (c3_inp (j + 1)) (c3_rs (j + 1)))

/-- A connection state with full-bandwidth already declared
(`full_bw_cnt = 3`), used to instantiate the C6 theorem. -/
def c6_state : Conn :=
  let c := bbrplus_init inp0 10
  { c with bbr := { c.bbr with full_bw_cnt := 3 } }

/-- Event list used to instantiate the C6 theorem: an RTO (`set_state(LOSS)`,
which resets `full_bw` to 0) followed by a round-starting ACK. -/
def c6_evs : List Event := [.setState inp0 4, .ack (c5_inp 1) (c5_rs 1)]

/-- A connection state with `lt_use_bw` latched, used to instantiate the C3
amended theorem. -/
def c3w_state : Conn :=
  let c := bbrplus_init inp0 10
  { c with bbr := { c.bbr with lt_use_bw := true, lt_bw := 503316 } }

/-- Rate sample used to instantiate the C8 theorem: a valid, app-limited
sample of 80 pkt / 1 ms. -/
def c8_rs : RateSample :=
  { rs0 with delivered := 80, interval_us := 1000, is_app_limited := true }

/-- Rate sample for the C7 counterexample: an invalid sample
(`interval_us = 0`) whose `prior_delivered` satisfies the round-boundary
condition against a fresh connection (`next_rtt_delivered = 0`). -/
def c7_rs : RateSample := { rs0 with prior_delivered := 0 }

/-- The PROBE_BW cycling invariant of claim C5 (amended): the cycle index
stays in `[0,7]`, and `cycle_len` is either still its initial 0 (no
drain-to-target cycle has started yet) or in `[2,8]`. -/
def bbrplusCycleInv (c : Conn) : Prop :=
  c.bbr.cycle_idx < 8 ∧
    (c.bbr.cycle_len = 0 ∨ (2 ≤ c.bbr.cycle_len ∧ c.bbr.cycle_len ≤ 8))

/-! ## Helper lemmas -/

theorem minmax_get_running_max_of_ge (m : Minmax) (win t v : Nat) (h : v ≥ m.s0.v) :
    minmax_get (minmax_running_max m win t v) = v := by
  simp [minmax_running_max, h, minmax_reset, minmax_get]

theorem recover_conn_mode (c : Conn) (i : Input) (rs : RateSample) (acked : Nat) :
    (bbrplus_set_cwnd_to_recover_or_restore c i rs acked).conn.bbr.mode = c.bbr.mode := by
  simp only [bbrplus_set_cwnd_to_recover_or_restore]
  repeat' split
  all_goals simp

theorem set_cwnd_mode (c : Conn) (i : Input) (rs : RateSample) (acked bw gain : Nat) :
    (bbrplus_set_cwnd c i rs acked bw gain).bbr.mode = c.bbr.mode := by
  simp only [bbrplus_set_cwnd]
  repeat' split <;> simp [recover_conn_mode]

theorem set_cwnd_le_clamp (c : Conn) (i : Input) (rs : RateSample) (acked bw gain : Nat)
    (h : acked ≠ 0) :
    (bbrplus_set_cwnd c i rs acked bw gain).snd_cwnd ≤ i.snd_cwnd_clamp := by
  simp only [bbrplus_set_cwnd, if_neg h]
  repeat' split
  all_goals simp

theorem set_cwnd_probe_rtt_le (c : Conn) (i : Input) (rs : RateSample) (acked bw gain : Nat)
    (h : acked ≠ 0) (hm : c.bbr.mode = Mode.PROBE_RTT) :
    (bbrplus_set_cwnd c i rs acked bw gain).snd_cwnd ≤ bbrplus_cwnd_min_target := by
  simp only [bbrplus_set_cwnd, if_neg h]
  repeat' split
  all_goals simp_all [recover_conn_mode, bbrplus_cwnd_min_target]

theorem set_cwnd_ge_min_target (c : Conn) (i : Input) (rs : RateSample) (acked bw gain : Nat)
    (h : acked ≠ 0) (hcl : bbrplus_cwnd_min_target ≤ i.snd_cwnd_clamp)
    (hns : (bbrplus_set_cwnd_to_recover_or_restore c i rs acked).conserv = false) :
    bbrplus_cwnd_min_target ≤ (bbrplus_set_cwnd c i rs acked bw gain).snd_cwnd := by
  simp only [bbrplus_set_cwnd, if_neg h]
  simp only [bbrplus_cwnd_min_target] at *
  repeat' split
  all_goals simp_all

/-! ## Claim C1 -/

/-- C1 (as stated) is false: a concrete two-event trace (init, then one ACK
that enters loss recovery with nine losses and one acked packet, in-flight 0)
ends a `cong_control` invocation with `tp->snd_cwnd = 1 < 4` although the
host clamp is 100; the packet-conservation path of `bbrplus_set_cwnd` skips
the `max(cwnd, bbrplus_cwnd_min_target)` floor. -/
theorem claim_C1_counterexample :
    (bbrplus_main (bbrplus_init inp0 10) c1_inp c1_rs).snd_cwnd = 1 ∧
    c1_inp.snd_cwnd_clamp = 100 := by decide

/-- C1 (amended): at the end of a `cong_control` invocation with
`acked_sacked ≠ 0`, the published cwnd never exceeds `snd_cwnd_clamp`; and
whenever additionally the clamp is at least `bbrplus_cwnd_min_target` and the
recovery/restore step does not take the packet-conservation path, the
published cwnd is also at least `bbrplus_cwnd_min_target = 4`. -/
theorem claim_C1 (c : Conn) (i : Input) (rs : RateSample) (h : rs.acked_sacked ≠ 0) :
    (bbrplus_main c i rs).snd_cwnd ≤ i.snd_cwnd_clamp ∧
    (bbrplus_cwnd_min_target ≤ i.snd_cwnd_clamp →
      (bbrplus_set_cwnd_to_recover_or_restore
          (bbrplus_set_tso_segs_goal
            (bbrplus_set_pacing_rate (bbrplus_update_model c i rs) i
              (bbrplus_bw (bbrplus_update_model c i rs).bbr)
              (bbrplus_update_model c i rs).bbr.pacing_gain) i)
          i rs rs.acked_sacked).conserv = false →
      bbrplus_cwnd_min_target ≤ (bbrplus_main c i rs).snd_cwnd) := by
  constructor
  · simp only [bbrplus_main]
    exact set_cwnd_le_clamp _ _ _ _ _ _ h
  · intro hcl hns
    simp only [bbrplus_main]
    exact set_cwnd_ge_min_target _ _ _ _ _ _ h hcl hns

/-- Witness for C1 at a concrete input: from a fresh connection, an ACK for
one packet yields a published cwnd of 11, inside `[4, 100]`. -/
theorem claim_C1_witness :
    (bbrplus_main (bbrplus_init inp0 10) inp0 c2w_rs).snd_cwnd ≤ inp0.snd_cwnd_clamp ∧
    bbrplus_cwnd_min_target ≤ (bbrplus_main (bbrplus_init inp0 10) inp0 c2w_rs).snd_cwnd :=
  ⟨(claim_C1 (bbrplus_init inp0 10) inp0 c2w_rs (by decide)).1,
   (claim_C1 (bbrplus_init inp0 10) inp0 c2w_rs (by decide)).2 (by decide) (by decide)⟩

/-! ## Claim C2 -/

/-- C2 (as stated) is false for rate samples with `acked_sacked = 0`: from a
fresh connection with `snd_cwnd = 10`, one ACK whose jiffies lie past the
10-second min-RTT window and which acks nothing enters PROBE_RTT but leaves
the published cwnd at 10 > 4, because `bbrplus_set_cwnd` returns before
publishing anything when `acked == 0`. -/
theorem claim_C2_counterexample :
    (bbrplus_main (bbrplus_init inp0 10) c2_inp rs0).bbr.mode = Mode.PROBE_RTT ∧
    (bbrplus_main (bbrplus_init inp0 10) c2_inp rs0).snd_cwnd = 10 := by decide

/-- C2 (amended): whenever a `cong_control` invocation ends in PROBE_RTT mode
and its rate sample has `acked_sacked ≠ 0`, the published cwnd is at most
`bbrplus_cwnd_min_target = 4` packets. -/
theorem claim_C2 (c : Conn) (i : Input) (rs : RateSample) (h : rs.acked_sacked ≠ 0)
    (hm : (bbrplus_main c i rs).bbr.mode = Mode.PROBE_RTT) :
    (bbrplus_main c i rs).snd_cwnd ≤ bbrplus_cwnd_min_target := by
  simp only [bbrplus_main] at hm ⊢
  rw [set_cwnd_mode] at hm
  exact set_cwnd_probe_rtt_le _ _ _ _ _ _ h hm

/-- Witness for C2 at a concrete input: the PROBE_RTT-entering ACK with one
acked packet publishes a cwnd of at most 4. -/
theorem claim_C2_witness :
    (bbrplus_main (bbrplus_init inp0 10) c2_inp c2w_rs).snd_cwnd ≤ bbrplus_cwnd_min_target :=
  claim_C2 (bbrplus_init inp0 10) c2_inp c2w_rs (by decide) (by decide)

/-! ## Frame lemmas: state fields each core function never writes -/

/-- Fields that `bbrplus_set_cycle_idx` never writes. -/
theorem frame_set_cycle_idx (b : Bbrplus) (k : Nat) :
    (bbrplus_set_cycle_idx b k).min_rtt_us = b.min_rtt_us ∧
    (bbrplus_set_cycle_idx b k).min_rtt_stamp = b.min_rtt_stamp ∧
    (bbrplus_set_cycle_idx b k).probe_rtt_done_stamp = b.probe_rtt_done_stamp ∧
    (bbrplus_set_cycle_idx b k).bw = b.bw ∧
    (bbrplus_set_cycle_idx b k).rtt_cnt = b.rtt_cnt ∧
    (bbrplus_set_cycle_idx b k).next_rtt_delivered = b.next_rtt_delivered ∧
    (bbrplus_set_cycle_idx b k).cycle_mstamp = b.cycle_mstamp ∧
    (bbrplus_set_cycle_idx b k).mode = b.mode ∧
    (bbrplus_set_cycle_idx b k).prev_ca_state = b.prev_ca_state ∧
    (bbrplus_set_cycle_idx b k).packet_conservation = b.packet_conservation ∧
    (bbrplus_set_cycle_idx b k).restore_cwnd = b.restore_cwnd ∧
    (bbrplus_set_cycle_idx b k).round_start = b.round_start ∧
    (bbrplus_set_cycle_idx b k).cycle_len = b.cycle_len ∧
    (bbrplus_set_cycle_idx b k).tso_segs_goal = b.tso_segs_goal ∧
    (bbrplus_set_cycle_idx b k).idle_restart = b.idle_restart ∧
    (bbrplus_set_cycle_idx b k).probe_rtt_round_done = b.probe_rtt_round_done ∧
    (bbrplus_set_cycle_idx b k).lt_is_sampling = b.lt_is_sampling ∧
    (bbrplus_set_cycle_idx b k).lt_rtt_cnt = b.lt_rtt_cnt ∧
    (bbrplus_set_cycle_idx b k).lt_use_bw = b.lt_use_bw ∧
    (bbrplus_set_cycle_idx b k).lt_bw = b.lt_bw ∧
    (bbrplus_set_cycle_idx b k).lt_last_delivered = b.lt_last_delivered ∧
    (bbrplus_set_cycle_idx b k).lt_last_stamp = b.lt_last_stamp ∧
    (bbrplus_set_cycle_idx b k).lt_last_lost = b.lt_last_lost ∧
    (bbrplus_set_cycle_idx b k).cwnd_gain = b.cwnd_gain ∧
    (bbrplus_set_cycle_idx b k).full_bw_cnt = b.full_bw_cnt ∧
    (bbrplus_set_cycle_idx b k).has_seen_rtt = b.has_seen_rtt ∧
    (bbrplus_set_cycle_idx b k).prior_cwnd = b.prior_cwnd ∧
    (bbrplus_set_cycle_idx b k).full_bw = b.full_bw ∧
    (bbrplus_set_cycle_idx b k).ack_epoch_mstamp = b.ack_epoch_mstamp ∧
    (bbrplus_set_cycle_idx b k).extra_acked0 = b.extra_acked0 ∧
    (bbrplus_set_cycle_idx b k).extra_acked1 = b.extra_acked1 ∧
    (bbrplus_set_cycle_idx b k).ack_epoch_acked = b.ack_epoch_acked ∧
    (bbrplus_set_cycle_idx b k).extra_acked_win_rtts = b.extra_acked_win_rtts ∧
    (bbrplus_set_cycle_idx b k).extra_acked_win_idx = b.extra_acked_win_idx := by
  simp [bbrplus_set_cycle_idx]

@[simp] theorem frame_set_cycle_idx_min_rtt_us (b : Bbrplus) (k : Nat) :
    (bbrplus_set_cycle_idx b k).min_rtt_us = b.min_rtt_us :=
  (frame_set_cycle_idx b k).1

@[simp] theorem frame_set_cycle_idx_min_rtt_stamp (b : Bbrplus) (k : Nat) :
    (bbrplus_set_cycle_idx b k).min_rtt_stamp = b.min_rtt_stamp :=
  (frame_set_cycle_idx b k).2.1

@[simp] theorem frame_set_cycle_idx_probe_rtt_done_stamp (b : Bbrplus) (k : Nat) :
    (bbrplus_set_cycle_idx b k).probe_rtt_done_stamp = b.probe_rtt_done_stamp :=
  (frame_set_cycle_idx b k).2.2.1

@[simp] theorem frame_set_cycle_idx_bw (b : Bbrplus) (k : Nat) :
    (bbrplus_set_cycle_idx b k).bw = b.bw :=
  (frame_set_cycle_idx b k).2.2.2.1

@[simp] theorem frame_set_cycle_idx_rtt_cnt (b : Bbrplus) (k : Nat) :
    (bbrplus_set_cycle_idx b k).rtt_cnt = b.rtt_cnt :=
  (frame_set_cycle_idx b k).2.2.2.2.1

@[simp] theorem frame_set_cycle_idx_next_rtt_delivered (b : Bbrplus) (k : Nat) :
    (bbrplus_set_cycle_idx b k).next_rtt_delivered = b.next_rtt_delivered :=
  (frame_set_cycle_idx b k).2.2.2.2.2.1

@[simp] theorem frame_set_cycle_idx_cycle_mstamp (b : Bbrplus) (k : Nat) :
    (bbrplus_set_cycle_idx b k).cycle_mstamp = b.cycle_mstamp :=
  (frame_set_cycle_idx b k).2.2.2.2.2.2.1

@[simp] theorem frame_set_cycle_idx_mode (b : Bbrplus) (k : Nat) :
    (bbrplus_set_cycle_idx b k).mode = b.mode :=
  (frame_set_cycle_idx b k).2.2.2.2.2.2.2.1

@[simp] theorem frame_set_cycle_idx_prev_ca_state (b : Bbrplus) (k : Nat) :
    (bbrplus_set_cycle_idx b k).prev_ca_state = b.prev_ca_state :=
  (frame_set_cycle_idx b k).2.2.2.2.2.2.2.2.1

@[simp] theorem frame_set_cycle_idx_packet_conservation (b : Bbrplus) (k : Nat) :
    (bbrplus_set_cycle_idx b k).packet_conservation = b.packet_conservation :=
  (frame_set_cycle_idx b k).2.2.2.2.2.2.2.2.2.1

@[simp] theorem frame_set_cycle_idx_restore_cwnd (b : Bbrplus) (k : Nat) :
    (bbrplus_set_cycle_idx b k).restore_cwnd = b.restore_cwnd :=
  (frame_set_cycle_idx b k).2.2.2.2.2.2.2.2.2.2.1

@[simp] theorem frame_set_cycle_idx_round_start (b : Bbrplus) (k : Nat) :
    (bbrplus_set_cycle_idx b k).round_start = b.round_start :=
  (frame_set_cycle_idx b k).2.2.2.2.2.2.2.2.2.2.2.1

@[simp] theorem frame_set_cycle_idx_cycle_len (b : Bbrplus) (k : Nat) :
    (bbrplus_set_cycle_idx b k).cycle_len = b.cycle_len :=
  (frame_set_cycle_idx b k).2.2.2.2.2.2.2.2.2.2.2.2.1

@[simp] theorem frame_set_cycle_idx_tso_segs_goal (b : Bbrplus) (k : Nat) :
    (bbrplus_set_cycle_idx b k).tso_segs_goal = b.tso_segs_goal :=
  (frame_set_cycle_idx b k).2.2.2.2.2.2.2.2.2.2.2.2.2.1

@[simp] theorem frame_set_cycle_idx_idle_restart (b : Bbrplus) (k : Nat) :
    (bbrplus_set_cycle_idx b k).idle_restart = b.idle_restart :=
  (frame_set_cycle_idx b k).2.2.2.2.2.2.2.2.2.2.2.2.2.2.1

@[simp] theorem frame_set_cycle_idx_probe_rtt_round_done (b : Bbrplus) (k : Nat) :
    (bbrplus_set_cycle_idx b k).probe_rtt_round_done = b.probe_rtt_round_done :=
  (frame_set_cycle_idx b k).2.2.2.2.2.2.2.2.2.2.2.2.2.2.2.1

@[simp] theorem frame_set_cycle_idx_lt_is_sampling (b : Bbrplus) (k : Nat) :
    (bbrplus_set_cycle_idx b k).lt_is_sampling = b.lt_is_sampling :=
  (frame_set_cycle_idx b k).2.2.2.2.2.2.2.2.2.2.2.2.2.2.2.2.1

@[simp] theorem frame_set_cycle_idx_lt_rtt_cnt (b : Bbrplus) (k : Nat) :
    (bbrplus_set_cycle_idx b k).lt_rtt_cnt = b.lt_rtt_cnt :=
  (frame_set_cycle_idx b k).2.2.2.2.2.2.2.2.2.2.2.2.2.2.2.2.2.1

@[simp] theorem frame_set_cycle_idx_lt_use_bw (b : Bbrplus) (k : Nat) :
    (bbrplus_set_cycle_idx b k).lt_use_bw = b.lt_use_bw :=
  (frame_set_cycle_idx b k).2.2.2.2.2.2.2.2.2.2.2.2.2.2.2.2.2.2.1

@[simp] theorem frame_set_cycle_idx_lt_bw (b : Bbrplus) (k : Nat) :
    (bbrplus_set_cycle_idx b k).lt_bw = b.lt_bw :=
  (frame_set_cycle_idx b k).2.2.2.2.2.2.2.2.2.2.2.2.2.2.2.2.2.2.2.1

@[simp] theorem frame_set_cycle_idx_lt_last_delivered (b : Bbrplus) (k : Nat) :
    (bbrplus_set_cycle_idx b k).lt_last_delivered = b.lt_last_delivered :=
  (frame_set_cycle_idx b k).2.2.2.2.2.2.2.2.2.2.2.2.2.2.2.2.2.2.2.2.1

@[simp] theorem frame_set_cycle_idx_lt_last_stamp (b : Bbrplus) (k : Nat) :
    (bbrplus_set_cycle_idx b k).lt_last_stamp = b.lt_last_stamp :=
  (frame_set_cycle_idx b k).2.2.2.2.2.2.2.2.2.2.2.2.2.2.2.2.2.2.2.2.2.1

@[simp] theorem frame_set_cycle_idx_lt_last_lost (b : Bbrplus) (k : Nat) :
    (bbrplus_set_cycle_idx b k).lt_last_lost = b.lt_last_lost :=
  (frame_set_cycle_idx b k).2.2.2.2.2.2.2.2.2.2.2.2.2.2.2.2.2.2.2.2.2.2.1

@[simp] theorem frame_set_cycle_idx_cwnd_gain (b : Bbrplus) (k : Nat) :
    (bbrplus_set_cycle_idx b k).cwnd_gain = b.cwnd_gain :=
  (frame_set_cycle_idx b k).2.2.2.2.2.2.2.2.2.2.2.2.2.2.2.2.2.2.2.2.2.2.2.1

@[simp] theorem frame_set_cycle_idx_full_bw_cnt (b : Bbrplus) (k : Nat) :
    (bbrplus_set_cycle_idx b k).full_bw_cnt = b.full_bw_cnt :=
  (frame_set_cycle_idx b k).2.2.2.2.2.2.2.2.2.2.2.2.2.2.2.2.2.2.2.2.2.2.2.2.1

@[simp] theorem frame_set_cycle_idx_has_seen_rtt (b : Bbrplus) (k : Nat) :
    (bbrplus_set_cycle_idx b k).has_seen_rtt = b.has_seen_rtt :=
  (frame_set_cycle_idx b k).2.2.2.2.2.2.2.2.2.2.2.2.2.2.2.2.2.2.2.2.2.2.2.2.2.1

@[simp] theorem frame_set_cycle_idx_prior_cwnd (b : Bbrplus) (k : Nat) :
    (bbrplus_set_cycle_idx b k).prior_cwnd = b.prior_cwnd :=
  (frame_set_cycle_idx b k).2.2.2.2.2.2.2.2.2.2.2.2.2.2.2.2.2.2.2.2.2.2.2.2.2.2.1

@[simp] theorem frame_set_cycle_idx_full_bw (b : Bbrplus) (k : Nat) :
    (bbrplus_set_cycle_idx b k).full_bw = b.full_bw :=
  (frame_set_cycle_idx b k).2.2.2.2.2.2.2.2.2.2.2.2.2.2.2.2.2.2.2.2.2.2.2.2.2.2.2.1

@[simp] theorem frame_set_cycle_idx_ack_epoch_mstamp (b : Bbrplus) (k : Nat) :
    (bbrplus_set_cycle_idx b k).ack_epoch_mstamp = b.ack_epoch_mstamp :=
  (frame_set_cycle_idx b k).2.2.2.2.2.2.2.2.2.2.2.2.2.2.2.2.2.2.2.2.2.2.2.2.2.2.2.2.1

@[simp] theorem frame_set_cycle_idx_extra_acked0 (b : Bbrplus) (k : Nat) :
    (bbrplus_set_cycle_idx b k).extra_acked0 = b.extra_acked0 :=
  (frame_set_cycle_idx b k).2.2.2.2.2.2.2.2.2.2.2.2.2.2.2.2.2.2.2.2.2.2.2.2.2.2.2.2.2.1

@[simp] theorem frame_set_cycle_idx_extra_acked1 (b : Bbrplus) (k : Nat) :
    (bbrplus_set_cycle_idx b k).extra_acked1 = b.extra_acked1 :=
  (frame_set_cycle_idx b k).2.2.2.2.2.2.2.2.2.2.2.2.2.2.2.2.2.2.2.2.2.2.2.2.2.2.2.2.2.2.1

@[simp] theorem frame_set_cycle_idx_ack_epoch_acked (b : Bbrplus) (k : Nat) :
    (bbrplus_set_cycle_idx b k).ack_epoch_acked = b.ack_epoch_acked :=
  (frame_set_cycle_idx b k).2.2.2.2.2.2.2.2.2.2.2.2.2.2.2.2.2.2.2.2.2.2.2.2.2.2.2.2.2.2.2.1

@[simp] theorem frame_set_cycle_idx_extra_acked_win_rtts (b : Bbrplus) (k : Nat) :
    (bbrplus_set_cycle_idx b k).extra_acked_win_rtts = b.extra_acked_win_rtts :=
  (frame_set_cycle_idx b k).2.2.2.2.2.2.2.2.2.2.2.2.2.2.2.2.2.2.2.2.2.2.2.2.2.2.2.2.2.2.2.2.1

@[simp] theorem frame_set_cycle_idx_extra_acked_win_idx (b : Bbrplus) (k : Nat) :
    (bbrplus_set_cycle_idx b k).extra_acked_win_idx = b.extra_acked_win_idx :=
  (frame_set_cycle_idx b k).2.2.2.2.2.2.2.2.2.2.2.2.2.2.2.2.2.2.2.2.2.2.2.2.2.2.2.2.2.2.2.2.2

/-- Fields that `bbrplus_advance_cycle_phase` never writes. -/
theorem frame_advance_cycle_phase (b : Bbrplus) (i : Input) :
    (bbrplus_advance_cycle_phase b i).min_rtt_us = b.min_rtt_us ∧
    (bbrplus_advance_cycle_phase b i).min_rtt_stamp = b.min_rtt_stamp ∧
    (bbrplus_advance_cycle_phase b i).probe_rtt_done_stamp = b.probe_rtt_done_stamp ∧
    (bbrplus_advance_cycle_phase b i).bw = b.bw ∧
    (bbrplus_advance_cycle_phase b i).rtt_cnt = b.rtt_cnt ∧
    (bbrplus_advance_cycle_phase b i).next_rtt_delivered = b.next_rtt_delivered ∧
    (bbrplus_advance_cycle_phase b i).mode = b.mode ∧
    (bbrplus_advance_cycle_phase b i).prev_ca_state = b.prev_ca_state ∧
    (bbrplus_advance_cycle_phase b i).packet_conservation = b.packet_conservation ∧
    (bbrplus_advance_cycle_phase b i).restore_cwnd = b.restore_cwnd ∧
    (bbrplus_advance_cycle_phase b i).round_start = b.round_start ∧
    (bbrplus_advance_cycle_phase b i).cycle_len = b.cycle_len ∧
    (bbrplus_advance_cycle_phase b i).tso_segs_goal = b.tso_segs_goal ∧
    (bbrplus_advance_cycle_phase b i).idle_restart = b.idle_restart ∧
    (bbrplus_advance_cycle_phase b i).probe_rtt_round_done = b.probe_rtt_round_done ∧
    (bbrplus_advance_cycle_phase b i).lt_is_sampling = b.lt_is_sampling ∧
    (bbrplus_advance_cycle_phase b i).lt_rtt_cnt = b.lt_rtt_cnt ∧
    (bbrplus_advance_cycle_phase b i).lt_use_bw = b.lt_use_bw ∧
    (bbrplus_advance_cycle_phase b i).lt_bw = b.lt_bw ∧
    (bbrplus_advance_cycle_phase b i).lt_last_delivered = b.lt_last_delivered ∧
    (bbrplus_advance_cycle_phase b i).lt_last_stamp = b.lt_last_stamp ∧
    (bbrplus_advance_cycle_phase b i).lt_last_lost = b.lt_last_lost ∧
    (bbrplus_advance_cycle_phase b i).cwnd_gain = b.cwnd_gain ∧
    (bbrplus_advance_cycle_phase b i).full_bw_cnt = b.full_bw_cnt ∧
    (bbrplus_advance_cycle_phase b i).has_seen_rtt = b.has_seen_rtt ∧
    (bbrplus_advance_cycle_phase b i).prior_cwnd = b.prior_cwnd ∧
    (bbrplus_advance_cycle_phase b i).full_bw = b.full_bw ∧
    (bbrplus_advance_cycle_phase b i).ack_epoch_mstamp = b.ack_epoch_mstamp ∧
    (bbrplus_advance_cycle_phase b i).extra_acked0 = b.extra_acked0 ∧
    (bbrplus_advance_cycle_phase b i).extra_acked1 = b.extra_acked1 ∧
    (bbrplus_advance_cycle_phase b i).ack_epoch_acked = b.ack_epoch_acked ∧
    (bbrplus_advance_cycle_phase b i).extra_acked_win_rtts = b.extra_acked_win_rtts ∧
    (bbrplus_advance_cycle_phase b i).extra_acked_win_idx = b.extra_acked_win_idx := by
  simp [bbrplus_advance_cycle_phase]

@[simp] theorem frame_advance_cycle_phase_min_rtt_us (b : Bbrplus) (i : Input) :
    (bbrplus_advance_cycle_phase b i).min_rtt_us = b.min_rtt_us :=
  (frame_advance_cycle_phase b i).1

@[simp] theorem frame_advance_cycle_phase_min_rtt_stamp (b : Bbrplus) (i : Input) :
    (bbrplus_advance_cycle_phase b i).min_rtt_stamp = b.min_rtt_stamp :=
  (frame_advance_cycle_phase b i).2.1

@[simp] theorem frame_advance_cycle_phase_probe_rtt_done_stamp (b : Bbrplus) (i : Input) :
    (bbrplus_advance_cycle_phase b i).probe_rtt_done_stamp = b.probe_rtt_done_stamp :=
  (frame_advance_cycle_phase b i).2.2.1

@[simp] theorem frame_advance_cycle_phase_bw (b : Bbrplus) (i : Input) :
    (bbrplus_advance_cycle_phase b i).bw = b.bw :=
  (frame_advance_cycle_phase b i).2.2.2.1

@[simp] theorem frame_advance_cycle_phase_rtt_cnt (b : Bbrplus) (i : Input) :
    (bbrplus_advance_cycle_phase b i).rtt_cnt = b.rtt_cnt :=
  (frame_advance_cycle_phase b i).2.2.2.2.1

@[simp] theorem frame_advance_cycle_phase_next_rtt_delivered (b : Bbrplus) (i : Input) :
    (bbrplus_advance_cycle_phase b i).next_rtt_delivered = b.next_rtt_delivered :=
  (frame_advance_cycle_phase b i).2.2.2.2.2.1

@[simp] theorem frame_advance_cycle_phase_mode (b : Bbrplus) (i : Input) :
    (bbrplus_advance_cycle_phase b i).mode = b.mode :=
  (frame_advance_cycle_phase b i).2.2.2.2.2.2.1

@[simp] theorem frame_advance_cycle_phase_prev_ca_state (b : Bbrplus) (i : Input) :
    (bbrplus_advance_cycle_phase b i).prev_ca_state = b.prev_ca_state :=
  (frame_advance_cycle_phase b i).2.2.2.2.2.2.2.1

@[simp] theorem frame_advance_cycle_phase_packet_conservation (b : Bbrplus) (i : Input) :
    (bbrplus_advance_cycle_phase b i).packet_conservation = b.packet_conservation :=
  (frame_advance_cycle_phase b i).2.2.2.2.2.2.2.2.1

@[simp] theorem frame_advance_cycle_phase_restore_cwnd (b : Bbrplus) (i : Input) :
    (bbrplus_advance_cycle_phase b i).restore_cwnd = b.restore_cwnd :=
  (frame_advance_cycle_phase b i).2.2.2.2.2.2.2.2.2.1

@[simp] theorem frame_advance_cycle_phase_round_start (b : Bbrplus) (i : Input) :
    (bbrplus_advance_cycle_phase b i).round_start = b.round_start :=
  (frame_advance_cycle_phase b i).2.2.2.2.2.2.2.2.2.2.1

@[simp] theorem frame_advance_cycle_phase_cycle_len (b : Bbrplus) (i : Input) :
    (bbrplus_advance_cycle_phase b i).cycle_len = b.cycle_len :=
  (frame_advance_cycle_phase b i).2.2.2.2.2.2.2.2.2.2.2.1

@[simp] theorem frame_advance_cycle_phase_tso_segs_goal (b : Bbrplus) (i : Input) :
    (bbrplus_advance_cycle_phase b i).tso_segs_goal = b.tso_segs_goal :=
  (frame_advance_cycle_phase b i).2.2.2.2.2.2.2.2.2.2.2.2.1

@[simp] theorem frame_advance_cycle_phase_idle_restart (b : Bbrplus) (i : Input) :
    (bbrplus_advance_cycle_phase b i).idle_restart = b.idle_restart :=
  (frame_advance_cycle_phase b i).2.2.2.2.2.2.2.2.2.2.2.2.2.1

@[simp] theorem frame_advance_cycle_phase_probe_rtt_round_done (b : Bbrplus) (i : Input) :
    (bbrplus_advance_cycle_phase b i).probe_rtt_round_done = b.probe_rtt_round_done :=
  (frame_advance_cycle_phase b i).2.2.2.2.2.2.2.2.2.2.2.2.2.2.1

@[simp] theorem frame_advance_cycle_phase_lt_is_sampling (b : Bbrplus) (i : Input) :
    (bbrplus_advance_cycle_phase b i).lt_is_sampling = b.lt_is_sampling :=
  (frame_advance_cycle_phase b i).2.2.2.2.2.2.2.2.2.2.2.2.2.2.2.1

@[simp] theorem frame_advance_cycle_phase_lt_rtt_cnt (b : Bbrplus) (i : Input) :
    (bbrplus_advance_cycle_phase b i).lt_rtt_cnt = b.lt_rtt_cnt :=
  (frame_advance_cycle_phase b i).2.2.2.2.2.2.2.2.2.2.2.2.2.2.2.2.1

@[simp] theorem frame_advance_cycle_phase_lt_use_bw (b : Bbrplus) (i : Input) :
    (bbrplus_advance_cycle_phase b i).lt_use_bw = b.lt_use_bw :=
  (frame_advance_cycle_phase b i).2.2.2.2.2.2.2.2.2.2.2.2.2.2.2.2.2.1

@[simp] theorem frame_advance_cycle_phase_lt_bw (b : Bbrplus) (i : Input) :
    (bbrplus_advance_cycle_phase b i).lt_bw = b.lt_bw :=
  (frame_advance_cycle_phase b i).2.2.2.2.2.2.2.2.2.2.2.2.2.2.2.2.2.2.1

@[simp] theorem frame_advance_cycle_phase_lt_last_delivered (b : Bbrplus) (i : Input) :
    (bbrplus_advance_cycle_phase b i).lt_last_delivered = b.lt_last_delivered :=
  (frame_advance_cycle_phase b i).2.2.2.2.2.2.2.2.2.2.2.2.2.2.2.2.2.2.2.1

@[simp] theorem frame_advance_cycle_phase_lt_last_stamp (b : Bbrplus) (i : Input) :
    (bbrplus_advance_cycle_phase b i).lt_last_stamp = b.lt_last_stamp :=
  (frame_advance_cycle_phase b i).2.2.2.2.2.2.2.2.2.2.2.2.2.2.2.2.2.2.2.2.1

@[simp] theorem frame_advance_cycle_phase_lt_last_lost (b : Bbrplus) (i : Input) :
    (bbrplus_advance_cycle_phase b i).lt_last_lost = b.lt_last_lost :=
  (frame_advance_cycle_phase b i).2.2.2.2.2.2.2.2.2.2.2.2.2.2.2.2.2.2.2.2.2.1

@[simp] theorem frame_advance_cycle_phase_cwnd_gain (b : Bbrplus) (i : Input) :
    (bbrplus_advance_cycle_phase b i).cwnd_gain = b.cwnd_gain :=
  (frame_advance_cycle_phase b i).2.2.2.2.2.2.2.2.2.2.2.2.2.2.2.2.2.2.2.2.2.2.1

@[simp] theorem frame_advance_cycle_phase_full_bw_cnt (b : Bbrplus) (i : Input) :
    (bbrplus_advance_cycle_phase b i).full_bw_cnt = b.full_bw_cnt :=
  (frame_advance_cycle_phase b i).2.2.2.2.2.2.2.2.2.2.2.2.2.2.2.2.2.2.2.2.2.2.2.1

@[simp] theorem frame_advance_cycle_phase_has_seen_rtt (b : Bbrplus) (i : Input) :
    (bbrplus_advance_cycle_phase b i).has_seen_rtt = b.has_seen_rtt :=
  (frame_advance_cycle_phase b i).2.2.2.2.2.2.2.2.2.2.2.2.2.2.2.2.2.2.2.2.2.2.2.2.1

@[simp] theorem frame_advance_cycle_phase_prior_cwnd (b : Bbrplus) (i : Input) :
    (bbrplus_advance_cycle_phase b i).prior_cwnd = b.prior_cwnd :=
  (frame_advance_cycle_phase b i).2.2.2.2.2.2.2.2.2.2.2.2.2.2.2.2.2.2.2.2.2.2.2.2.2.1

@[simp] theorem frame_advance_cycle_phase_full_bw (b : Bbrplus) (i : Input) :
    (bbrplus_advance_cycle_phase b i).full_bw = b.full_bw :=
  (frame_advance_cycle_phase b i).2.2.2.2.2.2.2.2.2.2.2.2.2.2.2.2.2.2.2.2.2.2.2.2.2.2.1

@[simp] theorem frame_advance_cycle_phase_ack_epoch_mstamp (b : Bbrplus) (i : Input) :
    (bbrplus_advance_cycle_phase b i).ack_epoch_mstamp = b.ack_epoch_mstamp :=
  (frame_advance_cycle_phase b i).2.2.2.2.2.2.2.2.2.2.2.2.2.2.2.2.2.2.2.2.2.2.2.2.2.2.2.1

@[simp] theorem frame_advance_cycle_phase_extra_acked0 (b : Bbrplus) (i : Input) :
    (bbrplus_advance_cycle_phase b i).extra_acked0 = b.extra_acked0 :=
  (frame_advance_cycle_phase b i).2.2.2.2.2.2.2.2.2.2.2.2.2.2.2.2.2.2.2.2.2.2.2.2.2.2.2.2.1

@[simp] theorem frame_advance_cycle_phase_extra_acked1 (b : Bbrplus) (i : Input) :
    (bbrplus_advance_cycle_phase b i).extra_acked1 = b.extra_acked1 :=
  (frame_advance_cycle_phase b i).2.2.2.2.2.2.2.2.2.2.2.2.2.2.2.2.2.2.2.2.2.2.2.2.2.2.2.2.2.1

@[simp] theorem frame_advance_cycle_phase_ack_epoch_acked (b : Bbrplus) (i : Input) :
    (bbrplus_advance_cycle_phase b i).ack_epoch_acked = b.ack_epoch_acked :=
  (frame_advance_cycle_phase b i).2.2.2.2.2.2.2.2.2.2.2.2.2.2.2.2.2.2.2.2.2.2.2.2.2.2.2.2.2.2.1

@[simp] theorem frame_advance_cycle_phase_extra_acked_win_rtts (b : Bbrplus) (i : Input) :
    (bbrplus_advance_cycle_phase b i).extra_acked_win_rtts = b.extra_acked_win_rtts :=
  (frame_advance_cycle_phase b i).2.2.2.2.2.2.2.2.2.2.2.2.2.2.2.2.2.2.2.2.2.2.2.2.2.2.2.2.2.2.2.1

@[simp] theorem frame_advance_cycle_phase_extra_acked_win_idx (b : Bbrplus) (i : Input) :
    (bbrplus_advance_cycle_phase b i).extra_acked_win_idx = b.extra_acked_win_idx :=
  (frame_advance_cycle_phase b i).2.2.2.2.2.2.2.2.2.2.2.2.2.2.2.2.2.2.2.2.2.2.2.2.2.2.2.2.2.2.2.2

/-- Fields that `bbrplus_reset_startup_mode` never writes. -/
theorem frame_reset_startup_mode (b : Bbrplus) :
    (bbrplus_reset_startup_mode b).min_rtt_us = b.min_rtt_us ∧
    (bbrplus_reset_startup_mode b).min_rtt_stamp = b.min_rtt_stamp ∧
    (bbrplus_reset_startup_mode b).probe_rtt_done_stamp = b.probe_rtt_done_stamp ∧
    (bbrplus_reset_startup_mode b).bw = b.bw ∧
    (bbrplus_reset_startup_mode b).rtt_cnt = b.rtt_cnt ∧
    (bbrplus_reset_startup_mode b).next_rtt_delivered = b.next_rtt_delivered ∧
    (bbrplus_reset_startup_mode b).cycle_mstamp = b.cycle_mstamp ∧
    (bbrplus_reset_startup_mode b).prev_ca_state = b.prev_ca_state ∧
    (bbrplus_reset_startup_mode b).packet_conservation = b.packet_conservation ∧
    (bbrplus_reset_startup_mode b).restore_cwnd = b.restore_cwnd ∧
    (bbrplus_reset_startup_mode b).round_start = b.round_start ∧
    (bbrplus_reset_startup_mode b).cycle_len = b.cycle_len ∧
    (bbrplus_reset_startup_mode b).tso_segs_goal = b.tso_segs_goal ∧
    (bbrplus_reset_startup_mode b).idle_restart = b.idle_restart ∧
    (bbrplus_reset_startup_mode b).probe_rtt_round_done = b.probe_rtt_round_done ∧
    (bbrplus_reset_startup_mode b).lt_is_sampling = b.lt_is_sampling ∧
    (bbrplus_reset_startup_mode b).lt_rtt_cnt = b.lt_rtt_cnt ∧
    (bbrplus_reset_startup_mode b).lt_use_bw = b.lt_use_bw ∧
    (bbrplus_reset_startup_mode b).lt_bw = b.lt_bw ∧
    (bbrplus_reset_startup_mode b).lt_last_delivered = b.lt_last_delivered ∧
    (bbrplus_reset_startup_mode b).lt_last_stamp = b.lt_last_stamp ∧
    (bbrplus_reset_startup_mode b).lt_last_lost = b.lt_last_lost ∧
    (bbrplus_reset_startup_mode b).full_bw_cnt = b.full_bw_cnt ∧
    (bbrplus_reset_startup_mode b).cycle_idx = b.cycle_idx ∧
    (bbrplus_reset_startup_mode b).has_seen_rtt = b.has_seen_rtt ∧
    (bbrplus_reset_startup_mode b).prior_cwnd = b.prior_cwnd ∧
    (bbrplus_reset_startup_mode b).full_bw = b.full_bw ∧
    (bbrplus_reset_startup_mode b).ack_epoch_mstamp = b.ack_epoch_mstamp ∧
    (bbrplus_reset_startup_mode b).extra_acked0 = b.extra_acked0 ∧
    (bbrplus_reset_startup_mode b).extra_acked1 = b.extra_acked1 ∧
    (bbrplus_reset_startup_mode b).ack_epoch_acked = b.ack_epoch_acked ∧
    (bbrplus_reset_startup_mode b).extra_acked_win_rtts = b.extra_acked_win_rtts ∧
    (bbrplus_reset_startup_mode b).extra_acked_win_idx = b.extra_acked_win_idx := by
  simp [bbrplus_reset_startup_mode]

@[simp] theorem frame_reset_startup_mode_min_rtt_us (b : Bbrplus) :
    (bbrplus_reset_startup_mode b).min_rtt_us = b.min_rtt_us :=
  (frame_reset_startup_mode b).1

@[simp] theorem frame_reset_startup_mode_min_rtt_stamp (b : Bbrplus) :
    (bbrplus_reset_startup_mode b).min_rtt_stamp = b.min_rtt_stamp :=
  (frame_reset_startup_mode b).2.1

@[simp] theorem frame_reset_startup_mode_probe_rtt_done_stamp (b : Bbrplus) :
    (bbrplus_reset_startup_mode b).probe_rtt_done_stamp = b.probe_rtt_done_stamp :=
  (frame_reset_startup_mode b).2.2.1

@[simp] theorem frame_reset_startup_mode_bw (b : Bbrplus) :
    (bbrplus_reset_startup_mode b).bw = b.bw :=
  (frame_reset_startup_mode b).2.2.2.1

@[simp] theorem frame_reset_startup_mode_rtt_cnt (b : Bbrplus) :
    (bbrplus_reset_startup_mode b).rtt_cnt = b.rtt_cnt :=
  (frame_reset_startup_mode b).2.2.2.2.1

@[simp] theorem frame_reset_startup_mode_next_rtt_delivered (b : Bbrplus) :
    (bbrplus_reset_startup_mode b).next_rtt_delivered = b.next_rtt_delivered :=
  (frame_reset_startup_mode b).2.2.2.2.2.1

@[simp] theorem frame_reset_startup_mode_cycle_mstamp (b : Bbrplus) :
    (bbrplus_reset_startup_mode b).cycle_mstamp = b.cycle_mstamp :=
  (frame_reset_startup_mode b).2.2.2.2.2.2.1

@[simp] theorem frame_reset_startup_mode_prev_ca_state (b : Bbrplus) :
    (bbrplus_reset_startup_mode b).prev_ca_state = b.prev_ca_state :=
  (frame_reset_startup_mode b).2.2.2.2.2.2.2.1

@[simp] theorem frame_reset_startup_mode_packet_conservation (b : Bbrplus) :
    (bbrplus_reset_startup_mode b).packet_conservation = b.packet_conservation :=
  (frame_reset_startup_mode b).2.2.2.2.2.2.2.2.1

@[simp] theorem frame_reset_startup_mode_restore_cwnd (b : Bbrplus) :
    (bbrplus_reset_startup_mode b).restore_cwnd = b.restore_cwnd :=
  (frame_reset_startup_mode b).2.2.2.2.2.2.2.2.2.1

@[simp] theorem frame_reset_startup_mode_round_start (b : Bbrplus) :
    (bbrplus_reset_startup_mode b).round_start = b.round_start :=
  (frame_reset_startup_mode b).2.2.2.2.2.2.2.2.2.2.1

@[simp] theorem frame_reset_startup_mode_cycle_len (b : Bbrplus) :
    (bbrplus_reset_startup_mode b).cycle_len = b.cycle_len :=
  (frame_reset_startup_mode b).2.2.2.2.2.2.2.2.2.2.2.1

@[simp] theorem frame_reset_startup_mode_tso_segs_goal (b : Bbrplus) :
    (bbrplus_reset_startup_mode b).tso_segs_goal = b.tso_segs_goal :=
  (frame_reset_startup_mode b).2.2.2.2.2.2.2.2.2.2.2.2.1

@[simp] theorem frame_reset_startup_mode_idle_restart (b : Bbrplus) :
    (bbrplus_reset_startup_mode b).idle_restart = b.idle_restart :=
  (frame_reset_startup_mode b).2.2.2.2.2.2.2.2.2.2.2.2.2.1

@[simp] theorem frame_reset_startup_mode_probe_rtt_round_done (b : Bbrplus) :
    (bbrplus_reset_startup_mode b).probe_rtt_round_done = b.probe_rtt_round_done :=
  (frame_reset_startup_mode b).2.2.2.2.2.2.2.2.2.2.2.2.2.2.1

@[simp] theorem frame_reset_startup_mode_lt_is_sampling (b : Bbrplus) :
    (bbrplus_reset_startup_mode b).lt_is_sampling = b.lt_is_sampling :=
  (frame_reset_startup_mode b).2.2.2.2.2.2.2.2.2.2.2.2.2.2.2.1

@[simp] theorem frame_reset_startup_mode_lt_rtt_cnt (b : Bbrplus) :
    (bbrplus_reset_startup_mode b).lt_rtt_cnt = b.lt_rtt_cnt :=
  (frame_reset_startup_mode b).2.2.2.2.2.2.2.2.2.2.2.2.2.2.2.2.1

@[simp] theorem frame_reset_startup_mode_lt_use_bw (b : Bbrplus) :
    (bbrplus_reset_startup_mode b).lt_use_bw = b.lt_use_bw :=
  (frame_reset_startup_mode b).2.2.2.2.2.2.2.2.2.2.2.2.2.2.2.2.2.1

@[simp] theorem frame_reset_startup_mode_lt_bw (b : Bbrplus) :
    (bbrplus_reset_startup_mode b).lt_bw = b.lt_bw :=
  (frame_reset_startup_mode b).2.2.2.2.2.2.2.2.2.2.2.2.2.2.2.2.2.2.1

@[simp] theorem frame_reset_startup_mode_lt_last_delivered (b : Bbrplus) :
    (bbrplus_reset_startup_mode b).lt_last_delivered = b.lt_last_delivered :=
  (frame_reset_startup_mode b).2.2.2.2.2.2.2.2.2.2.2.2.2.2.2.2.2.2.2.1

@[simp] theorem frame_reset_startup_mode_lt_last_stamp (b : Bbrplus) :
    (bbrplus_reset_startup_mode b).lt_last_stamp = b.lt_last_stamp :=
  (frame_reset_startup_mode b).2.2.2.2.2.2.2.2.2.2.2.2.2.2.2.2.2.2.2.2.1

@[simp] theorem frame_reset_startup_mode_lt_last_lost (b : Bbrplus) :
    (bbrplus_reset_startup_mode b).lt_last_lost = b.lt_last_lost :=
  (frame_reset_startup_mode b).2.2.2.2.2.2.2.2.2.2.2.2.2.2.2.2.2.2.2.2.2.1

@[simp] theorem frame_reset_startup_mode_full_bw_cnt (b : Bbrplus) :
    (bbrplus_reset_startup_mode b).full_bw_cnt = b.full_bw_cnt :=
  (frame_reset_startup_mode b).2.2.2.2.2.2.2.2.2.2.2.2.2.2.2.2.2.2.2.2.2.2.1

@[simp] theorem frame_reset_startup_mode_cycle_idx (b : Bbrplus) :
    (bbrplus_reset_startup_mode b).cycle_idx = b.cycle_idx :=
  (frame_reset_startup_mode b).2.2.2.2.2.2.2.2.2.2.2.2.2.2.2.2.2.2.2.2.2.2.2.1

@[simp] theorem frame_reset_startup_mode_has_seen_rtt (b : Bbrplus) :
    (bbrplus_reset_startup_mode b).has_seen_rtt = b.has_seen_rtt :=
  (frame_reset_startup_mode b).2.2.2.2.2.2.2.2.2.2.2.2.2.2.2.2.2.2.2.2.2.2.2.2.1

@[simp] theorem frame_reset_startup_mode_prior_cwnd (b : Bbrplus) :
    (bbrplus_reset_startup_mode b).prior_cwnd = b.prior_cwnd :=
  (frame_reset_startup_mode b).2.2.2.2.2.2.2.2.2.2.2.2.2.2.2.2.2.2.2.2.2.2.2.2.2.1

@[simp] theorem frame_reset_startup_mode_full_bw (b : Bbrplus) :
    (bbrplus_reset_startup_mode b).full_bw = b.full_bw :=
  (frame_reset_startup_mode b).2.2.2.2.2.2.2.2.2.2.2.2.2.2.2.2.2.2.2.2.2.2.2.2.2.2.1

@[simp] theorem frame_reset_startup_mode_ack_epoch_mstamp (b : Bbrplus) :
    (bbrplus_reset_startup_mode b).ack_epoch_mstamp = b.ack_epoch_mstamp :=
  (frame_reset_startup_mode b).2.2.2.2.2.2.2.2.2.2.2.2.2.2.2.2.2.2.2.2.2.2.2.2.2.2.2.1

@[simp] theorem frame_reset_startup_mode_extra_acked0 (b : Bbrplus) :
    (bbrplus_reset_startup_mode b).extra_acked0 = b.extra_acked0 :=
  (frame_reset_startup_mode b).2.2.2.2.2.2.2.2.2.2.2.2.2.2.2.2.2.2.2.2.2.2.2.2.2.2.2.2.1

@[simp] theorem frame_reset_startup_mode_extra_acked1 (b : Bbrplus) :
    (bbrplus_reset_startup_mode b).extra_acked1 = b.extra_acked1 :=
  (frame_reset_startup_mode b).2.2.2.2.2.2.2.2.2.2.2.2.2.2.2.2.2.2.2.2.2.2.2.2.2.2.2.2.2.1

@[simp] theorem frame_reset_startup_mode_ack_epoch_acked (b : Bbrplus) :
    (bbrplus_reset_startup_mode b).ack_epoch_acked = b.ack_epoch_acked :=
  (frame_reset_startup_mode b).2.2.2.2.2.2.2.2.2.2.2.2.2.2.2.2.2.2.2.2.2.2.2.2.2.2.2.2.2.2.1

@[simp] theorem frame_reset_startup_mode_extra_acked_win_rtts (b : Bbrplus) :
    (bbrplus_reset_startup_mode b).extra_acked_win_rtts = b.extra_acked_win_rtts :=
  (frame_reset_startup_mode b).2.2.2.2.2.2.2.2.2.2.2.2.2.2.2.2.2.2.2.2.2.2.2.2.2.2.2.2.2.2.2.1

@[simp] theorem frame_reset_startup_mode_extra_acked_win_idx (b : Bbrplus) :
    (bbrplus_reset_startup_mode b).extra_acked_win_idx = b.extra_acked_win_idx :=
  (frame_reset_startup_mode b).2.2.2.2.2.2.2.2.2.2.2.2.2.2.2.2.2.2.2.2.2.2.2.2.2.2.2.2.2.2.2.2

/-- Fields that `bbrplus_reset_probe_bw_mode` never writes. -/
theorem frame_reset_probe_bw_mode (b : Bbrplus) (i : Input) :
    (bbrplus_reset_probe_bw_mode b i).min_rtt_us = b.min_rtt_us ∧
    (bbrplus_reset_probe_bw_mode b i).min_rtt_stamp = b.min_rtt_stamp ∧
    (bbrplus_reset_probe_bw_mode b i).probe_rtt_done_stamp = b.probe_rtt_done_stamp ∧
    (bbrplus_reset_probe_bw_mode b i).bw = b.bw ∧
    (bbrplus_reset_probe_bw_mode b i).rtt_cnt = b.rtt_cnt ∧
    (bbrplus_reset_probe_bw_mode b i).next_rtt_delivered = b.next_rtt_delivered ∧
    (bbrplus_reset_probe_bw_mode b i).prev_ca_state = b.prev_ca_state ∧
    (bbrplus_reset_probe_bw_mode b i).packet_conservation = b.packet_conservation ∧
    (bbrplus_reset_probe_bw_mode b i).restore_cwnd = b.restore_cwnd ∧
    (bbrplus_reset_probe_bw_mode b i).round_start = b.round_start ∧
    (bbrplus_reset_probe_bw_mode b i).cycle_len = b.cycle_len ∧
    (bbrplus_reset_probe_bw_mode b i).tso_segs_goal = b.tso_segs_goal ∧
    (bbrplus_reset_probe_bw_mode b i).idle_restart = b.idle_restart ∧
    (bbrplus_reset_probe_bw_mode b i).probe_rtt_round_done = b.probe_rtt_round_done ∧
    (bbrplus_reset_probe_bw_mode b i).lt_is_sampling = b.lt_is_sampling ∧
    (bbrplus_reset_probe_bw_mode b i).lt_rtt_cnt = b.lt_rtt_cnt ∧
    (bbrplus_reset_probe_bw_mode b i).lt_use_bw = b.lt_use_bw ∧
    (bbrplus_reset_probe_bw_mode b i).lt_bw = b.lt_bw ∧
    (bbrplus_reset_probe_bw_mode b i).lt_last_delivered = b.lt_last_delivered ∧
    (bbrplus_reset_probe_bw_mode b i).lt_last_stamp = b.lt_last_stamp ∧
    (bbrplus_reset_probe_bw_mode b i).lt_last_lost = b.lt_last_lost ∧
    (bbrplus_reset_probe_bw_mode b i).full_bw_cnt = b.full_bw_cnt ∧
    (bbrplus_reset_probe_bw_mode b i).has_seen_rtt = b.has_seen_rtt ∧
    (bbrplus_reset_probe_bw_mode b i).prior_cwnd = b.prior_cwnd ∧
    (bbrplus_reset_probe_bw_mode b i).full_bw = b.full_bw ∧
    (bbrplus_reset_probe_bw_mode b i).ack_epoch_mstamp = b.ack_epoch_mstamp ∧
    (bbrplus_reset_probe_bw_mode b i).extra_acked0 = b.extra_acked0 ∧
    (bbrplus_reset_probe_bw_mode b i).extra_acked1 = b.extra_acked1 ∧
    (bbrplus_reset_probe_bw_mode b i).ack_epoch_acked = b.ack_epoch_acked ∧
    (bbrplus_reset_probe_bw_mode b i).extra_acked_win_rtts = b.extra_acked_win_rtts ∧
    (bbrplus_reset_probe_bw_mode b i).extra_acked_win_idx = b.extra_acked_win_idx := by
  simp [bbrplus_reset_probe_bw_mode]

@[simp] theorem frame_reset_probe_bw_mode_min_rtt_us (b : Bbrplus) (i : Input) :
    (bbrplus_reset_probe_bw_mode b i).min_rtt_us = b.min_rtt_us :=
  (frame_reset_probe_bw_mode b i).1

@[simp] theorem frame_reset_probe_bw_mode_min_rtt_stamp (b : Bbrplus) (i : Input) :
    (bbrplus_reset_probe_bw_mode b i).min_rtt_stamp = b.min_rtt_stamp :=
  (frame_reset_probe_bw_mode b i).2.1

@[simp] theorem frame_reset_probe_bw_mode_probe_rtt_done_stamp (b : Bbrplus) (i : Input) :
    (bbrplus_reset_probe_bw_mode b i).probe_rtt_done_stamp = b.probe_rtt_done_stamp :=
  (frame_reset_probe_bw_mode b i).2.2.1

@[simp] theorem frame_reset_probe_bw_mode_bw (b : Bbrplus) (i : Input) :
    (bbrplus_reset_probe_bw_mode b i).bw = b.bw :=
  (frame_reset_probe_bw_mode b i).2.2.2.1

@[simp] theorem frame_reset_probe_bw_mode_rtt_cnt (b : Bbrplus) (i : Input) :
    (bbrplus_reset_probe_bw_mode b i).rtt_cnt = b.rtt_cnt :=
  (frame_reset_probe_bw_mode b i).2.2.2.2.1

@[simp] theorem frame_reset_probe_bw_mode_next_rtt_delivered (b : Bbrplus) (i : Input) :
    (bbrplus_reset_probe_bw_mode b i).next_rtt_delivered = b.next_rtt_delivered :=
  (frame_reset_probe_bw_mode b i).2.2.2.2.2.1

@[simp] theorem frame_reset_probe_bw_mode_prev_ca_state (b : Bbrplus) (i : Input) :
    (bbrplus_reset_probe_bw_mode b i).prev_ca_state = b.prev_ca_state :=
  (frame_reset_probe_bw_mode b i).2.2.2.2.2.2.1

@[simp] theorem frame_reset_probe_bw_mode_packet_conservation (b : Bbrplus) (i : Input) :
    (bbrplus_reset_probe_bw_mode b i).packet_conservation = b.packet_conservation :=
  (frame_reset_probe_bw_mode b i).2.2.2.2.2.2.2.1

@[simp] theorem frame_reset_probe_bw_mode_restore_cwnd (b : Bbrplus) (i : Input) :
    (bbrplus_reset_probe_bw_mode b i).restore_cwnd = b.restore_cwnd :=
  (frame_reset_probe_bw_mode b i).2.2.2.2.2.2.2.2.1

@[simp] theorem frame_reset_probe_bw_mode_round_start (b : Bbrplus) (i : Input) :
    (bbrplus_reset_probe_bw_mode b i).round_start = b.round_start :=
  (frame_reset_probe_bw_mode b i).2.2.2.2.2.2.2.2.2.1

@[simp] theorem frame_reset_probe_bw_mode_cycle_len (b : Bbrplus) (i : Input) :
    (bbrplus_reset_probe_bw_mode b i).cycle_len = b.cycle_len :=
  (frame_reset_probe_bw_mode b i).2.2.2.2.2.2.2.2.2.2.1

@[simp] theorem frame_reset_probe_bw_mode_tso_segs_goal (b : Bbrplus) (i : Input) :
    (bbrplus_reset_probe_bw_mode b i).tso_segs_goal = b.tso_segs_goal :=
  (frame_reset_probe_bw_mode b i).2.2.2.2.2.2.2.2.2.2.2.1

@[simp] theorem frame_reset_probe_bw_mode_idle_restart (b : Bbrplus) (i : Input) :
    (bbrplus_reset_probe_bw_mode b i).idle_restart = b.idle_restart :=
  (frame_reset_probe_bw_mode b i).2.2.2.2.2.2.2.2.2.2.2.2.1

@[simp] theorem frame_reset_probe_bw_mode_probe_rtt_round_done (b : Bbrplus) (i : Input) :
    (bbrplus_reset_probe_bw_mode b i).probe_rtt_round_done = b.probe_rtt_round_done :=
  (frame_reset_probe_bw_mode b i).2.2.2.2.2.2.2.2.2.2.2.2.2.1

@[simp] theorem frame_reset_probe_bw_mode_lt_is_sampling (b : Bbrplus) (i : Input) :
    (bbrplus_reset_probe_bw_mode b i).lt_is_sampling = b.lt_is_sampling :=
  (frame_reset_probe_bw_mode b i).2.2.2.2.2.2.2.2.2.2.2.2.2.2.1

@[simp] theorem frame_reset_probe_bw_mode_lt_rtt_cnt (b : Bbrplus) (i : Input) :
    (bbrplus_reset_probe_bw_mode b i).lt_rtt_cnt = b.lt_rtt_cnt :=
  (frame_reset_probe_bw_mode b i).2.2.2.2.2.2.2.2.2.2.2.2.2.2.2.1

@[simp] theorem frame_reset_probe_bw_mode_lt_use_bw (b : Bbrplus) (i : Input) :
    (bbrplus_reset_probe_bw_mode b i).lt_use_bw = b.lt_use_bw :=
  (frame_reset_probe_bw_mode b i).2.2.2.2.2.2.2.2.2.2.2.2.2.2.2.2.1

@[simp] theorem frame_reset_probe_bw_mode_lt_bw (b : Bbrplus) (i : Input) :
    (bbrplus_reset_probe_bw_mode b i).lt_bw = b.lt_bw :=
  (frame_reset_probe_bw_mode b i).2.2.2.2.2.2.2.2.2.2.2.2.2.2.2.2.2.1

@[simp] theorem frame_reset_probe_bw_mode_lt_last_delivered (b : Bbrplus) (i : Input) :
    (bbrplus_reset_probe_bw_mode b i).lt_last_delivered = b.lt_last_delivered :=
  (frame_reset_probe_bw_mode b i).2.2.2.2.2.2.2.2.2.2.2.2.2.2.2.2.2.2.1

@[simp] theorem frame_reset_probe_bw_mode_lt_last_stamp (b : Bbrplus) (i : Input) :
    (bbrplus_reset_probe_bw_mode b i).lt_last_stamp = b.lt_last_stamp :=
  (frame_reset_probe_bw_mode b i).2.2.2.2.2.2.2.2.2.2.2.2.2.2.2.2.2.2.2.1

@[simp] theorem frame_reset_probe_bw_mode_lt_last_lost (b : Bbrplus) (i : Input) :
    (bbrplus_reset_probe_bw_mode b i).lt_last_lost = b.lt_last_lost :=
  (frame_reset_probe_bw_mode b i).2.2.2.2.2.2.2.2.2.2.2.2.2.2.2.2.2.2.2.2.1

@[simp] theorem frame_reset_probe_bw_mode_full_bw_cnt (b : Bbrplus) (i : Input) :
    (bbrplus_reset_probe_bw_mode b i).full_bw_cnt = b.full_bw_cnt :=
  (frame_reset_probe_bw_mode b i).2.2.2.2.2.2.2.2.2.2.2.2.2.2.2.2.2.2.2.2.2.1

@[simp] theorem frame_reset_probe_bw_mode_has_seen_rtt (b : Bbrplus) (i : Input) :
    (bbrplus_reset_probe_bw_mode b i).has_seen_rtt = b.has_seen_rtt :=
  (frame_reset_probe_bw_mode b i).2.2.2.2.2.2.2.2.2.2.2.2.2.2.2.2.2.2.2.2.2.2.1

@[simp] theorem frame_reset_probe_bw_mode_prior_cwnd (b : Bbrplus) (i : Input) :
    (bbrplus_reset_probe_bw_mode b i).prior_cwnd = b.prior_cwnd :=
  (frame_reset_probe_bw_mode b i).2.2.2.2.2.2.2.2.2.2.2.2.2.2.2.2.2.2.2.2.2.2.2.1

@[simp] theorem frame_reset_probe_bw_mode_full_bw (b : Bbrplus) (i : Input) :
    (bbrplus_reset_probe_bw_mode b i).full_bw = b.full_bw :=
  (frame_reset_probe_bw_mode b i).2.2.2.2.2.2.2.2.2.2.2.2.2.2.2.2.2.2.2.2.2.2.2.2.1

@[simp] theorem frame_reset_probe_bw_mode_ack_epoch_mstamp (b : Bbrplus) (i : Input) :
    (bbrplus_reset_probe_bw_mode b i).ack_epoch_mstamp = b.ack_epoch_mstamp :=
  (frame_reset_probe_bw_mode b i).2.2.2.2.2.2.2.2.2.2.2.2.2.2.2.2.2.2.2.2.2.2.2.2.2.1

@[simp] theorem frame_reset_probe_bw_mode_extra_acked0 (b : Bbrplus) (i : Input) :
    (bbrplus_reset_probe_bw_mode b i).extra_acked0 = b.extra_acked0 :=
  (frame_reset_probe_bw_mode b i).2.2.2.2.2.2.2.2.2.2.2.2.2.2.2.2.2.2.2.2.2.2.2.2.2.2.1

@[simp] theorem frame_reset_probe_bw_mode_extra_acked1 (b : Bbrplus) (i : Input) :
    (bbrplus_reset_probe_bw_mode b i).extra_acked1 = b.extra_acked1 :=
  (frame_reset_probe_bw_mode b i).2.2.2.2.2.2.2.2.2.2.2.2.2.2.2.2.2.2.2.2.2.2.2.2.2.2.2.1

@[simp] theorem frame_reset_probe_bw_mode_ack_epoch_acked (b : Bbrplus) (i : Input) :
    (bbrplus_reset_probe_bw_mode b i).ack_epoch_acked = b.ack_epoch_acked :=
  (frame_reset_probe_bw_mode b i).2.2.2.2.2.2.2.2.2.2.2.2.2.2.2.2.2.2.2.2.2.2.2.2.2.2.2.2.1

@[simp] theorem frame_reset_probe_bw_mode_extra_acked_win_rtts (b : Bbrplus) (i : Input) :
    (bbrplus_reset_probe_bw_mode b i).extra_acked_win_rtts = b.extra_acked_win_rtts :=
  (frame_reset_probe_bw_mode b i).2.2.2.2.2.2.2.2.2.2.2.2.2.2.2.2.2.2.2.2.2.2.2.2.2.2.2.2.2.1

@[simp] theorem frame_reset_probe_bw_mode_extra_acked_win_idx (b : Bbrplus) (i : Input) :
    (bbrplus_reset_probe_bw_mode b i).extra_acked_win_idx = b.extra_acked_win_idx :=
  (frame_reset_probe_bw_mode b i).2.2.2.2.2.2.2.2.2.2.2.2.2.2.2.2.2.2.2.2.2.2.2.2.2.2.2.2.2.2

/-- Fields that `bbrplus_reset_mode` never writes. -/
theorem frame_reset_mode (b : Bbrplus) (i : Input) :
    (bbrplus_reset_mode b i).min_rtt_us = b.min_rtt_us ∧
    (bbrplus_reset_mode b i).min_rtt_stamp = b.min_rtt_stamp ∧
    (bbrplus_reset_mode b i).probe_rtt_done_stamp = b.probe_rtt_done_stamp ∧
    (bbrplus_reset_mode b i).bw = b.bw ∧
    (bbrplus_reset_mode b i).rtt_cnt = b.rtt_cnt ∧
    (bbrplus_reset_mode b i).next_rtt_delivered = b.next_rtt_delivered ∧
    (bbrplus_reset_mode b i).prev_ca_state = b.prev_ca_state ∧
    (bbrplus_reset_mode b i).packet_conservation = b.packet_conservation ∧
    (bbrplus_reset_mode b i).restore_cwnd = b.restore_cwnd ∧
    (bbrplus_reset_mode b i).round_start = b.round_start ∧
    (bbrplus_reset_mode b i).cycle_len = b.cycle_len ∧
    (bbrplus_reset_mode b i).tso_segs_goal = b.tso_segs_goal ∧
    (bbrplus_reset_mode b i).idle_restart = b.idle_restart ∧
    (bbrplus_reset_mode b i).probe_rtt_round_done = b.probe_rtt_round_done ∧
    (bbrplus_reset_mode b i).lt_is_sampling = b.lt_is_sampling ∧
    (bbrplus_reset_mode b i).lt_rtt_cnt = b.lt_rtt_cnt ∧
    (bbrplus_reset_mode b i).lt_use_bw = b.lt_use_bw ∧
    (bbrplus_reset_mode b i).lt_bw = b.lt_bw ∧
    (bbrplus_reset_mode b i).lt_last_delivered = b.lt_last_delivered ∧
    (bbrplus_reset_mode b i).lt_last_stamp = b.lt_last_stamp ∧
    (bbrplus_reset_mode b i).lt_last_lost = b.lt_last_lost ∧
    (bbrplus_reset_mode b i).full_bw_cnt = b.full_bw_cnt ∧
    (bbrplus_reset_mode b i).has_seen_rtt = b.has_seen_rtt ∧
    (bbrplus_reset_mode b i).prior_cwnd = b.prior_cwnd ∧
    (bbrplus_reset_mode b i).full_bw = b.full_bw ∧
    (bbrplus_reset_mode b i).ack_epoch_mstamp = b.ack_epoch_mstamp ∧
    (bbrplus_reset_mode b i).extra_acked0 = b.extra_acked0 ∧
    (bbrplus_reset_mode b i).extra_acked1 = b.extra_acked1 ∧
    (bbrplus_reset_mode b i).ack_epoch_acked = b.ack_epoch_acked ∧
    (bbrplus_reset_mode b i).extra_acked_win_rtts = b.extra_acked_win_rtts ∧
    (bbrplus_reset_mode b i).extra_acked_win_idx = b.extra_acked_win_idx := by
  simp only [bbrplus_reset_mode]
  repeat' split
  all_goals simp

@[simp] theorem frame_reset_mode_min_rtt_us (b : Bbrplus) (i : Input) :
    (bbrplus_reset_mode b i).min_rtt_us = b.min_rtt_us :=
  (frame_reset_mode b i).1

@[simp] theorem frame_reset_mode_min_rtt_stamp (b : Bbrplus) (i : Input) :
    (bbrplus_reset_mode b i).min_rtt_stamp = b.min_rtt_stamp :=
  (frame_reset_mode b i).2.1

@[simp] theorem frame_reset_mode_probe_rtt_done_stamp (b : Bbrplus) (i : Input) :
    (bbrplus_reset_mode b i).probe_rtt_done_stamp = b.probe_rtt_done_stamp :=
  (frame_reset_mode b i).2.2.1

@[simp] theorem frame_reset_mode_bw (b : Bbrplus) (i : Input) :
    (bbrplus_reset_mode b i).bw = b.bw :=
  (frame_reset_mode b i).2.2.2.1

@[simp] theorem frame_reset_mode_rtt_cnt (b : Bbrplus) (i : Input) :
    (bbrplus_reset_mode b i).rtt_cnt = b.rtt_cnt :=
  (frame_reset_mode b i).2.2.2.2.1

@[simp] theorem frame_reset_mode_next_rtt_delivered (b : Bbrplus) (i : Input) :
    (bbrplus_reset_mode b i).next_rtt_delivered = b.next_rtt_delivered :=
  (frame_reset_mode b i).2.2.2.2.2.1

@[simp] theorem frame_reset_mode_prev_ca_state (b : Bbrplus) (i : Input) :
    (bbrplus_reset_mode b i).prev_ca_state = b.prev_ca_state :=
  (frame_reset_mode b i).2.2.2.2.2.2.1

@[simp] theorem frame_reset_mode_packet_conservation (b : Bbrplus) (i : Input) :
    (bbrplus_reset_mode b i).packet_conservation = b.packet_conservation :=
  (frame_reset_mode b i).2.2.2.2.2.2.2.1

@[simp] theorem frame_reset_mode_restore_cwnd (b : Bbrplus) (i : Input) :
    (bbrplus_reset_mode b i).restore_cwnd = b.restore_cwnd :=
  (frame_reset_mode b i).2.2.2.2.2.2.2.2.1

@[simp] theorem frame_reset_mode_round_start (b : Bbrplus) (i : Input) :
    (bbrplus_reset_mode b i).round_start = b.round_start :=
  (frame_reset_mode b i).2.2.2.2.2.2.2.2.2.1

@[simp] theorem frame_reset_mode_cycle_len (b : Bbrplus) (i : Input) :
    (bbrplus_reset_mode b i).cycle_len = b.cycle_len :=
  (frame_reset_mode b i).2.2.2.2.2.2.2.2.2.2.1

@[simp] theorem frame_reset_mode_tso_segs_goal (b : Bbrplus) (i : Input) :
    (bbrplus_reset_mode b i).tso_segs_goal = b.tso_segs_goal :=
  (frame_reset_mode b i).2.2.2.2.2.2.2.2.2.2.2.1

@[simp] theorem frame_reset_mode_idle_restart (b : Bbrplus) (i : Input) :
    (bbrplus_reset_mode b i).idle_restart = b.idle_restart :=
  (frame_reset_mode b i).2.2.2.2.2.2.2.2.2.2.2.2.1

@[simp] theorem frame_reset_mode_probe_rtt_round_done (b : Bbrplus) (i : Input) :
    (bbrplus_reset_mode b i).probe_rtt_round_done = b.probe_rtt_round_done :=
  (frame_reset_mode b i).2.2.2.2.2.2.2.2.2.2.2.2.2.1

@[simp] theorem frame_reset_mode_lt_is_sampling (b : Bbrplus) (i : Input) :
    (bbrplus_reset_mode b i).lt_is_sampling = b.lt_is_sampling :=
  (frame_reset_mode b i).2.2.2.2.2.2.2.2.2.2.2.2.2.2.1

@[simp] theorem frame_reset_mode_lt_rtt_cnt (b : Bbrplus) (i : Input) :
    (bbrplus_reset_mode b i).lt_rtt_cnt = b.lt_rtt_cnt :=
  (frame_reset_mode b i).2.2.2.2.2.2.2.2.2.2.2.2.2.2.2.1

@[simp] theorem frame_reset_mode_lt_use_bw (b : Bbrplus) (i : Input) :
    (bbrplus_reset_mode b i).lt_use_bw = b.lt_use_bw :=
  (frame_reset_mode b i).2.2.2.2.2.2.2.2.2.2.2.2.2.2.2.2.1

@[simp] theorem frame_reset_mode_lt_bw (b : Bbrplus) (i : Input) :
    (bbrplus_reset_mode b i).lt_bw = b.lt_bw :=
  (frame_reset_mode b i).2.2.2.2.2.2.2.2.2.2.2.2.2.2.2.2.2.1

@[simp] theorem frame_reset_mode_lt_last_delivered (b : Bbrplus) (i : Input) :
    (bbrplus_reset_mode b i).lt_last_delivered = b.lt_last_delivered :=
  (frame_reset_mode b i).2.2.2.2.2.2.2.2.2.2.2.2.2.2.2.2.2.2.1

@[simp] theorem frame_reset_mode_lt_last_stamp (b : Bbrplus) (i : Input) :
    (bbrplus_reset_mode b i).lt_last_stamp = b.lt_last_stamp :=
  (frame_reset_mode b i).2.2.2.2.2.2.2.2.2.2.2.2.2.2.2.2.2.2.2.1

@[simp] theorem frame_reset_mode_lt_last_lost (b : Bbrplus) (i : Input) :
    (bbrplus_reset_mode b i).lt_last_lost = b.lt_last_lost :=
  (frame_reset_mode b i).2.2.2.2.2.2.2.2.2.2.2.2.2.2.2.2.2.2.2.2.1

@[simp] theorem frame_reset_mode_full_bw_cnt (b : Bbrplus) (i : Input) :
    (bbrplus_reset_mode b i).full_bw_cnt = b.full_bw_cnt :=
  (frame_reset_mode b i).2.2.2.2.2.2.2.2.2.2.2.2.2.2.2.2.2.2.2.2.2.1

@[simp] theorem frame_reset_mode_has_seen_rtt (b : Bbrplus) (i : Input) :
    (bbrplus_reset_mode b i).has_seen_rtt = b.has_seen_rtt :=
  (frame_reset_mode b i).2.2.2.2.2.2.2.2.2.2.2.2.2.2.2.2.2.2.2.2.2.2.1

@[simp] theorem frame_reset_mode_prior_cwnd (b : Bbrplus) (i : Input) :
    (bbrplus_reset_mode b i).prior_cwnd = b.prior_cwnd :=
  (frame_reset_mode b i).2.2.2.2.2.2.2.2.2.2.2.2.2.2.2.2.2.2.2.2.2.2.2.1

@[simp] theorem frame_reset_mode_full_bw (b : Bbrplus) (i : Input) :
    (bbrplus_reset_mode b i).full_bw = b.full_bw :=
  (frame_reset_mode b i).2.2.2.2.2.2.2.2.2.2.2.2.2.2.2.2.2.2.2.2.2.2.2.2.1

@[simp] theorem frame_reset_mode_ack_epoch_mstamp (b : Bbrplus) (i : Input) :
    (bbrplus_reset_mode b i).ack_epoch_mstamp = b.ack_epoch_mstamp :=
  (frame_reset_mode b i).2.2.2.2.2.2.2.2.2.2.2.2.2.2.2.2.2.2.2.2.2.2.2.2.2.1

@[simp] theorem frame_reset_mode_extra_acked0 (b : Bbrplus) (i : Input) :
    (bbrplus_reset_mode b i).extra_acked0 = b.extra_acked0 :=
  (frame_reset_mode b i).2.2.2.2.2.2.2.2.2.2.2.2.2.2.2.2.2.2.2.2.2.2.2.2.2.2.1

@[simp] theorem frame_reset_mode_extra_acked1 (b : Bbrplus) (i : Input) :
    (bbrplus_reset_mode b i).extra_acked1 = b.extra_acked1 :=
  (frame_reset_mode b i).2.2.2.2.2.2.2.2.2.2.2.2.2.2.2.2.2.2.2.2.2.2.2.2.2.2.2.1

@[simp] theorem frame_reset_mode_ack_epoch_acked (b : Bbrplus) (i : Input) :
    (bbrplus_reset_mode b i).ack_epoch_acked = b.ack_epoch_acked :=
  (frame_reset_mode b i).2.2.2.2.2.2.2.2.2.2.2.2.2.2.2.2.2.2.2.2.2.2.2.2.2.2.2.2.1

@[simp] theorem frame_reset_mode_extra_acked_win_rtts (b : Bbrplus) (i : Input) :
    (bbrplus_reset_mode b i).extra_acked_win_rtts = b.extra_acked_win_rtts :=
  (frame_reset_mode b i).2.2.2.2.2.2.2.2.2.2.2.2.2.2.2.2.2.2.2.2.2.2.2.2.2.2.2.2.2.1

@[simp] theorem frame_reset_mode_extra_acked_win_idx (b : Bbrplus) (i : Input) :
    (bbrplus_reset_mode b i).extra_acked_win_idx = b.extra_acked_win_idx :=
  (frame_reset_mode b i).2.2.2.2.2.2.2.2.2.2.2.2.2.2.2.2.2.2.2.2.2.2.2.2.2.2.2.2.2.2

/-- Fields that `bbrplus_reset_lt_bw_sampling_interval` never writes. -/
theorem frame_reset_lt_interval (c : Conn) (i : Input) :
    (bbrplus_reset_lt_bw_sampling_interval c i).bbr.min_rtt_us = c.bbr.min_rtt_us ∧
    (bbrplus_reset_lt_bw_sampling_interval c i).bbr.min_rtt_stamp = c.bbr.min_rtt_stamp ∧
    (bbrplus_reset_lt_bw_sampling_interval c i).bbr.probe_rtt_done_stamp = c.bbr.probe_rtt_done_stamp ∧
    (bbrplus_reset_lt_bw_sampling_interval c i).bbr.bw = c.bbr.bw ∧
    (bbrplus_reset_lt_bw_sampling_interval c i).bbr.rtt_cnt = c.bbr.rtt_cnt ∧
    (bbrplus_reset_lt_bw_sampling_interval c i).bbr.next_rtt_delivered = c.bbr.next_rtt_delivered ∧
    (bbrplus_reset_lt_bw_sampling_interval c i).bbr.cycle_mstamp = c.bbr.cycle_mstamp ∧
    (bbrplus_reset_lt_bw_sampling_interval c i).bbr.mode = c.bbr.mode ∧
    (bbrplus_reset_lt_bw_sampling_interval c i).bbr.prev_ca_state = c.bbr.prev_ca_state ∧
    (bbrplus_reset_lt_bw_sampling_interval c i).bbr.packet_conservation = c.bbr.packet_conservation ∧
    (bbrplus_reset_lt_bw_sampling_interval c i).bbr.restore_cwnd = c.bbr.restore_cwnd ∧
    (bbrplus_reset_lt_bw_sampling_interval c i).bbr.round_start = c.bbr.round_start ∧
    (bbrplus_reset_lt_bw_sampling_interval c i).bbr.cycle_len = c.bbr.cycle_len ∧
    (bbrplus_reset_lt_bw_sampling_interval c i).bbr.tso_segs_goal = c.bbr.tso_segs_goal ∧
    (bbrplus_reset_lt_bw_sampling_interval c i).bbr.idle_restart = c.bbr.idle_restart ∧
    (bbrplus_reset_lt_bw_sampling_interval c i).bbr.probe_rtt_round_done = c.bbr.probe_rtt_round_done ∧
    (bbrplus_reset_lt_bw_sampling_interval c i).bbr.lt_is_sampling = c.bbr.lt_is_sampling ∧
    (bbrplus_reset_lt_bw_sampling_interval c i).bbr.lt_use_bw = c.bbr.lt_use_bw ∧
    (bbrplus_reset_lt_bw_sampling_interval c i).bbr.lt_bw = c.bbr.lt_bw ∧
    (bbrplus_reset_lt_bw_sampling_interval c i).bbr.pacing_gain = c.bbr.pacing_gain ∧
    (bbrplus_reset_lt_bw_sampling_interval c i).bbr.cwnd_gain = c.bbr.cwnd_gain ∧
    (bbrplus_reset_lt_bw_sampling_interval c i).bbr.full_bw_cnt = c.bbr.full_bw_cnt ∧
    (bbrplus_reset_lt_bw_sampling_interval c i).bbr.cycle_idx = c.bbr.cycle_idx ∧
    (bbrplus_reset_lt_bw_sampling_interval c i).bbr.has_seen_rtt = c.bbr.has_seen_rtt ∧
    (bbrplus_reset_lt_bw_sampling_interval c i).bbr.prior_cwnd = c.bbr.prior_cwnd ∧
    (bbrplus_reset_lt_bw_sampling_interval c i).bbr.full_bw = c.bbr.full_bw ∧
    (bbrplus_reset_lt_bw_sampling_interval c i).bbr.ack_epoch_mstamp = c.bbr.ack_epoch_mstamp ∧
    (bbrplus_reset_lt_bw_sampling_interval c i).bbr.extra_acked0 = c.bbr.extra_acked0 ∧
    (bbrplus_reset_lt_bw_sampling_interval c i).bbr.extra_acked1 = c.bbr.extra_acked1 ∧
    (bbrplus_reset_lt_bw_sampling_interval c i).bbr.ack_epoch_acked = c.bbr.ack_epoch_acked ∧
    (bbrplus_reset_lt_bw_sampling_interval c i).bbr.extra_acked_win_rtts = c.bbr.extra_acked_win_rtts ∧
    (bbrplus_reset_lt_bw_sampling_interval c i).bbr.extra_acked_win_idx = c.bbr.extra_acked_win_idx ∧
    (bbrplus_reset_lt_bw_sampling_interval c i).snd_cwnd = c.snd_cwnd ∧
    (bbrplus_reset_lt_bw_sampling_interval c i).sk_pacing_rate = c.sk_pacing_rate := by
  simp [bbrplus_reset_lt_bw_sampling_interval]

@[simp] theorem frame_reset_lt_interval_min_rtt_us (c : Conn) (i : Input) :
    (bbrplus_reset_lt_bw_sampling_interval c i).bbr.min_rtt_us = c.bbr.min_rtt_us :=
  (frame_reset_lt_interval c i).1

@[simp] theorem frame_reset_lt_interval_min_rtt_stamp (c : Conn) (i : Input) :
    (bbrplus_reset_lt_bw_sampling_interval c i).bbr.min_rtt_stamp = c.bbr.min_rtt_stamp :=
  (frame_reset_lt_interval c i).2.1

@[simp] theorem frame_reset_lt_interval_probe_rtt_done_stamp (c : Conn) (i : Input) :
    (bbrplus_reset_lt_bw_sampling_interval c i).bbr.probe_rtt_done_stamp = c.bbr.probe_rtt_done_stamp :=
  (frame_reset_lt_interval c i).2.2.1

@[simp] theorem frame_reset_lt_interval_bw (c : Conn) (i : Input) :
    (bbrplus_reset_lt_bw_sampling_interval c i).bbr.bw = c.bbr.bw :=
  (frame_reset_lt_interval c i).2.2.2.1

@[simp] theorem frame_reset_lt_interval_rtt_cnt (c : Conn) (i : Input) :
    (bbrplus_reset_lt_bw_sampling_interval c i).bbr.rtt_cnt = c.bbr.rtt_cnt :=
  (frame_reset_lt_interval c i).2.2.2.2.1

@[simp] theorem frame_reset_lt_interval_next_rtt_delivered (c : Conn) (i : Input) :
    (bbrplus_reset_lt_bw_sampling_interval c i).bbr.next_rtt_delivered = c.bbr.next_rtt_delivered :=
  (frame_reset_lt_interval c i).2.2.2.2.2.1

@[simp] theorem frame_reset_lt_interval_cycle_mstamp (c : Conn) (i : Input) :
    (bbrplus_reset_lt_bw_sampling_interval c i).bbr.cycle_mstamp = c.bbr.cycle_mstamp :=
  (frame_reset_lt_interval c i).2.2.2.2.2.2.1

@[simp] theorem frame_reset_lt_interval_mode (c : Conn) (i : Input) :
    (bbrplus_reset_lt_bw_sampling_interval c i).bbr.mode = c.bbr.mode :=
  (frame_reset_lt_interval c i).2.2.2.2.2.2.2.1

@[simp] theorem frame_reset_lt_interval_prev_ca_state (c : Conn) (i : Input) :
    (bbrplus_reset_lt_bw_sampling_interval c i).bbr.prev_ca_state = c.bbr.prev_ca_state :=
  (frame_reset_lt_interval c i).2.2.2.2.2.2.2.2.1

@[simp] theorem frame_reset_lt_interval_packet_conservation (c : Conn) (i : Input) :
    (bbrplus_reset_lt_bw_sampling_interval c i).bbr.packet_conservation = c.bbr.packet_conservation :=
  (frame_reset_lt_interval c i).2.2.2.2.2.2.2.2.2.1

@[simp] theorem frame_reset_lt_interval_restore_cwnd (c : Conn) (i : Input) :
    (bbrplus_reset_lt_bw_sampling_interval c i).bbr.restore_cwnd = c.bbr.restore_cwnd :=
  (frame_reset_lt_interval c i).2.2.2.2.2.2.2.2.2.2.1

@[simp] theorem frame_reset_lt_interval_round_start (c : Conn) (i : Input) :
    (bbrplus_reset_lt_bw_sampling_interval c i).bbr.round_start = c.bbr.round_start :=
  (frame_reset_lt_interval c i).2.2.2.2.2.2.2.2.2.2.2.1

@[simp] theorem frame_reset_lt_interval_cycle_len (c : Conn) (i : Input) :
    (bbrplus_reset_lt_bw_sampling_interval c i).bbr.cycle_len = c.bbr.cycle_len :=
  (frame_reset_lt_interval c i).2.2.2.2.2.2.2.2.2.2.2.2.1

@[simp] theorem frame_reset_lt_interval_tso_segs_goal (c : Conn) (i : Input) :
    (bbrplus_reset_lt_bw_sampling_interval c i).bbr.tso_segs_goal = c.bbr.tso_segs_goal :=
  (frame_reset_lt_interval c i).2.2.2.2.2.2.2.2.2.2.2.2.2.1

@[simp] theorem frame_reset_lt_interval_idle_restart (c : Conn) (i : Input) :
    (bbrplus_reset_lt_bw_sampling_interval c i).bbr.idle_restart = c.bbr.idle_restart :=
  (frame_reset_lt_interval c i).2.2.2.2.2.2.2.2.2.2.2.2.2.2.1

@[simp] theorem frame_reset_lt_interval_probe_rtt_round_done (c : Conn) (i : Input) :
    (bbrplus_reset_lt_bw_sampling_interval c i).bbr.probe_rtt_round_done = c.bbr.probe_rtt_round_done :=
  (frame_reset_lt_interval c i).2.2.2.2.2.2.2.2.2.2.2.2.2.2.2.1

@[simp] theorem frame_reset_lt_interval_lt_is_sampling (c : Conn) (i : Input) :
    (bbrplus_reset_lt_bw_sampling_interval c i).bbr.lt_is_sampling = c.bbr.lt_is_sampling :=
  (frame_reset_lt_interval c i).2.2.2.2.2.2.2.2.2.2.2.2.2.2.2.2.1

@[simp] theorem frame_reset_lt_interval_lt_use_bw (c : Conn) (i : Input) :
    (bbrplus_reset_lt_bw_sampling_interval c i).bbr.lt_use_bw = c.bbr.lt_use_bw :=
  (frame_reset_lt_interval c i).2.2.2.2.2.2.2.2.2.2.2.2.2.2.2.2.2.1

@[simp] theorem frame_reset_lt_interval_lt_bw (c : Conn) (i : Input) :
    (bbrplus_reset_lt_bw_sampling_interval c i).bbr.lt_bw = c.bbr.lt_bw :=
  (frame_reset_lt_interval c i).2.2.2.2.2.2.2.2.2.2.2.2.2.2.2.2.2.2.1

@[simp] theorem frame_reset_lt_interval_pacing_gain (c : Conn) (i : Input) :
    (bbrplus_reset_lt_bw_sampling_interval c i).bbr.pacing_gain = c.bbr.pacing_gain :=
  (frame_reset_lt_interval c i).2.2.2.2.2.2.2.2.2.2.2.2.2.2.2.2.2.2.2.1

@[simp] theorem frame_reset_lt_interval_cwnd_gain (c : Conn) (i : Input) :
    (bbrplus_reset_lt_bw_sampling_interval c i).bbr.cwnd_gain = c.bbr.cwnd_gain :=
  (frame_reset_lt_interval c i).2.2.2.2.2.2.2.2.2.2.2.2.2.2.2.2.2.2.2.2.1

@[simp] theorem frame_reset_lt_interval_full_bw_cnt (c : Conn) (i : Input) :
    (bbrplus_reset_lt_bw_sampling_interval c i).bbr.full_bw_cnt = c.bbr.full_bw_cnt :=
  (frame_reset_lt_interval c i).2.2.2.2.2.2.2.2.2.2.2.2.2.2.2.2.2.2.2.2.2.1

@[simp] theorem frame_reset_lt_interval_cycle_idx (c : Conn) (i : Input) :
    (bbrplus_reset_lt_bw_sampling_interval c i).bbr.cycle_idx = c.bbr.cycle_idx :=
  (frame_reset_lt_interval c i).2.2.2.2.2.2.2.2.2.2.2.2.2.2.2.2.2.2.2.2.2.2.1

@[simp] theorem frame_reset_lt_interval_has_seen_rtt (c : Conn) (i : Input) :
    (bbrplus_reset_lt_bw_sampling_interval c i).bbr.has_seen_rtt = c.bbr.has_seen_rtt :=
  (frame_reset_lt_interval c i).2.2.2.2.2.2.2.2.2.2.2.2.2.2.2.2.2.2.2.2.2.2.2.1

@[simp] theorem frame_reset_lt_interval_prior_cwnd (c : Conn) (i : Input) :
    (bbrplus_reset_lt_bw_sampling_interval c i).bbr.prior_cwnd = c.bbr.prior_cwnd :=
  (frame_reset_lt_interval c i).2.2.2.2.2.2.2.2.2.2.2.2.2.2.2.2.2.2.2.2.2.2.2.2.1

@[simp] theorem frame_reset_lt_interval_full_bw (c : Conn) (i : Input) :
    (bbrplus_reset_lt_bw_sampling_interval c i).bbr.full_bw = c.bbr.full_bw :=
  (frame_reset_lt_interval c i).2.2.2.2.2.2.2.2.2.2.2.2.2.2.2.2.2.2.2.2.2.2.2.2.2.1

@[simp] theorem frame_reset_lt_interval_ack_epoch_mstamp (c : Conn) (i : Input) :
    (bbrplus_reset_lt_bw_sampling_interval c i).bbr.ack_epoch_mstamp = c.bbr.ack_epoch_mstamp :=
  (frame_reset_lt_interval c i).2.2.2.2.2.2.2.2.2.2.2.2.2.2.2.2.2.2.2.2.2.2.2.2.2.2.1

@[simp] theorem frame_reset_lt_interval_extra_acked0 (c : Conn) (i : Input) :
    (bbrplus_reset_lt_bw_sampling_interval c i).bbr.extra_acked0 = c.bbr.extra_acked0 :=
  (frame_reset_lt_interval c i).2.2.2.2.2.2.2.2.2.2.2.2.2.2.2.2.2.2.2.2.2.2.2.2.2.2.2.1

@[simp] theorem frame_reset_lt_interval_extra_acked1 (c : Conn) (i : Input) :
    (bbrplus_reset_lt_bw_sampling_interval c i).bbr.extra_acked1 = c.bbr.extra_acked1 :=
  (frame_reset_lt_interval c i).2.2.2.2.2.2.2.2.2.2.2.2.2.2.2.2.2.2.2.2.2.2.2.2.2.2.2.2.1

@[simp] theorem frame_reset_lt_interval_ack_epoch_acked (c : Conn) (i : Input) :
    (bbrplus_reset_lt_bw_sampling_interval c i).bbr.ack_epoch_acked = c.bbr.ack_epoch_acked :=
  (frame_reset_lt_interval c i).2.2.2.2.2.2.2.2.2.2.2.2.2.2.2.2.2.2.2.2.2.2.2.2.2.2.2.2.2.1

@[simp] theorem frame_reset_lt_interval_extra_acked_win_rtts (c : Conn) (i : Input) :
    (bbrplus_reset_lt_bw_sampling_interval c i).bbr.extra_acked_win_rtts = c.bbr.extra_acked_win_rtts :=
  (frame_reset_lt_interval c i).2.2.2.2.2.2.2.2.2.2.2.2.2.2.2.2.2.2.2.2.2.2.2.2.2.2.2.2.2.2.1

@[simp] theorem frame_reset_lt_interval_extra_acked_win_idx (c : Conn) (i : Input) :
    (bbrplus_reset_lt_bw_sampling_interval c i).bbr.extra_acked_win_idx = c.bbr.extra_acked_win_idx :=
  (frame_reset_lt_interval c i).2.2.2.2.2.2.2.2.2.2.2.2.2.2.2.2.2.2.2.2.2.2.2.2.2.2.2.2.2.2.2.1

@[simp] theorem frame_reset_lt_interval_snd_cwnd (c : Conn) (i : Input) :
    (bbrplus_reset_lt_bw_sampling_interval c i).snd_cwnd = c.snd_cwnd :=
  (frame_reset_lt_interval c i).2.2.2.2.2.2.2.2.2.2.2.2.2.2.2.2.2.2.2.2.2.2.2.2.2.2.2.2.2.2.2.2.1

@[simp] theorem frame_reset_lt_interval_sk_pacing_rate (c : Conn) (i : Input) :
    (bbrplus_reset_lt_bw_sampling_interval c i).sk_pacing_rate = c.sk_pacing_rate :=
  (frame_reset_lt_interval c i).2.2.2.2.2.2.2.2.2.2.2.2.2.2.2.2.2.2.2.2.2.2.2.2.2.2.2.2.2.2.2.2.2

/-- Fields that `bbrplus_reset_lt_bw_sampling` never writes. -/
theorem frame_reset_lt (c : Conn) (i : Input) :
    (bbrplus_reset_lt_bw_sampling c i).bbr.min_rtt_us = c.bbr.min_rtt_us ∧
    (bbrplus_reset_lt_bw_sampling c i).bbr.min_rtt_stamp = c.bbr.min_rtt_stamp ∧
    (bbrplus_reset_lt_bw_sampling c i).bbr.probe_rtt_done_stamp = c.bbr.probe_rtt_done_stamp ∧
    (bbrplus_reset_lt_bw_sampling c i).bbr.bw = c.bbr.bw ∧
    (bbrplus_reset_lt_bw_sampling c i).bbr.rtt_cnt = c.bbr.rtt_cnt ∧
    (bbrplus_reset_lt_bw_sampling c i).bbr.next_rtt_delivered = c.bbr.next_rtt_delivered ∧
    (bbrplus_reset_lt_bw_sampling c i).bbr.cycle_mstamp = c.bbr.cycle_mstamp ∧
    (bbrplus_reset_lt_bw_sampling c i).bbr.mode = c.bbr.mode ∧
    (bbrplus_reset_lt_bw_sampling c i).bbr.prev_ca_state = c.bbr.prev_ca_state ∧
    (bbrplus_reset_lt_bw_sampling c i).bbr.packet_conservation = c.bbr.packet_conservation ∧
    (bbrplus_reset_lt_bw_sampling c i).bbr.restore_cwnd = c.bbr.restore_cwnd ∧
    (bbrplus_reset_lt_bw_sampling c i).bbr.round_start = c.bbr.round_start ∧
    (bbrplus_reset_lt_bw_sampling c i).bbr.cycle_len = c.bbr.cycle_len ∧
    (bbrplus_reset_lt_bw_sampling c i).bbr.tso_segs_goal = c.bbr.tso_segs_goal ∧
    (bbrplus_reset_lt_bw_sampling c i).bbr.idle_restart = c.bbr.idle_restart ∧
    (bbrplus_reset_lt_bw_sampling c i).bbr.probe_rtt_round_done = c.bbr.probe_rtt_round_done ∧
    (bbrplus_reset_lt_bw_sampling c i).bbr.pacing_gain = c.bbr.pacing_gain ∧
    (bbrplus_reset_lt_bw_sampling c i).bbr.cwnd_gain = c.bbr.cwnd_gain ∧
    (bbrplus_reset_lt_bw_sampling c i).bbr.full_bw_cnt = c.bbr.full_bw_cnt ∧
    (bbrplus_reset_lt_bw_sampling c i).bbr.cycle_idx = c.bbr.cycle_idx ∧
    (bbrplus_reset_lt_bw_sampling c i).bbr.has_seen_rtt = c.bbr.has_seen_rtt ∧
    (bbrplus_reset_lt_bw_sampling c i).bbr.prior_cwnd = c.bbr.prior_cwnd ∧
    (bbrplus_reset_lt_bw_sampling c i).bbr.full_bw = c.bbr.full_bw ∧
    (bbrplus_reset_lt_bw_sampling c i).bbr.ack_epoch_mstamp = c.bbr.ack_epoch_mstamp ∧
    (bbrplus_reset_lt_bw_sampling c i).bbr.extra_acked0 = c.bbr.extra_acked0 ∧
    (bbrplus_reset_lt_bw_sampling c i).bbr.extra_acked1 = c.bbr.extra_acked1 ∧
    (bbrplus_reset_lt_bw_sampling c i).bbr.ack_epoch_acked = c.bbr.ack_epoch_acked ∧
    (bbrplus_reset_lt_bw_sampling c i).bbr.extra_acked_win_rtts = c.bbr.extra_acked_win_rtts ∧
    (bbrplus_reset_lt_bw_sampling c i).bbr.extra_acked_win_idx = c.bbr.extra_acked_win_idx ∧
    (bbrplus_reset_lt_bw_sampling c i).snd_cwnd = c.snd_cwnd ∧
    (bbrplus_reset_lt_bw_sampling c i).sk_pacing_rate = c.sk_pacing_rate := by
  simp [bbrplus_reset_lt_bw_sampling]

@[simp] theorem frame_reset_lt_min_rtt_us (c : Conn) (i : Input) :
    (bbrplus_reset_lt_bw_sampling c i).bbr.min_rtt_us = c.bbr.min_rtt_us :=
  (frame_reset_lt c i).1

@[simp] theorem frame_reset_lt_min_rtt_stamp (c : Conn) (i : Input) :
    (bbrplus_reset_lt_bw_sampling c i).bbr.min_rtt_stamp = c.bbr.min_rtt_stamp :=
  (frame_reset_lt c i).2.1

@[simp] theorem frame_reset_lt_probe_rtt_done_stamp (c : Conn) (i : Input) :
    (bbrplus_reset_lt_bw_sampling c i).bbr.probe_rtt_done_stamp = c.bbr.probe_rtt_done_stamp :=
  (frame_reset_lt c i).2.2.1

@[simp] theorem frame_reset_lt_bw (c : Conn) (i : Input) :
    (bbrplus_reset_lt_bw_sampling c i).bbr.bw = c.bbr.bw :=
  (frame_reset_lt c i).2.2.2.1

@[simp] theorem frame_reset_lt_rtt_cnt (c : Conn) (i : Input) :
    (bbrplus_reset_lt_bw_sampling c i).bbr.rtt_cnt = c.bbr.rtt_cnt :=
  (frame_reset_lt c i).2.2.2.2.1

@[simp] theorem frame_reset_lt_next_rtt_delivered (c : Conn) (i : Input) :
    (bbrplus_reset_lt_bw_sampling c i).bbr.next_rtt_delivered = c.bbr.next_rtt_delivered :=
  (frame_reset_lt c i).2.2.2.2.2.1

@[simp] theorem frame_reset_lt_cycle_mstamp (c : Conn) (i : Input) :
    (bbrplus_reset_lt_bw_sampling c i).bbr.cycle_mstamp = c.bbr.cycle_mstamp :=
  (frame_reset_lt c i).2.2.2.2.2.2.1

@[simp] theorem frame_reset_lt_mode (c : Conn) (i : Input) :
    (bbrplus_reset_lt_bw_sampling c i).bbr.mode = c.bbr.mode :=
  (frame_reset_lt c i).2.2.2.2.2.2.2.1

@[simp] theorem frame_reset_lt_prev_ca_state (c : Conn) (i : Input) :
    (bbrplus_reset_lt_bw_sampling c i).bbr.prev_ca_state = c.bbr.prev_ca_state :=
  (frame_reset_lt c i).2.2.2.2.2.2.2.2.1

@[simp] theorem frame_reset_lt_packet_conservation (c : Conn) (i : Input) :
    (bbrplus_reset_lt_bw_sampling c i).bbr.packet_conservation = c.bbr.packet_conservation :=
  (frame_reset_lt c i).2.2.2.2.2.2.2.2.2.1

@[simp] theorem frame_reset_lt_restore_cwnd (c : Conn) (i : Input) :
    (bbrplus_reset_lt_bw_sampling c i).bbr.restore_cwnd = c.bbr.restore_cwnd :=
  (frame_reset_lt c i).2.2.2.2.2.2.2.2.2.2.1

@[simp] theorem frame_reset_lt_round_start (c : Conn) (i : Input) :
    (bbrplus_reset_lt_bw_sampling c i).bbr.round_start = c.bbr.round_start :=
  (frame_reset_lt c i).2.2.2.2.2.2.2.2.2.2.2.1

@[simp] theorem frame_reset_lt_cycle_len (c : Conn) (i : Input) :
    (bbrplus_reset_lt_bw_sampling c i).bbr.cycle_len = c.bbr.cycle_len :=
  (frame_reset_lt c i).2.2.2.2.2.2.2.2.2.2.2.2.1

@[simp] theorem frame_reset_lt_tso_segs_goal (c : Conn) (i : Input) :
    (bbrplus_reset_lt_bw_sampling c i).bbr.tso_segs_goal = c.bbr.tso_segs_goal :=
  (frame_reset_lt c i).2.2.2.2.2.2.2.2.2.2.2.2.2.1

@[simp] theorem frame_reset_lt_idle_restart (c : Conn) (i : Input) :
    (bbrplus_reset_lt_bw_sampling c i).bbr.idle_restart = c.bbr.idle_restart :=
  (frame_reset_lt c i).2.2.2.2.2.2.2.2.2.2.2.2.2.2.1

@[simp] theorem frame_reset_lt_probe_rtt_round_done (c : Conn) (i : Input) :
    (bbrplus_reset_lt_bw_sampling c i).bbr.probe_rtt_round_done = c.bbr.probe_rtt_round_done :=
  (frame_reset_lt c i).2.2.2.2.2.2.2.2.2.2.2.2.2.2.2.1

@[simp] theorem frame_reset_lt_pacing_gain (c : Conn) (i : Input) :
    (bbrplus_reset_lt_bw_sampling c i).bbr.pacing_gain = c.bbr.pacing_gain :=
  (frame_reset_lt c i).2.2.2.2.2.2.2.2.2.2.2.2.2.2.2.2.1

@[simp] theorem frame_reset_lt_cwnd_gain (c : Conn) (i : Input) :
    (bbrplus_reset_lt_bw_sampling c i).bbr.cwnd_gain = c.bbr.cwnd_gain :=
  (frame_reset_lt c i).2.2.2.2.2.2.2.2.2.2.2.2.2.2.2.2.2.1

@[simp] theorem frame_reset_lt_full_bw_cnt (c : Conn) (i : Input) :
    (bbrplus_reset_lt_bw_sampling c i).bbr.full_bw_cnt = c.bbr.full_bw_cnt :=
  (frame_reset_lt c i).2.2.2.2.2.2.2.2.2.2.2.2.2.2.2.2.2.2.1

@[simp] theorem frame_reset_lt_cycle_idx (c : Conn) (i : Input) :
    (bbrplus_reset_lt_bw_sampling c i).bbr.cycle_idx = c.bbr.cycle_idx :=
  (frame_reset_lt c i).2.2.2.2.2.2.2.2.2.2.2.2.2.2.2.2.2.2.2.1

@[simp] theorem frame_reset_lt_has_seen_rtt (c : Conn) (i : Input) :
    (bbrplus_reset_lt_bw_sampling c i).bbr.has_seen_rtt = c.bbr.has_seen_rtt :=
  (frame_reset_lt c i).2.2.2.2.2.2.2.2.2.2.2.2.2.2.2.2.2.2.2.2.1

@[simp] theorem frame_reset_lt_prior_cwnd (c : Conn) (i : Input) :
    (bbrplus_reset_lt_bw_sampling c i).bbr.prior_cwnd = c.bbr.prior_cwnd :=
  (frame_reset_lt c i).2.2.2.2.2.2.2.2.2.2.2.2.2.2.2.2.2.2.2.2.2.1

@[simp] theorem frame_reset_lt_full_bw (c : Conn) (i : Input) :
    (bbrplus_reset_lt_bw_sampling c i).bbr.full_bw = c.bbr.full_bw :=
  (frame_reset_lt c i).2.2.2.2.2.2.2.2.2.2.2.2.2.2.2.2.2.2.2.2.2.2.1

@[simp] theorem frame_reset_lt_ack_epoch_mstamp (c : Conn) (i : Input) :
    (bbrplus_reset_lt_bw_sampling c i).bbr.ack_epoch_mstamp = c.bbr.ack_epoch_mstamp :=
  (frame_reset_lt c i).2.2.2.2.2.2.2.2.2.2.2.2.2.2.2.2.2.2.2.2.2.2.2.1

@[simp] theorem frame_reset_lt_extra_acked0 (c : Conn) (i : Input) :
    (bbrplus_reset_lt_bw_sampling c i).bbr.extra_acked0 = c.bbr.extra_acked0 :=
  (frame_reset_lt c i).2.2.2.2.2.2.2.2.2.2.2.2.2.2.2.2.2.2.2.2.2.2.2.2.1

@[simp] theorem frame_reset_lt_extra_acked1 (c : Conn) (i : Input) :
    (bbrplus_reset_lt_bw_sampling c i).bbr.extra_acked1 = c.bbr.extra_acked1 :=
  (frame_reset_lt c i).2.2.2.2.2.2.2.2.2.2.2.2.2.2.2.2.2.2.2.2.2.2.2.2.2.1

@[simp] theorem frame_reset_lt_ack_epoch_acked (c : Conn) (i : Input) :
    (bbrplus_reset_lt_bw_sampling c i).bbr.ack_epoch_acked = c.bbr.ack_epoch_acked :=
  (frame_reset_lt c i).2.2.2.2.2.2.2.2.2.2.2.2.2.2.2.2.2.2.2.2.2.2.2.2.2.2.1

@[simp] theorem frame_reset_lt_extra_acked_win_rtts (c : Conn) (i : Input) :
    (bbrplus_reset_lt_bw_sampling c i).bbr.extra_acked_win_rtts = c.bbr.extra_acked_win_rtts :=
  (frame_reset_lt c i).2.2.2.2.2.2.2.2.2.2.2.2.2.2.2.2.2.2.2.2.2.2.2.2.2.2.2.1

@[simp] theorem frame_reset_lt_extra_acked_win_idx (c : Conn) (i : Input) :
    (bbrplus_reset_lt_bw_sampling c i).bbr.extra_acked_win_idx = c.bbr.extra_acked_win_idx :=
  (frame_reset_lt c i).2.2.2.2.2.2.2.2.2.2.2.2.2.2.2.2.2.2.2.2.2.2.2.2.2.2.2.2.1

@[simp] theorem frame_reset_lt_snd_cwnd (c : Conn) (i : Input) :
    (bbrplus_reset_lt_bw_sampling c i).snd_cwnd = c.snd_cwnd :=
  (frame_reset_lt c i).2.2.2.2.2.2.2.2.2.2.2.2.2.2.2.2.2.2.2.2.2.2.2.2.2.2.2.2.2.1

@[simp] theorem frame_reset_lt_sk_pacing_rate (c : Conn) (i : Input) :
    (bbrplus_reset_lt_bw_sampling c i).sk_pacing_rate = c.sk_pacing_rate :=
  (frame_reset_lt c i).2.2.2.2.2.2.2.2.2.2.2.2.2.2.2.2.2.2.2.2.2.2.2.2.2.2.2.2.2.2

/-- Fields that `bbrplus_lt_bw_interval_done` never writes. -/
theorem frame_lt_interval_done (c : Conn) (i : Input) (bw : Nat) :
    (bbrplus_lt_bw_interval_done c i bw).bbr.min_rtt_us = c.bbr.min_rtt_us ∧
    (bbrplus_lt_bw_interval_done c i bw).bbr.min_rtt_stamp = c.bbr.min_rtt_stamp ∧
    (bbrplus_lt_bw_interval_done c i bw).bbr.probe_rtt_done_stamp = c.bbr.probe_rtt_done_stamp ∧
    (bbrplus_lt_bw_interval_done c i bw).bbr.bw = c.bbr.bw ∧
    (bbrplus_lt_bw_interval_done c i bw).bbr.rtt_cnt = c.bbr.rtt_cnt ∧
    (bbrplus_lt_bw_interval_done c i bw).bbr.next_rtt_delivered = c.bbr.next_rtt_delivered ∧
    (bbrplus_lt_bw_interval_done c i bw).bbr.cycle_mstamp = c.bbr.cycle_mstamp ∧
    (bbrplus_lt_bw_interval_done c i bw).bbr.mode = c.bbr.mode ∧
    (bbrplus_lt_bw_interval_done c i bw).bbr.prev_ca_state = c.bbr.prev_ca_state ∧
    (bbrplus_lt_bw_interval_done c i bw).bbr.packet_conservation = c.bbr.packet_conservation ∧
    (bbrplus_lt_bw_interval_done c i bw).bbr.restore_cwnd = c.bbr.restore_cwnd ∧
    (bbrplus_lt_bw_interval_done c i bw).bbr.round_start = c.bbr.round_start ∧
    (bbrplus_lt_bw_interval_done c i bw).bbr.cycle_len = c.bbr.cycle_len ∧
    (bbrplus_lt_bw_interval_done c i bw).bbr.tso_segs_goal = c.bbr.tso_segs_goal ∧
    (bbrplus_lt_bw_interval_done c i bw).bbr.idle_restart = c.bbr.idle_restart ∧
    (bbrplus_lt_bw_interval_done c i bw).bbr.probe_rtt_round_done = c.bbr.probe_rtt_round_done ∧
    (bbrplus_lt_bw_interval_done c i bw).bbr.lt_is_sampling = c.bbr.lt_is_sampling ∧
    (bbrplus_lt_bw_interval_done c i bw).bbr.cwnd_gain = c.bbr.cwnd_gain ∧
    (bbrplus_lt_bw_interval_done c i bw).bbr.full_bw_cnt = c.bbr.full_bw_cnt ∧
    (bbrplus_lt_bw_interval_done c i bw).bbr.cycle_idx = c.bbr.cycle_idx ∧
    (bbrplus_lt_bw_interval_done c i bw).bbr.has_seen_rtt = c.bbr.has_seen_rtt ∧
    (bbrplus_lt_bw_interval_done c i bw).bbr.prior_cwnd = c.bbr.prior_cwnd ∧
    (bbrplus_lt_bw_interval_done c i bw).bbr.full_bw = c.bbr.full_bw ∧
    (bbrplus_lt_bw_interval_done c i bw).bbr.ack_epoch_mstamp = c.bbr.ack_epoch_mstamp ∧
    (bbrplus_lt_bw_interval_done c i bw).bbr.extra_acked0 = c.bbr.extra_acked0 ∧
    (bbrplus_lt_bw_interval_done c i bw).bbr.extra_acked1 = c.bbr.extra_acked1 ∧
    (bbrplus_lt_bw_interval_done c i bw).bbr.ack_epoch_acked = c.bbr.ack_epoch_acked ∧
    (bbrplus_lt_bw_interval_done c i bw).bbr.extra_acked_win_rtts = c.bbr.extra_acked_win_rtts ∧
    (bbrplus_lt_bw_interval_done c i bw).bbr.extra_acked_win_idx = c.bbr.extra_acked_win_idx ∧
    (bbrplus_lt_bw_interval_done c i bw).snd_cwnd = c.snd_cwnd ∧
    (bbrplus_lt_bw_interval_done c i bw).sk_pacing_rate = c.sk_pacing_rate := by
  simp only [bbrplus_lt_bw_interval_done]
  repeat' split
  all_goals simp

@[simp] theorem frame_lt_interval_done_min_rtt_us (c : Conn) (i : Input) (bw : Nat) :
    (bbrplus_lt_bw_interval_done c i bw).bbr.min_rtt_us = c.bbr.min_rtt_us :=
  (frame_lt_interval_done c i bw).1

@[simp] theorem frame_lt_interval_done_min_rtt_stamp (c : Conn) (i : Input) (bw : Nat) :
    (bbrplus_lt_bw_interval_done c i bw).bbr.min_rtt_stamp = c.bbr.min_rtt_stamp :=
  (frame_lt_interval_done c i bw).2.1

@[simp] theorem frame_lt_interval_done_probe_rtt_done_stamp (c : Conn) (i : Input) (bw : Nat) :
    (bbrplus_lt_bw_interval_done c i bw).bbr.probe_rtt_done_stamp = c.bbr.probe_rtt_done_stamp :=
  (frame_lt_interval_done c i bw).2.2.1

@[simp] theorem frame_lt_interval_done_bw (c : Conn) (i : Input) (bw : Nat) :
    (bbrplus_lt_bw_interval_done c i bw).bbr.bw = c.bbr.bw :=
  (frame_lt_interval_done c i bw).2.2.2.1

@[simp] theorem frame_lt_interval_done_rtt_cnt (c : Conn) (i : Input) (bw : Nat) :
    (bbrplus_lt_bw_interval_done c i bw).bbr.rtt_cnt = c.bbr.rtt_cnt :=
  (frame_lt_interval_done c i bw).2.2.2.2.1

@[simp] theorem frame_lt_interval_done_next_rtt_delivered (c : Conn) (i : Input) (bw : Nat) :
    (bbrplus_lt_bw_interval_done c i bw).bbr.next_rtt_delivered = c.bbr.next_rtt_delivered :=
  (frame_lt_interval_done c i bw).2.2.2.2.2.1

@[simp] theorem frame_lt_interval_done_cycle_mstamp (c : Conn) (i : Input) (bw : Nat) :
    (bbrplus_lt_bw_interval_done c i bw).bbr.cycle_mstamp = c.bbr.cycle_mstamp :=
  (frame_lt_interval_done c i bw).2.2.2.2.2.2.1

@[simp] theorem frame_lt_interval_done_mode (c : Conn) (i : Input) (bw : Nat) :
    (bbrplus_lt_bw_interval_done c i bw).bbr.mode = c.bbr.mode :=
  (frame_lt_interval_done c i bw).2.2.2.2.2.2.2.1

@[simp] theorem frame_lt_interval_done_prev_ca_state (c : Conn) (i : Input) (bw : Nat) :
    (bbrplus_lt_bw_interval_done c i bw).bbr.prev_ca_state = c.bbr.prev_ca_state :=
  (frame_lt_interval_done c i bw).2.2.2.2.2.2.2.2.1

@[simp] theorem frame_lt_interval_done_packet_conservation (c : Conn) (i : Input) (bw : Nat) :
    (bbrplus_lt_bw_interval_done c i bw).bbr.packet_conservation = c.bbr.packet_conservation :=
  (frame_lt_interval_done c i bw).2.2.2.2.2.2.2.2.2.1

@[simp] theorem frame_lt_interval_done_restore_cwnd (c : Conn) (i : Input) (bw : Nat) :
    (bbrplus_lt_bw_interval_done c i bw).bbr.restore_cwnd = c.bbr.restore_cwnd :=
  (frame_lt_interval_done c i bw).2.2.2.2.2.2.2.2.2.2.1

@[simp] theorem frame_lt_interval_done_round_start (c : Conn) (i : Input) (bw : Nat) :
    (bbrplus_lt_bw_interval_done c i bw).bbr.round_start = c.bbr.round_start :=
  (frame_lt_interval_done c i bw).2.2.2.2.2.2.2.2.2.2.2.1

@[simp] theorem frame_lt_interval_done_cycle_len (c : Conn) (i : Input) (bw : Nat) :
    (bbrplus_lt_bw_interval_done c i bw).bbr.cycle_len = c.bbr.cycle_len :=
  (frame_lt_interval_done c i bw).2.2.2.2.2.2.2.2.2.2.2.2.1

@[simp] theorem frame_lt_interval_done_tso_segs_goal (c : Conn) (i : Input) (bw : Nat) :
    (bbrplus_lt_bw_interval_done c i bw).bbr.tso_segs_goal = c.bbr.tso_segs_goal :=
  (frame_lt_interval_done c i bw).2.2.2.2.2.2.2.2.2.2.2.2.2.1

@[simp] theorem frame_lt_interval_done_idle_restart (c : Conn) (i : Input) (bw : Nat) :
    (bbrplus_lt_bw_interval_done c i bw).bbr.idle_restart = c.bbr.idle_restart :=
  (frame_lt_interval_done c i bw).2.2.2.2.2.2.2.2.2.2.2.2.2.2.1

@[simp] theorem frame_lt_interval_done_probe_rtt_round_done (c : Conn) (i : Input) (bw : Nat) :
    (bbrplus_lt_bw_interval_done c i bw).bbr.probe_rtt_round_done = c.bbr.probe_rtt_round_done :=
  (frame_lt_interval_done c i bw).2.2.2.2.2.2.2.2.2.2.2.2.2.2.2.1

@[simp] theorem frame_lt_interval_done_lt_is_sampling (c : Conn) (i : Input) (bw : Nat) :
    (bbrplus_lt_bw_interval_done c i bw).bbr.lt_is_sampling = c.bbr.lt_is_sampling :=
  (frame_lt_interval_done c i bw).2.2.2.2.2.2.2.2.2.2.2.2.2.2.2.2.1

@[simp] theorem frame_lt_interval_done_cwnd_gain (c : Conn) (i : Input) (bw : Nat) :
    (bbrplus_lt_bw_interval_done c i bw).bbr.cwnd_gain = c.bbr.cwnd_gain :=
  (frame_lt_interval_done c i bw).2.2.2.2.2.2.2.2.2.2.2.2.2.2.2.2.2.1

@[simp] theorem frame_lt_interval_done_full_bw_cnt (c : Conn) (i : Input) (bw : Nat) :
    (bbrplus_lt_bw_interval_done c i bw).bbr.full_bw_cnt = c.bbr.full_bw_cnt :=
  (frame_lt_interval_done c i bw).2.2.2.2.2.2.2.2.2.2.2.2.2.2.2.2.2.2.1

@[simp] theorem frame_lt_interval_done_cycle_idx (c : Conn) (i : Input) (bw : Nat) :
    (bbrplus_lt_bw_interval_done c i bw).bbr.cycle_idx = c.bbr.cycle_idx :=
  (frame_lt_interval_done c i bw).2.2.2.2.2.2.2.2.2.2.2.2.2.2.2.2.2.2.2.1

@[simp] theorem frame_lt_interval_done_has_seen_rtt (c : Conn) (i : Input) (bw : Nat) :
    (bbrplus_lt_bw_interval_done c i bw).bbr.has_seen_rtt = c.bbr.has_seen_rtt :=
  (frame_lt_interval_done c i bw).2.2.2.2.2.2.2.2.2.2.2.2.2.2.2.2.2.2.2.2.1

@[simp] theorem frame_lt_interval_done_prior_cwnd (c : Conn) (i : Input) (bw : Nat) :
    (bbrplus_lt_bw_interval_done c i bw).bbr.prior_cwnd = c.bbr.prior_cwnd :=
  (frame_lt_interval_done c i bw).2.2.2.2.2.2.2.2.2.2.2.2.2.2.2.2.2.2.2.2.2.1

@[simp] theorem frame_lt_interval_done_full_bw (c : Conn) (i : Input) (bw : Nat) :
    (bbrplus_lt_bw_interval_done c i bw).bbr.full_bw = c.bbr.full_bw :=
  (frame_lt_interval_done c i bw).2.2.2.2.2.2.2.2.2.2.2.2.2.2.2.2.2.2.2.2.2.2.1

@[simp] theorem frame_lt_interval_done_ack_epoch_mstamp (c : Conn) (i : Input) (bw : Nat) :
    (bbrplus_lt_bw_interval_done c i bw).bbr.ack_epoch_mstamp = c.bbr.ack_epoch_mstamp :=
  (frame_lt_interval_done c i bw).2.2.2.2.2.2.2.2.2.2.2.2.2.2.2.2.2.2.2.2.2.2.2.1

@[simp] theorem frame_lt_interval_done_extra_acked0 (c : Conn) (i : Input) (bw : Nat) :
    (bbrplus_lt_bw_interval_done c i bw).bbr.extra_acked0 = c.bbr.extra_acked0 :=
  (frame_lt_interval_done c i bw).2.2.2.2.2.2.2.2.2.2.2.2.2.2.2.2.2.2.2.2.2.2.2.2.1

@[simp] theorem frame_lt_interval_done_extra_acked1 (c : Conn) (i : Input) (bw : Nat) :
    (bbrplus_lt_bw_interval_done c i bw).bbr.extra_acked1 = c.bbr.extra_acked1 :=
  (frame_lt_interval_done c i bw).2.2.2.2.2.2.2.2.2.2.2.2.2.2.2.2.2.2.2.2.2.2.2.2.2.1

@[simp] theorem frame_lt_interval_done_ack_epoch_acked (c : Conn) (i : Input) (bw : Nat) :
    (bbrplus_lt_bw_interval_done c i bw).bbr.ack_epoch_acked = c.bbr.ack_epoch_acked :=
  (frame_lt_interval_done c i bw).2.2.2.2.2.2.2.2.2.2.2.2.2.2.2.2.2.2.2.2.2.2.2.2.2.2.1

@[simp] theorem frame_lt_interval_done_extra_acked_win_rtts (c : Conn) (i : Input) (bw : Nat) :
    (bbrplus_lt_bw_interval_done c i bw).bbr.extra_acked_win_rtts = c.bbr.extra_acked_win_rtts :=
  (frame_lt_interval_done c i bw).2.2.2.2.2.2.2.2.2.2.2.2.2.2.2.2.2.2.2.2.2.2.2.2.2.2.2.1

@[simp] theorem frame_lt_interval_done_extra_acked_win_idx (c : Conn) (i : Input) (bw : Nat) :
    (bbrplus_lt_bw_interval_done c i bw).bbr.extra_acked_win_idx = c.bbr.extra_acked_win_idx :=
  (frame_lt_interval_done c i bw).2.2.2.2.2.2.2.2.2.2.2.2.2.2.2.2.2.2.2.2.2.2.2.2.2.2.2.2.1

@[simp] theorem frame_lt_interval_done_snd_cwnd (c : Conn) (i : Input) (bw : Nat) :
    (bbrplus_lt_bw_interval_done c i bw).snd_cwnd = c.snd_cwnd :=
  (frame_lt_interval_done c i bw).2.2.2.2.2.2.2.2.2.2.2.2.2.2.2.2.2.2.2.2.2.2.2.2.2.2.2.2.2.1

@[simp] theorem frame_lt_interval_done_sk_pacing_rate (c : Conn) (i : Input) (bw : Nat) :
    (bbrplus_lt_bw_interval_done c i bw).sk_pacing_rate = c.sk_pacing_rate :=
  (frame_lt_interval_done c i bw).2.2.2.2.2.2.2.2.2.2.2.2.2.2.2.2.2.2.2.2.2.2.2.2.2.2.2.2.2.2

/-- Fields that `bbrplus_save_cwnd` never writes. -/
theorem frame_save_cwnd (c : Conn) :
    (bbrplus_save_cwnd c).bbr.min_rtt_us = c.bbr.min_rtt_us ∧
    (bbrplus_save_cwnd c).bbr.min_rtt_stamp = c.bbr.min_rtt_stamp ∧
    (bbrplus_save_cwnd c).bbr.probe_rtt_done_stamp = c.bbr.probe_rtt_done_stamp ∧
    (bbrplus_save_cwnd c).bbr.bw = c.bbr.bw ∧
    (bbrplus_save_cwnd c).bbr.rtt_cnt = c.bbr.rtt_cnt ∧
    (bbrplus_save_cwnd c).bbr.next_rtt_delivered = c.bbr.next_rtt_delivered ∧
    (bbrplus_save_cwnd c).bbr.cycle_mstamp = c.bbr.cycle_mstamp ∧
    (bbrplus_save_cwnd c).bbr.mode = c.bbr.mode ∧
    (bbrplus_save_cwnd c).bbr.prev_ca_state = c.bbr.prev_ca_state ∧
    (bbrplus_save_cwnd c).bbr.packet_conservation = c.bbr.packet_conservation ∧
    (bbrplus_save_cwnd c).bbr.restore_cwnd = c.bbr.restore_cwnd ∧
    (bbrplus_save_cwnd c).bbr.round_start = c.bbr.round_start ∧
    (bbrplus_save_cwnd c).bbr.cycle_len = c.bbr.cycle_len ∧
    (bbrplus_save_cwnd c).bbr.tso_segs_goal = c.bbr.tso_segs_goal ∧
    (bbrplus_save_cwnd c).bbr.idle_restart = c.bbr.idle_restart ∧
    (bbrplus_save_cwnd c).bbr.probe_rtt_round_done = c.bbr.probe_rtt_round_done ∧
    (bbrplus_save_cwnd c).bbr.lt_is_sampling = c.bbr.lt_is_sampling ∧
    (bbrplus_save_cwnd c).bbr.lt_rtt_cnt = c.bbr.lt_rtt_cnt ∧
    (bbrplus_save_cwnd c).bbr.lt_use_bw = c.bbr.lt_use_bw ∧
    (bbrplus_save_cwnd c).bbr.lt_bw = c.bbr.lt_bw ∧
    (bbrplus_save_cwnd c).bbr.lt_last_delivered = c.bbr.lt_last_delivered ∧
    (bbrplus_save_cwnd c).bbr.lt_last_stamp = c.bbr.lt_last_stamp ∧
    (bbrplus_save_cwnd c).bbr.lt_last_lost = c.bbr.lt_last_lost ∧
    (bbrplus_save_cwnd c).bbr.pacing_gain = c.bbr.pacing_gain ∧
    (bbrplus_save_cwnd c).bbr.cwnd_gain = c.bbr.cwnd_gain ∧
    (bbrplus_save_cwnd c).bbr.full_bw_cnt = c.bbr.full_bw_cnt ∧
    (bbrplus_save_cwnd c).bbr.cycle_idx = c.bbr.cycle_idx ∧
    (bbrplus_save_cwnd c).bbr.has_seen_rtt = c.bbr.has_seen_rtt ∧
    (bbrplus_save_cwnd c).bbr.full_bw = c.bbr.full_bw ∧
    (bbrplus_save_cwnd c).bbr.ack_epoch_mstamp = c.bbr.ack_epoch_mstamp ∧
    (bbrplus_save_cwnd c).bbr.extra_acked0 = c.bbr.extra_acked0 ∧
    (bbrplus_save_cwnd c).bbr.extra_acked1 = c.bbr.extra_acked1 ∧
    (bbrplus_save_cwnd c).bbr.ack_epoch_acked = c.bbr.ack_epoch_acked ∧
    (bbrplus_save_cwnd c).bbr.extra_acked_win_rtts = c.bbr.extra_acked_win_rtts ∧
    (bbrplus_save_cwnd c).bbr.extra_acked_win_idx = c.bbr.extra_acked_win_idx ∧
    (bbrplus_save_cwnd c).snd_cwnd = c.snd_cwnd ∧
    (bbrplus_save_cwnd c).sk_pacing_rate = c.sk_pacing_rate := by
  simp only [bbrplus_save_cwnd]
  repeat' split
  all_goals simp

@[simp] theorem frame_save_cwnd_min_rtt_us (c : Conn) :
    (bbrplus_save_cwnd c).bbr.min_rtt_us = c.bbr.min_rtt_us :=
  (frame_save_cwnd c).1

@[simp] theorem frame_save_cwnd_min_rtt_stamp (c : Conn) :
    (bbrplus_save_cwnd c).bbr.min_rtt_stamp = c.bbr.min_rtt_stamp :=
  (frame_save_cwnd c).2.1

@[simp] theorem frame_save_cwnd_probe_rtt_done_stamp (c : Conn) :
    (bbrplus_save_cwnd c).bbr.probe_rtt_done_stamp = c.bbr.probe_rtt_done_stamp :=
  (frame_save_cwnd c).2.2.1

@[simp] theorem frame_save_cwnd_bw (c : Conn) :
    (bbrplus_save_cwnd c).bbr.bw = c.bbr.bw :=
  (frame_save_cwnd c).2.2.2.1

@[simp] theorem frame_save_cwnd_rtt_cnt (c : Conn) :
    (bbrplus_save_cwnd c).bbr.rtt_cnt = c.bbr.rtt_cnt :=
  (frame_save_cwnd c).2.2.2.2.1

@[simp] theorem frame_save_cwnd_next_rtt_delivered (c : Conn) :
    (bbrplus_save_cwnd c).bbr.next_rtt_delivered = c.bbr.next_rtt_delivered :=
  (frame_save_cwnd c).2.2.2.2.2.1

@[simp] theorem frame_save_cwnd_cycle_mstamp (c : Conn) :
    (bbrplus_save_cwnd c).bbr.cycle_mstamp = c.bbr.cycle_mstamp :=
  (frame_save_cwnd c).2.2.2.2.2.2.1

@[simp] theorem frame_save_cwnd_mode (c : Conn) :
    (bbrplus_save_cwnd c).bbr.mode = c.bbr.mode :=
  (frame_save_cwnd c).2.2.2.2.2.2.2.1

@[simp] theorem frame_save_cwnd_prev_ca_state (c : Conn) :
    (bbrplus_save_cwnd c).bbr.prev_ca_state = c.bbr.prev_ca_state :=
  (frame_save_cwnd c).2.2.2.2.2.2.2.2.1

@[simp] theorem frame_save_cwnd_packet_conservation (c : Conn) :
    (bbrplus_save_cwnd c).bbr.packet_conservation = c.bbr.packet_conservation :=
  (frame_save_cwnd c).2.2.2.2.2.2.2.2.2.1

@[simp] theorem frame_save_cwnd_restore_cwnd (c : Conn) :
    (bbrplus_save_cwnd c).bbr.restore_cwnd = c.bbr.restore_cwnd :=
  (frame_save_cwnd c).2.2.2.2.2.2.2.2.2.2.1

@[simp] theorem frame_save_cwnd_round_start (c : Conn) :
    (bbrplus_save_cwnd c).bbr.round_start = c.bbr.round_start :=
  (frame_save_cwnd c).2.2.2.2.2.2.2.2.2.2.2.1

@[simp] theorem frame_save_cwnd_cycle_len (c : Conn) :
    (bbrplus_save_cwnd c).bbr.cycle_len = c.bbr.cycle_len :=
  (frame_save_cwnd c).2.2.2.2.2.2.2.2.2.2.2.2.1

@[simp] theorem frame_save_cwnd_tso_segs_goal (c : Conn) :
    (bbrplus_save_cwnd c).bbr.tso_segs_goal = c.bbr.tso_segs_goal :=
  (frame_save_cwnd c).2.2.2.2.2.2.2.2.2.2.2.2.2.1

@[simp] theorem frame_save_cwnd_idle_restart (c : Conn) :
    (bbrplus_save_cwnd c).bbr.idle_restart = c.bbr.idle_restart :=
  (frame_save_cwnd c).2.2.2.2.2.2.2.2.2.2.2.2.2.2.1

@[simp] theorem frame_save_cwnd_probe_rtt_round_done (c : Conn) :
    (bbrplus_save_cwnd c).bbr.probe_rtt_round_done = c.bbr.probe_rtt_round_done :=
  (frame_save_cwnd c).2.2.2.2.2.2.2.2.2.2.2.2.2.2.2.1

@[simp] theorem frame_save_cwnd_lt_is_sampling (c : Conn) :
    (bbrplus_save_cwnd c).bbr.lt_is_sampling = c.bbr.lt_is_sampling :=
  (frame_save_cwnd c).2.2.2.2.2.2.2.2.2.2.2.2.2.2.2.2.1

@[simp] theorem frame_save_cwnd_lt_rtt_cnt (c : Conn) :
    (bbrplus_save_cwnd c).bbr.lt_rtt_cnt = c.bbr.lt_rtt_cnt :=
  (frame_save_cwnd c).2.2.2.2.2.2.2.2.2.2.2.2.2.2.2.2.2.1

@[simp] theorem frame_save_cwnd_lt_use_bw (c : Conn) :
    (bbrplus_save_cwnd c).bbr.lt_use_bw = c.bbr.lt_use_bw :=
  (frame_save_cwnd c).2.2.2.2.2.2.2.2.2.2.2.2.2.2.2.2.2.2.1

@[simp] theorem frame_save_cwnd_lt_bw (c : Conn) :
    (bbrplus_save_cwnd c).bbr.lt_bw = c.bbr.lt_bw :=
  (frame_save_cwnd c).2.2.2.2.2.2.2.2.2.2.2.2.2.2.2.2.2.2.2.1

@[simp] theorem frame_save_cwnd_lt_last_delivered (c : Conn) :
    (bbrplus_save_cwnd c).bbr.lt_last_delivered = c.bbr.lt_last_delivered :=
  (frame_save_cwnd c).2.2.2.2.2.2.2.2.2.2.2.2.2.2.2.2.2.2.2.2.1

@[simp] theorem frame_save_cwnd_lt_last_stamp (c : Conn) :
    (bbrplus_save_cwnd c).bbr.lt_last_stamp = c.bbr.lt_last_stamp :=
  (frame_save_cwnd c).2.2.2.2.2.2.2.2.2.2.2.2.2.2.2.2.2.2.2.2.2.1

@[simp] theorem frame_save_cwnd_lt_last_lost (c : Conn) :
    (bbrplus_save_cwnd c).bbr.lt_last_lost = c.bbr.lt_last_lost :=
  (frame_save_cwnd c).2.2.2.2.2.2.2.2.2.2.2.2.2.2.2.2.2.2.2.2.2.2.1

@[simp] theorem frame_save_cwnd_pacing_gain (c : Conn) :
    (bbrplus_save_cwnd c).bbr.pacing_gain = c.bbr.pacing_gain :=
  (frame_save_cwnd c).2.2.2.2.2.2.2.2.2.2.2.2.2.2.2.2.2.2.2.2.2.2.2.1

@[simp] theorem frame_save_cwnd_cwnd_gain (c : Conn) :
    (bbrplus_save_cwnd c).bbr.cwnd_gain = c.bbr.cwnd_gain :=
  (frame_save_cwnd c).2.2.2.2.2.2.2.2.2.2.2.2.2.2.2.2.2.2.2.2.2.2.2.2.1

@[simp] theorem frame_save_cwnd_full_bw_cnt (c : Conn) :
    (bbrplus_save_cwnd c).bbr.full_bw_cnt = c.bbr.full_bw_cnt :=
  (frame_save_cwnd c).2.2.2.2.2.2.2.2.2.2.2.2.2.2.2.2.2.2.2.2.2.2.2.2.2.1

@[simp] theorem frame_save_cwnd_cycle_idx (c : Conn) :
    (bbrplus_save_cwnd c).bbr.cycle_idx = c.bbr.cycle_idx :=
  (frame_save_cwnd c).2.2.2.2.2.2.2.2.2.2.2.2.2.2.2.2.2.2.2.2.2.2.2.2.2.2.1

@[simp] theorem frame_save_cwnd_has_seen_rtt (c : Conn) :
    (bbrplus_save_cwnd c).bbr.has_seen_rtt = c.bbr.has_seen_rtt :=
  (frame_save_cwnd c).2.2.2.2.2.2.2.2.2.2.2.2.2.2.2.2.2.2.2.2.2.2.2.2.2.2.2.1

@[simp] theorem frame_save_cwnd_full_bw (c : Conn) :
    (bbrplus_save_cwnd c).bbr.full_bw = c.bbr.full_bw :=
  (frame_save_cwnd c).2.2.2.2.2.2.2.2.2.2.2.2.2.2.2.2.2.2.2.2.2.2.2.2.2.2.2.2.1

@[simp] theorem frame_save_cwnd_ack_epoch_mstamp (c : Conn) :
    (bbrplus_save_cwnd c).bbr.ack_epoch_mstamp = c.bbr.ack_epoch_mstamp :=
  (frame_save_cwnd c).2.2.2.2.2.2.2.2.2.2.2.2.2.2.2.2.2.2.2.2.2.2.2.2.2.2.2.2.2.1

@[simp] theorem frame_save_cwnd_extra_acked0 (c : Conn) :
    (bbrplus_save_cwnd c).bbr.extra_acked0 = c.bbr.extra_acked0 :=
  (frame_save_cwnd c).2.2.2.2.2.2.2.2.2.2.2.2.2.2.2.2.2.2.2.2.2.2.2.2.2.2.2.2.2.2.1

@[simp] theorem frame_save_cwnd_extra_acked1 (c : Conn) :
    (bbrplus_save_cwnd c).bbr.extra_acked1 = c.bbr.extra_acked1 :=
  (frame_save_cwnd c).2.2.2.2.2.2.2.2.2.2.2.2.2.2.2.2.2.2.2.2.2.2.2.2.2.2.2.2.2.2.2.1

@[simp] theorem frame_save_cwnd_ack_epoch_acked (c : Conn) :
    (bbrplus_save_cwnd c).bbr.ack_epoch_acked = c.bbr.ack_epoch_acked :=
  (frame_save_cwnd c).2.2.2.2.2.2.2.2.2.2.2.2.2.2.2.2.2.2.2.2.2.2.2.2.2.2.2.2.2.2.2.2.1

@[simp] theorem frame_save_cwnd_extra_acked_win_rtts (c : Conn) :
    (bbrplus_save_cwnd c).bbr.extra_acked_win_rtts = c.bbr.extra_acked_win_rtts :=
  (frame_save_cwnd c).2.2.2.2.2.2.2.2.2.2.2.2.2.2.2.2.2.2.2.2.2.2.2.2.2.2.2.2.2.2.2.2.2.1

@[simp] theorem frame_save_cwnd_extra_acked_win_idx (c : Conn) :
    (bbrplus_save_cwnd c).bbr.extra_acked_win_idx = c.bbr.extra_acked_win_idx :=
  (frame_save_cwnd c).2.2.2.2.2.2.2.2.2.2.2.2.2.2.2.2.2.2.2.2.2.2.2.2.2.2.2.2.2.2.2.2.2.2.1

@[simp] theorem frame_save_cwnd_snd_cwnd (c : Conn) :
    (bbrplus_save_cwnd c).snd_cwnd = c.snd_cwnd :=
  (frame_save_cwnd c).2.2.2.2.2.2.2.2.2.2.2.2.2.2.2.2.2.2.2.2.2.2.2.2.2.2.2.2.2.2.2.2.2.2.2.1

@[simp] theorem frame_save_cwnd_sk_pacing_rate (c : Conn) :
    (bbrplus_save_cwnd c).sk_pacing_rate = c.sk_pacing_rate :=
  (frame_save_cwnd c).2.2.2.2.2.2.2.2.2.2.2.2.2.2.2.2.2.2.2.2.2.2.2.2.2.2.2.2.2.2.2.2.2.2.2.2

/-- Fields that `bbrplus_init_pacing_rate_from_rtt` never writes. -/
theorem frame_init_pacing (c : Conn) (i : Input) :
    (bbrplus_init_pacing_rate_from_rtt c i).bbr.min_rtt_us = c.bbr.min_rtt_us ∧
    (bbrplus_init_pacing_rate_from_rtt c i).bbr.min_rtt_stamp = c.bbr.min_rtt_stamp ∧
    (bbrplus_init_pacing_rate_from_rtt c i).bbr.probe_rtt_done_stamp = c.bbr.probe_rtt_done_stamp ∧
    (bbrplus_init_pacing_rate_from_rtt c i).bbr.bw = c.bbr.bw ∧
    (bbrplus_init_pacing_rate_from_rtt c i).bbr.rtt_cnt = c.bbr.rtt_cnt ∧
    (bbrplus_init_pacing_rate_from_rtt c i).bbr.next_rtt_delivered = c.bbr.next_rtt_delivered ∧
    (bbrplus_init_pacing_rate_from_rtt c i).bbr.cycle_mstamp = c.bbr.cycle_mstamp ∧
    (bbrplus_init_pacing_rate_from_rtt c i).bbr.mode = c.bbr.mode ∧
    (bbrplus_init_pacing_rate_from_rtt c i).bbr.prev_ca_state = c.bbr.prev_ca_state ∧
    (bbrplus_init_pacing_rate_from_rtt c i).bbr.packet_conservation = c.bbr.packet_conservation ∧
    (bbrplus_init_pacing_rate_from_rtt c i).bbr.restore_cwnd = c.bbr.restore_cwnd ∧
    (bbrplus_init_pacing_rate_from_rtt c i).bbr.round_start = c.bbr.round_start ∧
    (bbrplus_init_pacing_rate_from_rtt c i).bbr.cycle_len = c.bbr.cycle_len ∧
    (bbrplus_init_pacing_rate_from_rtt c i).bbr.tso_segs_goal = c.bbr.tso_segs_goal ∧
    (bbrplus_init_pacing_rate_from_rtt c i).bbr.idle_restart = c.bbr.idle_restart ∧
    (bbrplus_init_pacing_rate_from_rtt c i).bbr.probe_rtt_round_done = c.bbr.probe_rtt_round_done ∧
    (bbrplus_init_pacing_rate_from_rtt c i).bbr.lt_is_sampling = c.bbr.lt_is_sampling ∧
    (bbrplus_init_pacing_rate_from_rtt c i).bbr.lt_rtt_cnt = c.bbr.lt_rtt_cnt ∧
    (bbrplus_init_pacing_rate_from_rtt c i).bbr.lt_use_bw = c.bbr.lt_use_bw ∧
    (bbrplus_init_pacing_rate_from_rtt c i).bbr.lt_bw = c.bbr.lt_bw ∧
    (bbrplus_init_pacing_rate_from_rtt c i).bbr.lt_last_delivered = c.bbr.lt_last_delivered ∧
    (bbrplus_init_pacing_rate_from_rtt c i).bbr.lt_last_stamp = c.bbr.lt_last_stamp ∧
    (bbrplus_init_pacing_rate_from_rtt c i).bbr.lt_last_lost = c.bbr.lt_last_lost ∧
    (bbrplus_init_pacing_rate_from_rtt c i).bbr.pacing_gain = c.bbr.pacing_gain ∧
    (bbrplus_init_pacing_rate_from_rtt c i).bbr.cwnd_gain = c.bbr.cwnd_gain ∧
    (bbrplus_init_pacing_rate_from_rtt c i).bbr.full_bw_cnt = c.bbr.full_bw_cnt ∧
    (bbrplus_init_pacing_rate_from_rtt c i).bbr.cycle_idx = c.bbr.cycle_idx ∧
    (bbrplus_init_pacing_rate_from_rtt c i).bbr.prior_cwnd = c.bbr.prior_cwnd ∧
    (bbrplus_init_pacing_rate_from_rtt c i).bbr.full_bw = c.bbr.full_bw ∧
    (bbrplus_init_pacing_rate_from_rtt c i).bbr.ack_epoch_mstamp = c.bbr.ack_epoch_mstamp ∧
    (bbrplus_init_pacing_rate_from_rtt c i).bbr.extra_acked0 = c.bbr.extra_acked0 ∧
    (bbrplus_init_pacing_rate_from_rtt c i).bbr.extra_acked1 = c.bbr.extra_acked1 ∧
    (bbrplus_init_pacing_rate_from_rtt c i).bbr.ack_epoch_acked = c.bbr.ack_epoch_acked ∧
    (bbrplus_init_pacing_rate_from_rtt c i).bbr.extra_acked_win_rtts = c.bbr.extra_acked_win_rtts ∧
    (bbrplus_init_pacing_rate_from_rtt c i).bbr.extra_acked_win_idx = c.bbr.extra_acked_win_idx ∧
    (bbrplus_init_pacing_rate_from_rtt c i).snd_cwnd = c.snd_cwnd := by
  simp only [bbrplus_init_pacing_rate_from_rtt]
  repeat' split
  all_goals simp

@[simp] theorem frame_init_pacing_min_rtt_us (c : Conn) (i : Input) :
    (bbrplus_init_pacing_rate_from_rtt c i).bbr.min_rtt_us = c.bbr.min_rtt_us :=
  (frame_init_pacing c i).1

@[simp] theorem frame_init_pacing_min_rtt_stamp (c : Conn) (i : Input) :
    (bbrplus_init_pacing_rate_from_rtt c i).bbr.min_rtt_stamp = c.bbr.min_rtt_stamp :=
  (frame_init_pacing c i).2.1

@[simp] theorem frame_init_pacing_probe_rtt_done_stamp (c : Conn) (i : Input) :
    (bbrplus_init_pacing_rate_from_rtt c i).bbr.probe_rtt_done_stamp = c.bbr.probe_rtt_done_stamp :=
  (frame_init_pacing c i).2.2.1

@[simp] theorem frame_init_pacing_bw (c : Conn) (i : Input) :
    (bbrplus_init_pacing_rate_from_rtt c i).bbr.bw = c.bbr.bw :=
  (frame_init_pacing c i).2.2.2.1

@[simp] theorem frame_init_pacing_rtt_cnt (c : Conn) (i : Input) :
    (bbrplus_init_pacing_rate_from_rtt c i).bbr.rtt_cnt = c.bbr.rtt_cnt :=
  (frame_init_pacing c i).2.2.2.2.1

@[simp] theorem frame_init_pacing_next_rtt_delivered (c : Conn) (i : Input) :
    (bbrplus_init_pacing_rate_from_rtt c i).bbr.next_rtt_delivered = c.bbr.next_rtt_delivered :=
  (frame_init_pacing c i).2.2.2.2.2.1

@[simp] theorem frame_init_pacing_cycle_mstamp (c : Conn) (i : Input) :
    (bbrplus_init_pacing_rate_from_rtt c i).bbr.cycle_mstamp = c.bbr.cycle_mstamp :=
  (frame_init_pacing c i).2.2.2.2.2.2.1

@[simp] theorem frame_init_pacing_mode (c : Conn) (i : Input) :
    (bbrplus_init_pacing_rate_from_rtt c i).bbr.mode = c.bbr.mode :=
  (frame_init_pacing c i).2.2.2.2.2.2.2.1

@[simp] theorem frame_init_pacing_prev_ca_state (c : Conn) (i : Input) :
    (bbrplus_init_pacing_rate_from_rtt c i).bbr.prev_ca_state = c.bbr.prev_ca_state :=
  (frame_init_pacing c i).2.2.2.2.2.2.2.2.1

@[simp] theorem frame_init_pacing_packet_conservation (c : Conn) (i : Input) :
    (bbrplus_init_pacing_rate_from_rtt c i).bbr.packet_conservation = c.bbr.packet_conservation :=
  (frame_init_pacing c i).2.2.2.2.2.2.2.2.2.1

@[simp] theorem frame_init_pacing_restore_cwnd (c : Conn) (i : Input) :
    (bbrplus_init_pacing_rate_from_rtt c i).bbr.restore_cwnd = c.bbr.restore_cwnd :=
  (frame_init_pacing c i).2.2.2.2.2.2.2.2.2.2.1

@[simp] theorem frame_init_pacing_round_start (c : Conn) (i : Input) :
    (bbrplus_init_pacing_rate_from_rtt c i).bbr.round_start = c.bbr.round_start :=
  (frame_init_pacing c i).2.2.2.2.2.2.2.2.2.2.2.1

@[simp] theorem frame_init_pacing_cycle_len (c : Conn) (i : Input) :
    (bbrplus_init_pacing_rate_from_rtt c i).bbr.cycle_len = c.bbr.cycle_len :=
  (frame_init_pacing c i).2.2.2.2.2.2.2.2.2.2.2.2.1

@[simp] theorem frame_init_pacing_tso_segs_goal (c : Conn) (i : Input) :
    (bbrplus_init_pacing_rate_from_rtt c i).bbr.tso_segs_goal = c.bbr.tso_segs_goal :=
  (frame_init_pacing c i).2.2.2.2.2.2.2.2.2.2.2.2.2.1

@[simp] theorem frame_init_pacing_idle_restart (c : Conn) (i : Input) :
    (bbrplus_init_pacing_rate_from_rtt c i).bbr.idle_restart = c.bbr.idle_restart :=
  (frame_init_pacing c i).2.2.2.2.2.2.2.2.2.2.2.2.2.2.1

@[simp] theorem frame_init_pacing_probe_rtt_round_done (c : Conn) (i : Input) :
    (bbrplus_init_pacing_rate_from_rtt c i).bbr.probe_rtt_round_done = c.bbr.probe_rtt_round_done :=
  (frame_init_pacing c i).2.2.2.2.2.2.2.2.2.2.2.2.2.2.2.1

@[simp] theorem frame_init_pacing_lt_is_sampling (c : Conn) (i : Input) :
    (bbrplus_init_pacing_rate_from_rtt c i).bbr.lt_is_sampling = c.bbr.lt_is_sampling :=
  (frame_init_pacing c i).2.2.2.2.2.2.2.2.2.2.2.2.2.2.2.2.1

@[simp] theorem frame_init_pacing_lt_rtt_cnt (c : Conn) (i : Input) :
    (bbrplus_init_pacing_rate_from_rtt c i).bbr.lt_rtt_cnt = c.bbr.lt_rtt_cnt :=
  (frame_init_pacing c i).2.2.2.2.2.2.2.2.2.2.2.2.2.2.2.2.2.1

@[simp] theorem frame_init_pacing_lt_use_bw (c : Conn) (i : Input) :
    (bbrplus_init_pacing_rate_from_rtt c i).bbr.lt_use_bw = c.bbr.lt_use_bw :=
  (frame_init_pacing c i).2.2.2.2.2.2.2.2.2.2.2.2.2.2.2.2.2.2.1

@[simp] theorem frame_init_pacing_lt_bw (c : Conn) (i : Input) :
    (bbrplus_init_pacing_rate_from_rtt c i).bbr.lt_bw = c.bbr.lt_bw :=
  (frame_init_pacing c i).2.2.2.2.2.2.2.2.2.2.2.2.2.2.2.2.2.2.2.1

@[simp] theorem frame_init_pacing_lt_last_delivered (c : Conn) (i : Input) :
    (bbrplus_init_pacing_rate_from_rtt c i).bbr.lt_last_delivered = c.bbr.lt_last_delivered :=
  (frame_init_pacing c i).2.2.2.2.2.2.2.2.2.2.2.2.2.2.2.2.2.2.2.2.1

@[simp] theorem frame_init_pacing_lt_last_stamp (c : Conn) (i : Input) :
    (bbrplus_init_pacing_rate_from_rtt c i).bbr.lt_last_stamp = c.bbr.lt_last_stamp :=
  (frame_init_pacing c i).2.2.2.2.2.2.2.2.2.2.2.2.2.2.2.2.2.2.2.2.2.1

@[simp] theorem frame_init_pacing_lt_last_lost (c : Conn) (i : Input) :
    (bbrplus_init_pacing_rate_from_rtt c i).bbr.lt_last_lost = c.bbr.lt_last_lost :=
  (frame_init_pacing c i).2.2.2.2.2.2.2.2.2.2.2.2.2.2.2.2.2.2.2.2.2.2.1

@[simp] theorem frame_init_pacing_pacing_gain (c : Conn) (i : Input) :
    (bbrplus_init_pacing_rate_from_rtt c i).bbr.pacing_gain = c.bbr.pacing_gain :=
  (frame_init_pacing c i).2.2.2.2.2.2.2.2.2.2.2.2.2.2.2.2.2.2.2.2.2.2.2.1

@[simp] theorem frame_init_pacing_cwnd_gain (c : Conn) (i : Input) :
    (bbrplus_init_pacing_rate_from_rtt c i).bbr.cwnd_gain = c.bbr.cwnd_gain :=
  (frame_init_pacing c i).2.2.2.2.2.2.2.2.2.2.2.2.2.2.2.2.2.2.2.2.2.2.2.2.1

@[simp] theorem frame_init_pacing_full_bw_cnt (c : Conn) (i : Input) :
    (bbrplus_init_pacing_rate_from_rtt c i).bbr.full_bw_cnt = c.bbr.full_bw_cnt :=
  (frame_init_pacing c i).2.2.2.2.2.2.2.2.2.2.2.2.2.2.2.2.2.2.2.2.2.2.2.2.2.1

@[simp] theorem frame_init_pacing_cycle_idx (c : Conn) (i : Input) :
    (bbrplus_init_pacing_rate_from_rtt c i).bbr.cycle_idx = c.bbr.cycle_idx :=
  (frame_init_pacing c i).2.2.2.2.2.2.2.2.2.2.2.2.2.2.2.2.2.2.2.2.2.2.2.2.2.2.1

@[simp] theorem frame_init_pacing_prior_cwnd (c : Conn) (i : Input) :
    (bbrplus_init_pacing_rate_from_rtt c i).bbr.prior_cwnd = c.bbr.prior_cwnd :=
  (frame_init_pacing c i).2.2.2.2.2.2.2.2.2.2.2.2.2.2.2.2.2.2.2.2.2.2.2.2.2.2.2.1

@[simp] theorem frame_init_pacing_full_bw (c : Conn) (i : Input) :
    (bbrplus_init_pacing_rate_from_rtt c i).bbr.full_bw = c.bbr.full_bw :=
  (frame_init_pacing c i).2.2.2.2.2.2.2.2.2.2.2.2.2.2.2.2.2.2.2.2.2.2.2.2.2.2.2.2.1

@[simp] theorem frame_init_pacing_ack_epoch_mstamp (c : Conn) (i : Input) :
    (bbrplus_init_pacing_rate_from_rtt c i).bbr.ack_epoch_mstamp = c.bbr.ack_epoch_mstamp :=
  (frame_init_pacing c i).2.2.2.2.2.2.2.2.2.2.2.2.2.2.2.2.2.2.2.2.2.2.2.2.2.2.2.2.2.1

@[simp] theorem frame_init_pacing_extra_acked0 (c : Conn) (i : Input) :
    (bbrplus_init_pacing_rate_from_rtt c i).bbr.extra_acked0 = c.bbr.extra_acked0 :=
  (frame_init_pacing c i).2.2.2.2.2.2.2.2.2.2.2.2.2.2.2.2.2.2.2.2.2.2.2.2.2.2.2.2.2.2.1

@[simp] theorem frame_init_pacing_extra_acked1 (c : Conn) (i : Input) :
    (bbrplus_init_pacing_rate_from_rtt c i).bbr.extra_acked1 = c.bbr.extra_acked1 :=
  (frame_init_pacing c i).2.2.2.2.2.2.2.2.2.2.2.2.2.2.2.2.2.2.2.2.2.2.2.2.2.2.2.2.2.2.2.1

@[simp] theorem frame_init_pacing_ack_epoch_acked (c : Conn) (i : Input) :
    (bbrplus_init_pacing_rate_from_rtt c i).bbr.ack_epoch_acked = c.bbr.ack_epoch_acked :=
  (frame_init_pacing c i).2.2.2.2.2.2.2.2.2.2.2.2.2.2.2.2.2.2.2.2.2.2.2.2.2.2.2.2.2.2.2.2.1

@[simp] theorem frame_init_pacing_extra_acked_win_rtts (c : Conn) (i : Input) :
    (bbrplus_init_pacing_rate_from_rtt c i).bbr.extra_acked_win_rtts = c.bbr.extra_acked_win_rtts :=
  (frame_init_pacing c i).2.2.2.2.2.2.2.2.2.2.2.2.2.2.2.2.2.2.2.2.2.2.2.2.2.2.2.2.2.2.2.2.2.1

@[simp] theorem frame_init_pacing_extra_acked_win_idx (c : Conn) (i : Input) :
    (bbrplus_init_pacing_rate_from_rtt c i).bbr.extra_acked_win_idx = c.bbr.extra_acked_win_idx :=
  (frame_init_pacing c i).2.2.2.2.2.2.2.2.2.2.2.2.2.2.2.2.2.2.2.2.2.2.2.2.2.2.2.2.2.2.2.2.2.2.1

@[simp] theorem frame_init_pacing_snd_cwnd (c : Conn) (i : Input) :
    (bbrplus_init_pacing_rate_from_rtt c i).snd_cwnd = c.snd_cwnd :=
  (frame_init_pacing c i).2.2.2.2.2.2.2.2.2.2.2.2.2.2.2.2.2.2.2.2.2.2.2.2.2.2.2.2.2.2.2.2.2.2.2

/-- Fields that `bbrplus_lt_interval_finish` never writes. -/
theorem frame_lt_interval_finish (c : Conn) (i : Input) :
    (bbrplus_lt_interval_finish c i).bbr.min_rtt_us = c.bbr.min_rtt_us ∧
    (bbrplus_lt_interval_finish c i).bbr.min_rtt_stamp = c.bbr.min_rtt_stamp ∧
    (bbrplus_lt_interval_finish c i).bbr.probe_rtt_done_stamp = c.bbr.probe_rtt_done_stamp ∧
    (bbrplus_lt_interval_finish c i).bbr.bw = c.bbr.bw ∧
    (bbrplus_lt_interval_finish c i).bbr.rtt_cnt = c.bbr.rtt_cnt ∧
    (bbrplus_lt_interval_finish c i).bbr.next_rtt_delivered = c.bbr.next_rtt_delivered ∧
    (bbrplus_lt_interval_finish c i).bbr.cycle_mstamp = c.bbr.cycle_mstamp ∧
    (bbrplus_lt_interval_finish c i).bbr.mode = c.bbr.mode ∧
    (bbrplus_lt_interval_finish c i).bbr.prev_ca_state = c.bbr.prev_ca_state ∧
    (bbrplus_lt_interval_finish c i).bbr.packet_conservation = c.bbr.packet_conservation ∧
    (bbrplus_lt_interval_finish c i).bbr.restore_cwnd = c.bbr.restore_cwnd ∧
    (bbrplus_lt_interval_finish c i).bbr.round_start = c.bbr.round_start ∧
    (bbrplus_lt_interval_finish c i).bbr.cycle_len = c.bbr.cycle_len ∧
    (bbrplus_lt_interval_finish c i).bbr.tso_segs_goal = c.bbr.tso_segs_goal ∧
    (bbrplus_lt_interval_finish c i).bbr.idle_restart = c.bbr.idle_restart ∧
    (bbrplus_lt_interval_finish c i).bbr.probe_rtt_round_done = c.bbr.probe_rtt_round_done ∧
    (bbrplus_lt_interval_finish c i).bbr.cwnd_gain = c.bbr.cwnd_gain ∧
    (bbrplus_lt_interval_finish c i).bbr.full_bw_cnt = c.bbr.full_bw_cnt ∧
    (bbrplus_lt_interval_finish c i).bbr.cycle_idx = c.bbr.cycle_idx ∧
    (bbrplus_lt_interval_finish c i).bbr.has_seen_rtt = c.bbr.has_seen_rtt ∧
    (bbrplus_lt_interval_finish c i).bbr.prior_cwnd = c.bbr.prior_cwnd ∧
    (bbrplus_lt_interval_finish c i).bbr.full_bw = c.bbr.full_bw ∧
    (bbrplus_lt_interval_finish c i).bbr.ack_epoch_mstamp = c.bbr.ack_epoch_mstamp ∧
    (bbrplus_lt_interval_finish c i).bbr.extra_acked0 = c.bbr.extra_acked0 ∧
    (bbrplus_lt_interval_finish c i).bbr.extra_acked1 = c.bbr.extra_acked1 ∧
    (bbrplus_lt_interval_finish c i).bbr.ack_epoch_acked = c.bbr.ack_epoch_acked ∧
    (bbrplus_lt_interval_finish c i).bbr.extra_acked_win_rtts = c.bbr.extra_acked_win_rtts ∧
    (bbrplus_lt_interval_finish c i).bbr.extra_acked_win_idx = c.bbr.extra_acked_win_idx ∧
    (bbrplus_lt_interval_finish c i).snd_cwnd = c.snd_cwnd ∧
    (bbrplus_lt_interval_finish c i).sk_pacing_rate = c.sk_pacing_rate := by
  simp only [bbrplus_lt_interval_finish]
  repeat' split
  all_goals simp

@[simp] theorem frame_lt_interval_finish_min_rtt_us (c : Conn) (i : Input) :
    (bbrplus_lt_interval_finish c i).bbr.min_rtt_us = c.bbr.min_rtt_us :=
  (frame_lt_interval_finish c i).1

@[simp] theorem frame_lt_interval_finish_min_rtt_stamp (c : Conn) (i : Input) :
    (bbrplus_lt_interval_finish c i).bbr.min_rtt_stamp = c.bbr.min_rtt_stamp :=
  (frame_lt_interval_finish c i).2.1

@[simp] theorem frame_lt_interval_finish_probe_rtt_done_stamp (c : Conn) (i : Input) :
    (bbrplus_lt_interval_finish c i).bbr.probe_rtt_done_stamp = c.bbr.probe_rtt_done_stamp :=
  (frame_lt_interval_finish c i).2.2.1

@[simp] theorem frame_lt_interval_finish_bw (c : Conn) (i : Input) :
    (bbrplus_lt_interval_finish c i).bbr.bw = c.bbr.bw :=
  (frame_lt_interval_finish c i).2.2.2.1

@[simp] theorem frame_lt_interval_finish_rtt_cnt (c : Conn) (i : Input) :
    (bbrplus_lt_interval_finish c i).bbr.rtt_cnt = c.bbr.rtt_cnt :=
  (frame_lt_interval_finish c i).2.2.2.2.1

@[simp] theorem frame_lt_interval_finish_next_rtt_delivered (c : Conn) (i : Input) :
    (bbrplus_lt_interval_finish c i).bbr.next_rtt_delivered = c.bbr.next_rtt_delivered :=
  (frame_lt_interval_finish c i).2.2.2.2.2.1

@[simp] theorem frame_lt_interval_finish_cycle_mstamp (c : Conn) (i : Input) :
    (bbrplus_lt_interval_finish c i).bbr.cycle_mstamp = c.bbr.cycle_mstamp :=
  (frame_lt_interval_finish c i).2.2.2.2.2.2.1

@[simp] theorem frame_lt_interval_finish_mode (c : Conn) (i : Input) :
    (bbrplus_lt_interval_finish c i).bbr.mode = c.bbr.mode :=
  (frame_lt_interval_finish c i).2.2.2.2.2.2.2.1

@[simp] theorem frame_lt_interval_finish_prev_ca_state (c : Conn) (i : Input) :
    (bbrplus_lt_interval_finish c i).bbr.prev_ca_state = c.bbr.prev_ca_state :=
  (frame_lt_interval_finish c i).2.2.2.2.2.2.2.2.1

@[simp] theorem frame_lt_interval_finish_packet_conservation (c : Conn) (i : Input) :
    (bbrplus_lt_interval_finish c i).bbr.packet_conservation = c.bbr.packet_conservation :=
  (frame_lt_interval_finish c i).2.2.2.2.2.2.2.2.2.1

@[simp] theorem frame_lt_interval_finish_restore_cwnd (c : Conn) (i : Input) :
    (bbrplus_lt_interval_finish c i).bbr.restore_cwnd = c.bbr.restore_cwnd :=
  (frame_lt_interval_finish c i).2.2.2.2.2.2.2.2.2.2.1

@[simp] theorem frame_lt_interval_finish_round_start (c : Conn) (i : Input) :
    (bbrplus_lt_interval_finish c i).bbr.round_start = c.bbr.round_start :=
  (frame_lt_interval_finish c i).2.2.2.2.2.2.2.2.2.2.2.1

@[simp] theorem frame_lt_interval_finish_cycle_len (c : Conn) (i : Input) :
    (bbrplus_lt_interval_finish c i).bbr.cycle_len = c.bbr.cycle_len :=
  (frame_lt_interval_finish c i).2.2.2.2.2.2.2.2.2.2.2.2.1

@[simp] theorem frame_lt_interval_finish_tso_segs_goal (c : Conn) (i : Input) :
    (bbrplus_lt_interval_finish c i).bbr.tso_segs_goal = c.bbr.tso_segs_goal :=
  (frame_lt_interval_finish c i).2.2.2.2.2.2.2.2.2.2.2.2.2.1

@[simp] theorem frame_lt_interval_finish_idle_restart (c : Conn) (i : Input) :
    (bbrplus_lt_interval_finish c i).bbr.idle_restart = c.bbr.idle_restart :=
  (frame_lt_interval_finish c i).2.2.2.2.2.2.2.2.2.2.2.2.2.2.1

@[simp] theorem frame_lt_interval_finish_probe_rtt_round_done (c : Conn) (i : Input) :
    (bbrplus_lt_interval_finish c i).bbr.probe_rtt_round_done = c.bbr.probe_rtt_round_done :=
  (frame_lt_interval_finish c i).2.2.2.2.2.2.2.2.2.2.2.2.2.2.2.1

@[simp] theorem frame_lt_interval_finish_cwnd_gain (c : Conn) (i : Input) :
    (bbrplus_lt_interval_finish c i).bbr.cwnd_gain = c.bbr.cwnd_gain :=
  (frame_lt_interval_finish c i).2.2.2.2.2.2.2.2.2.2.2.2.2.2.2.2.1

@[simp] theorem frame_lt_interval_finish_full_bw_cnt (c : Conn) (i : Input) :
    (bbrplus_lt_interval_finish c i).bbr.full_bw_cnt = c.bbr.full_bw_cnt :=
  (frame_lt_interval_finish c i).2.2.2.2.2.2.2.2.2.2.2.2.2.2.2.2.2.1

@[simp] theorem frame_lt_interval_finish_cycle_idx (c : Conn) (i : Input) :
    (bbrplus_lt_interval_finish c i).bbr.cycle_idx = c.bbr.cycle_idx :=
  (frame_lt_interval_finish c i).2.2.2.2.2.2.2.2.2.2.2.2.2.2.2.2.2.2.1

@[simp] theorem frame_lt_interval_finish_has_seen_rtt (c : Conn) (i : Input) :
    (bbrplus_lt_interval_finish c i).bbr.has_seen_rtt = c.bbr.has_seen_rtt :=
  (frame_lt_interval_finish c i).2.2.2.2.2.2.2.2.2.2.2.2.2.2.2.2.2.2.2.1

@[simp] theorem frame_lt_interval_finish_prior_cwnd (c : Conn) (i : Input) :
    (bbrplus_lt_interval_finish c i).bbr.prior_cwnd = c.bbr.prior_cwnd :=
  (frame_lt_interval_finish c i).2.2.2.2.2.2.2.2.2.2.2.2.2.2.2.2.2.2.2.2.1

@[simp] theorem frame_lt_interval_finish_full_bw (c : Conn) (i : Input) :
    (bbrplus_lt_interval_finish c i).bbr.full_bw = c.bbr.full_bw :=
  (frame_lt_interval_finish c i).2.2.2.2.2.2.2.2.2.2.2.2.2.2.2.2.2.2.2.2.2.1

@[simp] theorem frame_lt_interval_finish_ack_epoch_mstamp (c : Conn) (i : Input) :
    (bbrplus_lt_interval_finish c i).bbr.ack_epoch_mstamp = c.bbr.ack_epoch_mstamp :=
  (frame_lt_interval_finish c i).2.2.2.2.2.2.2.2.2.2.2.2.2.2.2.2.2.2.2.2.2.2.1

@[simp] theorem frame_lt_interval_finish_extra_acked0 (c : Conn) (i : Input) :
    (bbrplus_lt_interval_finish c i).bbr.extra_acked0 = c.bbr.extra_acked0 :=
  (frame_lt_interval_finish c i).2.2.2.2.2.2.2.2.2.2.2.2.2.2.2.2.2.2.2.2.2.2.2.1

@[simp] theorem frame_lt_interval_finish_extra_acked1 (c : Conn) (i : Input) :
    (bbrplus_lt_interval_finish c i).bbr.extra_acked1 = c.bbr.extra_acked1 :=
  (frame_lt_interval_finish c i).2.2.2.2.2.2.2.2.2.2.2.2.2.2.2.2.2.2.2.2.2.2.2.2.1

@[simp] theorem frame_lt_interval_finish_ack_epoch_acked (c : Conn) (i : Input) :
    (bbrplus_lt_interval_finish c i).bbr.ack_epoch_acked = c.bbr.ack_epoch_acked :=
  (frame_lt_interval_finish c i).2.2.2.2.2.2.2.2.2.2.2.2.2.2.2.2.2.2.2.2.2.2.2.2.2.1

@[simp] theorem frame_lt_interval_finish_extra_acked_win_rtts (c : Conn) (i : Input) :
    (bbrplus_lt_interval_finish c i).bbr.extra_acked_win_rtts = c.bbr.extra_acked_win_rtts :=
  (frame_lt_interval_finish c i).2.2.2.2.2.2.2.2.2.2.2.2.2.2.2.2.2.2.2.2.2.2.2.2.2.2.1

@[simp] theorem frame_lt_interval_finish_extra_acked_win_idx (c : Conn) (i : Input) :
    (bbrplus_lt_interval_finish c i).bbr.extra_acked_win_idx = c.bbr.extra_acked_win_idx :=
  (frame_lt_interval_finish c i).2.2.2.2.2.2.2.2.2.2.2.2.2.2.2.2.2.2.2.2.2.2.2.2.2.2.2.1

@[simp] theorem frame_lt_interval_finish_snd_cwnd (c : Conn) (i : Input) :
    (bbrplus_lt_interval_finish c i).snd_cwnd = c.snd_cwnd :=
  (frame_lt_interval_finish c i).2.2.2.2.2.2.2.2.2.2.2.2.2.2.2.2.2.2.2.2.2.2.2.2.2.2.2.2.1

@[simp] theorem frame_lt_interval_finish_sk_pacing_rate (c : Conn) (i : Input) :
    (bbrplus_lt_interval_finish c i).sk_pacing_rate = c.sk_pacing_rate :=
  (frame_lt_interval_finish c i).2.2.2.2.2.2.2.2.2.2.2.2.2.2.2.2.2.2.2.2.2.2.2.2.2.2.2.2.2


/-- Fields that `bbrplus_lt_sampling_body` never writes. -/
theorem frame_lt_sampling_body (c : Conn) (i : Input) (rs : RateSample) :
    (bbrplus_lt_sampling_body c i rs).bbr.min_rtt_us = c.bbr.min_rtt_us ∧
    (bbrplus_lt_sampling_body c i rs).bbr.min_rtt_stamp = c.bbr.min_rtt_stamp ∧
    (bbrplus_lt_sampling_body c i rs).bbr.probe_rtt_done_stamp = c.bbr.probe_rtt_done_stamp ∧
    (bbrplus_lt_sampling_body c i rs).bbr.bw = c.bbr.bw ∧
    (bbrplus_lt_sampling_body c i rs).bbr.rtt_cnt = c.bbr.rtt_cnt ∧
    (bbrplus_lt_sampling_body c i rs).bbr.next_rtt_delivered = c.bbr.next_rtt_delivered ∧
    (bbrplus_lt_sampling_body c i rs).bbr.cycle_mstamp = c.bbr.cycle_mstamp ∧
    (bbrplus_lt_sampling_body c i rs).bbr.mode = c.bbr.mode ∧
    (bbrplus_lt_sampling_body c i rs).bbr.prev_ca_state = c.bbr.prev_ca_state ∧
    (bbrplus_lt_sampling_body c i rs).bbr.packet_conservation = c.bbr.packet_conservation ∧
    (bbrplus_lt_sampling_body c i rs).bbr.restore_cwnd = c.bbr.restore_cwnd ∧
    (bbrplus_lt_sampling_body c i rs).bbr.round_start = c.bbr.round_start ∧
    (bbrplus_lt_sampling_body c i rs).bbr.cycle_len = c.bbr.cycle_len ∧
    (bbrplus_lt_sampling_body c i rs).bbr.tso_segs_goal = c.bbr.tso_segs_goal ∧
    (bbrplus_lt_sampling_body c i rs).bbr.idle_restart = c.bbr.idle_restart ∧
    (bbrplus_lt_sampling_body c i rs).bbr.probe_rtt_round_done = c.bbr.probe_rtt_round_done ∧
    (bbrplus_lt_sampling_body c i rs).bbr.cwnd_gain = c.bbr.cwnd_gain ∧
    (bbrplus_lt_sampling_body c i rs).bbr.full_bw_cnt = c.bbr.full_bw_cnt ∧
    (bbrplus_lt_sampling_body c i rs).bbr.cycle_idx = c.bbr.cycle_idx ∧
    (bbrplus_lt_sampling_body c i rs).bbr.has_seen_rtt = c.bbr.has_seen_rtt ∧
    (bbrplus_lt_sampling_body c i rs).bbr.prior_cwnd = c.bbr.prior_cwnd ∧
    (bbrplus_lt_sampling_body c i rs).bbr.full_bw = c.bbr.full_bw ∧
    (bbrplus_lt_sampling_body c i rs).bbr.ack_epoch_mstamp = c.bbr.ack_epoch_mstamp ∧
    (bbrplus_lt_sampling_body c i rs).bbr.extra_acked0 = c.bbr.extra_acked0 ∧
    (bbrplus_lt_sampling_body c i rs).bbr.extra_acked1 = c.bbr.extra_acked1 ∧
    (bbrplus_lt_sampling_body c i rs).bbr.ack_epoch_acked = c.bbr.ack_epoch_acked ∧
    (bbrplus_lt_sampling_body c i rs).bbr.extra_acked_win_rtts = c.bbr.extra_acked_win_rtts ∧
    (bbrplus_lt_sampling_body c i rs).bbr.extra_acked_win_idx = c.bbr.extra_acked_win_idx ∧
    (bbrplus_lt_sampling_body c i rs).snd_cwnd = c.snd_cwnd ∧
    (bbrplus_lt_sampling_body c i rs).sk_pacing_rate = c.sk_pacing_rate := by
  simp only [bbrplus_lt_sampling_body]
  repeat' split
  all_goals simp

@[simp] theorem frame_lt_sampling_body_min_rtt_us (c : Conn) (i : Input) (rs : RateSample) :
    (bbrplus_lt_sampling_body c i rs).bbr.min_rtt_us = c.bbr.min_rtt_us :=
  (frame_lt_sampling_body c i rs).1

@[simp] theorem frame_lt_sampling_body_min_rtt_stamp (c : Conn) (i : Input) (rs : RateSample) :
    (bbrplus_lt_sampling_body c i rs).bbr.min_rtt_stamp = c.bbr.min_rtt_stamp :=
  (frame_lt_sampling_body c i rs).2.1

@[simp] theorem frame_lt_sampling_body_probe_rtt_done_stamp (c : Conn) (i : Input) (rs : RateSample) :
    (bbrplus_lt_sampling_body c i rs).bbr.probe_rtt_done_stamp = c.bbr.probe_rtt_done_stamp :=
  (frame_lt_sampling_body c i rs).2.2.1

@[simp] theorem frame_lt_sampling_body_bw (c : Conn) (i : Input) (rs : RateSample) :
    (bbrplus_lt_sampling_body c i rs).bbr.bw = c.bbr.bw :=
  (frame_lt_sampling_body c i rs).2.2.2.1

@[simp] theorem frame_lt_sampling_body_rtt_cnt (c : Conn) (i : Input) (rs : RateSample) :
    (bbrplus_lt_sampling_body c i rs).bbr.rtt_cnt = c.bbr.rtt_cnt :=
  (frame_lt_sampling_body c i rs).2.2.2.2.1

@[simp] theorem frame_lt_sampling_body_next_rtt_delivered (c : Conn) (i : Input) (rs : RateSample) :
    (bbrplus_lt_sampling_body c i rs).bbr.next_rtt_delivered = c.bbr.next_rtt_delivered :=
  (frame_lt_sampling_body c i rs).2.2.2.2.2.1

@[simp] theorem frame_lt_sampling_body_cycle_mstamp (c : Conn) (i : Input) (rs : RateSample) :
    (bbrplus_lt_sampling_body c i rs).bbr.cycle_mstamp = c.bbr.cycle_mstamp :=
  (frame_lt_sampling_body c i rs).2.2.2.2.2.2.1

@[simp] theorem frame_lt_sampling_body_mode (c : Conn) (i : Input) (rs : RateSample) :
    (bbrplus_lt_sampling_body c i rs).bbr.mode = c.bbr.mode :=
  (frame_lt_sampling_body c i rs).2.2.2.2.2.2.2.1

@[simp] theorem frame_lt_sampling_body_prev_ca_state (c : Conn) (i : Input) (rs : RateSample) :
    (bbrplus_lt_sampling_body c i rs).bbr.prev_ca_state = c.bbr.prev_ca_state :=
  (frame_lt_sampling_body c i rs).2.2.2.2.2.2.2.2.1

@[simp] theorem frame_lt_sampling_body_packet_conservation (c : Conn) (i : Input) (rs : RateSample) :
    (bbrplus_lt_sampling_body c i rs).bbr.packet_conservation = c.bbr.packet_conservation :=
  (frame_lt_sampling_body c i rs).2.2.2.2.2.2.2.2.2.1

@[simp] theorem frame_lt_sampling_body_restore_cwnd (c : Conn) (i : Input) (rs : RateSample) :
    (bbrplus_lt_sampling_body c i rs).bbr.restore_cwnd = c.bbr.restore_cwnd :=
  (frame_lt_sampling_body c i rs).2.2.2.2.2.2.2.2.2.2.1

@[simp] theorem frame_lt_sampling_body_round_start (c : Conn) (i : Input) (rs : RateSample) :
    (bbrplus_lt_sampling_body c i rs).bbr.round_start = c.bbr.round_start :=
  (frame_lt_sampling_body c i rs).2.2.2.2.2.2.2.2.2.2.2.1

@[simp] theorem frame_lt_sampling_body_cycle_len (c : Conn) (i : Input) (rs : RateSample) :
    (bbrplus_lt_sampling_body c i rs).bbr.cycle_len = c.bbr.cycle_len :=
  (frame_lt_sampling_body c i rs).2.2.2.2.2.2.2.2.2.2.2.2.1

@[simp] theorem frame_lt_sampling_body_tso_segs_goal (c : Conn) (i : Input) (rs : RateSample) :
    (bbrplus_lt_sampling_body c i rs).bbr.tso_segs_goal = c.bbr.tso_segs_goal :=
  (frame_lt_sampling_body c i rs).2.2.2.2.2.2.2.2.2.2.2.2.2.1

@[simp] theorem frame_lt_sampling_body_idle_restart (c : Conn) (i : Input) (rs : RateSample) :
    (bbrplus_lt_sampling_body c i rs).bbr.idle_restart = c.bbr.idle_restart :=
  (frame_lt_sampling_body c i rs).2.2.2.2.2.2.2.2.2.2.2.2.2.2.1

@[simp] theorem frame_lt_sampling_body_probe_rtt_round_done (c : Conn) (i : Input) (rs : RateSample) :
    (bbrplus_lt_sampling_body c i rs).bbr.probe_rtt_round_done = c.bbr.probe_rtt_round_done :=
  (frame_lt_sampling_body c i rs).2.2.2.2.2.2.2.2.2.2.2.2.2.2.2.1

@[simp] theorem frame_lt_sampling_body_cwnd_gain (c : Conn) (i : Input) (rs : RateSample) :
    (bbrplus_lt_sampling_body c i rs).bbr.cwnd_gain = c.bbr.cwnd_gain :=
  (frame_lt_sampling_body c i rs).2.2.2.2.2.2.2.2.2.2.2.2.2.2.2.2.1

@[simp] theorem frame_lt_sampling_body_full_bw_cnt (c : Conn) (i : Input) (rs : RateSample) :
    (bbrplus_lt_sampling_body c i rs).bbr.full_bw_cnt = c.bbr.full_bw_cnt :=
  (frame_lt_sampling_body c i rs).2.2.2.2.2.2.2.2.2.2.2.2.2.2.2.2.2.1

@[simp] theorem frame_lt_sampling_body_cycle_idx (c : Conn) (i : Input) (rs : RateSample) :
    (bbrplus_lt_sampling_body c i rs).bbr.cycle_idx = c.bbr.cycle_idx :=
  (frame_lt_sampling_body c i rs).2.2.2.2.2.2.2.2.2.2.2.2.2.2.2.2.2.2.1

@[simp] theorem frame_lt_sampling_body_has_seen_rtt (c : Conn) (i : Input) (rs : RateSample) :
    (bbrplus_lt_sampling_body c i rs).bbr.has_seen_rtt = c.bbr.has_seen_rtt :=
  (frame_lt_sampling_body c i rs).2.2.2.2.2.2.2.2.2.2.2.2.2.2.2.2.2.2.2.1

@[simp] theorem frame_lt_sampling_body_prior_cwnd (c : Conn) (i : Input) (rs : RateSample) :
    (bbrplus_lt_sampling_body c i rs).bbr.prior_cwnd = c.bbr.prior_cwnd :=
  (frame_lt_sampling_body c i rs).2.2.2.2.2.2.2.2.2.2.2.2.2.2.2.2.2.2.2.2.1

@[simp] theorem frame_lt_sampling_body_full_bw (c : Conn) (i : Input) (rs : RateSample) :
    (bbrplus_lt_sampling_body c i rs).bbr.full_bw = c.bbr.full_bw :=
  (frame_lt_sampling_body c i rs).2.2.2.2.2.2.2.2.2.2.2.2.2.2.2.2.2.2.2.2.2.1

@[simp] theorem frame_lt_sampling_body_ack_epoch_mstamp (c : Conn) (i : Input) (rs : RateSample) :
    (bbrplus_lt_sampling_body c i rs).bbr.ack_epoch_mstamp = c.bbr.ack_epoch_mstamp :=
  (frame_lt_sampling_body c i rs).2.2.2.2.2.2.2.2.2.2.2.2.2.2.2.2.2.2.2.2.2.2.1

@[simp] theorem frame_lt_sampling_body_extra_acked0 (c : Conn) (i : Input) (rs : RateSample) :
    (bbrplus_lt_sampling_body c i rs).bbr.extra_acked0 = c.bbr.extra_acked0 :=
  (frame_lt_sampling_body c i rs).2.2.2.2.2.2.2.2.2.2.2.2.2.2.2.2.2.2.2.2.2.2.2.1

@[simp] theorem frame_lt_sampling_body_extra_acked1 (c : Conn) (i : Input) (rs : RateSample) :
    (bbrplus_lt_sampling_body c i rs).bbr.extra_acked1 = c.bbr.extra_acked1 :=
  (frame_lt_sampling_body c i rs).2.2.2.2.2.2.2.2.2.2.2.2.2.2.2.2.2.2.2.2.2.2.2.2.1

@[simp] theorem frame_lt_sampling_body_ack_epoch_acked (c : Conn) (i : Input) (rs : RateSample) :
    (bbrplus_lt_sampling_body c i rs).bbr.ack_epoch_acked = c.bbr.ack_epoch_acked :=
  (frame_lt_sampling_body c i rs).2.2.2.2.2.2.2.2.2.2.2.2.2.2.2.2.2.2.2.2.2.2.2.2.2.1

@[simp] theorem frame_lt_sampling_body_extra_acked_win_rtts (c : Conn) (i : Input) (rs : RateSample) :
    (bbrplus_lt_sampling_body c i rs).bbr.extra_acked_win_rtts = c.bbr.extra_acked_win_rtts :=
  (frame_lt_sampling_body c i rs).2.2.2.2.2.2.2.2.2.2.2.2.2.2.2.2.2.2.2.2.2.2.2.2.2.2.1

@[simp] theorem frame_lt_sampling_body_extra_acked_win_idx (c : Conn) (i : Input) (rs : RateSample) :
    (bbrplus_lt_sampling_body c i rs).bbr.extra_acked_win_idx = c.bbr.extra_acked_win_idx :=
  (frame_lt_sampling_body c i rs).2.2.2.2.2.2.2.2.2.2.2.2.2.2.2.2.2.2.2.2.2.2.2.2.2.2.2.1

@[simp] theorem frame_lt_sampling_body_snd_cwnd (c : Conn) (i : Input) (rs : RateSample) :
    (bbrplus_lt_sampling_body c i rs).snd_cwnd = c.snd_cwnd :=
  (frame_lt_sampling_body c i rs).2.2.2.2.2.2.2.2.2.2.2.2.2.2.2.2.2.2.2.2.2.2.2.2.2.2.2.2.1

@[simp] theorem frame_lt_sampling_body_sk_pacing_rate (c : Conn) (i : Input) (rs : RateSample) :
    (bbrplus_lt_sampling_body c i rs).sk_pacing_rate = c.sk_pacing_rate :=
  (frame_lt_sampling_body c i rs).2.2.2.2.2.2.2.2.2.2.2.2.2.2.2.2.2.2.2.2.2.2.2.2.2.2.2.2.2

/-- Fields that `bbrplus_lt_bw_sampling` never writes. -/
theorem frame_lt_sampling (c : Conn) (i : Input) (rs : RateSample) :
    (bbrplus_lt_bw_sampling c i rs).bbr.min_rtt_us = c.bbr.min_rtt_us ∧
    (bbrplus_lt_bw_sampling c i rs).bbr.min_rtt_stamp = c.bbr.min_rtt_stamp ∧
    (bbrplus_lt_bw_sampling c i rs).bbr.probe_rtt_done_stamp = c.bbr.probe_rtt_done_stamp ∧
    (bbrplus_lt_bw_sampling c i rs).bbr.bw = c.bbr.bw ∧
    (bbrplus_lt_bw_sampling c i rs).bbr.rtt_cnt = c.bbr.rtt_cnt ∧
    (bbrplus_lt_bw_sampling c i rs).bbr.next_rtt_delivered = c.bbr.next_rtt_delivered ∧
    (bbrplus_lt_bw_sampling c i rs).bbr.prev_ca_state = c.bbr.prev_ca_state ∧
    (bbrplus_lt_bw_sampling c i rs).bbr.packet_conservation = c.bbr.packet_conservation ∧
    (bbrplus_lt_bw_sampling c i rs).bbr.restore_cwnd = c.bbr.restore_cwnd ∧
    (bbrplus_lt_bw_sampling c i rs).bbr.round_start = c.bbr.round_start ∧
    (bbrplus_lt_bw_sampling c i rs).bbr.cycle_len = c.bbr.cycle_len ∧
    (bbrplus_lt_bw_sampling c i rs).bbr.tso_segs_goal = c.bbr.tso_segs_goal ∧
    (bbrplus_lt_bw_sampling c i rs).bbr.idle_restart = c.bbr.idle_restart ∧
    (bbrplus_lt_bw_sampling c i rs).bbr.probe_rtt_round_done = c.bbr.probe_rtt_round_done ∧
    (bbrplus_lt_bw_sampling c i rs).bbr.full_bw_cnt = c.bbr.full_bw_cnt ∧
    (bbrplus_lt_bw_sampling c i rs).bbr.has_seen_rtt = c.bbr.has_seen_rtt ∧
    (bbrplus_lt_bw_sampling c i rs).bbr.prior_cwnd = c.bbr.prior_cwnd ∧
    (bbrplus_lt_bw_sampling c i rs).bbr.full_bw = c.bbr.full_bw ∧
    (bbrplus_lt_bw_sampling c i rs).bbr.ack_epoch_mstamp = c.bbr.ack_epoch_mstamp ∧
    (bbrplus_lt_bw_sampling c i rs).bbr.extra_acked0 = c.bbr.extra_acked0 ∧
    (bbrplus_lt_bw_sampling c i rs).bbr.extra_acked1 = c.bbr.extra_acked1 ∧
    (bbrplus_lt_bw_sampling c i rs).bbr.ack_epoch_acked = c.bbr.ack_epoch_acked ∧
    (bbrplus_lt_bw_sampling c i rs).bbr.extra_acked_win_rtts = c.bbr.extra_acked_win_rtts ∧
    (bbrplus_lt_bw_sampling c i rs).bbr.extra_acked_win_idx = c.bbr.extra_acked_win_idx ∧
    (bbrplus_lt_bw_sampling c i rs).snd_cwnd = c.snd_cwnd ∧
    (bbrplus_lt_bw_sampling c i rs).sk_pacing_rate = c.sk_pacing_rate := by
  simp only [bbrplus_lt_bw_sampling]
  repeat' split
  all_goals simp

@[simp] theorem frame_lt_sampling_min_rtt_us (c : Conn) (i : Input) (rs : RateSample) :
    (bbrplus_lt_bw_sampling c i rs).bbr.min_rtt_us = c.bbr.min_rtt_us :=
  (frame_lt_sampling c i rs).1

@[simp] theorem frame_lt_sampling_min_rtt_stamp (c : Conn) (i : Input) (rs : RateSample) :
    (bbrplus_lt_bw_sampling c i rs).bbr.min_rtt_stamp = c.bbr.min_rtt_stamp :=
  (frame_lt_sampling c i rs).2.1

@[simp] theorem frame_lt_sampling_probe_rtt_done_stamp (c : Conn) (i : Input) (rs : RateSample) :
    (bbrplus_lt_bw_sampling c i rs).bbr.probe_rtt_done_stamp = c.bbr.probe_rtt_done_stamp :=
  (frame_lt_sampling c i rs).2.2.1

@[simp] theorem frame_lt_sampling_bw (c : Conn) (i : Input) (rs : RateSample) :
    (bbrplus_lt_bw_sampling c i rs).bbr.bw = c.bbr.bw :=
  (frame_lt_sampling c i rs).2.2.2.1

@[simp] theorem frame_lt_sampling_rtt_cnt (c : Conn) (i : Input) (rs : RateSample) :
    (bbrplus_lt_bw_sampling c i rs).bbr.rtt_cnt = c.bbr.rtt_cnt :=
  (frame_lt_sampling c i rs).2.2.2.2.1

@[simp] theorem frame_lt_sampling_next_rtt_delivered (c : Conn) (i : Input) (rs : RateSample) :
    (bbrplus_lt_bw_sampling c i rs).bbr.next_rtt_delivered = c.bbr.next_rtt_delivered :=
  (frame_lt_sampling c i rs).2.2.2.2.2.1

@[simp] theorem frame_lt_sampling_prev_ca_state (c : Conn) (i : Input) (rs : RateSample) :
    (bbrplus_lt_bw_sampling c i rs).bbr.prev_ca_state = c.bbr.prev_ca_state :=
  (frame_lt_sampling c i rs).2.2.2.2.2.2.1

@[simp] theorem frame_lt_sampling_packet_conservation (c : Conn) (i : Input) (rs : RateSample) :
    (bbrplus_lt_bw_sampling c i rs).bbr.packet_conservation = c.bbr.packet_conservation :=
  (frame_lt_sampling c i rs).2.2.2.2.2.2.2.1

@[simp] theorem frame_lt_sampling_restore_cwnd (c : Conn) (i : Input) (rs : RateSample) :
    (bbrplus_lt_bw_sampling c i rs).bbr.restore_cwnd = c.bbr.restore_cwnd :=
  (frame_lt_sampling c i rs).2.2.2.2.2.2.2.2.1

@[simp] theorem frame_lt_sampling_round_start (c : Conn) (i : Input) (rs : RateSample) :
    (bbrplus_lt_bw_sampling c i rs).bbr.round_start = c.bbr.round_start :=
  (frame_lt_sampling c i rs).2.2.2.2.2.2.2.2.2.1

@[simp] theorem frame_lt_sampling_cycle_len (c : Conn) (i : Input) (rs : RateSample) :
    (bbrplus_lt_bw_sampling c i rs).bbr.cycle_len = c.bbr.cycle_len :=
  (frame_lt_sampling c i rs).2.2.2.2.2.2.2.2.2.2.1

@[simp] theorem frame_lt_sampling_tso_segs_goal (c : Conn) (i : Input) (rs : RateSample) :
    (bbrplus_lt_bw_sampling c i rs).bbr.tso_segs_goal = c.bbr.tso_segs_goal :=
  (frame_lt_sampling c i rs).2.2.2.2.2.2.2.2.2.2.2.1

@[simp] theorem frame_lt_sampling_idle_restart (c : Conn) (i : Input) (rs : RateSample) :
    (bbrplus_lt_bw_sampling c i rs).bbr.idle_restart = c.bbr.idle_restart :=
  (frame_lt_sampling c i rs).2.2.2.2.2.2.2.2.2.2.2.2.1

@[simp] theorem frame_lt_sampling_probe_rtt_round_done (c : Conn) (i : Input) (rs : RateSample) :
    (bbrplus_lt_bw_sampling c i rs).bbr.probe_rtt_round_done = c.bbr.probe_rtt_round_done :=
  (frame_lt_sampling c i rs).2.2.2.2.2.2.2.2.2.2.2.2.2.1

@[simp] theorem frame_lt_sampling_full_bw_cnt (c : Conn) (i : Input) (rs : RateSample) :
    (bbrplus_lt_bw_sampling c i rs).bbr.full_bw_cnt = c.bbr.full_bw_cnt :=
  (frame_lt_sampling c i rs).2.2.2.2.2.2.2.2.2.2.2.2.2.2.1

@[simp] theorem frame_lt_sampling_has_seen_rtt (c : Conn) (i : Input) (rs : RateSample) :
    (bbrplus_lt_bw_sampling c i rs).bbr.has_seen_rtt = c.bbr.has_seen_rtt :=
  (frame_lt_sampling c i rs).2.2.2.2.2.2.2.2.2.2.2.2.2.2.2.1

@[simp] theorem frame_lt_sampling_prior_cwnd (c : Conn) (i : Input) (rs : RateSample) :
    (bbrplus_lt_bw_sampling c i rs).bbr.prior_cwnd = c.bbr.prior_cwnd :=
  (frame_lt_sampling c i rs).2.2.2.2.2.2.2.2.2.2.2.2.2.2.2.2.1

@[simp] theorem frame_lt_sampling_full_bw (c : Conn) (i : Input) (rs : RateSample) :
    (bbrplus_lt_bw_sampling c i rs).bbr.full_bw = c.bbr.full_bw :=
  (frame_lt_sampling c i rs).2.2.2.2.2.2.2.2.2.2.2.2.2.2.2.2.2.1

@[simp] theorem frame_lt_sampling_ack_epoch_mstamp (c : Conn) (i : Input) (rs : RateSample) :
    (bbrplus_lt_bw_sampling c i rs).bbr.ack_epoch_mstamp = c.bbr.ack_epoch_mstamp :=
  (frame_lt_sampling c i rs).2.2.2.2.2.2.2.2.2.2.2.2.2.2.2.2.2.2.1

@[simp] theorem frame_lt_sampling_extra_acked0 (c : Conn) (i : Input) (rs : RateSample) :
    (bbrplus_lt_bw_sampling c i rs).bbr.extra_acked0 = c.bbr.extra_acked0 :=
  (frame_lt_sampling c i rs).2.2.2.2.2.2.2.2.2.2.2.2.2.2.2.2.2.2.2.1

@[simp] theorem frame_lt_sampling_extra_acked1 (c : Conn) (i : Input) (rs : RateSample) :
    (bbrplus_lt_bw_sampling c i rs).bbr.extra_acked1 = c.bbr.extra_acked1 :=
  (frame_lt_sampling c i rs).2.2.2.2.2.2.2.2.2.2.2.2.2.2.2.2.2.2.2.2.1

@[simp] theorem frame_lt_sampling_ack_epoch_acked (c : Conn) (i : Input) (rs : RateSample) :
    (bbrplus_lt_bw_sampling c i rs).bbr.ack_epoch_acked = c.bbr.ack_epoch_acked :=
  (frame_lt_sampling c i rs).2.2.2.2.2.2.2.2.2.2.2.2.2.2.2.2.2.2.2.2.2.1

@[simp] theorem frame_lt_sampling_extra_acked_win_rtts (c : Conn) (i : Input) (rs : RateSample) :
    (bbrplus_lt_bw_sampling c i rs).bbr.extra_acked_win_rtts = c.bbr.extra_acked_win_rtts :=
  (frame_lt_sampling c i rs).2.2.2.2.2.2.2.2.2.2.2.2.2.2.2.2.2.2.2.2.2.2.1

@[simp] theorem frame_lt_sampling_extra_acked_win_idx (c : Conn) (i : Input) (rs : RateSample) :
    (bbrplus_lt_bw_sampling c i rs).bbr.extra_acked_win_idx = c.bbr.extra_acked_win_idx :=
  (frame_lt_sampling c i rs).2.2.2.2.2.2.2.2.2.2.2.2.2.2.2.2.2.2.2.2.2.2.2.1

@[simp] theorem frame_lt_sampling_snd_cwnd (c : Conn) (i : Input) (rs : RateSample) :
    (bbrplus_lt_bw_sampling c i rs).snd_cwnd = c.snd_cwnd :=
  (frame_lt_sampling c i rs).2.2.2.2.2.2.2.2.2.2.2.2.2.2.2.2.2.2.2.2.2.2.2.2.1

@[simp] theorem frame_lt_sampling_sk_pacing_rate (c : Conn) (i : Input) (rs : RateSample) :
    (bbrplus_lt_bw_sampling c i rs).sk_pacing_rate = c.sk_pacing_rate :=
  (frame_lt_sampling c i rs).2.2.2.2.2.2.2.2.2.2.2.2.2.2.2.2.2.2.2.2.2.2.2.2.2

/-- Fields that `bbrplus_update_bw` never writes. -/
theorem frame_update_bw (c : Conn) (i : Input) (rs : RateSample) :
    (bbrplus_update_bw c i rs).bbr.min_rtt_us = c.bbr.min_rtt_us ∧
    (bbrplus_update_bw c i rs).bbr.min_rtt_stamp = c.bbr.min_rtt_stamp ∧
    (bbrplus_update_bw c i rs).bbr.probe_rtt_done_stamp = c.bbr.probe_rtt_done_stamp ∧
    (bbrplus_update_bw c i rs).bbr.prev_ca_state = c.bbr.prev_ca_state ∧
    (bbrplus_update_bw c i rs).bbr.restore_cwnd = c.bbr.restore_cwnd ∧
    (bbrplus_update_bw c i rs).bbr.cycle_len = c.bbr.cycle_len ∧
    (bbrplus_update_bw c i rs).bbr.tso_segs_goal = c.bbr.tso_segs_goal ∧
    (bbrplus_update_bw c i rs).bbr.idle_restart = c.bbr.idle_restart ∧
    (bbrplus_update_bw c i rs).bbr.probe_rtt_round_done = c.bbr.probe_rtt_round_done ∧
    (bbrplus_update_bw c i rs).bbr.full_bw_cnt = c.bbr.full_bw_cnt ∧
    (bbrplus_update_bw c i rs).bbr.has_seen_rtt = c.bbr.has_seen_rtt ∧
    (bbrplus_update_bw c i rs).bbr.prior_cwnd = c.bbr.prior_cwnd ∧
    (bbrplus_update_bw c i rs).bbr.full_bw = c.bbr.full_bw ∧
    (bbrplus_update_bw c i rs).bbr.ack_epoch_mstamp = c.bbr.ack_epoch_mstamp ∧
    (bbrplus_update_bw c i rs).bbr.extra_acked0 = c.bbr.extra_acked0 ∧
    (bbrplus_update_bw c i rs).bbr.extra_acked1 = c.bbr.extra_acked1 ∧
    (bbrplus_update_bw c i rs).bbr.ack_epoch_acked = c.bbr.ack_epoch_acked ∧
    (bbrplus_update_bw c i rs).bbr.extra_acked_win_rtts = c.bbr.extra_acked_win_rtts ∧
    (bbrplus_update_bw c i rs).bbr.extra_acked_win_idx = c.bbr.extra_acked_win_idx ∧
    (bbrplus_update_bw c i rs).snd_cwnd = c.snd_cwnd ∧
    (bbrplus_update_bw c i rs).sk_pacing_rate = c.sk_pacing_rate := by
  simp only [bbrplus_update_bw]
  repeat' split
  all_goals simp

@[simp] theorem frame_update_bw_min_rtt_us (c : Conn) (i : Input) (rs : RateSample) :
    (bbrplus_update_bw c i rs).bbr.min_rtt_us = c.bbr.min_rtt_us :=
  (frame_update_bw c i rs).1

@[simp] theorem frame_update_bw_min_rtt_stamp (c : Conn) (i : Input) (rs : RateSample) :
    (bbrplus_update_bw c i rs).bbr.min_rtt_stamp = c.bbr.min_rtt_stamp :=
  (frame_update_bw c i rs).2.1

@[simp] theorem frame_update_bw_probe_rtt_done_stamp (c : Conn) (i : Input) (rs : RateSample) :
    (bbrplus_update_bw c i rs).bbr.probe_rtt_done_stamp = c.bbr.probe_rtt_done_stamp :=
  (frame_update_bw c i rs).2.2.1

@[simp] theorem frame_update_bw_prev_ca_state (c : Conn) (i : Input) (rs : RateSample) :
    (bbrplus_update_bw c i rs).bbr.prev_ca_state = c.bbr.prev_ca_state :=
  (frame_update_bw c i rs).2.2.2.1

@[simp] theorem frame_update_bw_restore_cwnd (c : Conn) (i : Input) (rs : RateSample) :
    (bbrplus_update_bw c i rs).bbr.restore_cwnd = c.bbr.restore_cwnd :=
  (frame_update_bw c i rs).2.2.2.2.1

@[simp] theorem frame_update_bw_cycle_len (c : Conn) (i : Input) (rs : RateSample) :
    (bbrplus_update_bw c i rs).bbr.cycle_len = c.bbr.cycle_len :=
  (frame_update_bw c i rs).2.2.2.2.2.1

@[simp] theorem frame_update_bw_tso_segs_goal (c : Conn) (i : Input) (rs : RateSample) :
    (bbrplus_update_bw c i rs).bbr.tso_segs_goal = c.bbr.tso_segs_goal :=
  (frame_update_bw c i rs).2.2.2.2.2.2.1

@[simp] theorem frame_update_bw_idle_restart (c : Conn) (i : Input) (rs : RateSample) :
    (bbrplus_update_bw c i rs).bbr.idle_restart = c.bbr.idle_restart :=
  (frame_update_bw c i rs).2.2.2.2.2.2.2.1

@[simp] theorem frame_update_bw_probe_rtt_round_done (c : Conn) (i : Input) (rs : RateSample) :
    (bbrplus_update_bw c i rs).bbr.probe_rtt_round_done = c.bbr.probe_rtt_round_done :=
  (frame_update_bw c i rs).2.2.2.2.2.2.2.2.1

@[simp] theorem frame_update_bw_full_bw_cnt (c : Conn) (i : Input) (rs : RateSample) :
    (bbrplus_update_bw c i rs).bbr.full_bw_cnt = c.bbr.full_bw_cnt :=
  (frame_update_bw c i rs).2.2.2.2.2.2.2.2.2.1

@[simp] theorem frame_update_bw_has_seen_rtt (c : Conn) (i : Input) (rs : RateSample) :
    (bbrplus_update_bw c i rs).bbr.has_seen_rtt = c.bbr.has_seen_rtt :=
  (frame_update_bw c i rs).2.2.2.2.2.2.2.2.2.2.1

@[simp] theorem frame_update_bw_prior_cwnd (c : Conn) (i : Input) (rs : RateSample) :
    (bbrplus_update_bw c i rs).bbr.prior_cwnd = c.bbr.prior_cwnd :=
  (frame_update_bw c i rs).2.2.2.2.2.2.2.2.2.2.2.1

@[simp] theorem frame_update_bw_full_bw (c : Conn) (i : Input) (rs : RateSample) :
    (bbrplus_update_bw c i rs).bbr.full_bw = c.bbr.full_bw :=
  (frame_update_bw c i rs).2.2.2.2.2.2.2.2.2.2.2.2.1

@[simp] theorem frame_update_bw_ack_epoch_mstamp (c : Conn) (i : Input) (rs : RateSample) :
    (bbrplus_update_bw c i rs).bbr.ack_epoch_mstamp = c.bbr.ack_epoch_mstamp :=
  (frame_update_bw c i rs).2.2.2.2.2.2.2.2.2.2.2.2.2.1

@[simp] theorem frame_update_bw_extra_acked0 (c : Conn) (i : Input) (rs : RateSample) :
    (bbrplus_update_bw c i rs).bbr.extra_acked0 = c.bbr.extra_acked0 :=
  (frame_update_bw c i rs).2.2.2.2.2.2.2.2.2.2.2.2.2.2.1

@[simp] theorem frame_update_bw_extra_acked1 (c : Conn) (i : Input) (rs : RateSample) :
    (bbrplus_update_bw c i rs).bbr.extra_acked1 = c.bbr.extra_acked1 :=
  (frame_update_bw c i rs).2.2.2.2.2.2.2.2.2.2.2.2.2.2.2.1

@[simp] theorem frame_update_bw_ack_epoch_acked (c : Conn) (i : Input) (rs : RateSample) :
    (bbrplus_update_bw c i rs).bbr.ack_epoch_acked = c.bbr.ack_epoch_acked :=
  (frame_update_bw c i rs).2.2.2.2.2.2.2.2.2.2.2.2.2.2.2.2.1

@[simp] theorem frame_update_bw_extra_acked_win_rtts (c : Conn) (i : Input) (rs : RateSample) :
    (bbrplus_update_bw c i rs).bbr.extra_acked_win_rtts = c.bbr.extra_acked_win_rtts :=
  (frame_update_bw c i rs).2.2.2.2.2.2.2.2.2.2.2.2.2.2.2.2.2.1

@[simp] theorem frame_update_bw_extra_acked_win_idx (c : Conn) (i : Input) (rs : RateSample) :
    (bbrplus_update_bw c i rs).bbr.extra_acked_win_idx = c.bbr.extra_acked_win_idx :=
  (frame_update_bw c i rs).2.2.2.2.2.2.2.2.2.2.2.2.2.2.2.2.2.2.1

@[simp] theorem frame_update_bw_snd_cwnd (c : Conn) (i : Input) (rs : RateSample) :
    (bbrplus_update_bw c i rs).snd_cwnd = c.snd_cwnd :=
  (frame_update_bw c i rs).2.2.2.2.2.2.2.2.2.2.2.2.2.2.2.2.2.2.2.1

@[simp] theorem frame_update_bw_sk_pacing_rate (c : Conn) (i : Input) (rs : RateSample) :
    (bbrplus_update_bw c i rs).sk_pacing_rate = c.sk_pacing_rate :=
  (frame_update_bw c i rs).2.2.2.2.2.2.2.2.2.2.2.2.2.2.2.2.2.2.2.2

/-- Fields that `bbrplus_ack_aggregation_rotate_win` never writes. -/
theorem frame_agg_rotate (c : Conn) :
    (bbrplus_ack_aggregation_rotate_win c).bbr.min_rtt_us = c.bbr.min_rtt_us ∧
    (bbrplus_ack_aggregation_rotate_win c).bbr.min_rtt_stamp = c.bbr.min_rtt_stamp ∧
    (bbrplus_ack_aggregation_rotate_win c).bbr.probe_rtt_done_stamp = c.bbr.probe_rtt_done_stamp ∧
    (bbrplus_ack_aggregation_rotate_win c).bbr.bw = c.bbr.bw ∧
    (bbrplus_ack_aggregation_rotate_win c).bbr.rtt_cnt = c.bbr.rtt_cnt ∧
    (bbrplus_ack_aggregation_rotate_win c).bbr.next_rtt_delivered = c.bbr.next_rtt_delivered ∧
    (bbrplus_ack_aggregation_rotate_win c).bbr.cycle_mstamp = c.bbr.cycle_mstamp ∧
    (bbrplus_ack_aggregation_rotate_win c).bbr.mode = c.bbr.mode ∧
    (bbrplus_ack_aggregation_rotate_win c).bbr.prev_ca_state = c.bbr.prev_ca_state ∧
    (bbrplus_ack_aggregation_rotate_win c).bbr.packet_conservation = c.bbr.packet_conservation ∧
    (bbrplus_ack_aggregation_rotate_win c).bbr.restore_cwnd = c.bbr.restore_cwnd ∧
    (bbrplus_ack_aggregation_rotate_win c).bbr.round_start = c.bbr.round_start ∧
    (bbrplus_ack_aggregation_rotate_win c).bbr.cycle_len = c.bbr.cycle_len ∧
    (bbrplus_ack_aggregation_rotate_win c).bbr.tso_segs_goal = c.bbr.tso_segs_goal ∧
    (bbrplus_ack_aggregation_rotate_win c).bbr.idle_restart = c.bbr.idle_restart ∧
    (bbrplus_ack_aggregation_rotate_win c).bbr.probe_rtt_round_done = c.bbr.probe_rtt_round_done ∧
    (bbrplus_ack_aggregation_rotate_win c).bbr.lt_is_sampling = c.bbr.lt_is_sampling ∧
    (bbrplus_ack_aggregation_rotate_win c).bbr.lt_rtt_cnt = c.bbr.lt_rtt_cnt ∧
    (bbrplus_ack_aggregation_rotate_win c).bbr.lt_use_bw = c.bbr.lt_use_bw ∧
    (bbrplus_ack_aggregation_rotate_win c).bbr.lt_bw = c.bbr.lt_bw ∧
    (bbrplus_ack_aggregation_rotate_win c).bbr.lt_last_delivered = c.bbr.lt_last_delivered ∧
    (bbrplus_ack_aggregation_rotate_win c).bbr.lt_last_stamp = c.bbr.lt_last_stamp ∧
    (bbrplus_ack_aggregation_rotate_win c).bbr.lt_last_lost = c.bbr.lt_last_lost ∧
    (bbrplus_ack_aggregation_rotate_win c).bbr.pacing_gain = c.bbr.pacing_gain ∧
    (bbrplus_ack_aggregation_rotate_win c).bbr.cwnd_gain = c.bbr.cwnd_gain ∧
    (bbrplus_ack_aggregation_rotate_win c).bbr.full_bw_cnt = c.bbr.full_bw_cnt ∧
    (bbrplus_ack_aggregation_rotate_win c).bbr.cycle_idx = c.bbr.cycle_idx ∧
    (bbrplus_ack_aggregation_rotate_win c).bbr.has_seen_rtt = c.bbr.has_seen_rtt ∧
    (bbrplus_ack_aggregation_rotate_win c).bbr.prior_cwnd = c.bbr.prior_cwnd ∧
    (bbrplus_ack_aggregation_rotate_win c).bbr.full_bw = c.bbr.full_bw ∧
    (bbrplus_ack_aggregation_rotate_win c).bbr.ack_epoch_mstamp = c.bbr.ack_epoch_mstamp ∧
    (bbrplus_ack_aggregation_rotate_win c).bbr.ack_epoch_acked = c.bbr.ack_epoch_acked ∧
    (bbrplus_ack_aggregation_rotate_win c).snd_cwnd = c.snd_cwnd ∧
    (bbrplus_ack_aggregation_rotate_win c).sk_pacing_rate = c.sk_pacing_rate := by
  simp only [bbrplus_ack_aggregation_rotate_win]
  repeat' split
  all_goals simp

@[simp] theorem frame_agg_rotate_min_rtt_us (c : Conn) :
    (bbrplus_ack_aggregation_rotate_win c).bbr.min_rtt_us = c.bbr.min_rtt_us :=
  (frame_agg_rotate c).1

@[simp] theorem frame_agg_rotate_min_rtt_stamp (c : Conn) :
    (bbrplus_ack_aggregation_rotate_win c).bbr.min_rtt_stamp = c.bbr.min_rtt_stamp :=
  (frame_agg_rotate c).2.1

@[simp] theorem frame_agg_rotate_probe_rtt_done_stamp (c : Conn) :
    (bbrplus_ack_aggregation_rotate_win c).bbr.probe_rtt_done_stamp = c.bbr.probe_rtt_done_stamp :=
  (frame_agg_rotate c).2.2.1

@[simp] theorem frame_agg_rotate_bw (c : Conn) :
    (bbrplus_ack_aggregation_rotate_win c).bbr.bw = c.bbr.bw :=
  (frame_agg_rotate c).2.2.2.1

@[simp] theorem frame_agg_rotate_rtt_cnt (c : Conn) :
    (bbrplus_ack_aggregation_rotate_win c).bbr.rtt_cnt = c.bbr.rtt_cnt :=
  (frame_agg_rotate c).2.2.2.2.1

@[simp] theorem frame_agg_rotate_next_rtt_delivered (c : Conn) :
    (bbrplus_ack_aggregation_rotate_win c).bbr.next_rtt_delivered = c.bbr.next_rtt_delivered :=
  (frame_agg_rotate c).2.2.2.2.2.1

@[simp] theorem frame_agg_rotate_cycle_mstamp (c : Conn) :
    (bbrplus_ack_aggregation_rotate_win c).bbr.cycle_mstamp = c.bbr.cycle_mstamp :=
  (frame_agg_rotate c).2.2.2.2.2.2.1

@[simp] theorem frame_agg_rotate_mode (c : Conn) :
    (bbrplus_ack_aggregation_rotate_win c).bbr.mode = c.bbr.mode :=
  (frame_agg_rotate c).2.2.2.2.2.2.2.1

@[simp] theorem frame_agg_rotate_prev_ca_state (c : Conn) :
    (bbrplus_ack_aggregation_rotate_win c).bbr.prev_ca_state = c.bbr.prev_ca_state :=
  (frame_agg_rotate c).2.2.2.2.2.2.2.2.1

@[simp] theorem frame_agg_rotate_packet_conservation (c : Conn) :
    (bbrplus_ack_aggregation_rotate_win c).bbr.packet_conservation = c.bbr.packet_conservation :=
  (frame_agg_rotate c).2.2.2.2.2.2.2.2.2.1

@[simp] theorem frame_agg_rotate_restore_cwnd (c : Conn) :
    (bbrplus_ack_aggregation_rotate_win c).bbr.restore_cwnd = c.bbr.restore_cwnd :=
  (frame_agg_rotate c).2.2.2.2.2.2.2.2.2.2.1

@[simp] theorem frame_agg_rotate_round_start (c : Conn) :
    (bbrplus_ack_aggregation_rotate_win c).bbr.round_start = c.bbr.round_start :=
  (frame_agg_rotate c).2.2.2.2.2.2.2.2.2.2.2.1

@[simp] theorem frame_agg_rotate_cycle_len (c : Conn) :
    (bbrplus_ack_aggregation_rotate_win c).bbr.cycle_len = c.bbr.cycle_len :=
  (frame_agg_rotate c).2.2.2.2.2.2.2.2.2.2.2.2.1

@[simp] theorem frame_agg_rotate_tso_segs_goal (c : Conn) :
    (bbrplus_ack_aggregation_rotate_win c).bbr.tso_segs_goal = c.bbr.tso_segs_goal :=
  (frame_agg_rotate c).2.2.2.2.2.2.2.2.2.2.2.2.2.1

@[simp] theorem frame_agg_rotate_idle_restart (c : Conn) :
    (bbrplus_ack_aggregation_rotate_win c).bbr.idle_restart = c.bbr.idle_restart :=
  (frame_agg_rotate c).2.2.2.2.2.2.2.2.2.2.2.2.2.2.1

@[simp] theorem frame_agg_rotate_probe_rtt_round_done (c : Conn) :
    (bbrplus_ack_aggregation_rotate_win c).bbr.probe_rtt_round_done = c.bbr.probe_rtt_round_done :=
  (frame_agg_rotate c).2.2.2.2.2.2.2.2.2.2.2.2.2.2.2.1

@[simp] theorem frame_agg_rotate_lt_is_sampling (c : Conn) :
    (bbrplus_ack_aggregation_rotate_win c).bbr.lt_is_sampling = c.bbr.lt_is_sampling :=
  (frame_agg_rotate c).2.2.2.2.2.2.2.2.2.2.2.2.2.2.2.2.1

@[simp] theorem frame_agg_rotate_lt_rtt_cnt (c : Conn) :
    (bbrplus_ack_aggregation_rotate_win c).bbr.lt_rtt_cnt = c.bbr.lt_rtt_cnt :=
  (frame_agg_rotate c).2.2.2.2.2.2.2.2.2.2.2.2.2.2.2.2.2.1

@[simp] theorem frame_agg_rotate_lt_use_bw (c : Conn) :
    (bbrplus_ack_aggregation_rotate_win c).bbr.lt_use_bw = c.bbr.lt_use_bw :=
  (frame_agg_rotate c).2.2.2.2.2.2.2.2.2.2.2.2.2.2.2.2.2.2.1

@[simp] theorem frame_agg_rotate_lt_bw (c : Conn) :
    (bbrplus_ack_aggregation_rotate_win c).bbr.lt_bw = c.bbr.lt_bw :=
  (frame_agg_rotate c).2.2.2.2.2.2.2.2.2.2.2.2.2.2.2.2.2.2.2.1

@[simp] theorem frame_agg_rotate_lt_last_delivered (c : Conn) :
    (bbrplus_ack_aggregation_rotate_win c).bbr.lt_last_delivered = c.bbr.lt_last_delivered :=
  (frame_agg_rotate c).2.2.2.2.2.2.2.2.2.2.2.2.2.2.2.2.2.2.2.2.1

@[simp] theorem frame_agg_rotate_lt_last_stamp (c : Conn) :
    (bbrplus_ack_aggregation_rotate_win c).bbr.lt_last_stamp = c.bbr.lt_last_stamp :=
  (frame_agg_rotate c).2.2.2.2.2.2.2.2.2.2.2.2.2.2.2.2.2.2.2.2.2.1

@[simp] theorem frame_agg_rotate_lt_last_lost (c : Conn) :
    (bbrplus_ack_aggregation_rotate_win c).bbr.lt_last_lost = c.bbr.lt_last_lost :=
  (frame_agg_rotate c).2.2.2.2.2.2.2.2.2.2.2.2.2.2.2.2.2.2.2.2.2.2.1

@[simp] theorem frame_agg_rotate_pacing_gain (c : Conn) :
    (bbrplus_ack_aggregation_rotate_win c).bbr.pacing_gain = c.bbr.pacing_gain :=
  (frame_agg_rotate c).2.2.2.2.2.2.2.2.2.2.2.2.2.2.2.2.2.2.2.2.2.2.2.1

@[simp] theorem frame_agg_rotate_cwnd_gain (c : Conn) :
    (bbrplus_ack_aggregation_rotate_win c).bbr.cwnd_gain = c.bbr.cwnd_gain :=
  (frame_agg_rotate c).2.2.2.2.2.2.2.2.2.2.2.2.2.2.2.2.2.2.2.2.2.2.2.2.1

@[simp] theorem frame_agg_rotate_full_bw_cnt (c : Conn) :
    (bbrplus_ack_aggregation_rotate_win c).bbr.full_bw_cnt = c.bbr.full_bw_cnt :=
  (frame_agg_rotate c).2.2.2.2.2.2.2.2.2.2.2.2.2.2.2.2.2.2.2.2.2.2.2.2.2.1

@[simp] theorem frame_agg_rotate_cycle_idx (c : Conn) :
    (bbrplus_ack_aggregation_rotate_win c).bbr.cycle_idx = c.bbr.cycle_idx :=
  (frame_agg_rotate c).2.2.2.2.2.2.2.2.2.2.2.2.2.2.2.2.2.2.2.2.2.2.2.2.2.2.1

@[simp] theorem frame_agg_rotate_has_seen_rtt (c : Conn) :
    (bbrplus_ack_aggregation_rotate_win c).bbr.has_seen_rtt = c.bbr.has_seen_rtt :=
  (frame_agg_rotate c).2.2.2.2.2.2.2.2.2.2.2.2.2.2.2.2.2.2.2.2.2.2.2.2.2.2.2.1

@[simp] theorem frame_agg_rotate_prior_cwnd (c : Conn) :
    (bbrplus_ack_aggregation_rotate_win c).bbr.prior_cwnd = c.bbr.prior_cwnd :=
  (frame_agg_rotate c).2.2.2.2.2.2.2.2.2.2.2.2.2.2.2.2.2.2.2.2.2.2.2.2.2.2.2.2.1

@[simp] theorem frame_agg_rotate_full_bw (c : Conn) :
    (bbrplus_ack_aggregation_rotate_win c).bbr.full_bw = c.bbr.full_bw :=
  (frame_agg_rotate c).2.2.2.2.2.2.2.2.2.2.2.2.2.2.2.2.2.2.2.2.2.2.2.2.2.2.2.2.2.1

@[simp] theorem frame_agg_rotate_ack_epoch_mstamp (c : Conn) :
    (bbrplus_ack_aggregation_rotate_win c).bbr.ack_epoch_mstamp = c.bbr.ack_epoch_mstamp :=
  (frame_agg_rotate c).2.2.2.2.2.2.2.2.2.2.2.2.2.2.2.2.2.2.2.2.2.2.2.2.2.2.2.2.2.2.1

@[simp] theorem frame_agg_rotate_ack_epoch_acked (c : Conn) :
    (bbrplus_ack_aggregation_rotate_win c).bbr.ack_epoch_acked = c.bbr.ack_epoch_acked :=
  (frame_agg_rotate c).2.2.2.2.2.2.2.2.2.2.2.2.2.2.2.2.2.2.2.2.2.2.2.2.2.2.2.2.2.2.2.1

@[simp] theorem frame_agg_rotate_snd_cwnd (c : Conn) :
    (bbrplus_ack_aggregation_rotate_win c).snd_cwnd = c.snd_cwnd :=
  (frame_agg_rotate c).2.2.2.2.2.2.2.2.2.2.2.2.2.2.2.2.2.2.2.2.2.2.2.2.2.2.2.2.2.2.2.2.1

@[simp] theorem frame_agg_rotate_sk_pacing_rate (c : Conn) :
    (bbrplus_ack_aggregation_rotate_win c).sk_pacing_rate = c.sk_pacing_rate :=
  (frame_agg_rotate c).2.2.2.2.2.2.2.2.2.2.2.2.2.2.2.2.2.2.2.2.2.2.2.2.2.2.2.2.2.2.2.2.2

/-- Fields that `bbrplus_ack_aggregation_epoch` never writes. -/
theorem frame_agg_epoch (c : Conn) (i : Input) (rs : RateSample) :
    (bbrplus_ack_aggregation_epoch c i rs).bbr.min_rtt_us = c.bbr.min_rtt_us ∧
    (bbrplus_ack_aggregation_epoch c i rs).bbr.min_rtt_stamp = c.bbr.min_rtt_stamp ∧
    (bbrplus_ack_aggregation_epoch c i rs).bbr.probe_rtt_done_stamp = c.bbr.probe_rtt_done_stamp ∧
    (bbrplus_ack_aggregation_epoch c i rs).bbr.bw = c.bbr.bw ∧
    (bbrplus_ack_aggregation_epoch c i rs).bbr.rtt_cnt = c.bbr.rtt_cnt ∧
    (bbrplus_ack_aggregation_epoch c i rs).bbr.next_rtt_delivered = c.bbr.next_rtt_delivered ∧
    (bbrplus_ack_aggregation_epoch c i rs).bbr.cycle_mstamp = c.bbr.cycle_mstamp ∧
    (bbrplus_ack_aggregation_epoch c i rs).bbr.mode = c.bbr.mode ∧
    (bbrplus_ack_aggregation_epoch c i rs).bbr.prev_ca_state = c.bbr.prev_ca_state ∧
    (bbrplus_ack_aggregation_epoch c i rs).bbr.packet_conservation = c.bbr.packet_conservation ∧
    (bbrplus_ack_aggregation_epoch c i rs).bbr.restore_cwnd = c.bbr.restore_cwnd ∧
    (bbrplus_ack_aggregation_epoch c i rs).bbr.round_start = c.bbr.round_start ∧
    (bbrplus_ack_aggregation_epoch c i rs).bbr.cycle_len = c.bbr.cycle_len ∧
    (bbrplus_ack_aggregation_epoch c i rs).bbr.tso_segs_goal = c.bbr.tso_segs_goal ∧
    (bbrplus_ack_aggregation_epoch c i rs).bbr.idle_restart = c.bbr.idle_restart ∧
    (bbrplus_ack_aggregation_epoch c i rs).bbr.probe_rtt_round_done = c.bbr.probe_rtt_round_done ∧
    (bbrplus_ack_aggregation_epoch c i rs).bbr.lt_is_sampling = c.bbr.lt_is_sampling ∧
    (bbrplus_ack_aggregation_epoch c i rs).bbr.lt_rtt_cnt = c.bbr.lt_rtt_cnt ∧
    (bbrplus_ack_aggregation_epoch c i rs).bbr.lt_use_bw = c.bbr.lt_use_bw ∧
    (bbrplus_ack_aggregation_epoch c i rs).bbr.lt_bw = c.bbr.lt_bw ∧
    (bbrplus_ack_aggregation_epoch c i rs).bbr.lt_last_delivered = c.bbr.lt_last_delivered ∧
    (bbrplus_ack_aggregation_epoch c i rs).bbr.lt_last_stamp = c.bbr.lt_last_stamp ∧
    (bbrplus_ack_aggregation_epoch c i rs).bbr.lt_last_lost = c.bbr.lt_last_lost ∧
    (bbrplus_ack_aggregation_epoch c i rs).bbr.pacing_gain = c.bbr.pacing_gain ∧
    (bbrplus_ack_aggregation_epoch c i rs).bbr.cwnd_gain = c.bbr.cwnd_gain ∧
    (bbrplus_ack_aggregation_epoch c i rs).bbr.full_bw_cnt = c.bbr.full_bw_cnt ∧
    (bbrplus_ack_aggregation_epoch c i rs).bbr.cycle_idx = c.bbr.cycle_idx ∧
    (bbrplus_ack_aggregation_epoch c i rs).bbr.has_seen_rtt = c.bbr.has_seen_rtt ∧
    (bbrplus_ack_aggregation_epoch c i rs).bbr.prior_cwnd = c.bbr.prior_cwnd ∧
    (bbrplus_ack_aggregation_epoch c i rs).bbr.full_bw = c.bbr.full_bw ∧
    (bbrplus_ack_aggregation_epoch c i rs).bbr.extra_acked_win_rtts = c.bbr.extra_acked_win_rtts ∧
    (bbrplus_ack_aggregation_epoch c i rs).bbr.extra_acked_win_idx = c.bbr.extra_acked_win_idx ∧
    (bbrplus_ack_aggregation_epoch c i rs).snd_cwnd = c.snd_cwnd ∧
    (bbrplus_ack_aggregation_epoch c i rs).sk_pacing_rate = c.sk_pacing_rate := by
  simp only [bbrplus_ack_aggregation_epoch]
  repeat' split
  all_goals simp

@[simp] theorem frame_agg_epoch_min_rtt_us (c : Conn) (i : Input) (rs : RateSample) :
    (bbrplus_ack_aggregation_epoch c i rs).bbr.min_rtt_us = c.bbr.min_rtt_us :=
  (frame_agg_epoch c i rs).1

@[simp] theorem frame_agg_epoch_min_rtt_stamp (c : Conn) (i : Input) (rs : RateSample) :
    (bbrplus_ack_aggregation_epoch c i rs).bbr.min_rtt_stamp = c.bbr.min_rtt_stamp :=
  (frame_agg_epoch c i rs).2.1

@[simp] theorem frame_agg_epoch_probe_rtt_done_stamp (c : Conn) (i : Input) (rs : RateSample) :
    (bbrplus_ack_aggregation_epoch c i rs).bbr.probe_rtt_done_stamp = c.bbr.probe_rtt_done_stamp :=
  (frame_agg_epoch c i rs).2.2.1

@[simp] theorem frame_agg_epoch_bw (c : Conn) (i : Input) (rs : RateSample) :
    (bbrplus_ack_aggregation_epoch c i rs).bbr.bw = c.bbr.bw :=
  (frame_agg_epoch c i rs).2.2.2.1

@[simp] theorem frame_agg_epoch_rtt_cnt (c : Conn) (i : Input) (rs : RateSample) :
    (bbrplus_ack_aggregation_epoch c i rs).bbr.rtt_cnt = c.bbr.rtt_cnt :=
  (frame_agg_epoch c i rs).2.2.2.2.1

@[simp] theorem frame_agg_epoch_next_rtt_delivered (c : Conn) (i : Input) (rs : RateSample) :
    (bbrplus_ack_aggregation_epoch c i rs).bbr.next_rtt_delivered = c.bbr.next_rtt_delivered :=
  (frame_agg_epoch c i rs).2.2.2.2.2.1

@[simp] theorem frame_agg_epoch_cycle_mstamp (c : Conn) (i : Input) (rs : RateSample) :
    (bbrplus_ack_aggregation_epoch c i rs).bbr.cycle_mstamp = c.bbr.cycle_mstamp :=
  (frame_agg_epoch c i rs).2.2.2.2.2.2.1

@[simp] theorem frame_agg_epoch_mode (c : Conn) (i : Input) (rs : RateSample) :
    (bbrplus_ack_aggregation_epoch c i rs).bbr.mode = c.bbr.mode :=
  (frame_agg_epoch c i rs).2.2.2.2.2.2.2.1

@[simp] theorem frame_agg_epoch_prev_ca_state (c : Conn) (i : Input) (rs : RateSample) :
    (bbrplus_ack_aggregation_epoch c i rs).bbr.prev_ca_state = c.bbr.prev_ca_state :=
  (frame_agg_epoch c i rs).2.2.2.2.2.2.2.2.1

@[simp] theorem frame_agg_epoch_packet_conservation (c : Conn) (i : Input) (rs : RateSample) :
    (bbrplus_ack_aggregation_epoch c i rs).bbr.packet_conservation = c.bbr.packet_conservation :=
  (frame_agg_epoch c i rs).2.2.2.2.2.2.2.2.2.1

@[simp] theorem frame_agg_epoch_restore_cwnd (c : Conn) (i : Input) (rs : RateSample) :
    (bbrplus_ack_aggregation_epoch c i rs).bbr.restore_cwnd = c.bbr.restore_cwnd :=
  (frame_agg_epoch c i rs).2.2.2.2.2.2.2.2.2.2.1

@[simp] theorem frame_agg_epoch_round_start (c : Conn) (i : Input) (rs : RateSample) :
    (bbrplus_ack_aggregation_epoch c i rs).bbr.round_start = c.bbr.round_start :=
  (frame_agg_epoch c i rs).2.2.2.2.2.2.2.2.2.2.2.1

@[simp] theorem frame_agg_epoch_cycle_len (c : Conn) (i : Input) (rs : RateSample) :
    (bbrplus_ack_aggregation_epoch c i rs).bbr.cycle_len = c.bbr.cycle_len :=
  (frame_agg_epoch c i rs).2.2.2.2.2.2.2.2.2.2.2.2.1

@[simp] theorem frame_agg_epoch_tso_segs_goal (c : Conn) (i : Input) (rs : RateSample) :
    (bbrplus_ack_aggregation_epoch c i rs).bbr.tso_segs_goal = c.bbr.tso_segs_goal :=
  (frame_agg_epoch c i rs).2.2.2.2.2.2.2.2.2.2.2.2.2.1

@[simp] theorem frame_agg_epoch_idle_restart (c : Conn) (i : Input) (rs : RateSample) :
    (bbrplus_ack_aggregation_epoch c i rs).bbr.idle_restart = c.bbr.idle_restart :=
  (frame_agg_epoch c i rs).2.2.2.2.2.2.2.2.2.2.2.2.2.2.1

@[simp] theorem frame_agg_epoch_probe_rtt_round_done (c : Conn) (i : Input) (rs : RateSample) :
    (bbrplus_ack_aggregation_epoch c i rs).bbr.probe_rtt_round_done = c.bbr.probe_rtt_round_done :=
  (frame_agg_epoch c i rs).2.2.2.2.2.2.2.2.2.2.2.2.2.2.2.1

@[simp] theorem frame_agg_epoch_lt_is_sampling (c : Conn) (i : Input) (rs : RateSample) :
    (bbrplus_ack_aggregation_epoch c i rs).bbr.lt_is_sampling = c.bbr.lt_is_sampling :=
  (frame_agg_epoch c i rs).2.2.2.2.2.2.2.2.2.2.2.2.2.2.2.2.1

@[simp] theorem frame_agg_epoch_lt_rtt_cnt (c : Conn) (i : Input) (rs : RateSample) :
    (bbrplus_ack_aggregation_epoch c i rs).bbr.lt_rtt_cnt = c.bbr.lt_rtt_cnt :=
  (frame_agg_epoch c i rs).2.2.2.2.2.2.2.2.2.2.2.2.2.2.2.2.2.1

@[simp] theorem frame_agg_epoch_lt_use_bw (c : Conn) (i : Input) (rs : RateSample) :
    (bbrplus_ack_aggregation_epoch c i rs).bbr.lt_use_bw = c.bbr.lt_use_bw :=
  (frame_agg_epoch c i rs).2.2.2.2.2.2.2.2.2.2.2.2.2.2.2.2.2.2.1

@[simp] theorem frame_agg_epoch_lt_bw (c : Conn) (i : Input) (rs : RateSample) :
    (bbrplus_ack_aggregation_epoch c i rs).bbr.lt_bw = c.bbr.lt_bw :=
  (frame_agg_epoch c i rs).2.2.2.2.2.2.2.2.2.2.2.2.2.2.2.2.2.2.2.1

@[simp] theorem frame_agg_epoch_lt_last_delivered (c : Conn) (i : Input) (rs : RateSample) :
    (bbrplus_ack_aggregation_epoch c i rs).bbr.lt_last_delivered = c.bbr.lt_last_delivered :=
  (frame_agg_epoch c i rs).2.2.2.2.2.2.2.2.2.2.2.2.2.2.2.2.2.2.2.2.1

@[simp] theorem frame_agg_epoch_lt_last_stamp (c : Conn) (i : Input) (rs : RateSample) :
    (bbrplus_ack_aggregation_epoch c i rs).bbr.lt_last_stamp = c.bbr.lt_last_stamp :=
  (frame_agg_epoch c i rs).2.2.2.2.2.2.2.2.2.2.2.2.2.2.2.2.2.2.2.2.2.1

@[simp] theorem frame_agg_epoch_lt_last_lost (c : Conn) (i : Input) (rs : RateSample) :
    (bbrplus_ack_aggregation_epoch c i rs).bbr.lt_last_lost = c.bbr.lt_last_lost :=
  (frame_agg_epoch c i rs).2.2.2.2.2.2.2.2.2.2.2.2.2.2.2.2.2.2.2.2.2.2.1

@[simp] theorem frame_agg_epoch_pacing_gain (c : Conn) (i : Input) (rs : RateSample) :
    (bbrplus_ack_aggregation_epoch c i rs).bbr.pacing_gain = c.bbr.pacing_gain :=
  (frame_agg_epoch c i rs).2.2.2.2.2.2.2.2.2.2.2.2.2.2.2.2.2.2.2.2.2.2.2.1

@[simp] theorem frame_agg_epoch_cwnd_gain (c : Conn) (i : Input) (rs : RateSample) :
    (bbrplus_ack_aggregation_epoch c i rs).bbr.cwnd_gain = c.bbr.cwnd_gain :=
  (frame_agg_epoch c i rs).2.2.2.2.2.2.2.2.2.2.2.2.2.2.2.2.2.2.2.2.2.2.2.2.1

@[simp] theorem frame_agg_epoch_full_bw_cnt (c : Conn) (i : Input) (rs : RateSample) :
    (bbrplus_ack_aggregation_epoch c i rs).bbr.full_bw_cnt = c.bbr.full_bw_cnt :=
  (frame_agg_epoch c i rs).2.2.2.2.2.2.2.2.2.2.2.2.2.2.2.2.2.2.2.2.2.2.2.2.2.1

@[simp] theorem frame_agg_epoch_cycle_idx (c : Conn) (i : Input) (rs : RateSample) :
    (bbrplus_ack_aggregation_epoch c i rs).bbr.cycle_idx = c.bbr.cycle_idx :=
  (frame_agg_epoch c i rs).2.2.2.2.2.2.2.2.2.2.2.2.2.2.2.2.2.2.2.2.2.2.2.2.2.2.1

@[simp] theorem frame_agg_epoch_has_seen_rtt (c : Conn) (i : Input) (rs : RateSample) :
    (bbrplus_ack_aggregation_epoch c i rs).bbr.has_seen_rtt = c.bbr.has_seen_rtt :=
  (frame_agg_epoch c i rs).2.2.2.2.2.2.2.2.2.2.2.2.2.2.2.2.2.2.2.2.2.2.2.2.2.2.2.1

@[simp] theorem frame_agg_epoch_prior_cwnd (c : Conn) (i : Input) (rs : RateSample) :
    (bbrplus_ack_aggregation_epoch c i rs).bbr.prior_cwnd = c.bbr.prior_cwnd :=
  (frame_agg_epoch c i rs).2.2.2.2.2.2.2.2.2.2.2.2.2.2.2.2.2.2.2.2.2.2.2.2.2.2.2.2.1

@[simp] theorem frame_agg_epoch_full_bw (c : Conn) (i : Input) (rs : RateSample) :
    (bbrplus_ack_aggregation_epoch c i rs).bbr.full_bw = c.bbr.full_bw :=
  (frame_agg_epoch c i rs).2.2.2.2.2.2.2.2.2.2.2.2.2.2.2.2.2.2.2.2.2.2.2.2.2.2.2.2.2.1

@[simp] theorem frame_agg_epoch_extra_acked_win_rtts (c : Conn) (i : Input) (rs : RateSample) :
    (bbrplus_ack_aggregation_epoch c i rs).bbr.extra_acked_win_rtts = c.bbr.extra_acked_win_rtts :=
  (frame_agg_epoch c i rs).2.2.2.2.2.2.2.2.2.2.2.2.2.2.2.2.2.2.2.2.2.2.2.2.2.2.2.2.2.2.1

@[simp] theorem frame_agg_epoch_extra_acked_win_idx (c : Conn) (i : Input) (rs : RateSample) :
    (bbrplus_ack_aggregation_epoch c i rs).bbr.extra_acked_win_idx = c.bbr.extra_acked_win_idx :=
  (frame_agg_epoch c i rs).2.2.2.2.2.2.2.2.2.2.2.2.2.2.2.2.2.2.2.2.2.2.2.2.2.2.2.2.2.2.2.1

@[simp] theorem frame_agg_epoch_snd_cwnd (c : Conn) (i : Input) (rs : RateSample) :
    (bbrplus_ack_aggregation_epoch c i rs).snd_cwnd = c.snd_cwnd :=
  (frame_agg_epoch c i rs).2.2.2.2.2.2.2.2.2.2.2.2.2.2.2.2.2.2.2.2.2.2.2.2.2.2.2.2.2.2.2.2.1

@[simp] theorem frame_agg_epoch_sk_pacing_rate (c : Conn) (i : Input) (rs : RateSample) :
    (bbrplus_ack_aggregation_epoch c i rs).sk_pacing_rate = c.sk_pacing_rate :=
  (frame_agg_epoch c i rs).2.2.2.2.2.2.2.2.2.2.2.2.2.2.2.2.2.2.2.2.2.2.2.2.2.2.2.2.2.2.2.2.2

/-- Fields that `bbrplus_update_ack_aggregation` never writes. -/
theorem frame_update_ack_aggregation (c : Conn) (i : Input) (rs : RateSample) :
    (bbrplus_update_ack_aggregation c i rs).bbr.min_rtt_us = c.bbr.min_rtt_us ∧
    (bbrplus_update_ack_aggregation c i rs).bbr.min_rtt_stamp = c.bbr.min_rtt_stamp ∧
    (bbrplus_update_ack_aggregation c i rs).bbr.probe_rtt_done_stamp = c.bbr.probe_rtt_done_stamp ∧
    (bbrplus_update_ack_aggregation c i rs).bbr.bw = c.bbr.bw ∧
    (bbrplus_update_ack_aggregation c i rs).bbr.rtt_cnt = c.bbr.rtt_cnt ∧
    (bbrplus_update_ack_aggregation c i rs).bbr.next_rtt_delivered = c.bbr.next_rtt_delivered ∧
    (bbrplus_update_ack_aggregation c i rs).bbr.cycle_mstamp = c.bbr.cycle_mstamp ∧
    (bbrplus_update_ack_aggregation c i rs).bbr.mode = c.bbr.mode ∧
    (bbrplus_update_ack_aggregation c i rs).bbr.prev_ca_state = c.bbr.prev_ca_state ∧
    (bbrplus_update_ack_aggregation c i rs).bbr.packet_conservation = c.bbr.packet_conservation ∧
    (bbrplus_update_ack_aggregation c i rs).bbr.restore_cwnd = c.bbr.restore_cwnd ∧
    (bbrplus_update_ack_aggregation c i rs).bbr.round_start = c.bbr.round_start ∧
    (bbrplus_update_ack_aggregation c i rs).bbr.cycle_len = c.bbr.cycle_len ∧
    (bbrplus_update_ack_aggregation c i rs).bbr.tso_segs_goal = c.bbr.tso_segs_goal ∧
    (bbrplus_update_ack_aggregation c i rs).bbr.idle_restart = c.bbr.idle_restart ∧
    (bbrplus_update_ack_aggregation c i rs).bbr.probe_rtt_round_done = c.bbr.probe_rtt_round_done ∧
    (bbrplus_update_ack_aggregation c i rs).bbr.lt_is_sampling = c.bbr.lt_is_sampling ∧
    (bbrplus_update_ack_aggregation c i rs).bbr.lt_rtt_cnt = c.bbr.lt_rtt_cnt ∧
    (bbrplus_update_ack_aggregation c i rs).bbr.lt_use_bw = c.bbr.lt_use_bw ∧
    (bbrplus_update_ack_aggregation c i rs).bbr.lt_bw = c.bbr.lt_bw ∧
    (bbrplus_update_ack_aggregation c i rs).bbr.lt_last_delivered = c.bbr.lt_last_delivered ∧
    (bbrplus_update_ack_aggregation c i rs).bbr.lt_last_stamp = c.bbr.lt_last_stamp ∧
    (bbrplus_update_ack_aggregation c i rs).bbr.lt_last_lost = c.bbr.lt_last_lost ∧
    (bbrplus_update_ack_aggregation c i rs).bbr.pacing_gain = c.bbr.pacing_gain ∧
    (bbrplus_update_ack_aggregation c i rs).bbr.cwnd_gain = c.bbr.cwnd_gain ∧
    (bbrplus_update_ack_aggregation c i rs).bbr.full_bw_cnt = c.bbr.full_bw_cnt ∧
    (bbrplus_update_ack_aggregation c i rs).bbr.cycle_idx = c.bbr.cycle_idx ∧
    (bbrplus_update_ack_aggregation c i rs).bbr.has_seen_rtt = c.bbr.has_seen_rtt ∧
    (bbrplus_update_ack_aggregation c i rs).bbr.prior_cwnd = c.bbr.prior_cwnd ∧
    (bbrplus_update_ack_aggregation c i rs).bbr.full_bw = c.bbr.full_bw ∧
    (bbrplus_update_ack_aggregation c i rs).snd_cwnd = c.snd_cwnd ∧
    (bbrplus_update_ack_aggregation c i rs).sk_pacing_rate = c.sk_pacing_rate := by
  simp only [bbrplus_update_ack_aggregation]
  repeat' split
  all_goals simp

@[simp] theorem frame_update_ack_aggregation_min_rtt_us (c : Conn) (i : Input) (rs : RateSample) :
    (bbrplus_update_ack_aggregation c i rs).bbr.min_rtt_us = c.bbr.min_rtt_us :=
  (frame_update_ack_aggregation c i rs).1

@[simp] theorem frame_update_ack_aggregation_min_rtt_stamp (c : Conn) (i : Input) (rs : RateSample) :
    (bbrplus_update_ack_aggregation c i rs).bbr.min_rtt_stamp = c.bbr.min_rtt_stamp :=
  (frame_update_ack_aggregation c i rs).2.1

@[simp] theorem frame_update_ack_aggregation_probe_rtt_done_stamp (c : Conn) (i : Input) (rs : RateSample) :
    (bbrplus_update_ack_aggregation c i rs).bbr.probe_rtt_done_stamp = c.bbr.probe_rtt_done_stamp :=
  (frame_update_ack_aggregation c i rs).2.2.1

@[simp] theorem frame_update_ack_aggregation_bw (c : Conn) (i : Input) (rs : RateSample) :
    (bbrplus_update_ack_aggregation c i rs).bbr.bw = c.bbr.bw :=
  (frame_update_ack_aggregation c i rs).2.2.2.1

@[simp] theorem frame_update_ack_aggregation_rtt_cnt (c : Conn) (i : Input) (rs : RateSample) :
    (bbrplus_update_ack_aggregation c i rs).bbr.rtt_cnt = c.bbr.rtt_cnt :=
  (frame_update_ack_aggregation c i rs).2.2.2.2.1

@[simp] theorem frame_update_ack_aggregation_next_rtt_delivered (c : Conn) (i : Input) (rs : RateSample) :
    (bbrplus_update_ack_aggregation c i rs).bbr.next_rtt_delivered = c.bbr.next_rtt_delivered :=
  (frame_update_ack_aggregation c i rs).2.2.2.2.2.1

@[simp] theorem frame_update_ack_aggregation_cycle_mstamp (c : Conn) (i : Input) (rs : RateSample) :
    (bbrplus_update_ack_aggregation c i rs).bbr.cycle_mstamp = c.bbr.cycle_mstamp :=
  (frame_update_ack_aggregation c i rs).2.2.2.2.2.2.1

@[simp] theorem frame_update_ack_aggregation_mode (c : Conn) (i : Input) (rs : RateSample) :
    (bbrplus_update_ack_aggregation c i rs).bbr.mode = c.bbr.mode :=
  (frame_update_ack_aggregation c i rs).2.2.2.2.2.2.2.1

@[simp] theorem frame_update_ack_aggregation_prev_ca_state (c : Conn) (i : Input) (rs : RateSample) :
    (bbrplus_update_ack_aggregation c i rs).bbr.prev_ca_state = c.bbr.prev_ca_state :=
  (frame_update_ack_aggregation c i rs).2.2.2.2.2.2.2.2.1

@[simp] theorem frame_update_ack_aggregation_packet_conservation (c : Conn) (i : Input) (rs : RateSample) :
    (bbrplus_update_ack_aggregation c i rs).bbr.packet_conservation = c.bbr.packet_conservation :=
  (frame_update_ack_aggregation c i rs).2.2.2.2.2.2.2.2.2.1

@[simp] theorem frame_update_ack_aggregation_restore_cwnd (c : Conn) (i : Input) (rs : RateSample) :
    (bbrplus_update_ack_aggregation c i rs).bbr.restore_cwnd = c.bbr.restore_cwnd :=
  (frame_update_ack_aggregation c i rs).2.2.2.2.2.2.2.2.2.2.1

@[simp] theorem frame_update_ack_aggregation_round_start (c : Conn) (i : Input) (rs : RateSample) :
    (bbrplus_update_ack_aggregation c i rs).bbr.round_start = c.bbr.round_start :=
  (frame_update_ack_aggregation c i rs).2.2.2.2.2.2.2.2.2.2.2.1

@[simp] theorem frame_update_ack_aggregation_cycle_len (c : Conn) (i : Input) (rs : RateSample) :
    (bbrplus_update_ack_aggregation c i rs).bbr.cycle_len = c.bbr.cycle_len :=
  (frame_update_ack_aggregation c i rs).2.2.2.2.2.2.2.2.2.2.2.2.1

@[simp] theorem frame_update_ack_aggregation_tso_segs_goal (c : Conn) (i : Input) (rs : RateSample) :
    (bbrplus_update_ack_aggregation c i rs).bbr.tso_segs_goal = c.bbr.tso_segs_goal :=
  (frame_update_ack_aggregation c i rs).2.2.2.2.2.2.2.2.2.2.2.2.2.1

@[simp] theorem frame_update_ack_aggregation_idle_restart (c : Conn) (i : Input) (rs : RateSample) :
    (bbrplus_update_ack_aggregation c i rs).bbr.idle_restart = c.bbr.idle_restart :=
  (frame_update_ack_aggregation c i rs).2.2.2.2.2.2.2.2.2.2.2.2.2.2.1

@[simp] theorem frame_update_ack_aggregation_probe_rtt_round_done (c : Conn) (i : Input) (rs : RateSample) :
    (bbrplus_update_ack_aggregation c i rs).bbr.probe_rtt_round_done = c.bbr.probe_rtt_round_done :=
  (frame_update_ack_aggregation c i rs).2.2.2.2.2.2.2.2.2.2.2.2.2.2.2.1

@[simp] theorem frame_update_ack_aggregation_lt_is_sampling (c : Conn) (i : Input) (rs : RateSample) :
    (bbrplus_update_ack_aggregation c i rs).bbr.lt_is_sampling = c.bbr.lt_is_sampling :=
  (frame_update_ack_aggregation c i rs).2.2.2.2.2.2.2.2.2.2.2.2.2.2.2.2.1

@[simp] theorem frame_update_ack_aggregation_lt_rtt_cnt (c : Conn) (i : Input) (rs : RateSample) :
    (bbrplus_update_ack_aggregation c i rs).bbr.lt_rtt_cnt = c.bbr.lt_rtt_cnt :=
  (frame_update_ack_aggregation c i rs).2.2.2.2.2.2.2.2.2.2.2.2.2.2.2.2.2.1

@[simp] theorem frame_update_ack_aggregation_lt_use_bw (c : Conn) (i : Input) (rs : RateSample) :
    (bbrplus_update_ack_aggregation c i rs).bbr.lt_use_bw = c.bbr.lt_use_bw :=
  (frame_update_ack_aggregation c i rs).2.2.2.2.2.2.2.2.2.2.2.2.2.2.2.2.2.2.1

@[simp] theorem frame_update_ack_aggregation_lt_bw (c : Conn) (i : Input) (rs : RateSample) :
    (bbrplus_update_ack_aggregation c i rs).bbr.lt_bw = c.bbr.lt_bw :=
  (frame_update_ack_aggregation c i rs).2.2.2.2.2.2.2.2.2.2.2.2.2.2.2.2.2.2.2.1

@[simp] theorem frame_update_ack_aggregation_lt_last_delivered (c : Conn) (i : Input) (rs : RateSample) :
    (bbrplus_update_ack_aggregation c i rs).bbr.lt_last_delivered = c.bbr.lt_last_delivered :=
  (frame_update_ack_aggregation c i rs).2.2.2.2.2.2.2.2.2.2.2.2.2.2.2.2.2.2.2.2.1

@[simp] theorem frame_update_ack_aggregation_lt_last_stamp (c : Conn) (i : Input) (rs : RateSample) :
    (bbrplus_update_ack_aggregation c i rs).bbr.lt_last_stamp = c.bbr.lt_last_stamp :=
  (frame_update_ack_aggregation c i rs).2.2.2.2.2.2.2.2.2.2.2.2.2.2.2.2.2.2.2.2.2.1

@[simp] theorem frame_update_ack_aggregation_lt_last_lost (c : Conn) (i : Input) (rs : RateSample) :
    (bbrplus_update_ack_aggregation c i rs).bbr.lt_last_lost = c.bbr.lt_last_lost :=
  (frame_update_ack_aggregation c i rs).2.2.2.2.2.2.2.2.2.2.2.2.2.2.2.2.2.2.2.2.2.2.1

@[simp] theorem frame_update_ack_aggregation_pacing_gain (c : Conn) (i : Input) (rs : RateSample) :
    (bbrplus_update_ack_aggregation c i rs).bbr.pacing_gain = c.bbr.pacing_gain :=
  (frame_update_ack_aggregation c i rs).2.2.2.2.2.2.2.2.2.2.2.2.2.2.2.2.2.2.2.2.2.2.2.1

@[simp] theorem frame_update_ack_aggregation_cwnd_gain (c : Conn) (i : Input) (rs : RateSample) :
    (bbrplus_update_ack_aggregation c i rs).bbr.cwnd_gain = c.bbr.cwnd_gain :=
  (frame_update_ack_aggregation c i rs).2.2.2.2.2.2.2.2.2.2.2.2.2.2.2.2.2.2.2.2.2.2.2.2.1

@[simp] theorem frame_update_ack_aggregation_full_bw_cnt (c : Conn) (i : Input) (rs : RateSample) :
    (bbrplus_update_ack_aggregation c i rs).bbr.full_bw_cnt = c.bbr.full_bw_cnt :=
  (frame_update_ack_aggregation c i rs).2.2.2.2.2.2.2.2.2.2.2.2.2.2.2.2.2.2.2.2.2.2.2.2.2.1

@[simp] theorem frame_update_ack_aggregation_cycle_idx (c : Conn) (i : Input) (rs : RateSample) :
    (bbrplus_update_ack_aggregation c i rs).bbr.cycle_idx = c.bbr.cycle_idx :=
  (frame_update_ack_aggregation c i rs).2.2.2.2.2.2.2.2.2.2.2.2.2.2.2.2.2.2.2.2.2.2.2.2.2.2.1

@[simp] theorem frame_update_ack_aggregation_has_seen_rtt (c : Conn) (i : Input) (rs : RateSample) :
    (bbrplus_update_ack_aggregation c i rs).bbr.has_seen_rtt = c.bbr.has_seen_rtt :=
  (frame_update_ack_aggregation c i rs).2.2.2.2.2.2.2.2.2.2.2.2.2.2.2.2.2.2.2.2.2.2.2.2.2.2.2.1

@[simp] theorem frame_update_ack_aggregation_prior_cwnd (c : Conn) (i : Input) (rs : RateSample) :
    (bbrplus_update_ack_aggregation c i rs).bbr.prior_cwnd = c.bbr.prior_cwnd :=
  (frame_update_ack_aggregation c i rs).2.2.2.2.2.2.2.2.2.2.2.2.2.2.2.2.2.2.2.2.2.2.2.2.2.2.2.2.1

@[simp] theorem frame_update_ack_aggregation_full_bw (c : Conn) (i : Input) (rs : RateSample) :
    (bbrplus_update_ack_aggregation c i rs).bbr.full_bw = c.bbr.full_bw :=
  (frame_update_ack_aggregation c i rs).2.2.2.2.2.2.2.2.2.2.2.2.2.2.2.2.2.2.2.2.2.2.2.2.2.2.2.2.2.1

@[simp] theorem frame_update_ack_aggregation_snd_cwnd (c : Conn) (i : Input) (rs : RateSample) :
    (bbrplus_update_ack_aggregation c i rs).snd_cwnd = c.snd_cwnd :=
  (frame_update_ack_aggregation c i rs).2.2.2.2.2.2.2.2.2.2.2.2.2.2.2.2.2.2.2.2.2.2.2.2.2.2.2.2.2.2.1

@[simp] theorem frame_update_ack_aggregation_sk_pacing_rate (c : Conn) (i : Input) (rs : RateSample) :
    (bbrplus_update_ack_aggregation c i rs).sk_pacing_rate = c.sk_pacing_rate :=
  (frame_update_ack_aggregation c i rs).2.2.2.2.2.2.2.2.2.2.2.2.2.2.2.2.2.2.2.2.2.2.2.2.2.2.2.2.2.2.2

/-- Fields that `bbrplus_drain_to_target_cycling` never writes. -/
theorem frame_drain_cycling (c : Conn) (i : Input) (rs : RateSample) :
    (bbrplus_drain_to_target_cycling c i rs).bbr.min_rtt_us = c.bbr.min_rtt_us ∧
    (bbrplus_drain_to_target_cycling c i rs).bbr.min_rtt_stamp = c.bbr.min_rtt_stamp ∧
    (bbrplus_drain_to_target_cycling c i rs).bbr.probe_rtt_done_stamp = c.bbr.probe_rtt_done_stamp ∧
    (bbrplus_drain_to_target_cycling c i rs).bbr.bw = c.bbr.bw ∧
    (bbrplus_drain_to_target_cycling c i rs).bbr.rtt_cnt = c.bbr.rtt_cnt ∧
    (bbrplus_drain_to_target_cycling c i rs).bbr.next_rtt_delivered = c.bbr.next_rtt_delivered ∧
    (bbrplus_drain_to_target_cycling c i rs).bbr.mode = c.bbr.mode ∧
    (bbrplus_drain_to_target_cycling c i rs).bbr.prev_ca_state = c.bbr.prev_ca_state ∧
    (bbrplus_drain_to_target_cycling c i rs).bbr.packet_conservation = c.bbr.packet_conservation ∧
    (bbrplus_drain_to_target_cycling c i rs).bbr.restore_cwnd = c.bbr.restore_cwnd ∧
    (bbrplus_drain_to_target_cycling c i rs).bbr.round_start = c.bbr.round_start ∧
    (bbrplus_drain_to_target_cycling c i rs).bbr.tso_segs_goal = c.bbr.tso_segs_goal ∧
    (bbrplus_drain_to_target_cycling c i rs).bbr.idle_restart = c.bbr.idle_restart ∧
    (bbrplus_drain_to_target_cycling c i rs).bbr.probe_rtt_round_done = c.bbr.probe_rtt_round_done ∧
    (bbrplus_drain_to_target_cycling c i rs).bbr.lt_is_sampling = c.bbr.lt_is_sampling ∧
    (bbrplus_drain_to_target_cycling c i rs).bbr.lt_rtt_cnt = c.bbr.lt_rtt_cnt ∧
    (bbrplus_drain_to_target_cycling c i rs).bbr.lt_use_bw = c.bbr.lt_use_bw ∧
    (bbrplus_drain_to_target_cycling c i rs).bbr.lt_bw = c.bbr.lt_bw ∧
    (bbrplus_drain_to_target_cycling c i rs).bbr.lt_last_delivered = c.bbr.lt_last_delivered ∧
    (bbrplus_drain_to_target_cycling c i rs).bbr.lt_last_stamp = c.bbr.lt_last_stamp ∧
    (bbrplus_drain_to_target_cycling c i rs).bbr.lt_last_lost = c.bbr.lt_last_lost ∧
    (bbrplus_drain_to_target_cycling c i rs).bbr.cwnd_gain = c.bbr.cwnd_gain ∧
    (bbrplus_drain_to_target_cycling c i rs).bbr.full_bw_cnt = c.bbr.full_bw_cnt ∧
    (bbrplus_drain_to_target_cycling c i rs).bbr.has_seen_rtt = c.bbr.has_seen_rtt ∧
    (bbrplus_drain_to_target_cycling c i rs).bbr.prior_cwnd = c.bbr.prior_cwnd ∧
    (bbrplus_drain_to_target_cycling c i rs).bbr.full_bw = c.bbr.full_bw ∧
    (bbrplus_drain_to_target_cycling c i rs).bbr.ack_epoch_mstamp = c.bbr.ack_epoch_mstamp ∧
    (bbrplus_drain_to_target_cycling c i rs).bbr.extra_acked0 = c.bbr.extra_acked0 ∧
    (bbrplus_drain_to_target_cycling c i rs).bbr.extra_acked1 = c.bbr.extra_acked1 ∧
    (bbrplus_drain_to_target_cycling c i rs).bbr.ack_epoch_acked = c.bbr.ack_epoch_acked ∧
    (bbrplus_drain_to_target_cycling c i rs).bbr.extra_acked_win_rtts = c.bbr.extra_acked_win_rtts ∧
    (bbrplus_drain_to_target_cycling c i rs).bbr.extra_acked_win_idx = c.bbr.extra_acked_win_idx ∧
    (bbrplus_drain_to_target_cycling c i rs).snd_cwnd = c.snd_cwnd ∧
    (bbrplus_drain_to_target_cycling c i rs).sk_pacing_rate = c.sk_pacing_rate := by
  simp only [bbrplus_drain_to_target_cycling]
  repeat' split
  all_goals simp

@[simp] theorem frame_drain_cycling_min_rtt_us (c : Conn) (i : Input) (rs : RateSample) :
    (bbrplus_drain_to_target_cycling c i rs).bbr.min_rtt_us = c.bbr.min_rtt_us :=
  (frame_drain_cycling c i rs).1

@[simp] theorem frame_drain_cycling_min_rtt_stamp (c : Conn) (i : Input) (rs : RateSample) :
    (bbrplus_drain_to_target_cycling c i rs).bbr.min_rtt_stamp = c.bbr.min_rtt_stamp :=
  (frame_drain_cycling c i rs).2.1

@[simp] theorem frame_drain_cycling_probe_rtt_done_stamp (c : Conn) (i : Input) (rs : RateSample) :
    (bbrplus_drain_to_target_cycling c i rs).bbr.probe_rtt_done_stamp = c.bbr.probe_rtt_done_stamp :=
  (frame_drain_cycling c i rs).2.2.1

@[simp] theorem frame_drain_cycling_bw (c : Conn) (i : Input) (rs : RateSample) :
    (bbrplus_drain_to_target_cycling c i rs).bbr.bw = c.bbr.bw :=
  (frame_drain_cycling c i rs).2.2.2.1

@[simp] theorem frame_drain_cycling_rtt_cnt (c : Conn) (i : Input) (rs : RateSample) :
    (bbrplus_drain_to_target_cycling c i rs).bbr.rtt_cnt = c.bbr.rtt_cnt :=
  (frame_drain_cycling c i rs).2.2.2.2.1

@[simp] theorem frame_drain_cycling_next_rtt_delivered (c : Conn) (i : Input) (rs : RateSample) :
    (bbrplus_drain_to_target_cycling c i rs).bbr.next_rtt_delivered = c.bbr.next_rtt_delivered :=
  (frame_drain_cycling c i rs).2.2.2.2.2.1

@[simp] theorem frame_drain_cycling_mode (c : Conn) (i : Input) (rs : RateSample) :
    (bbrplus_drain_to_target_cycling c i rs).bbr.mode = c.bbr.mode :=
  (frame_drain_cycling c i rs).2.2.2.2.2.2.1

@[simp] theorem frame_drain_cycling_prev_ca_state (c : Conn) (i : Input) (rs : RateSample) :
    (bbrplus_drain_to_target_cycling c i rs).bbr.prev_ca_state = c.bbr.prev_ca_state :=
  (frame_drain_cycling c i rs).2.2.2.2.2.2.2.1

@[simp] theorem frame_drain_cycling_packet_conservation (c : Conn) (i : Input) (rs : RateSample) :
    (bbrplus_drain_to_target_cycling c i rs).bbr.packet_conservation = c.bbr.packet_conservation :=
  (frame_drain_cycling c i rs).2.2.2.2.2.2.2.2.1

@[simp] theorem frame_drain_cycling_restore_cwnd (c : Conn) (i : Input) (rs : RateSample) :
    (bbrplus_drain_to_target_cycling c i rs).bbr.restore_cwnd = c.bbr.restore_cwnd :=
  (frame_drain_cycling c i rs).2.2.2.2.2.2.2.2.2.1

@[simp] theorem frame_drain_cycling_round_start (c : Conn) (i : Input) (rs : RateSample) :
    (bbrplus_drain_to_target_cycling c i rs).bbr.round_start = c.bbr.round_start :=
  (frame_drain_cycling c i rs).2.2.2.2.2.2.2.2.2.2.1

@[simp] theorem frame_drain_cycling_tso_segs_goal (c : Conn) (i : Input) (rs : RateSample) :
    (bbrplus_drain_to_target_cycling c i rs).bbr.tso_segs_goal = c.bbr.tso_segs_goal :=
  (frame_drain_cycling c i rs).2.2.2.2.2.2.2.2.2.2.2.1

@[simp] theorem frame_drain_cycling_idle_restart (c : Conn) (i : Input) (rs : RateSample) :
    (bbrplus_drain_to_target_cycling c i rs).bbr.idle_restart = c.bbr.idle_restart :=
  (frame_drain_cycling c i rs).2.2.2.2.2.2.2.2.2.2.2.2.1

@[simp] theorem frame_drain_cycling_probe_rtt_round_done (c : Conn) (i : Input) (rs : RateSample) :
    (bbrplus_drain_to_target_cycling c i rs).bbr.probe_rtt_round_done = c.bbr.probe_rtt_round_done :=
  (frame_drain_cycling c i rs).2.2.2.2.2.2.2.2.2.2.2.2.2.1

@[simp] theorem frame_drain_cycling_lt_is_sampling (c : Conn) (i : Input) (rs : RateSample) :
    (bbrplus_drain_to_target_cycling c i rs).bbr.lt_is_sampling = c.bbr.lt_is_sampling :=
  (frame_drain_cycling c i rs).2.2.2.2.2.2.2.2.2.2.2.2.2.2.1

@[simp] theorem frame_drain_cycling_lt_rtt_cnt (c : Conn) (i : Input) (rs : RateSample) :
    (bbrplus_drain_to_target_cycling c i rs).bbr.lt_rtt_cnt = c.bbr.lt_rtt_cnt :=
  (frame_drain_cycling c i rs).2.2.2.2.2.2.2.2.2.2.2.2.2.2.2.1

@[simp] theorem frame_drain_cycling_lt_use_bw (c : Conn) (i : Input) (rs : RateSample) :
    (bbrplus_drain_to_target_cycling c i rs).bbr.lt_use_bw = c.bbr.lt_use_bw :=
  (frame_drain_cycling c i rs).2.2.2.2.2.2.2.2.2.2.2.2.2.2.2.2.1

@[simp] theorem frame_drain_cycling_lt_bw (c : Conn) (i : Input) (rs : RateSample) :
    (bbrplus_drain_to_target_cycling c i rs).bbr.lt_bw = c.bbr.lt_bw :=
  (frame_drain_cycling c i rs).2.2.2.2.2.2.2.2.2.2.2.2.2.2.2.2.2.1

@[simp] theorem frame_drain_cycling_lt_last_delivered (c : Conn) (i : Input) (rs : RateSample) :
    (bbrplus_drain_to_target_cycling c i rs).bbr.lt_last_delivered = c.bbr.lt_last_delivered :=
  (frame_drain_cycling c i rs).2.2.2.2.2.2.2.2.2.2.2.2.2.2.2.2.2.2.1

@[simp] theorem frame_drain_cycling_lt_last_stamp (c : Conn) (i : Input) (rs : RateSample) :
    (bbrplus_drain_to_target_cycling c i rs).bbr.lt_last_stamp = c.bbr.lt_last_stamp :=
  (frame_drain_cycling c i rs).2.2.2.2.2.2.2.2.2.2.2.2.2.2.2.2.2.2.2.1

@[simp] theorem frame_drain_cycling_lt_last_lost (c : Conn) (i : Input) (rs : RateSample) :
    (bbrplus_drain_to_target_cycling c i rs).bbr.lt_last_lost = c.bbr.lt_last_lost :=
  (frame_drain_cycling c i rs).2.2.2.2.2.2.2.2.2.2.2.2.2.2.2.2.2.2.2.2.1

@[simp] theorem frame_drain_cycling_cwnd_gain (c : Conn) (i : Input) (rs : RateSample) :
    (bbrplus_drain_to_target_cycling c i rs).bbr.cwnd_gain = c.bbr.cwnd_gain :=
  (frame_drain_cycling c i rs).2.2.2.2.2.2.2.2.2.2.2.2.2.2.2.2.2.2.2.2.2.1

@[simp] theorem frame_drain_cycling_full_bw_cnt (c : Conn) (i : Input) (rs : RateSample) :
    (bbrplus_drain_to_target_cycling c i rs).bbr.full_bw_cnt = c.bbr.full_bw_cnt :=
  (frame_drain_cycling c i rs).2.2.2.2.2.2.2.2.2.2.2.2.2.2.2.2.2.2.2.2.2.2.1

@[simp] theorem frame_drain_cycling_has_seen_rtt (c : Conn) (i : Input) (rs : RateSample) :
    (bbrplus_drain_to_target_cycling c i rs).bbr.has_seen_rtt = c.bbr.has_seen_rtt :=
  (frame_drain_cycling c i rs).2.2.2.2.2.2.2.2.2.2.2.2.2.2.2.2.2.2.2.2.2.2.2.1

@[simp] theorem frame_drain_cycling_prior_cwnd (c : Conn) (i : Input) (rs : RateSample) :
    (bbrplus_drain_to_target_cycling c i rs).bbr.prior_cwnd = c.bbr.prior_cwnd :=
  (frame_drain_cycling c i rs).2.2.2.2.2.2.2.2.2.2.2.2.2.2.2.2.2.2.2.2.2.2.2.2.1

@[simp] theorem frame_drain_cycling_full_bw (c : Conn) (i : Input) (rs : RateSample) :
    (bbrplus_drain_to_target_cycling c i rs).bbr.full_bw = c.bbr.full_bw :=
  (frame_drain_cycling c i rs).2.2.2.2.2.2.2.2.2.2.2.2.2.2.2.2.2.2.2.2.2.2.2.2.2.1

@[simp] theorem frame_drain_cycling_ack_epoch_mstamp (c : Conn) (i : Input) (rs : RateSample) :
    (bbrplus_drain_to_target_cycling c i rs).bbr.ack_epoch_mstamp = c.bbr.ack_epoch_mstamp :=
  (frame_drain_cycling c i rs).2.2.2.2.2.2.2.2.2.2.2.2.2.2.2.2.2.2.2.2.2.2.2.2.2.2.1

@[simp] theorem frame_drain_cycling_extra_acked0 (c : Conn) (i : Input) (rs : RateSample) :
    (bbrplus_drain_to_target_cycling c i rs).bbr.extra_acked0 = c.bbr.extra_acked0 :=
  (frame_drain_cycling c i rs).2.2.2.2.2.2.2.2.2.2.2.2.2.2.2.2.2.2.2.2.2.2.2.2.2.2.2.1

@[simp] theorem frame_drain_cycling_extra_acked1 (c : Conn) (i : Input) (rs : RateSample) :
    (bbrplus_drain_to_target_cycling c i rs).bbr.extra_acked1 = c.bbr.extra_acked1 :=
  (frame_drain_cycling c i rs).2.2.2.2.2.2.2.2.2.2.2.2.2.2.2.2.2.2.2.2.2.2.2.2.2.2.2.2.1

@[simp] theorem frame_drain_cycling_ack_epoch_acked (c : Conn) (i : Input) (rs : RateSample) :
    (bbrplus_drain_to_target_cycling c i rs).bbr.ack_epoch_acked = c.bbr.ack_epoch_acked :=
  (frame_drain_cycling c i rs).2.2.2.2.2.2.2.2.2.2.2.2.2.2.2.2.2.2.2.2.2.2.2.2.2.2.2.2.2.1

@[simp] theorem frame_drain_cycling_extra_acked_win_rtts (c : Conn) (i : Input) (rs : RateSample) :
    (bbrplus_drain_to_target_cycling c i rs).bbr.extra_acked_win_rtts = c.bbr.extra_acked_win_rtts :=
  (frame_drain_cycling c i rs).2.2.2.2.2.2.2.2.2.2.2.2.2.2.2.2.2.2.2.2.2.2.2.2.2.2.2.2.2.2.1

@[simp] theorem frame_drain_cycling_extra_acked_win_idx (c : Conn) (i : Input) (rs : RateSample) :
    (bbrplus_drain_to_target_cycling c i rs).bbr.extra_acked_win_idx = c.bbr.extra_acked_win_idx :=
  (frame_drain_cycling c i rs).2.2.2.2.2.2.2.2.2.2.2.2.2.2.2.2.2.2.2.2.2.2.2.2.2.2.2.2.2.2.2.1

@[simp] theorem frame_drain_cycling_snd_cwnd (c : Conn) (i : Input) (rs : RateSample) :
    (bbrplus_drain_to_target_cycling c i rs).snd_cwnd = c.snd_cwnd :=
  (frame_drain_cycling c i rs).2.2.2.2.2.2.2.2.2.2.2.2.2.2.2.2.2.2.2.2.2.2.2.2.2.2.2.2.2.2.2.2.1

@[simp] theorem frame_drain_cycling_sk_pacing_rate (c : Conn) (i : Input) (rs : RateSample) :
    (bbrplus_drain_to_target_cycling c i rs).sk_pacing_rate = c.sk_pacing_rate :=
  (frame_drain_cycling c i rs).2.2.2.2.2.2.2.2.2.2.2.2.2.2.2.2.2.2.2.2.2.2.2.2.2.2.2.2.2.2.2.2.2

/-- Fields that `bbrplus_update_cycle_phase` never writes. -/
theorem frame_update_cycle_phase (c : Conn) (i : Input) (rs : RateSample) :
    (bbrplus_update_cycle_phase c i rs).bbr.min_rtt_us = c.bbr.min_rtt_us ∧
    (bbrplus_update_cycle_phase c i rs).bbr.min_rtt_stamp = c.bbr.min_rtt_stamp ∧
    (bbrplus_update_cycle_phase c i rs).bbr.probe_rtt_done_stamp = c.bbr.probe_rtt_done_stamp ∧
    (bbrplus_update_cycle_phase c i rs).bbr.bw = c.bbr.bw ∧
    (bbrplus_update_cycle_phase c i rs).bbr.rtt_cnt = c.bbr.rtt_cnt ∧
    (bbrplus_update_cycle_phase c i rs).bbr.next_rtt_delivered = c.bbr.next_rtt_delivered ∧
    (bbrplus_update_cycle_phase c i rs).bbr.mode = c.bbr.mode ∧
    (bbrplus_update_cycle_phase c i rs).bbr.prev_ca_state = c.bbr.prev_ca_state ∧
    (bbrplus_update_cycle_phase c i rs).bbr.packet_conservation = c.bbr.packet_conservation ∧
    (bbrplus_update_cycle_phase c i rs).bbr.restore_cwnd = c.bbr.restore_cwnd ∧
    (bbrplus_update_cycle_phase c i rs).bbr.round_start = c.bbr.round_start ∧
    (bbrplus_update_cycle_phase c i rs).bbr.tso_segs_goal = c.bbr.tso_segs_goal ∧
    (bbrplus_update_cycle_phase c i rs).bbr.idle_restart = c.bbr.idle_restart ∧
    (bbrplus_update_cycle_phase c i rs).bbr.probe_rtt_round_done = c.bbr.probe_rtt_round_done ∧
    (bbrplus_update_cycle_phase c i rs).bbr.lt_is_sampling = c.bbr.lt_is_sampling ∧
    (bbrplus_update_cycle_phase c i rs).bbr.lt_rtt_cnt = c.bbr.lt_rtt_cnt ∧
    (bbrplus_update_cycle_phase c i rs).bbr.lt_use_bw = c.bbr.lt_use_bw ∧
    (bbrplus_update_cycle_phase c i rs).bbr.lt_bw = c.bbr.lt_bw ∧
    (bbrplus_update_cycle_phase c i rs).bbr.lt_last_delivered = c.bbr.lt_last_delivered ∧
    (bbrplus_update_cycle_phase c i rs).bbr.lt_last_stamp = c.bbr.lt_last_stamp ∧
    (bbrplus_update_cycle_phase c i rs).bbr.lt_last_lost = c.bbr.lt_last_lost ∧
    (bbrplus_update_cycle_phase c i rs).bbr.cwnd_gain = c.bbr.cwnd_gain ∧
    (bbrplus_update_cycle_phase c i rs).bbr.full_bw_cnt = c.bbr.full_bw_cnt ∧
    (bbrplus_update_cycle_phase c i rs).bbr.has_seen_rtt = c.bbr.has_seen_rtt ∧
    (bbrplus_update_cycle_phase c i rs).bbr.prior_cwnd = c.bbr.prior_cwnd ∧
    (bbrplus_update_cycle_phase c i rs).bbr.full_bw = c.bbr.full_bw ∧
    (bbrplus_update_cycle_phase c i rs).bbr.ack_epoch_mstamp = c.bbr.ack_epoch_mstamp ∧
    (bbrplus_update_cycle_phase c i rs).bbr.extra_acked0 = c.bbr.extra_acked0 ∧
    (bbrplus_update_cycle_phase c i rs).bbr.extra_acked1 = c.bbr.extra_acked1 ∧
    (bbrplus_update_cycle_phase c i rs).bbr.ack_epoch_acked = c.bbr.ack_epoch_acked ∧
    (bbrplus_update_cycle_phase c i rs).bbr.extra_acked_win_rtts = c.bbr.extra_acked_win_rtts ∧
    (bbrplus_update_cycle_phase c i rs).bbr.extra_acked_win_idx = c.bbr.extra_acked_win_idx ∧
    (bbrplus_update_cycle_phase c i rs).snd_cwnd = c.snd_cwnd ∧
    (bbrplus_update_cycle_phase c i rs).sk_pacing_rate = c.sk_pacing_rate := by
  simp only [bbrplus_update_cycle_phase]
  repeat' split
  all_goals simp

@[simp] theorem frame_update_cycle_phase_min_rtt_us (c : Conn) (i : Input) (rs : RateSample) :
    (bbrplus_update_cycle_phase c i rs).bbr.min_rtt_us = c.bbr.min_rtt_us :=
  (frame_update_cycle_phase c i rs).1

@[simp] theorem frame_update_cycle_phase_min_rtt_stamp (c : Conn) (i : Input) (rs : RateSample) :
    (bbrplus_update_cycle_phase c i rs).bbr.min_rtt_stamp = c.bbr.min_rtt_stamp :=
  (frame_update_cycle_phase c i rs).2.1

@[simp] theorem frame_update_cycle_phase_probe_rtt_done_stamp (c : Conn) (i : Input) (rs : RateSample) :
    (bbrplus_update_cycle_phase c i rs).bbr.probe_rtt_done_stamp = c.bbr.probe_rtt_done_stamp :=
  (frame_update_cycle_phase c i rs).2.2.1

@[simp] theorem frame_update_cycle_phase_bw (c : Conn) (i : Input) (rs : RateSample) :
    (bbrplus_update_cycle_phase c i rs).bbr.bw = c.bbr.bw :=
  (frame_update_cycle_phase c i rs).2.2.2.1

@[simp] theorem frame_update_cycle_phase_rtt_cnt (c : Conn) (i : Input) (rs : RateSample) :
    (bbrplus_update_cycle_phase c i rs).bbr.rtt_cnt = c.bbr.rtt_cnt :=
  (frame_update_cycle_phase c i rs).2.2.2.2.1

@[simp] theorem frame_update_cycle_phase_next_rtt_delivered (c : Conn) (i : Input) (rs : RateSample) :
    (bbrplus_update_cycle_phase c i rs).bbr.next_rtt_delivered = c.bbr.next_rtt_delivered :=
  (frame_update_cycle_phase c i rs).2.2.2.2.2.1

@[simp] theorem frame_update_cycle_phase_mode (c : Conn) (i : Input) (rs : RateSample) :
    (bbrplus_update_cycle_phase c i rs).bbr.mode = c.bbr.mode :=
  (frame_update_cycle_phase c i rs).2.2.2.2.2.2.1

@[simp] theorem frame_update_cycle_phase_prev_ca_state (c : Conn) (i : Input) (rs : RateSample) :
    (bbrplus_update_cycle_phase c i rs).bbr.prev_ca_state = c.bbr.prev_ca_state :=
  (frame_update_cycle_phase c i rs).2.2.2.2.2.2.2.1

@[simp] theorem frame_update_cycle_phase_packet_conservation (c : Conn) (i : Input) (rs : RateSample) :
    (bbrplus_update_cycle_phase c i rs).bbr.packet_conservation = c.bbr.packet_conservation :=
  (frame_update_cycle_phase c i rs).2.2.2.2.2.2.2.2.1

@[simp] theorem frame_update_cycle_phase_restore_cwnd (c : Conn) (i : Input) (rs : RateSample) :
    (bbrplus_update_cycle_phase c i rs).bbr.restore_cwnd = c.bbr.restore_cwnd :=
  (frame_update_cycle_phase c i rs).2.2.2.2.2.2.2.2.2.1

@[simp] theorem frame_update_cycle_phase_round_start (c : Conn) (i : Input) (rs : RateSample) :
    (bbrplus_update_cycle_phase c i rs).bbr.round_start = c.bbr.round_start :=
  (frame_update_cycle_phase c i rs).2.2.2.2.2.2.2.2.2.2.1

@[simp] theorem frame_update_cycle_phase_tso_segs_goal (c : Conn) (i : Input) (rs : RateSample) :
    (bbrplus_update_cycle_phase c i rs).bbr.tso_segs_goal = c.bbr.tso_segs_goal :=
  (frame_update_cycle_phase c i rs).2.2.2.2.2.2.2.2.2.2.2.1

@[simp] theorem frame_update_cycle_phase_idle_restart (c : Conn) (i : Input) (rs : RateSample) :
    (bbrplus_update_cycle_phase c i rs).bbr.idle_restart = c.bbr.idle_restart :=
  (frame_update_cycle_phase c i rs).2.2.2.2.2.2.2.2.2.2.2.2.1

@[simp] theorem frame_update_cycle_phase_probe_rtt_round_done (c : Conn) (i : Input) (rs : RateSample) :
    (bbrplus_update_cycle_phase c i rs).bbr.probe_rtt_round_done = c.bbr.probe_rtt_round_done :=
  (frame_update_cycle_phase c i rs).2.2.2.2.2.2.2.2.2.2.2.2.2.1

@[simp] theorem frame_update_cycle_phase_lt_is_sampling (c : Conn) (i : Input) (rs : RateSample) :
    (bbrplus_update_cycle_phase c i rs).bbr.lt_is_sampling = c.bbr.lt_is_sampling :=
  (frame_update_cycle_phase c i rs).2.2.2.2.2.2.2.2.2.2.2.2.2.2.1

@[simp] theorem frame_update_cycle_phase_lt_rtt_cnt (c : Conn) (i : Input) (rs : RateSample) :
    (bbrplus_update_cycle_phase c i rs).bbr.lt_rtt_cnt = c.bbr.lt_rtt_cnt :=
  (frame_update_cycle_phase c i rs).2.2.2.2.2.2.2.2.2.2.2.2.2.2.2.1

@[simp] theorem frame_update_cycle_phase_lt_use_bw (c : Conn) (i : Input) (rs : RateSample) :
    (bbrplus_update_cycle_phase c i rs).bbr.lt_use_bw = c.bbr.lt_use_bw :=
  (frame_update_cycle_phase c i rs).2.2.2.2.2.2.2.2.2.2.2.2.2.2.2.2.1

@[simp] theorem frame_update_cycle_phase_lt_bw (c : Conn) (i : Input) (rs : RateSample) :
    (bbrplus_update_cycle_phase c i rs).bbr.lt_bw = c.bbr.lt_bw :=
  (frame_update_cycle_phase c i rs).2.2.2.2.2.2.2.2.2.2.2.2.2.2.2.2.2.1

@[simp] theorem frame_update_cycle_phase_lt_last_delivered (c : Conn) (i : Input) (rs : RateSample) :
    (bbrplus_update_cycle_phase c i rs).bbr.lt_last_delivered = c.bbr.lt_last_delivered :=
  (frame_update_cycle_phase c i rs).2.2.2.2.2.2.2.2.2.2.2.2.2.2.2.2.2.2.1

@[simp] theorem frame_update_cycle_phase_lt_last_stamp (c : Conn) (i : Input) (rs : RateSample) :
    (bbrplus_update_cycle_phase c i rs).bbr.lt_last_stamp = c.bbr.lt_last_stamp :=
  (frame_update_cycle_phase c i rs).2.2.2.2.2.2.2.2.2.2.2.2.2.2.2.2.2.2.2.1

@[simp] theorem frame_update_cycle_phase_lt_last_lost (c : Conn) (i : Input) (rs : RateSample) :
    (bbrplus_update_cycle_phase c i rs).bbr.lt_last_lost = c.bbr.lt_last_lost :=
  (frame_update_cycle_phase c i rs).2.2.2.2.2.2.2.2.2.2.2.2.2.2.2.2.2.2.2.2.1

@[simp] theorem frame_update_cycle_phase_cwnd_gain (c : Conn) (i : Input) (rs : RateSample) :
    (bbrplus_update_cycle_phase c i rs).bbr.cwnd_gain = c.bbr.cwnd_gain :=
  (frame_update_cycle_phase c i rs).2.2.2.2.2.2.2.2.2.2.2.2.2.2.2.2.2.2.2.2.2.1

@[simp] theorem frame_update_cycle_phase_full_bw_cnt (c : Conn) (i : Input) (rs : RateSample) :
    (bbrplus_update_cycle_phase c i rs).bbr.full_bw_cnt = c.bbr.full_bw_cnt :=
  (frame_update_cycle_phase c i rs).2.2.2.2.2.2.2.2.2.2.2.2.2.2.2.2.2.2.2.2.2.2.1

@[simp] theorem frame_update_cycle_phase_has_seen_rtt (c : Conn) (i : Input) (rs : RateSample) :
    (bbrplus_update_cycle_phase c i rs).bbr.has_seen_rtt = c.bbr.has_seen_rtt :=
  (frame_update_cycle_phase c i rs).2.2.2.2.2.2.2.2.2.2.2.2.2.2.2.2.2.2.2.2.2.2.2.1

@[simp] theorem frame_update_cycle_phase_prior_cwnd (c : Conn) (i : Input) (rs : RateSample) :
    (bbrplus_update_cycle_phase c i rs).bbr.prior_cwnd = c.bbr.prior_cwnd :=
  (frame_update_cycle_phase c i rs).2.2.2.2.2.2.2.2.2.2.2.2.2.2.2.2.2.2.2.2.2.2.2.2.1

@[simp] theorem frame_update_cycle_phase_full_bw (c : Conn) (i : Input) (rs : RateSample) :
    (bbrplus_update_cycle_phase c i rs).bbr.full_bw = c.bbr.full_bw :=
  (frame_update_cycle_phase c i rs).2.2.2.2.2.2.2.2.2.2.2.2.2.2.2.2.2.2.2.2.2.2.2.2.2.1

@[simp] theorem frame_update_cycle_phase_ack_epoch_mstamp (c : Conn) (i : Input) (rs : RateSample) :
    (bbrplus_update_cycle_phase c i rs).bbr.ack_epoch_mstamp = c.bbr.ack_epoch_mstamp :=
  (frame_update_cycle_phase c i rs).2.2.2.2.2.2.2.2.2.2.2.2.2.2.2.2.2.2.2.2.2.2.2.2.2.2.1

@[simp] theorem frame_update_cycle_phase_extra_acked0 (c : Conn) (i : Input) (rs : RateSample) :
    (bbrplus_update_cycle_phase c i rs).bbr.extra_acked0 = c.bbr.extra_acked0 :=
  (frame_update_cycle_phase c i rs).2.2.2.2.2.2.2.2.2.2.2.2.2.2.2.2.2.2.2.2.2.2.2.2.2.2.2.1

@[simp] theorem frame_update_cycle_phase_extra_acked1 (c : Conn) (i : Input) (rs : RateSample) :
    (bbrplus_update_cycle_phase c i rs).bbr.extra_acked1 = c.bbr.extra_acked1 :=
  (frame_update_cycle_phase c i rs).2.2.2.2.2.2.2.2.2.2.2.2.2.2.2.2.2.2.2.2.2.2.2.2.2.2.2.2.1

@[simp] theorem frame_update_cycle_phase_ack_epoch_acked (c : Conn) (i : Input) (rs : RateSample) :
    (bbrplus_update_cycle_phase c i rs).bbr.ack_epoch_acked = c.bbr.ack_epoch_acked :=
  (frame_update_cycle_phase c i rs).2.2.2.2.2.2.2.2.2.2.2.2.2.2.2.2.2.2.2.2.2.2.2.2.2.2.2.2.2.1

@[simp] theorem frame_update_cycle_phase_extra_acked_win_rtts (c : Conn) (i : Input) (rs : RateSample) :
    (bbrplus_update_cycle_phase c i rs).bbr.extra_acked_win_rtts = c.bbr.extra_acked_win_rtts :=
  (frame_update_cycle_phase c i rs).2.2.2.2.2.2.2.2.2.2.2.2.2.2.2.2.2.2.2.2.2.2.2.2.2.2.2.2.2.2.1

@[simp] theorem frame_update_cycle_phase_extra_acked_win_idx (c : Conn) (i : Input) (rs : RateSample) :
    (bbrplus_update_cycle_phase c i rs).bbr.extra_acked_win_idx = c.bbr.extra_acked_win_idx :=
  (frame_update_cycle_phase c i rs).2.2.2.2.2.2.2.2.2.2.2.2.2.2.2.2.2.2.2.2.2.2.2.2.2.2.2.2.2.2.2.1

@[simp] theorem frame_update_cycle_phase_snd_cwnd (c : Conn) (i : Input) (rs : RateSample) :
    (bbrplus_update_cycle_phase c i rs).snd_cwnd = c.snd_cwnd :=
  (frame_update_cycle_phase c i rs).2.2.2.2.2.2.2.2.2.2.2.2.2.2.2.2.2.2.2.2.2.2.2.2.2.2.2.2.2.2.2.2.1

@[simp] theorem frame_update_cycle_phase_sk_pacing_rate (c : Conn) (i : Input) (rs : RateSample) :
    (bbrplus_update_cycle_phase c i rs).sk_pacing_rate = c.sk_pacing_rate :=
  (frame_update_cycle_phase c i rs).2.2.2.2.2.2.2.2.2.2.2.2.2.2.2.2.2.2.2.2.2.2.2.2.2.2.2.2.2.2.2.2.2

/-- Fields that `bbrplus_check_full_bw_reached` never writes. -/
theorem frame_check_full (c : Conn) (rs : RateSample) :
    (bbrplus_check_full_bw_reached c rs).bbr.min_rtt_us = c.bbr.min_rtt_us ∧
    (bbrplus_check_full_bw_reached c rs).bbr.min_rtt_stamp = c.bbr.min_rtt_stamp ∧
    (bbrplus_check_full_bw_reached c rs).bbr.probe_rtt_done_stamp = c.bbr.probe_rtt_done_stamp ∧
    (bbrplus_check_full_bw_reached c rs).bbr.bw = c.bbr.bw ∧
    (bbrplus_check_full_bw_reached c rs).bbr.rtt_cnt = c.bbr.rtt_cnt ∧
    (bbrplus_check_full_bw_reached c rs).bbr.next_rtt_delivered = c.bbr.next_rtt_delivered ∧
    (bbrplus_check_full_bw_reached c rs).bbr.cycle_mstamp = c.bbr.cycle_mstamp ∧
    (bbrplus_check_full_bw_reached c rs).bbr.mode = c.bbr.mode ∧
    (bbrplus_check_full_bw_reached c rs).bbr.prev_ca_state = c.bbr.prev_ca_state ∧
    (bbrplus_check_full_bw_reached c rs).bbr.packet_conservation = c.bbr.packet_conservation ∧
    (bbrplus_check_full_bw_reached c rs).bbr.restore_cwnd = c.bbr.restore_cwnd ∧
    (bbrplus_check_full_bw_reached c rs).bbr.round_start = c.bbr.round_start ∧
    (bbrplus_check_full_bw_reached c rs).bbr.cycle_len = c.bbr.cycle_len ∧
    (bbrplus_check_full_bw_reached c rs).bbr.tso_segs_goal = c.bbr.tso_segs_goal ∧
    (bbrplus_check_full_bw_reached c rs).bbr.idle_restart = c.bbr.idle_restart ∧
    (bbrplus_check_full_bw_reached c rs).bbr.probe_rtt_round_done = c.bbr.probe_rtt_round_done ∧
    (bbrplus_check_full_bw_reached c rs).bbr.lt_is_sampling = c.bbr.lt_is_sampling ∧
    (bbrplus_check_full_bw_reached c rs).bbr.lt_rtt_cnt = c.bbr.lt_rtt_cnt ∧
    (bbrplus_check_full_bw_reached c rs).bbr.lt_use_bw = c.bbr.lt_use_bw ∧
    (bbrplus_check_full_bw_reached c rs).bbr.lt_bw = c.bbr.lt_bw ∧
    (bbrplus_check_full_bw_reached c rs).bbr.lt_last_delivered = c.bbr.lt_last_delivered ∧
    (bbrplus_check_full_bw_reached c rs).bbr.lt_last_stamp = c.bbr.lt_last_stamp ∧
    (bbrplus_check_full_bw_reached c rs).bbr.lt_last_lost = c.bbr.lt_last_lost ∧
    (bbrplus_check_full_bw_reached c rs).bbr.pacing_gain = c.bbr.pacing_gain ∧
    (bbrplus_check_full_bw_reached c rs).bbr.cwnd_gain = c.bbr.cwnd_gain ∧
    (bbrplus_check_full_bw_reached c rs).bbr.cycle_idx = c.bbr.cycle_idx ∧
    (bbrplus_check_full_bw_reached c rs).bbr.has_seen_rtt = c.bbr.has_seen_rtt ∧
    (bbrplus_check_full_bw_reached c rs).bbr.prior_cwnd = c.bbr.prior_cwnd ∧
    (bbrplus_check_full_bw_reached c rs).bbr.ack_epoch_mstamp = c.bbr.ack_epoch_mstamp ∧
    (bbrplus_check_full_bw_reached c rs).bbr.extra_acked0 = c.bbr.extra_acked0 ∧
    (bbrplus_check_full_bw_reached c rs).bbr.extra_acked1 = c.bbr.extra_acked1 ∧
    (bbrplus_check_full_bw_reached c rs).bbr.ack_epoch_acked = c.bbr.ack_epoch_acked ∧
    (bbrplus_check_full_bw_reached c rs).bbr.extra_acked_win_rtts = c.bbr.extra_acked_win_rtts ∧
    (bbrplus_check_full_bw_reached c rs).bbr.extra_acked_win_idx = c.bbr.extra_acked_win_idx ∧
    (bbrplus_check_full_bw_reached c rs).snd_cwnd = c.snd_cwnd ∧
    (bbrplus_check_full_bw_reached c rs).sk_pacing_rate = c.sk_pacing_rate := by
  simp only [bbrplus_check_full_bw_reached]
  repeat' split
  all_goals simp

@[simp] theorem frame_check_full_min_rtt_us (c : Conn) (rs : RateSample) :
    (bbrplus_check_full_bw_reached c rs).bbr.min_rtt_us = c.bbr.min_rtt_us :=
  (frame_check_full c rs).1

@[simp] theorem frame_check_full_min_rtt_stamp (c : Conn) (rs : RateSample) :
    (bbrplus_check_full_bw_reached c rs).bbr.min_rtt_stamp = c.bbr.min_rtt_stamp :=
  (frame_check_full c rs).2.1

@[simp] theorem frame_check_full_probe_rtt_done_stamp (c : Conn) (rs : RateSample) :
    (bbrplus_check_full_bw_reached c rs).bbr.probe_rtt_done_stamp = c.bbr.probe_rtt_done_stamp :=
  (frame_check_full c rs).2.2.1

@[simp] theorem frame_check_full_bw (c : Conn) (rs : RateSample) :
    (bbrplus_check_full_bw_reached c rs).bbr.bw = c.bbr.bw :=
  (frame_check_full c rs).2.2.2.1

@[simp] theorem frame_check_full_rtt_cnt (c : Conn) (rs : RateSample) :
    (bbrplus_check_full_bw_reached c rs).bbr.rtt_cnt = c.bbr.rtt_cnt :=
  (frame_check_full c rs).2.2.2.2.1

@[simp] theorem frame_check_full_next_rtt_delivered (c : Conn) (rs : RateSample) :
    (bbrplus_check_full_bw_reached c rs).bbr.next_rtt_delivered = c.bbr.next_rtt_delivered :=
  (frame_check_full c rs).2.2.2.2.2.1

@[simp] theorem frame_check_full_cycle_mstamp (c : Conn) (rs : RateSample) :
    (bbrplus_check_full_bw_reached c rs).bbr.cycle_mstamp = c.bbr.cycle_mstamp :=
  (frame_check_full c rs).2.2.2.2.2.2.1

@[simp] theorem frame_check_full_mode (c : Conn) (rs : RateSample) :
    (bbrplus_check_full_bw_reached c rs).bbr.mode = c.bbr.mode :=
  (frame_check_full c rs).2.2.2.2.2.2.2.1

@[simp] theorem frame_check_full_prev_ca_state (c : Conn) (rs : RateSample) :
    (bbrplus_check_full_bw_reached c rs).bbr.prev_ca_state = c.bbr.prev_ca_state :=
  (frame_check_full c rs).2.2.2.2.2.2.2.2.1

@[simp] theorem frame_check_full_packet_conservation (c : Conn) (rs : RateSample) :
    (bbrplus_check_full_bw_reached c rs).bbr.packet_conservation = c.bbr.packet_conservation :=
  (frame_check_full c rs).2.2.2.2.2.2.2.2.2.1

@[simp] theorem frame_check_full_restore_cwnd (c : Conn) (rs : RateSample) :
    (bbrplus_check_full_bw_reached c rs).bbr.restore_cwnd = c.bbr.restore_cwnd :=
  (frame_check_full c rs).2.2.2.2.2.2.2.2.2.2.1

@[simp] theorem frame_check_full_round_start (c : Conn) (rs : RateSample) :
    (bbrplus_check_full_bw_reached c rs).bbr.round_start = c.bbr.round_start :=
  (frame_check_full c rs).2.2.2.2.2.2.2.2.2.2.2.1

@[simp] theorem frame_check_full_cycle_len (c : Conn) (rs : RateSample) :
    (bbrplus_check_full_bw_reached c rs).bbr.cycle_len = c.bbr.cycle_len :=
  (frame_check_full c rs).2.2.2.2.2.2.2.2.2.2.2.2.1

@[simp] theorem frame_check_full_tso_segs_goal (c : Conn) (rs : RateSample) :
    (bbrplus_check_full_bw_reached c rs).bbr.tso_segs_goal = c.bbr.tso_segs_goal :=
  (frame_check_full c rs).2.2.2.2.2.2.2.2.2.2.2.2.2.1

@[simp] theorem frame_check_full_idle_restart (c : Conn) (rs : RateSample) :
    (bbrplus_check_full_bw_reached c rs).bbr.idle_restart = c.bbr.idle_restart :=
  (frame_check_full c rs).2.2.2.2.2.2.2.2.2.2.2.2.2.2.1

@[simp] theorem frame_check_full_probe_rtt_round_done (c : Conn) (rs : RateSample) :
    (bbrplus_check_full_bw_reached c rs).bbr.probe_rtt_round_done = c.bbr.probe_rtt_round_done :=
  (frame_check_full c rs).2.2.2.2.2.2.2.2.2.2.2.2.2.2.2.1

@[simp] theorem frame_check_full_lt_is_sampling (c : Conn) (rs : RateSample) :
    (bbrplus_check_full_bw_reached c rs).bbr.lt_is_sampling = c.bbr.lt_is_sampling :=
  (frame_check_full c rs).2.2.2.2.2.2.2.2.2.2.2.2.2.2.2.2.1

@[simp] theorem frame_check_full_lt_rtt_cnt (c : Conn) (rs : RateSample) :
    (bbrplus_check_full_bw_reached c rs).bbr.lt_rtt_cnt = c.bbr.lt_rtt_cnt :=
  (frame_check_full c rs).2.2.2.2.2.2.2.2.2.2.2.2.2.2.2.2.2.1

@[simp] theorem frame_check_full_lt_use_bw (c : Conn) (rs : RateSample) :
    (bbrplus_check_full_bw_reached c rs).bbr.lt_use_bw = c.bbr.lt_use_bw :=
  (frame_check_full c rs).2.2.2.2.2.2.2.2.2.2.2.2.2.2.2.2.2.2.1

@[simp] theorem frame_check_full_lt_bw (c : Conn) (rs : RateSample) :
    (bbrplus_check_full_bw_reached c rs).bbr.lt_bw = c.bbr.lt_bw :=
  (frame_check_full c rs).2.2.2.2.2.2.2.2.2.2.2.2.2.2.2.2.2.2.2.1

@[simp] theorem frame_check_full_lt_last_delivered (c : Conn) (rs : RateSample) :
    (bbrplus_check_full_bw_reached c rs).bbr.lt_last_delivered = c.bbr.lt_last_delivered :=
  (frame_check_full c rs).2.2.2.2.2.2.2.2.2.2.2.2.2.2.2.2.2.2.2.2.1

@[simp] theorem frame_check_full_lt_last_stamp (c : Conn) (rs : RateSample) :
    (bbrplus_check_full_bw_reached c rs).bbr.lt_last_stamp = c.bbr.lt_last_stamp :=
  (frame_check_full c rs).2.2.2.2.2.2.2.2.2.2.2.2.2.2.2.2.2.2.2.2.2.1

@[simp] theorem frame_check_full_lt_last_lost (c : Conn) (rs : RateSample) :
    (bbrplus_check_full_bw_reached c rs).bbr.lt_last_lost = c.bbr.lt_last_lost :=
  (frame_check_full c rs).2.2.2.2.2.2.2.2.2.2.2.2.2.2.2.2.2.2.2.2.2.2.1

@[simp] theorem frame_check_full_pacing_gain (c : Conn) (rs : RateSample) :
    (bbrplus_check_full_bw_reached c rs).bbr.pacing_gain = c.bbr.pacing_gain :=
  (frame_check_full c rs).2.2.2.2.2.2.2.2.2.2.2.2.2.2.2.2.2.2.2.2.2.2.2.1

@[simp] theorem frame_check_full_cwnd_gain (c : Conn) (rs : RateSample) :
    (bbrplus_check_full_bw_reached c rs).bbr.cwnd_gain = c.bbr.cwnd_gain :=
  (frame_check_full c rs).2.2.2.2.2.2.2.2.2.2.2.2.2.2.2.2.2.2.2.2.2.2.2.2.1

@[simp] theorem frame_check_full_cycle_idx (c : Conn) (rs : RateSample) :
    (bbrplus_check_full_bw_reached c rs).bbr.cycle_idx = c.bbr.cycle_idx :=
  (frame_check_full c rs).2.2.2.2.2.2.2.2.2.2.2.2.2.2.2.2.2.2.2.2.2.2.2.2.2.1

@[simp] theorem frame_check_full_has_seen_rtt (c : Conn) (rs : RateSample) :
    (bbrplus_check_full_bw_reached c rs).bbr.has_seen_rtt = c.bbr.has_seen_rtt :=
  (frame_check_full c rs).2.2.2.2.2.2.2.2.2.2.2.2.2.2.2.2.2.2.2.2.2.2.2.2.2.2.1

@[simp] theorem frame_check_full_prior_cwnd (c : Conn) (rs : RateSample) :
    (bbrplus_check_full_bw_reached c rs).bbr.prior_cwnd = c.bbr.prior_cwnd :=
  (frame_check_full c rs).2.2.2.2.2.2.2.2.2.2.2.2.2.2.2.2.2.2.2.2.2.2.2.2.2.2.2.1

@[simp] theorem frame_check_full_ack_epoch_mstamp (c : Conn) (rs : RateSample) :
    (bbrplus_check_full_bw_reached c rs).bbr.ack_epoch_mstamp = c.bbr.ack_epoch_mstamp :=
  (frame_check_full c rs).2.2.2.2.2.2.2.2.2.2.2.2.2.2.2.2.2.2.2.2.2.2.2.2.2.2.2.2.1

@[simp] theorem frame_check_full_extra_acked0 (c : Conn) (rs : RateSample) :
    (bbrplus_check_full_bw_reached c rs).bbr.extra_acked0 = c.bbr.extra_acked0 :=
  (frame_check_full c rs).2.2.2.2.2.2.2.2.2.2.2.2.2.2.2.2.2.2.2.2.2.2.2.2.2.2.2.2.2.1

@[simp] theorem frame_check_full_extra_acked1 (c : Conn) (rs : RateSample) :
    (bbrplus_check_full_bw_reached c rs).bbr.extra_acked1 = c.bbr.extra_acked1 :=
  (frame_check_full c rs).2.2.2.2.2.2.2.2.2.2.2.2.2.2.2.2.2.2.2.2.2.2.2.2.2.2.2.2.2.2.1

@[simp] theorem frame_check_full_ack_epoch_acked (c : Conn) (rs : RateSample) :
    (bbrplus_check_full_bw_reached c rs).bbr.ack_epoch_acked = c.bbr.ack_epoch_acked :=
  (frame_check_full c rs).2.2.2.2.2.2.2.2.2.2.2.2.2.2.2.2.2.2.2.2.2.2.2.2.2.2.2.2.2.2.2.1

@[simp] theorem frame_check_full_extra_acked_win_rtts (c : Conn) (rs : RateSample) :
    (bbrplus_check_full_bw_reached c rs).bbr.extra_acked_win_rtts = c.bbr.extra_acked_win_rtts :=
  (frame_check_full c rs).2.2.2.2.2.2.2.2.2.2.2.2.2.2.2.2.2.2.2.2.2.2.2.2.2.2.2.2.2.2.2.2.1

@[simp] theorem frame_check_full_extra_acked_win_idx (c : Conn) (rs : RateSample) :
    (bbrplus_check_full_bw_reached c rs).bbr.extra_acked_win_idx = c.bbr.extra_acked_win_idx :=
  (frame_check_full c rs).2.2.2.2.2.2.2.2.2.2.2.2.2.2.2.2.2.2.2.2.2.2.2.2.2.2.2.2.2.2.2.2.2.1

@[simp] theorem frame_check_full_snd_cwnd (c : Conn) (rs : RateSample) :
    (bbrplus_check_full_bw_reached c rs).snd_cwnd = c.snd_cwnd :=
  (frame_check_full c rs).2.2.2.2.2.2.2.2.2.2.2.2.2.2.2.2.2.2.2.2.2.2.2.2.2.2.2.2.2.2.2.2.2.2.1

@[simp] theorem frame_check_full_sk_pacing_rate (c : Conn) (rs : RateSample) :
    (bbrplus_check_full_bw_reached c rs).sk_pacing_rate = c.sk_pacing_rate :=
  (frame_check_full c rs).2.2.2.2.2.2.2.2.2.2.2.2.2.2.2.2.2.2.2.2.2.2.2.2.2.2.2.2.2.2.2.2.2.2.2

/-- Fields that `bbrplus_check_drain` never writes. -/
theorem frame_check_drain (c : Conn) (i : Input) :
    (bbrplus_check_drain c i).bbr.min_rtt_us = c.bbr.min_rtt_us ∧
    (bbrplus_check_drain c i).bbr.min_rtt_stamp = c.bbr.min_rtt_stamp ∧
    (bbrplus_check_drain c i).bbr.probe_rtt_done_stamp = c.bbr.probe_rtt_done_stamp ∧
    (bbrplus_check_drain c i).bbr.bw = c.bbr.bw ∧
    (bbrplus_check_drain c i).bbr.rtt_cnt = c.bbr.rtt_cnt ∧
    (bbrplus_check_drain c i).bbr.next_rtt_delivered = c.bbr.next_rtt_delivered ∧
    (bbrplus_check_drain c i).bbr.prev_ca_state = c.bbr.prev_ca_state ∧
    (bbrplus_check_drain c i).bbr.packet_conservation = c.bbr.packet_conservation ∧
    (bbrplus_check_drain c i).bbr.restore_cwnd = c.bbr.restore_cwnd ∧
    (bbrplus_check_drain c i).bbr.round_start = c.bbr.round_start ∧
    (bbrplus_check_drain c i).bbr.cycle_len = c.bbr.cycle_len ∧
    (bbrplus_check_drain c i).bbr.tso_segs_goal = c.bbr.tso_segs_goal ∧
    (bbrplus_check_drain c i).bbr.idle_restart = c.bbr.idle_restart ∧
    (bbrplus_check_drain c i).bbr.probe_rtt_round_done = c.bbr.probe_rtt_round_done ∧
    (bbrplus_check_drain c i).bbr.lt_is_sampling = c.bbr.lt_is_sampling ∧
    (bbrplus_check_drain c i).bbr.lt_rtt_cnt = c.bbr.lt_rtt_cnt ∧
    (bbrplus_check_drain c i).bbr.lt_use_bw = c.bbr.lt_use_bw ∧
    (bbrplus_check_drain c i).bbr.lt_bw = c.bbr.lt_bw ∧
    (bbrplus_check_drain c i).bbr.lt_last_delivered = c.bbr.lt_last_delivered ∧
    (bbrplus_check_drain c i).bbr.lt_last_stamp = c.bbr.lt_last_stamp ∧
    (bbrplus_check_drain c i).bbr.lt_last_lost = c.bbr.lt_last_lost ∧
    (bbrplus_check_drain c i).bbr.full_bw_cnt = c.bbr.full_bw_cnt ∧
    (bbrplus_check_drain c i).bbr.has_seen_rtt = c.bbr.has_seen_rtt ∧
    (bbrplus_check_drain c i).bbr.prior_cwnd = c.bbr.prior_cwnd ∧
    (bbrplus_check_drain c i).bbr.full_bw = c.bbr.full_bw ∧
    (bbrplus_check_drain c i).bbr.ack_epoch_mstamp = c.bbr.ack_epoch_mstamp ∧
    (bbrplus_check_drain c i).bbr.extra_acked0 = c.bbr.extra_acked0 ∧
    (bbrplus_check_drain c i).bbr.extra_acked1 = c.bbr.extra_acked1 ∧
    (bbrplus_check_drain c i).bbr.ack_epoch_acked = c.bbr.ack_epoch_acked ∧
    (bbrplus_check_drain c i).bbr.extra_acked_win_rtts = c.bbr.extra_acked_win_rtts ∧
    (bbrplus_check_drain c i).bbr.extra_acked_win_idx = c.bbr.extra_acked_win_idx ∧
    (bbrplus_check_drain c i).snd_cwnd = c.snd_cwnd ∧
    (bbrplus_check_drain c i).sk_pacing_rate = c.sk_pacing_rate := by
  simp only [bbrplus_check_drain]
  repeat' split
  all_goals simp

@[simp] theorem frame_check_drain_min_rtt_us (c : Conn) (i : Input) :
    (bbrplus_check_drain c i).bbr.min_rtt_us = c.bbr.min_rtt_us :=
  (frame_check_drain c i).1

@[simp] theorem frame_check_drain_min_rtt_stamp (c : Conn) (i : Input) :
    (bbrplus_check_drain c i).bbr.min_rtt_stamp = c.bbr.min_rtt_stamp :=
  (frame_check_drain c i).2.1

@[simp] theorem frame_check_drain_probe_rtt_done_stamp (c : Conn) (i : Input) :
    (bbrplus_check_drain c i).bbr.probe_rtt_done_stamp = c.bbr.probe_rtt_done_stamp :=
  (frame_check_drain c i).2.2.1

@[simp] theorem frame_check_drain_bw (c : Conn) (i : Input) :
    (bbrplus_check_drain c i).bbr.bw = c.bbr.bw :=
  (frame_check_drain c i).2.2.2.1

@[simp] theorem frame_check_drain_rtt_cnt (c : Conn) (i : Input) :
    (bbrplus_check_drain c i).bbr.rtt_cnt = c.bbr.rtt_cnt :=
  (frame_check_drain c i).2.2.2.2.1

@[simp] theorem frame_check_drain_next_rtt_delivered (c : Conn) (i : Input) :
    (bbrplus_check_drain c i).bbr.next_rtt_delivered = c.bbr.next_rtt_delivered :=
  (frame_check_drain c i).2.2.2.2.2.1

@[simp] theorem frame_check_drain_prev_ca_state (c : Conn) (i : Input) :
    (bbrplus_check_drain c i).bbr.prev_ca_state = c.bbr.prev_ca_state :=
  (frame_check_drain c i).2.2.2.2.2.2.1

@[simp] theorem frame_check_drain_packet_conservation (c : Conn) (i : Input) :
    (bbrplus_check_drain c i).bbr.packet_conservation = c.bbr.packet_conservation :=
  (frame_check_drain c i).2.2.2.2.2.2.2.1

@[simp] theorem frame_check_drain_restore_cwnd (c : Conn) (i : Input) :
    (bbrplus_check_drain c i).bbr.restore_cwnd = c.bbr.restore_cwnd :=
  (frame_check_drain c i).2.2.2.2.2.2.2.2.1

@[simp] theorem frame_check_drain_round_start (c : Conn) (i : Input) :
    (bbrplus_check_drain c i).bbr.round_start = c.bbr.round_start :=
  (frame_check_drain c i).2.2.2.2.2.2.2.2.2.1

@[simp] theorem frame_check_drain_cycle_len (c : Conn) (i : Input) :
    (bbrplus_check_drain c i).bbr.cycle_len = c.bbr.cycle_len :=
  (frame_check_drain c i).2.2.2.2.2.2.2.2.2.2.1

@[simp] theorem frame_check_drain_tso_segs_goal (c : Conn) (i : Input) :
    (bbrplus_check_drain c i).bbr.tso_segs_goal = c.bbr.tso_segs_goal :=
  (frame_check_drain c i).2.2.2.2.2.2.2.2.2.2.2.1

@[simp] theorem frame_check_drain_idle_restart (c : Conn) (i : Input) :
    (bbrplus_check_drain c i).bbr.idle_restart = c.bbr.idle_restart :=
  (frame_check_drain c i).2.2.2.2.2.2.2.2.2.2.2.2.1

@[simp] theorem frame_check_drain_probe_rtt_round_done (c : Conn) (i : Input) :
    (bbrplus_check_drain c i).bbr.probe_rtt_round_done = c.bbr.probe_rtt_round_done :=
  (frame_check_drain c i).2.2.2.2.2.2.2.2.2.2.2.2.2.1

@[simp] theorem frame_check_drain_lt_is_sampling (c : Conn) (i : Input) :
    (bbrplus_check_drain c i).bbr.lt_is_sampling = c.bbr.lt_is_sampling :=
  (frame_check_drain c i).2.2.2.2.2.2.2.2.2.2.2.2.2.2.1

@[simp] theorem frame_check_drain_lt_rtt_cnt (c : Conn) (i : Input) :
    (bbrplus_check_drain c i).bbr.lt_rtt_cnt = c.bbr.lt_rtt_cnt :=
  (frame_check_drain c i).2.2.2.2.2.2.2.2.2.2.2.2.2.2.2.1

@[simp] theorem frame_check_drain_lt_use_bw (c : Conn) (i : Input) :
    (bbrplus_check_drain c i).bbr.lt_use_bw = c.bbr.lt_use_bw :=
  (frame_check_drain c i).2.2.2.2.2.2.2.2.2.2.2.2.2.2.2.2.1

@[simp] theorem frame_check_drain_lt_bw (c : Conn) (i : Input) :
    (bbrplus_check_drain c i).bbr.lt_bw = c.bbr.lt_bw :=
  (frame_check_drain c i).2.2.2.2.2.2.2.2.2.2.2.2.2.2.2.2.2.1

@[simp] theorem frame_check_drain_lt_last_delivered (c : Conn) (i : Input) :
    (bbrplus_check_drain c i).bbr.lt_last_delivered = c.bbr.lt_last_delivered :=
  (frame_check_drain c i).2.2.2.2.2.2.2.2.2.2.2.2.2.2.2.2.2.2.1

@[simp] theorem frame_check_drain_lt_last_stamp (c : Conn) (i : Input) :
    (bbrplus_check_drain c i).bbr.lt_last_stamp = c.bbr.lt_last_stamp :=
  (frame_check_drain c i).2.2.2.2.2.2.2.2.2.2.2.2.2.2.2.2.2.2.2.1

@[simp] theorem frame_check_drain_lt_last_lost (c : Conn) (i : Input) :
    (bbrplus_check_drain c i).bbr.lt_last_lost = c.bbr.lt_last_lost :=
  (frame_check_drain c i).2.2.2.2.2.2.2.2.2.2.2.2.2.2.2.2.2.2.2.2.1

@[simp] theorem frame_check_drain_full_bw_cnt (c : Conn) (i : Input) :
    (bbrplus_check_drain c i).bbr.full_bw_cnt = c.bbr.full_bw_cnt :=
  (frame_check_drain c i).2.2.2.2.2.2.2.2.2.2.2.2.2.2.2.2.2.2.2.2.2.1

@[simp] theorem frame_check_drain_has_seen_rtt (c : Conn) (i : Input) :
    (bbrplus_check_drain c i).bbr.has_seen_rtt = c.bbr.has_seen_rtt :=
  (frame_check_drain c i).2.2.2.2.2.2.2.2.2.2.2.2.2.2.2.2.2.2.2.2.2.2.1

@[simp] theorem frame_check_drain_prior_cwnd (c : Conn) (i : Input) :
    (bbrplus_check_drain c i).bbr.prior_cwnd = c.bbr.prior_cwnd :=
  (frame_check_drain c i).2.2.2.2.2.2.2.2.2.2.2.2.2.2.2.2.2.2.2.2.2.2.2.1

@[simp] theorem frame_check_drain_full_bw (c : Conn) (i : Input) :
    (bbrplus_check_drain c i).bbr.full_bw = c.bbr.full_bw :=
  (frame_check_drain c i).2.2.2.2.2.2.2.2.2.2.2.2.2.2.2.2.2.2.2.2.2.2.2.2.1

@[simp] theorem frame_check_drain_ack_epoch_mstamp (c : Conn) (i : Input) :
    (bbrplus_check_drain c i).bbr.ack_epoch_mstamp = c.bbr.ack_epoch_mstamp :=
  (frame_check_drain c i).2.2.2.2.2.2.2.2.2.2.2.2.2.2.2.2.2.2.2.2.2.2.2.2.2.1

@[simp] theorem frame_check_drain_extra_acked0 (c : Conn) (i : Input) :
    (bbrplus_check_drain c i).bbr.extra_acked0 = c.bbr.extra_acked0 :=
  (frame_check_drain c i).2.2.2.2.2.2.2.2.2.2.2.2.2.2.2.2.2.2.2.2.2.2.2.2.2.2.1

@[simp] theorem frame_check_drain_extra_acked1 (c : Conn) (i : Input) :
    (bbrplus_check_drain c i).bbr.extra_acked1 = c.bbr.extra_acked1 :=
  (frame_check_drain c i).2.2.2.2.2.2.2.2.2.2.2.2.2.2.2.2.2.2.2.2.2.2.2.2.2.2.2.1

@[simp] theorem frame_check_drain_ack_epoch_acked (c : Conn) (i : Input) :
    (bbrplus_check_drain c i).bbr.ack_epoch_acked = c.bbr.ack_epoch_acked :=
  (frame_check_drain c i).2.2.2.2.2.2.2.2.2.2.2.2.2.2.2.2.2.2.2.2.2.2.2.2.2.2.2.2.1

@[simp] theorem frame_check_drain_extra_acked_win_rtts (c : Conn) (i : Input) :
    (bbrplus_check_drain c i).bbr.extra_acked_win_rtts = c.bbr.extra_acked_win_rtts :=
  (frame_check_drain c i).2.2.2.2.2.2.2.2.2.2.2.2.2.2.2.2.2.2.2.2.2.2.2.2.2.2.2.2.2.1

@[simp] theorem frame_check_drain_extra_acked_win_idx (c : Conn) (i : Input) :
    (bbrplus_check_drain c i).bbr.extra_acked_win_idx = c.bbr.extra_acked_win_idx :=
  (frame_check_drain c i).2.2.2.2.2.2.2.2.2.2.2.2.2.2.2.2.2.2.2.2.2.2.2.2.2.2.2.2.2.2.1

@[simp] theorem frame_check_drain_snd_cwnd (c : Conn) (i : Input) :
    (bbrplus_check_drain c i).snd_cwnd = c.snd_cwnd :=
  (frame_check_drain c i).2.2.2.2.2.2.2.2.2.2.2.2.2.2.2.2.2.2.2.2.2.2.2.2.2.2.2.2.2.2.2.1

@[simp] theorem frame_check_drain_sk_pacing_rate (c : Conn) (i : Input) :
    (bbrplus_check_drain c i).sk_pacing_rate = c.sk_pacing_rate :=
  (frame_check_drain c i).2.2.2.2.2.2.2.2.2.2.2.2.2.2.2.2.2.2.2.2.2.2.2.2.2.2.2.2.2.2.2.2

/-- Fields that `bbrplus_min_rtt_refresh` never writes. -/
theorem frame_min_rtt_refresh (c : Conn) (i : Input) (rs : RateSample) (fe : Bool) :
    (bbrplus_min_rtt_refresh c i rs fe).bbr.probe_rtt_done_stamp = c.bbr.probe_rtt_done_stamp ∧
    (bbrplus_min_rtt_refresh c i rs fe).bbr.bw = c.bbr.bw ∧
    (bbrplus_min_rtt_refresh c i rs fe).bbr.rtt_cnt = c.bbr.rtt_cnt ∧
    (bbrplus_min_rtt_refresh c i rs fe).bbr.next_rtt_delivered = c.bbr.next_rtt_delivered ∧
    (bbrplus_min_rtt_refresh c i rs fe).bbr.cycle_mstamp = c.bbr.cycle_mstamp ∧
    (bbrplus_min_rtt_refresh c i rs fe).bbr.mode = c.bbr.mode ∧
    (bbrplus_min_rtt_refresh c i rs fe).bbr.prev_ca_state = c.bbr.prev_ca_state ∧
    (bbrplus_min_rtt_refresh c i rs fe).bbr.packet_conservation = c.bbr.packet_conservation ∧
    (bbrplus_min_rtt_refresh c i rs fe).bbr.restore_cwnd = c.bbr.restore_cwnd ∧
    (bbrplus_min_rtt_refresh c i rs fe).bbr.round_start = c.bbr.round_start ∧
    (bbrplus_min_rtt_refresh c i rs fe).bbr.cycle_len = c.bbr.cycle_len ∧
    (bbrplus_min_rtt_refresh c i rs fe).bbr.tso_segs_goal = c.bbr.tso_segs_goal ∧
    (bbrplus_min_rtt_refresh c i rs fe).bbr.idle_restart = c.bbr.idle_restart ∧
    (bbrplus_min_rtt_refresh c i rs fe).bbr.probe_rtt_round_done = c.bbr.probe_rtt_round_done ∧
    (bbrplus_min_rtt_refresh c i rs fe).bbr.lt_is_sampling = c.bbr.lt_is_sampling ∧
    (bbrplus_min_rtt_refresh c i rs fe).bbr.lt_rtt_cnt = c.bbr.lt_rtt_cnt ∧
    (bbrplus_min_rtt_refresh c i rs fe).bbr.lt_use_bw = c.bbr.lt_use_bw ∧
    (bbrplus_min_rtt_refresh c i rs fe).bbr.lt_bw = c.bbr.lt_bw ∧
    (bbrplus_min_rtt_refresh c i rs fe).bbr.lt_last_delivered = c.bbr.lt_last_delivered ∧
    (bbrplus_min_rtt_refresh c i rs fe).bbr.lt_last_stamp = c.bbr.lt_last_stamp ∧
    (bbrplus_min_rtt_refresh c i rs fe).bbr.lt_last_lost = c.bbr.lt_last_lost ∧
    (bbrplus_min_rtt_refresh c i rs fe).bbr.pacing_gain = c.bbr.pacing_gain ∧
    (bbrplus_min_rtt_refresh c i rs fe).bbr.cwnd_gain = c.bbr.cwnd_gain ∧
    (bbrplus_min_rtt_refresh c i rs fe).bbr.full_bw_cnt = c.bbr.full_bw_cnt ∧
    (bbrplus_min_rtt_refresh c i rs fe).bbr.cycle_idx = c.bbr.cycle_idx ∧
    (bbrplus_min_rtt_refresh c i rs fe).bbr.has_seen_rtt = c.bbr.has_seen_rtt ∧
    (bbrplus_min_rtt_refresh c i rs fe).bbr.prior_cwnd = c.bbr.prior_cwnd ∧
    (bbrplus_min_rtt_refresh c i rs fe).bbr.full_bw = c.bbr.full_bw ∧
    (bbrplus_min_rtt_refresh c i rs fe).bbr.ack_epoch_mstamp = c.bbr.ack_epoch_mstamp ∧
    (bbrplus_min_rtt_refresh c i rs fe).bbr.extra_acked0 = c.bbr.extra_acked0 ∧
    (bbrplus_min_rtt_refresh c i rs fe).bbr.extra_acked1 = c.bbr.extra_acked1 ∧
    (bbrplus_min_rtt_refresh c i rs fe).bbr.ack_epoch_acked = c.bbr.ack_epoch_acked ∧
    (bbrplus_min_rtt_refresh c i rs fe).bbr.extra_acked_win_rtts = c.bbr.extra_acked_win_rtts ∧
    (bbrplus_min_rtt_refresh c i rs fe).bbr.extra_acked_win_idx = c.bbr.extra_acked_win_idx ∧
    (bbrplus_min_rtt_refresh c i rs fe).snd_cwnd = c.snd_cwnd ∧
    (bbrplus_min_rtt_refresh c i rs fe).sk_pacing_rate = c.sk_pacing_rate := by
  simp only [bbrplus_min_rtt_refresh]
  repeat' split
  all_goals simp

@[simp] theorem frame_min_rtt_refresh_probe_rtt_done_stamp (c : Conn) (i : Input) (rs : RateSample) (fe : Bool) :
    (bbrplus_min_rtt_refresh c i rs fe).bbr.probe_rtt_done_stamp = c.bbr.probe_rtt_done_stamp :=
  (frame_min_rtt_refresh c i rs fe).1

@[simp] theorem frame_min_rtt_refresh_bw (c : Conn) (i : Input) (rs : RateSample) (fe : Bool) :
    (bbrplus_min_rtt_refresh c i rs fe).bbr.bw = c.bbr.bw :=
  (frame_min_rtt_refresh c i rs fe).2.1

@[simp] theorem frame_min_rtt_refresh_rtt_cnt (c : Conn) (i : Input) (rs : RateSample) (fe : Bool) :
    (bbrplus_min_rtt_refresh c i rs fe).bbr.rtt_cnt = c.bbr.rtt_cnt :=
  (frame_min_rtt_refresh c i rs fe).2.2.1

@[simp] theorem frame_min_rtt_refresh_next_rtt_delivered (c : Conn) (i : Input) (rs : RateSample) (fe : Bool) :
    (bbrplus_min_rtt_refresh c i rs fe).bbr.next_rtt_delivered = c.bbr.next_rtt_delivered :=
  (frame_min_rtt_refresh c i rs fe).2.2.2.1

@[simp] theorem frame_min_rtt_refresh_cycle_mstamp (c : Conn) (i : Input) (rs : RateSample) (fe : Bool) :
    (bbrplus_min_rtt_refresh c i rs fe).bbr.cycle_mstamp = c.bbr.cycle_mstamp :=
  (frame_min_rtt_refresh c i rs fe).2.2.2.2.1

@[simp] theorem frame_min_rtt_refresh_mode (c : Conn) (i : Input) (rs : RateSample) (fe : Bool) :
    (bbrplus_min_rtt_refresh c i rs fe).bbr.mode = c.bbr.mode :=
  (frame_min_rtt_refresh c i rs fe).2.2.2.2.2.1

@[simp] theorem frame_min_rtt_refresh_prev_ca_state (c : Conn) (i : Input) (rs : RateSample) (fe : Bool) :
    (bbrplus_min_rtt_refresh c i rs fe).bbr.prev_ca_state = c.bbr.prev_ca_state :=
  (frame_min_rtt_refresh c i rs fe).2.2.2.2.2.2.1

@[simp] theorem frame_min_rtt_refresh_packet_conservation (c : Conn) (i : Input) (rs : RateSample) (fe : Bool) :
    (bbrplus_min_rtt_refresh c i rs fe).bbr.packet_conservation = c.bbr.packet_conservation :=
  (frame_min_rtt_refresh c i rs fe).2.2.2.2.2.2.2.1

@[simp] theorem frame_min_rtt_refresh_restore_cwnd (c : Conn) (i : Input) (rs : RateSample) (fe : Bool) :
    (bbrplus_min_rtt_refresh c i rs fe).bbr.restore_cwnd = c.bbr.restore_cwnd :=
  (frame_min_rtt_refresh c i rs fe).2.2.2.2.2.2.2.2.1

@[simp] theorem frame_min_rtt_refresh_round_start (c : Conn) (i : Input) (rs : RateSample) (fe : Bool) :
    (bbrplus_min_rtt_refresh c i rs fe).bbr.round_start = c.bbr.round_start :=
  (frame_min_rtt_refresh c i rs fe).2.2.2.2.2.2.2.2.2.1

@[simp] theorem frame_min_rtt_refresh_cycle_len (c : Conn) (i : Input) (rs : RateSample) (fe : Bool) :
    (bbrplus_min_rtt_refresh c i rs fe).bbr.cycle_len = c.bbr.cycle_len :=
  (frame_min_rtt_refresh c i rs fe).2.2.2.2.2.2.2.2.2.2.1

@[simp] theorem frame_min_rtt_refresh_tso_segs_goal (c : Conn) (i : Input) (rs : RateSample) (fe : Bool) :
    (bbrplus_min_rtt_refresh c i rs fe).bbr.tso_segs_goal = c.bbr.tso_segs_goal :=
  (frame_min_rtt_refresh c i rs fe).2.2.2.2.2.2.2.2.2.2.2.1

@[simp] theorem frame_min_rtt_refresh_idle_restart (c : Conn) (i : Input) (rs : RateSample) (fe : Bool) :
    (bbrplus_min_rtt_refresh c i rs fe).bbr.idle_restart = c.bbr.idle_restart :=
  (frame_min_rtt_refresh c i rs fe).2.2.2.2.2.2.2.2.2.2.2.2.1

@[simp] theorem frame_min_rtt_refresh_probe_rtt_round_done (c : Conn) (i : Input) (rs : RateSample) (fe : Bool) :
    (bbrplus_min_rtt_refresh c i rs fe).bbr.probe_rtt_round_done = c.bbr.probe_rtt_round_done :=
  (frame_min_rtt_refresh c i rs fe).2.2.2.2.2.2.2.2.2.2.2.2.2.1

@[simp] theorem frame_min_rtt_refresh_lt_is_sampling (c : Conn) (i : Input) (rs : RateSample) (fe : Bool) :
    (bbrplus_min_rtt_refresh c i rs fe).bbr.lt_is_sampling = c.bbr.lt_is_sampling :=
  (frame_min_rtt_refresh c i rs fe).2.2.2.2.2.2.2.2.2.2.2.2.2.2.1

@[simp] theorem frame_min_rtt_refresh_lt_rtt_cnt (c : Conn) (i : Input) (rs : RateSample) (fe : Bool) :
    (bbrplus_min_rtt_refresh c i rs fe).bbr.lt_rtt_cnt = c.bbr.lt_rtt_cnt :=
  (frame_min_rtt_refresh c i rs fe).2.2.2.2.2.2.2.2.2.2.2.2.2.2.2.1

@[simp] theorem frame_min_rtt_refresh_lt_use_bw (c : Conn) (i : Input) (rs : RateSample) (fe : Bool) :
    (bbrplus_min_rtt_refresh c i rs fe).bbr.lt_use_bw = c.bbr.lt_use_bw :=
  (frame_min_rtt_refresh c i rs fe).2.2.2.2.2.2.2.2.2.2.2.2.2.2.2.2.1

@[simp] theorem frame_min_rtt_refresh_lt_bw (c : Conn) (i : Input) (rs : RateSample) (fe : Bool) :
    (bbrplus_min_rtt_refresh c i rs fe).bbr.lt_bw = c.bbr.lt_bw :=
  (frame_min_rtt_refresh c i rs fe).2.2.2.2.2.2.2.2.2.2.2.2.2.2.2.2.2.1

@[simp] theorem frame_min_rtt_refresh_lt_last_delivered (c : Conn) (i : Input) (rs : RateSample) (fe : Bool) :
    (bbrplus_min_rtt_refresh c i rs fe).bbr.lt_last_delivered = c.bbr.lt_last_delivered :=
  (frame_min_rtt_refresh c i rs fe).2.2.2.2.2.2.2.2.2.2.2.2.2.2.2.2.2.2.1

@[simp] theorem frame_min_rtt_refresh_lt_last_stamp (c : Conn) (i : Input) (rs : RateSample) (fe : Bool) :
    (bbrplus_min_rtt_refresh c i rs fe).bbr.lt_last_stamp = c.bbr.lt_last_stamp :=
  (frame_min_rtt_refresh c i rs fe).2.2.2.2.2.2.2.2.2.2.2.2.2.2.2.2.2.2.2.1

@[simp] theorem frame_min_rtt_refresh_lt_last_lost (c : Conn) (i : Input) (rs : RateSample) (fe : Bool) :
    (bbrplus_min_rtt_refresh c i rs fe).bbr.lt_last_lost = c.bbr.lt_last_lost :=
  (frame_min_rtt_refresh c i rs fe).2.2.2.2.2.2.2.2.2.2.2.2.2.2.2.2.2.2.2.2.1

@[simp] theorem frame_min_rtt_refresh_pacing_gain (c : Conn) (i : Input) (rs : RateSample) (fe : Bool) :
    (bbrplus_min_rtt_refresh c i rs fe).bbr.pacing_gain = c.bbr.pacing_gain :=
  (frame_min_rtt_refresh c i rs fe).2.2.2.2.2.2.2.2.2.2.2.2.2.2.2.2.2.2.2.2.2.1

@[simp] theorem frame_min_rtt_refresh_cwnd_gain (c : Conn) (i : Input) (rs : RateSample) (fe : Bool) :
    (bbrplus_min_rtt_refresh c i rs fe).bbr.cwnd_gain = c.bbr.cwnd_gain :=
  (frame_min_rtt_refresh c i rs fe).2.2.2.2.2.2.2.2.2.2.2.2.2.2.2.2.2.2.2.2.2.2.1

@[simp] theorem frame_min_rtt_refresh_full_bw_cnt (c : Conn) (i : Input) (rs : RateSample) (fe : Bool) :
    (bbrplus_min_rtt_refresh c i rs fe).bbr.full_bw_cnt = c.bbr.full_bw_cnt :=
  (frame_min_rtt_refresh c i rs fe).2.2.2.2.2.2.2.2.2.2.2.2.2.2.2.2.2.2.2.2.2.2.2.1

@[simp] theorem frame_min_rtt_refresh_cycle_idx (c : Conn) (i : Input) (rs : RateSample) (fe : Bool) :
    (bbrplus_min_rtt_refresh c i rs fe).bbr.cycle_idx = c.bbr.cycle_idx :=
  (frame_min_rtt_refresh c i rs fe).2.2.2.2.2.2.2.2.2.2.2.2.2.2.2.2.2.2.2.2.2.2.2.2.1

@[simp] theorem frame_min_rtt_refresh_has_seen_rtt (c : Conn) (i : Input) (rs : RateSample) (fe : Bool) :
    (bbrplus_min_rtt_refresh c i rs fe).bbr.has_seen_rtt = c.bbr.has_seen_rtt :=
  (frame_min_rtt_refresh c i rs fe).2.2.2.2.2.2.2.2.2.2.2.2.2.2.2.2.2.2.2.2.2.2.2.2.2.1

@[simp] theorem frame_min_rtt_refresh_prior_cwnd (c : Conn) (i : Input) (rs : RateSample) (fe : Bool) :
    (bbrplus_min_rtt_refresh c i rs fe).bbr.prior_cwnd = c.bbr.prior_cwnd :=
  (frame_min_rtt_refresh c i rs fe).2.2.2.2.2.2.2.2.2.2.2.2.2.2.2.2.2.2.2.2.2.2.2.2.2.2.1

@[simp] theorem frame_min_rtt_refresh_full_bw (c : Conn) (i : Input) (rs : RateSample) (fe : Bool) :
    (bbrplus_min_rtt_refresh c i rs fe).bbr.full_bw = c.bbr.full_bw :=
  (frame_min_rtt_refresh c i rs fe).2.2.2.2.2.2.2.2.2.2.2.2.2.2.2.2.2.2.2.2.2.2.2.2.2.2.2.1

@[simp] theorem frame_min_rtt_refresh_ack_epoch_mstamp (c : Conn) (i : Input) (rs : RateSample) (fe : Bool) :
    (bbrplus_min_rtt_refresh c i rs fe).bbr.ack_epoch_mstamp = c.bbr.ack_epoch_mstamp :=
  (frame_min_rtt_refresh c i rs fe).2.2.2.2.2.2.2.2.2.2.2.2.2.2.2.2.2.2.2.2.2.2.2.2.2.2.2.2.1

@[simp] theorem frame_min_rtt_refresh_extra_acked0 (c : Conn) (i : Input) (rs : RateSample) (fe : Bool) :
    (bbrplus_min_rtt_refresh c i rs fe).bbr.extra_acked0 = c.bbr.extra_acked0 :=
  (frame_min_rtt_refresh c i rs fe).2.2.2.2.2.2.2.2.2.2.2.2.2.2.2.2.2.2.2.2.2.2.2.2.2.2.2.2.2.1

@[simp] theorem frame_min_rtt_refresh_extra_acked1 (c : Conn) (i : Input) (rs : RateSample) (fe : Bool) :
    (bbrplus_min_rtt_refresh c i rs fe).bbr.extra_acked1 = c.bbr.extra_acked1 :=
  (frame_min_rtt_refresh c i rs fe).2.2.2.2.2.2.2.2.2.2.2.2.2.2.2.2.2.2.2.2.2.2.2.2.2.2.2.2.2.2.1

@[simp] theorem frame_min_rtt_refresh_ack_epoch_acked (c : Conn) (i : Input) (rs : RateSample) (fe : Bool) :
    (bbrplus_min_rtt_refresh c i rs fe).bbr.ack_epoch_acked = c.bbr.ack_epoch_acked :=
  (frame_min_rtt_refresh c i rs fe).2.2.2.2.2.2.2.2.2.2.2.2.2.2.2.2.2.2.2.2.2.2.2.2.2.2.2.2.2.2.2.1

@[simp] theorem frame_min_rtt_refresh_extra_acked_win_rtts (c : Conn) (i : Input) (rs : RateSample) (fe : Bool) :
    (bbrplus_min_rtt_refresh c i rs fe).bbr.extra_acked_win_rtts = c.bbr.extra_acked_win_rtts :=
  (frame_min_rtt_refresh c i rs fe).2.2.2.2.2.2.2.2.2.2.2.2.2.2.2.2.2.2.2.2.2.2.2.2.2.2.2.2.2.2.2.2.1

@[simp] theorem frame_min_rtt_refresh_extra_acked_win_idx (c : Conn) (i : Input) (rs : RateSample) (fe : Bool) :
    (bbrplus_min_rtt_refresh c i rs fe).bbr.extra_acked_win_idx = c.bbr.extra_acked_win_idx :=
  (frame_min_rtt_refresh c i rs fe).2.2.2.2.2.2.2.2.2.2.2.2.2.2.2.2.2.2.2.2.2.2.2.2.2.2.2.2.2.2.2.2.2.1

@[simp] theorem frame_min_rtt_refresh_snd_cwnd (c : Conn) (i : Input) (rs : RateSample) (fe : Bool) :
    (bbrplus_min_rtt_refresh c i rs fe).snd_cwnd = c.snd_cwnd :=
  (frame_min_rtt_refresh c i rs fe).2.2.2.2.2.2.2.2.2.2.2.2.2.2.2.2.2.2.2.2.2.2.2.2.2.2.2.2.2.2.2.2.2.2.1

@[simp] theorem frame_min_rtt_refresh_sk_pacing_rate (c : Conn) (i : Input) (rs : RateSample) (fe : Bool) :
    (bbrplus_min_rtt_refresh c i rs fe).sk_pacing_rate = c.sk_pacing_rate :=
  (frame_min_rtt_refresh c i rs fe).2.2.2.2.2.2.2.2.2.2.2.2.2.2.2.2.2.2.2.2.2.2.2.2.2.2.2.2.2.2.2.2.2.2.2

/-- Fields that `bbrplus_probe_rtt_enter` never writes. -/
theorem frame_probe_rtt_enter (c : Conn) (fe : Bool) :
    (bbrplus_probe_rtt_enter c fe).bbr.min_rtt_us = c.bbr.min_rtt_us ∧
    (bbrplus_probe_rtt_enter c fe).bbr.min_rtt_stamp = c.bbr.min_rtt_stamp ∧
    (bbrplus_probe_rtt_enter c fe).bbr.bw = c.bbr.bw ∧
    (bbrplus_probe_rtt_enter c fe).bbr.rtt_cnt = c.bbr.rtt_cnt ∧
    (bbrplus_probe_rtt_enter c fe).bbr.next_rtt_delivered = c.bbr.next_rtt_delivered ∧
    (bbrplus_probe_rtt_enter c fe).bbr.cycle_mstamp = c.bbr.cycle_mstamp ∧
    (bbrplus_probe_rtt_enter c fe).bbr.prev_ca_state = c.bbr.prev_ca_state ∧
    (bbrplus_probe_rtt_enter c fe).bbr.packet_conservation = c.bbr.packet_conservation ∧
    (bbrplus_probe_rtt_enter c fe).bbr.restore_cwnd = c.bbr.restore_cwnd ∧
    (bbrplus_probe_rtt_enter c fe).bbr.round_start = c.bbr.round_start ∧
    (bbrplus_probe_rtt_enter c fe).bbr.cycle_len = c.bbr.cycle_len ∧
    (bbrplus_probe_rtt_enter c fe).bbr.tso_segs_goal = c.bbr.tso_segs_goal ∧
    (bbrplus_probe_rtt_enter c fe).bbr.idle_restart = c.bbr.idle_restart ∧
    (bbrplus_probe_rtt_enter c fe).bbr.probe_rtt_round_done = c.bbr.probe_rtt_round_done ∧
    (bbrplus_probe_rtt_enter c fe).bbr.lt_is_sampling = c.bbr.lt_is_sampling ∧
    (bbrplus_probe_rtt_enter c fe).bbr.lt_rtt_cnt = c.bbr.lt_rtt_cnt ∧
    (bbrplus_probe_rtt_enter c fe).bbr.lt_use_bw = c.bbr.lt_use_bw ∧
    (bbrplus_probe_rtt_enter c fe).bbr.lt_bw = c.bbr.lt_bw ∧
    (bbrplus_probe_rtt_enter c fe).bbr.lt_last_delivered = c.bbr.lt_last_delivered ∧
    (bbrplus_probe_rtt_enter c fe).bbr.lt_last_stamp = c.bbr.lt_last_stamp ∧
    (bbrplus_probe_rtt_enter c fe).bbr.lt_last_lost = c.bbr.lt_last_lost ∧
    (bbrplus_probe_rtt_enter c fe).bbr.full_bw_cnt = c.bbr.full_bw_cnt ∧
    (bbrplus_probe_rtt_enter c fe).bbr.cycle_idx = c.bbr.cycle_idx ∧
    (bbrplus_probe_rtt_enter c fe).bbr.has_seen_rtt = c.bbr.has_seen_rtt ∧
    (bbrplus_probe_rtt_enter c fe).bbr.full_bw = c.bbr.full_bw ∧
    (bbrplus_probe_rtt_enter c fe).bbr.ack_epoch_mstamp = c.bbr.ack_epoch_mstamp ∧
    (bbrplus_probe_rtt_enter c fe).bbr.extra_acked0 = c.bbr.extra_acked0 ∧
    (bbrplus_probe_rtt_enter c fe).bbr.extra_acked1 = c.bbr.extra_acked1 ∧
    (bbrplus_probe_rtt_enter c fe).bbr.ack_epoch_acked = c.bbr.ack_epoch_acked ∧
    (bbrplus_probe_rtt_enter c fe).bbr.extra_acked_win_rtts = c.bbr.extra_acked_win_rtts ∧
    (bbrplus_probe_rtt_enter c fe).bbr.extra_acked_win_idx = c.bbr.extra_acked_win_idx ∧
    (bbrplus_probe_rtt_enter c fe).snd_cwnd = c.snd_cwnd ∧
    (bbrplus_probe_rtt_enter c fe).sk_pacing_rate = c.sk_pacing_rate := by
  simp only [bbrplus_probe_rtt_enter]
  repeat' split
  all_goals simp

@[simp] theorem frame_probe_rtt_enter_min_rtt_us (c : Conn) (fe : Bool) :
    (bbrplus_probe_rtt_enter c fe).bbr.min_rtt_us = c.bbr.min_rtt_us :=
  (frame_probe_rtt_enter c fe).1

@[simp] theorem frame_probe_rtt_enter_min_rtt_stamp (c : Conn) (fe : Bool) :
    (bbrplus_probe_rtt_enter c fe).bbr.min_rtt_stamp = c.bbr.min_rtt_stamp :=
  (frame_probe_rtt_enter c fe).2.1

@[simp] theorem frame_probe_rtt_enter_bw (c : Conn) (fe : Bool) :
    (bbrplus_probe_rtt_enter c fe).bbr.bw = c.bbr.bw :=
  (frame_probe_rtt_enter c fe).2.2.1

@[simp] theorem frame_probe_rtt_enter_rtt_cnt (c : Conn) (fe : Bool) :
    (bbrplus_probe_rtt_enter c fe).bbr.rtt_cnt = c.bbr.rtt_cnt :=
  (frame_probe_rtt_enter c fe).2.2.2.1

@[simp] theorem frame_probe_rtt_enter_next_rtt_delivered (c : Conn) (fe : Bool) :
    (bbrplus_probe_rtt_enter c fe).bbr.next_rtt_delivered = c.bbr.next_rtt_delivered :=
  (frame_probe_rtt_enter c fe).2.2.2.2.1

@[simp] theorem frame_probe_rtt_enter_cycle_mstamp (c : Conn) (fe : Bool) :
    (bbrplus_probe_rtt_enter c fe).bbr.cycle_mstamp = c.bbr.cycle_mstamp :=
  (frame_probe_rtt_enter c fe).2.2.2.2.2.1

@[simp] theorem frame_probe_rtt_enter_prev_ca_state (c : Conn) (fe : Bool) :
    (bbrplus_probe_rtt_enter c fe).bbr.prev_ca_state = c.bbr.prev_ca_state :=
  (frame_probe_rtt_enter c fe).2.2.2.2.2.2.1

@[simp] theorem frame_probe_rtt_enter_packet_conservation (c : Conn) (fe : Bool) :
    (bbrplus_probe_rtt_enter c fe).bbr.packet_conservation = c.bbr.packet_conservation :=
  (frame_probe_rtt_enter c fe).2.2.2.2.2.2.2.1

@[simp] theorem frame_probe_rtt_enter_restore_cwnd (c : Conn) (fe : Bool) :
    (bbrplus_probe_rtt_enter c fe).bbr.restore_cwnd = c.bbr.restore_cwnd :=
  (frame_probe_rtt_enter c fe).2.2.2.2.2.2.2.2.1

@[simp] theorem frame_probe_rtt_enter_round_start (c : Conn) (fe : Bool) :
    (bbrplus_probe_rtt_enter c fe).bbr.round_start = c.bbr.round_start :=
  (frame_probe_rtt_enter c fe).2.2.2.2.2.2.2.2.2.1

@[simp] theorem frame_probe_rtt_enter_cycle_len (c : Conn) (fe : Bool) :
    (bbrplus_probe_rtt_enter c fe).bbr.cycle_len = c.bbr.cycle_len :=
  (frame_probe_rtt_enter c fe).2.2.2.2.2.2.2.2.2.2.1

@[simp] theorem frame_probe_rtt_enter_tso_segs_goal (c : Conn) (fe : Bool) :
    (bbrplus_probe_rtt_enter c fe).bbr.tso_segs_goal = c.bbr.tso_segs_goal :=
  (frame_probe_rtt_enter c fe).2.2.2.2.2.2.2.2.2.2.2.1

@[simp] theorem frame_probe_rtt_enter_idle_restart (c : Conn) (fe : Bool) :
    (bbrplus_probe_rtt_enter c fe).bbr.idle_restart = c.bbr.idle_restart :=
  (frame_probe_rtt_enter c fe).2.2.2.2.2.2.2.2.2.2.2.2.1

@[simp] theorem frame_probe_rtt_enter_probe_rtt_round_done (c : Conn) (fe : Bool) :
    (bbrplus_probe_rtt_enter c fe).bbr.probe_rtt_round_done = c.bbr.probe_rtt_round_done :=
  (frame_probe_rtt_enter c fe).2.2.2.2.2.2.2.2.2.2.2.2.2.1

@[simp] theorem frame_probe_rtt_enter_lt_is_sampling (c : Conn) (fe : Bool) :
    (bbrplus_probe_rtt_enter c fe).bbr.lt_is_sampling = c.bbr.lt_is_sampling :=
  (frame_probe_rtt_enter c fe).2.2.2.2.2.2.2.2.2.2.2.2.2.2.1

@[simp] theorem frame_probe_rtt_enter_lt_rtt_cnt (c : Conn) (fe : Bool) :
    (bbrplus_probe_rtt_enter c fe).bbr.lt_rtt_cnt = c.bbr.lt_rtt_cnt :=
  (frame_probe_rtt_enter c fe).2.2.2.2.2.2.2.2.2.2.2.2.2.2.2.1

@[simp] theorem frame_probe_rtt_enter_lt_use_bw (c : Conn) (fe : Bool) :
    (bbrplus_probe_rtt_enter c fe).bbr.lt_use_bw = c.bbr.lt_use_bw :=
  (frame_probe_rtt_enter c fe).2.2.2.2.2.2.2.2.2.2.2.2.2.2.2.2.1

@[simp] theorem frame_probe_rtt_enter_lt_bw (c : Conn) (fe : Bool) :
    (bbrplus_probe_rtt_enter c fe).bbr.lt_bw = c.bbr.lt_bw :=
  (frame_probe_rtt_enter c fe).2.2.2.2.2.2.2.2.2.2.2.2.2.2.2.2.2.1

@[simp] theorem frame_probe_rtt_enter_lt_last_delivered (c : Conn) (fe : Bool) :
    (bbrplus_probe_rtt_enter c fe).bbr.lt_last_delivered = c.bbr.lt_last_delivered :=
  (frame_probe_rtt_enter c fe).2.2.2.2.2.2.2.2.2.2.2.2.2.2.2.2.2.2.1

@[simp] theorem frame_probe_rtt_enter_lt_last_stamp (c : Conn) (fe : Bool) :
    (bbrplus_probe_rtt_enter c fe).bbr.lt_last_stamp = c.bbr.lt_last_stamp :=
  (frame_probe_rtt_enter c fe).2.2.2.2.2.2.2.2.2.2.2.2.2.2.2.2.2.2.2.1

@[simp] theorem frame_probe_rtt_enter_lt_last_lost (c : Conn) (fe : Bool) :
    (bbrplus_probe_rtt_enter c fe).bbr.lt_last_lost = c.bbr.lt_last_lost :=
  (frame_probe_rtt_enter c fe).2.2.2.2.2.2.2.2.2.2.2.2.2.2.2.2.2.2.2.2.1

@[simp] theorem frame_probe_rtt_enter_full_bw_cnt (c : Conn) (fe : Bool) :
    (bbrplus_probe_rtt_enter c fe).bbr.full_bw_cnt = c.bbr.full_bw_cnt :=
  (frame_probe_rtt_enter c fe).2.2.2.2.2.2.2.2.2.2.2.2.2.2.2.2.2.2.2.2.2.1

@[simp] theorem frame_probe_rtt_enter_cycle_idx (c : Conn) (fe : Bool) :
    (bbrplus_probe_rtt_enter c fe).bbr.cycle_idx = c.bbr.cycle_idx :=
  (frame_probe_rtt_enter c fe).2.2.2.2.2.2.2.2.2.2.2.2.2.2.2.2.2.2.2.2.2.2.1

@[simp] theorem frame_probe_rtt_enter_has_seen_rtt (c : Conn) (fe : Bool) :
    (bbrplus_probe_rtt_enter c fe).bbr.has_seen_rtt = c.bbr.has_seen_rtt :=
  (frame_probe_rtt_enter c fe).2.2.2.2.2.2.2.2.2.2.2.2.2.2.2.2.2.2.2.2.2.2.2.1

@[simp] theorem frame_probe_rtt_enter_full_bw (c : Conn) (fe : Bool) :
    (bbrplus_probe_rtt_enter c fe).bbr.full_bw = c.bbr.full_bw :=
  (frame_probe_rtt_enter c fe).2.2.2.2.2.2.2.2.2.2.2.2.2.2.2.2.2.2.2.2.2.2.2.2.1

@[simp] theorem frame_probe_rtt_enter_ack_epoch_mstamp (c : Conn) (fe : Bool) :
    (bbrplus_probe_rtt_enter c fe).bbr.ack_epoch_mstamp = c.bbr.ack_epoch_mstamp :=
  (frame_probe_rtt_enter c fe).2.2.2.2.2.2.2.2.2.2.2.2.2.2.2.2.2.2.2.2.2.2.2.2.2.1

@[simp] theorem frame_probe_rtt_enter_extra_acked0 (c : Conn) (fe : Bool) :
    (bbrplus_probe_rtt_enter c fe).bbr.extra_acked0 = c.bbr.extra_acked0 :=
  (frame_probe_rtt_enter c fe).2.2.2.2.2.2.2.2.2.2.2.2.2.2.2.2.2.2.2.2.2.2.2.2.2.2.1

@[simp] theorem frame_probe_rtt_enter_extra_acked1 (c : Conn) (fe : Bool) :
    (bbrplus_probe_rtt_enter c fe).bbr.extra_acked1 = c.bbr.extra_acked1 :=
  (frame_probe_rtt_enter c fe).2.2.2.2.2.2.2.2.2.2.2.2.2.2.2.2.2.2.2.2.2.2.2.2.2.2.2.1

@[simp] theorem frame_probe_rtt_enter_ack_epoch_acked (c : Conn) (fe : Bool) :
    (bbrplus_probe_rtt_enter c fe).bbr.ack_epoch_acked = c.bbr.ack_epoch_acked :=
  (frame_probe_rtt_enter c fe).2.2.2.2.2.2.2.2.2.2.2.2.2.2.2.2.2.2.2.2.2.2.2.2.2.2.2.2.1

@[simp] theorem frame_probe_rtt_enter_extra_acked_win_rtts (c : Conn) (fe : Bool) :
    (bbrplus_probe_rtt_enter c fe).bbr.extra_acked_win_rtts = c.bbr.extra_acked_win_rtts :=
  (frame_probe_rtt_enter c fe).2.2.2.2.2.2.2.2.2.2.2.2.2.2.2.2.2.2.2.2.2.2.2.2.2.2.2.2.2.1

@[simp] theorem frame_probe_rtt_enter_extra_acked_win_idx (c : Conn) (fe : Bool) :
    (bbrplus_probe_rtt_enter c fe).bbr.extra_acked_win_idx = c.bbr.extra_acked_win_idx :=
  (frame_probe_rtt_enter c fe).2.2.2.2.2.2.2.2.2.2.2.2.2.2.2.2.2.2.2.2.2.2.2.2.2.2.2.2.2.2.1

@[simp] theorem frame_probe_rtt_enter_snd_cwnd (c : Conn) (fe : Bool) :
    (bbrplus_probe_rtt_enter c fe).snd_cwnd = c.snd_cwnd :=
  (frame_probe_rtt_enter c fe).2.2.2.2.2.2.2.2.2.2.2.2.2.2.2.2.2.2.2.2.2.2.2.2.2.2.2.2.2.2.2.1

@[simp] theorem frame_probe_rtt_enter_sk_pacing_rate (c : Conn) (fe : Bool) :
    (bbrplus_probe_rtt_enter c fe).sk_pacing_rate = c.sk_pacing_rate :=
  (frame_probe_rtt_enter c fe).2.2.2.2.2.2.2.2.2.2.2.2.2.2.2.2.2.2.2.2.2.2.2.2.2.2.2.2.2.2.2.2

/-- Fields that `bbrplus_probe_rtt_handle` never writes. -/
theorem frame_probe_rtt_handle (c : Conn) (i : Input) :
    (bbrplus_probe_rtt_handle c i).bbr.min_rtt_us = c.bbr.min_rtt_us ∧
    (bbrplus_probe_rtt_handle c i).bbr.bw = c.bbr.bw ∧
    (bbrplus_probe_rtt_handle c i).bbr.rtt_cnt = c.bbr.rtt_cnt ∧
    (bbrplus_probe_rtt_handle c i).bbr.prev_ca_state = c.bbr.prev_ca_state ∧
    (bbrplus_probe_rtt_handle c i).bbr.packet_conservation = c.bbr.packet_conservation ∧
    (bbrplus_probe_rtt_handle c i).bbr.round_start = c.bbr.round_start ∧
    (bbrplus_probe_rtt_handle c i).bbr.cycle_len = c.bbr.cycle_len ∧
    (bbrplus_probe_rtt_handle c i).bbr.tso_segs_goal = c.bbr.tso_segs_goal ∧
    (bbrplus_probe_rtt_handle c i).bbr.idle_restart = c.bbr.idle_restart ∧
    (bbrplus_probe_rtt_handle c i).bbr.lt_is_sampling = c.bbr.lt_is_sampling ∧
    (bbrplus_probe_rtt_handle c i).bbr.lt_rtt_cnt = c.bbr.lt_rtt_cnt ∧
    (bbrplus_probe_rtt_handle c i).bbr.lt_use_bw = c.bbr.lt_use_bw ∧
    (bbrplus_probe_rtt_handle c i).bbr.lt_bw = c.bbr.lt_bw ∧
    (bbrplus_probe_rtt_handle c i).bbr.lt_last_delivered = c.bbr.lt_last_delivered ∧
    (bbrplus_probe_rtt_handle c i).bbr.lt_last_stamp = c.bbr.lt_last_stamp ∧
    (bbrplus_probe_rtt_handle c i).bbr.lt_last_lost = c.bbr.lt_last_lost ∧
    (bbrplus_probe_rtt_handle c i).bbr.full_bw_cnt = c.bbr.full_bw_cnt ∧
    (bbrplus_probe_rtt_handle c i).bbr.has_seen_rtt = c.bbr.has_seen_rtt ∧
    (bbrplus_probe_rtt_handle c i).bbr.prior_cwnd = c.bbr.prior_cwnd ∧
    (bbrplus_probe_rtt_handle c i).bbr.full_bw = c.bbr.full_bw ∧
    (bbrplus_probe_rtt_handle c i).bbr.ack_epoch_mstamp = c.bbr.ack_epoch_mstamp ∧
    (bbrplus_probe_rtt_handle c i).bbr.extra_acked0 = c.bbr.extra_acked0 ∧
    (bbrplus_probe_rtt_handle c i).bbr.extra_acked1 = c.bbr.extra_acked1 ∧
    (bbrplus_probe_rtt_handle c i).bbr.ack_epoch_acked = c.bbr.ack_epoch_acked ∧
    (bbrplus_probe_rtt_handle c i).bbr.extra_acked_win_rtts = c.bbr.extra_acked_win_rtts ∧
    (bbrplus_probe_rtt_handle c i).bbr.extra_acked_win_idx = c.bbr.extra_acked_win_idx ∧
    (bbrplus_probe_rtt_handle c i).snd_cwnd = c.snd_cwnd ∧
    (bbrplus_probe_rtt_handle c i).sk_pacing_rate = c.sk_pacing_rate := by
  simp only [bbrplus_probe_rtt_handle]
  repeat' split
  all_goals simp

@[simp] theorem frame_probe_rtt_handle_min_rtt_us (c : Conn) (i : Input) :
    (bbrplus_probe_rtt_handle c i).bbr.min_rtt_us = c.bbr.min_rtt_us :=
  (frame_probe_rtt_handle c i).1

@[simp] theorem frame_probe_rtt_handle_bw (c : Conn) (i : Input) :
    (bbrplus_probe_rtt_handle c i).bbr.bw = c.bbr.bw :=
  (frame_probe_rtt_handle c i).2.1

@[simp] theorem frame_probe_rtt_handle_rtt_cnt (c : Conn) (i : Input) :
    (bbrplus_probe_rtt_handle c i).bbr.rtt_cnt = c.bbr.rtt_cnt :=
  (frame_probe_rtt_handle c i).2.2.1

@[simp] theorem frame_probe_rtt_handle_prev_ca_state (c : Conn) (i : Input) :
    (bbrplus_probe_rtt_handle c i).bbr.prev_ca_state = c.bbr.prev_ca_state :=
  (frame_probe_rtt_handle c i).2.2.2.1

@[simp] theorem frame_probe_rtt_handle_packet_conservation (c : Conn) (i : Input) :
    (bbrplus_probe_rtt_handle c i).bbr.packet_conservation = c.bbr.packet_conservation :=
  (frame_probe_rtt_handle c i).2.2.2.2.1

@[simp] theorem frame_probe_rtt_handle_round_start (c : Conn) (i : Input) :
    (bbrplus_probe_rtt_handle c i).bbr.round_start = c.bbr.round_start :=
  (frame_probe_rtt_handle c i).2.2.2.2.2.1

@[simp] theorem frame_probe_rtt_handle_cycle_len (c : Conn) (i : Input) :
    (bbrplus_probe_rtt_handle c i).bbr.cycle_len = c.bbr.cycle_len :=
  (frame_probe_rtt_handle c i).2.2.2.2.2.2.1

@[simp] theorem frame_probe_rtt_handle_tso_segs_goal (c : Conn) (i : Input) :
    (bbrplus_probe_rtt_handle c i).bbr.tso_segs_goal = c.bbr.tso_segs_goal :=
  (frame_probe_rtt_handle c i).2.2.2.2.2.2.2.1

@[simp] theorem frame_probe_rtt_handle_idle_restart (c : Conn) (i : Input) :
    (bbrplus_probe_rtt_handle c i).bbr.idle_restart = c.bbr.idle_restart :=
  (frame_probe_rtt_handle c i).2.2.2.2.2.2.2.2.1

@[simp] theorem frame_probe_rtt_handle_lt_is_sampling (c : Conn) (i : Input) :
    (bbrplus_probe_rtt_handle c i).bbr.lt_is_sampling = c.bbr.lt_is_sampling :=
  (frame_probe_rtt_handle c i).2.2.2.2.2.2.2.2.2.1

@[simp] theorem frame_probe_rtt_handle_lt_rtt_cnt (c : Conn) (i : Input) :
    (bbrplus_probe_rtt_handle c i).bbr.lt_rtt_cnt = c.bbr.lt_rtt_cnt :=
  (frame_probe_rtt_handle c i).2.2.2.2.2.2.2.2.2.2.1

@[simp] theorem frame_probe_rtt_handle_lt_use_bw (c : Conn) (i : Input) :
    (bbrplus_probe_rtt_handle c i).bbr.lt_use_bw = c.bbr.lt_use_bw :=
  (frame_probe_rtt_handle c i).2.2.2.2.2.2.2.2.2.2.2.1

@[simp] theorem frame_probe_rtt_handle_lt_bw (c : Conn) (i : Input) :
    (bbrplus_probe_rtt_handle c i).bbr.lt_bw = c.bbr.lt_bw :=
  (frame_probe_rtt_handle c i).2.2.2.2.2.2.2.2.2.2.2.2.1

@[simp] theorem frame_probe_rtt_handle_lt_last_delivered (c : Conn) (i : Input) :
    (bbrplus_probe_rtt_handle c i).bbr.lt_last_delivered = c.bbr.lt_last_delivered :=
  (frame_probe_rtt_handle c i).2.2.2.2.2.2.2.2.2.2.2.2.2.1

@[simp] theorem frame_probe_rtt_handle_lt_last_stamp (c : Conn) (i : Input) :
    (bbrplus_probe_rtt_handle c i).bbr.lt_last_stamp = c.bbr.lt_last_stamp :=
  (frame_probe_rtt_handle c i).2.2.2.2.2.2.2.2.2.2.2.2.2.2.1

@[simp] theorem frame_probe_rtt_handle_lt_last_lost (c : Conn) (i : Input) :
    (bbrplus_probe_rtt_handle c i).bbr.lt_last_lost = c.bbr.lt_last_lost :=
  (frame_probe_rtt_handle c i).2.2.2.2.2.2.2.2.2.2.2.2.2.2.2.1

@[simp] theorem frame_probe_rtt_handle_full_bw_cnt (c : Conn) (i : Input) :
    (bbrplus_probe_rtt_handle c i).bbr.full_bw_cnt = c.bbr.full_bw_cnt :=
  (frame_probe_rtt_handle c i).2.2.2.2.2.2.2.2.2.2.2.2.2.2.2.2.1

@[simp] theorem frame_probe_rtt_handle_has_seen_rtt (c : Conn) (i : Input) :
    (bbrplus_probe_rtt_handle c i).bbr.has_seen_rtt = c.bbr.has_seen_rtt :=
  (frame_probe_rtt_handle c i).2.2.2.2.2.2.2.2.2.2.2.2.2.2.2.2.2.1

@[simp] theorem frame_probe_rtt_handle_prior_cwnd (c : Conn) (i : Input) :
    (bbrplus_probe_rtt_handle c i).bbr.prior_cwnd = c.bbr.prior_cwnd :=
  (frame_probe_rtt_handle c i).2.2.2.2.2.2.2.2.2.2.2.2.2.2.2.2.2.2.1

@[simp] theorem frame_probe_rtt_handle_full_bw (c : Conn) (i : Input) :
    (bbrplus_probe_rtt_handle c i).bbr.full_bw = c.bbr.full_bw :=
  (frame_probe_rtt_handle c i).2.2.2.2.2.2.2.2.2.2.2.2.2.2.2.2.2.2.2.1

@[simp] theorem frame_probe_rtt_handle_ack_epoch_mstamp (c : Conn) (i : Input) :
    (bbrplus_probe_rtt_handle c i).bbr.ack_epoch_mstamp = c.bbr.ack_epoch_mstamp :=
  (frame_probe_rtt_handle c i).2.2.2.2.2.2.2.2.2.2.2.2.2.2.2.2.2.2.2.2.1

@[simp] theorem frame_probe_rtt_handle_extra_acked0 (c : Conn) (i : Input) :
    (bbrplus_probe_rtt_handle c i).bbr.extra_acked0 = c.bbr.extra_acked0 :=
  (frame_probe_rtt_handle c i).2.2.2.2.2.2.2.2.2.2.2.2.2.2.2.2.2.2.2.2.2.1

@[simp] theorem frame_probe_rtt_handle_extra_acked1 (c : Conn) (i : Input) :
    (bbrplus_probe_rtt_handle c i).bbr.extra_acked1 = c.bbr.extra_acked1 :=
  (frame_probe_rtt_handle c i).2.2.2.2.2.2.2.2.2.2.2.2.2.2.2.2.2.2.2.2.2.2.1

@[simp] theorem frame_probe_rtt_handle_ack_epoch_acked (c : Conn) (i : Input) :
    (bbrplus_probe_rtt_handle c i).bbr.ack_epoch_acked = c.bbr.ack_epoch_acked :=
  (frame_probe_rtt_handle c i).2.2.2.2.2.2.2.2.2.2.2.2.2.2.2.2.2.2.2.2.2.2.2.1

@[simp] theorem frame_probe_rtt_handle_extra_acked_win_rtts (c : Conn) (i : Input) :
    (bbrplus_probe_rtt_handle c i).bbr.extra_acked_win_rtts = c.bbr.extra_acked_win_rtts :=
  (frame_probe_rtt_handle c i).2.2.2.2.2.2.2.2.2.2.2.2.2.2.2.2.2.2.2.2.2.2.2.2.1

@[simp] theorem frame_probe_rtt_handle_extra_acked_win_idx (c : Conn) (i : Input) :
    (bbrplus_probe_rtt_handle c i).bbr.extra_acked_win_idx = c.bbr.extra_acked_win_idx :=
  (frame_probe_rtt_handle c i).2.2.2.2.2.2.2.2.2.2.2.2.2.2.2.2.2.2.2.2.2.2.2.2.2.1

@[simp] theorem frame_probe_rtt_handle_snd_cwnd (c : Conn) (i : Input) :
    (bbrplus_probe_rtt_handle c i).snd_cwnd = c.snd_cwnd :=
  (frame_probe_rtt_handle c i).2.2.2.2.2.2.2.2.2.2.2.2.2.2.2.2.2.2.2.2.2.2.2.2.2.2.1

@[simp] theorem frame_probe_rtt_handle_sk_pacing_rate (c : Conn) (i : Input) :
    (bbrplus_probe_rtt_handle c i).sk_pacing_rate = c.sk_pacing_rate :=
  (frame_probe_rtt_handle c i).2.2.2.2.2.2.2.2.2.2.2.2.2.2.2.2.2.2.2.2.2.2.2.2.2.2.2

/-- Fields that `bbrplus_update_min_rtt` never writes. -/
theorem frame_update_min_rtt (c : Conn) (i : Input) (rs : RateSample) :
    (bbrplus_update_min_rtt c i rs).bbr.bw = c.bbr.bw ∧
    (bbrplus_update_min_rtt c i rs).bbr.rtt_cnt = c.bbr.rtt_cnt ∧
    (bbrplus_update_min_rtt c i rs).bbr.prev_ca_state = c.bbr.prev_ca_state ∧
    (bbrplus_update_min_rtt c i rs).bbr.packet_conservation = c.bbr.packet_conservation ∧
    (bbrplus_update_min_rtt c i rs).bbr.round_start = c.bbr.round_start ∧
    (bbrplus_update_min_rtt c i rs).bbr.cycle_len = c.bbr.cycle_len ∧
    (bbrplus_update_min_rtt c i rs).bbr.tso_segs_goal = c.bbr.tso_segs_goal ∧
    (bbrplus_update_min_rtt c i rs).bbr.lt_is_sampling = c.bbr.lt_is_sampling ∧
    (bbrplus_update_min_rtt c i rs).bbr.lt_rtt_cnt = c.bbr.lt_rtt_cnt ∧
    (bbrplus_update_min_rtt c i rs).bbr.lt_use_bw = c.bbr.lt_use_bw ∧
    (bbrplus_update_min_rtt c i rs).bbr.lt_bw = c.bbr.lt_bw ∧
    (bbrplus_update_min_rtt c i rs).bbr.lt_last_delivered = c.bbr.lt_last_delivered ∧
    (bbrplus_update_min_rtt c i rs).bbr.lt_last_stamp = c.bbr.lt_last_stamp ∧
    (bbrplus_update_min_rtt c i rs).bbr.lt_last_lost = c.bbr.lt_last_lost ∧
    (bbrplus_update_min_rtt c i rs).bbr.full_bw_cnt = c.bbr.full_bw_cnt ∧
    (bbrplus_update_min_rtt c i rs).bbr.has_seen_rtt = c.bbr.has_seen_rtt ∧
    (bbrplus_update_min_rtt c i rs).bbr.full_bw = c.bbr.full_bw ∧
    (bbrplus_update_min_rtt c i rs).bbr.ack_epoch_mstamp = c.bbr.ack_epoch_mstamp ∧
    (bbrplus_update_min_rtt c i rs).bbr.extra_acked0 = c.bbr.extra_acked0 ∧
    (bbrplus_update_min_rtt c i rs).bbr.extra_acked1 = c.bbr.extra_acked1 ∧
    (bbrplus_update_min_rtt c i rs).bbr.ack_epoch_acked = c.bbr.ack_epoch_acked ∧
    (bbrplus_update_min_rtt c i rs).bbr.extra_acked_win_rtts = c.bbr.extra_acked_win_rtts ∧
    (bbrplus_update_min_rtt c i rs).bbr.extra_acked_win_idx = c.bbr.extra_acked_win_idx ∧
    (bbrplus_update_min_rtt c i rs).snd_cwnd = c.snd_cwnd ∧
    (bbrplus_update_min_rtt c i rs).sk_pacing_rate = c.sk_pacing_rate := by
  simp [bbrplus_update_min_rtt]

@[simp] theorem frame_update_min_rtt_bw (c : Conn) (i : Input) (rs : RateSample) :
    (bbrplus_update_min_rtt c i rs).bbr.bw = c.bbr.bw :=
  (frame_update_min_rtt c i rs).1

@[simp] theorem frame_update_min_rtt_rtt_cnt (c : Conn) (i : Input) (rs : RateSample) :
    (bbrplus_update_min_rtt c i rs).bbr.rtt_cnt = c.bbr.rtt_cnt :=
  (frame_update_min_rtt c i rs).2.1

@[simp] theorem frame_update_min_rtt_prev_ca_state (c : Conn) (i : Input) (rs : RateSample) :
    (bbrplus_update_min_rtt c i rs).bbr.prev_ca_state = c.bbr.prev_ca_state :=
  (frame_update_min_rtt c i rs).2.2.1

@[simp] theorem frame_update_min_rtt_packet_conservation (c : Conn) (i : Input) (rs : RateSample) :
    (bbrplus_update_min_rtt c i rs).bbr.packet_conservation = c.bbr.packet_conservation :=
  (frame_update_min_rtt c i rs).2.2.2.1

@[simp] theorem frame_update_min_rtt_round_start (c : Conn) (i : Input) (rs : RateSample) :
    (bbrplus_update_min_rtt c i rs).bbr.round_start = c.bbr.round_start :=
  (frame_update_min_rtt c i rs).2.2.2.2.1

@[simp] theorem frame_update_min_rtt_cycle_len (c : Conn) (i : Input) (rs : RateSample) :
    (bbrplus_update_min_rtt c i rs).bbr.cycle_len = c.bbr.cycle_len :=
  (frame_update_min_rtt c i rs).2.2.2.2.2.1

@[simp] theorem frame_update_min_rtt_tso_segs_goal (c : Conn) (i : Input) (rs : RateSample) :
    (bbrplus_update_min_rtt c i rs).bbr.tso_segs_goal = c.bbr.tso_segs_goal :=
  (frame_update_min_rtt c i rs).2.2.2.2.2.2.1

@[simp] theorem frame_update_min_rtt_lt_is_sampling (c : Conn) (i : Input) (rs : RateSample) :
    (bbrplus_update_min_rtt c i rs).bbr.lt_is_sampling = c.bbr.lt_is_sampling :=
  (frame_update_min_rtt c i rs).2.2.2.2.2.2.2.1

@[simp] theorem frame_update_min_rtt_lt_rtt_cnt (c : Conn) (i : Input) (rs : RateSample) :
    (bbrplus_update_min_rtt c i rs).bbr.lt_rtt_cnt = c.bbr.lt_rtt_cnt :=
  (frame_update_min_rtt c i rs).2.2.2.2.2.2.2.2.1

@[simp] theorem frame_update_min_rtt_lt_use_bw (c : Conn) (i : Input) (rs : RateSample) :
    (bbrplus_update_min_rtt c i rs).bbr.lt_use_bw = c.bbr.lt_use_bw :=
  (frame_update_min_rtt c i rs).2.2.2.2.2.2.2.2.2.1

@[simp] theorem frame_update_min_rtt_lt_bw (c : Conn) (i : Input) (rs : RateSample) :
    (bbrplus_update_min_rtt c i rs).bbr.lt_bw = c.bbr.lt_bw :=
  (frame_update_min_rtt c i rs).2.2.2.2.2.2.2.2.2.2.1

@[simp] theorem frame_update_min_rtt_lt_last_delivered (c : Conn) (i : Input) (rs : RateSample) :
    (bbrplus_update_min_rtt c i rs).bbr.lt_last_delivered = c.bbr.lt_last_delivered :=
  (frame_update_min_rtt c i rs).2.2.2.2.2.2.2.2.2.2.2.1

@[simp] theorem frame_update_min_rtt_lt_last_stamp (c : Conn) (i : Input) (rs : RateSample) :
    (bbrplus_update_min_rtt c i rs).bbr.lt_last_stamp = c.bbr.lt_last_stamp :=
  (frame_update_min_rtt c i rs).2.2.2.2.2.2.2.2.2.2.2.2.1

@[simp] theorem frame_update_min_rtt_lt_last_lost (c : Conn) (i : Input) (rs : RateSample) :
    (bbrplus_update_min_rtt c i rs).bbr.lt_last_lost = c.bbr.lt_last_lost :=
  (frame_update_min_rtt c i rs).2.2.2.2.2.2.2.2.2.2.2.2.2.1

@[simp] theorem frame_update_min_rtt_full_bw_cnt (c : Conn) (i : Input) (rs : RateSample) :
    (bbrplus_update_min_rtt c i rs).bbr.full_bw_cnt = c.bbr.full_bw_cnt :=
  (frame_update_min_rtt c i rs).2.2.2.2.2.2.2.2.2.2.2.2.2.2.1

@[simp] theorem frame_update_min_rtt_has_seen_rtt (c : Conn) (i : Input) (rs : RateSample) :
    (bbrplus_update_min_rtt c i rs).bbr.has_seen_rtt = c.bbr.has_seen_rtt :=
  (frame_update_min_rtt c i rs).2.2.2.2.2.2.2.2.2.2.2.2.2.2.2.1

@[simp] theorem frame_update_min_rtt_full_bw (c : Conn) (i : Input) (rs : RateSample) :
    (bbrplus_update_min_rtt c i rs).bbr.full_bw = c.bbr.full_bw :=
  (frame_update_min_rtt c i rs).2.2.2.2.2.2.2.2.2.2.2.2.2.2.2.2.1

@[simp] theorem frame_update_min_rtt_ack_epoch_mstamp (c : Conn) (i : Input) (rs : RateSample) :
    (bbrplus_update_min_rtt c i rs).bbr.ack_epoch_mstamp = c.bbr.ack_epoch_mstamp :=
  (frame_update_min_rtt c i rs).2.2.2.2.2.2.2.2.2.2.2.2.2.2.2.2.2.1

@[simp] theorem frame_update_min_rtt_extra_acked0 (c : Conn) (i : Input) (rs : RateSample) :
    (bbrplus_update_min_rtt c i rs).bbr.extra_acked0 = c.bbr.extra_acked0 :=
  (frame_update_min_rtt c i rs).2.2.2.2.2.2.2.2.2.2.2.2.2.2.2.2.2.2.1

@[simp] theorem frame_update_min_rtt_extra_acked1 (c : Conn) (i : Input) (rs : RateSample) :
    (bbrplus_update_min_rtt c i rs).bbr.extra_acked1 = c.bbr.extra_acked1 :=
  (frame_update_min_rtt c i rs).2.2.2.2.2.2.2.2.2.2.2.2.2.2.2.2.2.2.2.1

@[simp] theorem frame_update_min_rtt_ack_epoch_acked (c : Conn) (i : Input) (rs : RateSample) :
    (bbrplus_update_min_rtt c i rs).bbr.ack_epoch_acked = c.bbr.ack_epoch_acked :=
  (frame_update_min_rtt c i rs).2.2.2.2.2.2.2.2.2.2.2.2.2.2.2.2.2.2.2.2.1

@[simp] theorem frame_update_min_rtt_extra_acked_win_rtts (c : Conn) (i : Input) (rs : RateSample) :
    (bbrplus_update_min_rtt c i rs).bbr.extra_acked_win_rtts = c.bbr.extra_acked_win_rtts :=
  (frame_update_min_rtt c i rs).2.2.2.2.2.2.2.2.2.2.2.2.2.2.2.2.2.2.2.2.2.1

@[simp] theorem frame_update_min_rtt_extra_acked_win_idx (c : Conn) (i : Input) (rs : RateSample) :
    (bbrplus_update_min_rtt c i rs).bbr.extra_acked_win_idx = c.bbr.extra_acked_win_idx :=
  (frame_update_min_rtt c i rs).2.2.2.2.2.2.2.2.2.2.2.2.2.2.2.2.2.2.2.2.2.2.1

@[simp] theorem frame_update_min_rtt_snd_cwnd (c : Conn) (i : Input) (rs : RateSample) :
    (bbrplus_update_min_rtt c i rs).snd_cwnd = c.snd_cwnd :=
  (frame_update_min_rtt c i rs).2.2.2.2.2.2.2.2.2.2.2.2.2.2.2.2.2.2.2.2.2.2.2.1

@[simp] theorem frame_update_min_rtt_sk_pacing_rate (c : Conn) (i : Input) (rs : RateSample) :
    (bbrplus_update_min_rtt c i rs).sk_pacing_rate = c.sk_pacing_rate :=
  (frame_update_min_rtt c i rs).2.2.2.2.2.2.2.2.2.2.2.2.2.2.2.2.2.2.2.2.2.2.2.2

/-- Fields that `bbrplus_set_pacing_rate` never writes. -/
theorem frame_set_pacing (c : Conn) (i : Input) (bw gain : Nat) :
    (bbrplus_set_pacing_rate c i bw gain).bbr.min_rtt_us = c.bbr.min_rtt_us ∧
    (bbrplus_set_pacing_rate c i bw gain).bbr.min_rtt_stamp = c.bbr.min_rtt_stamp ∧
    (bbrplus_set_pacing_rate c i bw gain).bbr.probe_rtt_done_stamp = c.bbr.probe_rtt_done_stamp ∧
    (bbrplus_set_pacing_rate c i bw gain).bbr.bw = c.bbr.bw ∧
    (bbrplus_set_pacing_rate c i bw gain).bbr.rtt_cnt = c.bbr.rtt_cnt ∧
    (bbrplus_set_pacing_rate c i bw gain).bbr.next_rtt_delivered = c.bbr.next_rtt_delivered ∧
    (bbrplus_set_pacing_rate c i bw gain).bbr.cycle_mstamp = c.bbr.cycle_mstamp ∧
    (bbrplus_set_pacing_rate c i bw gain).bbr.mode = c.bbr.mode ∧
    (bbrplus_set_pacing_rate c i bw gain).bbr.prev_ca_state = c.bbr.prev_ca_state ∧
    (bbrplus_set_pacing_rate c i bw gain).bbr.packet_conservation = c.bbr.packet_conservation ∧
    (bbrplus_set_pacing_rate c i bw gain).bbr.restore_cwnd = c.bbr.restore_cwnd ∧
    (bbrplus_set_pacing_rate c i bw gain).bbr.round_start = c.bbr.round_start ∧
    (bbrplus_set_pacing_rate c i bw gain).bbr.cycle_len = c.bbr.cycle_len ∧
    (bbrplus_set_pacing_rate c i bw gain).bbr.tso_segs_goal = c.bbr.tso_segs_goal ∧
    (bbrplus_set_pacing_rate c i bw gain).bbr.idle_restart = c.bbr.idle_restart ∧
    (bbrplus_set_pacing_rate c i bw gain).bbr.probe_rtt_round_done = c.bbr.probe_rtt_round_done ∧
    (bbrplus_set_pacing_rate c i bw gain).bbr.lt_is_sampling = c.bbr.lt_is_sampling ∧
    (bbrplus_set_pacing_rate c i bw gain).bbr.lt_rtt_cnt = c.bbr.lt_rtt_cnt ∧
    (bbrplus_set_pacing_rate c i bw gain).bbr.lt_use_bw = c.bbr.lt_use_bw ∧
    (bbrplus_set_pacing_rate c i bw gain).bbr.lt_bw = c.bbr.lt_bw ∧
    (bbrplus_set_pacing_rate c i bw gain).bbr.lt_last_delivered = c.bbr.lt_last_delivered ∧
    (bbrplus_set_pacing_rate c i bw gain).bbr.lt_last_stamp = c.bbr.lt_last_stamp ∧
    (bbrplus_set_pacing_rate c i bw gain).bbr.lt_last_lost = c.bbr.lt_last_lost ∧
    (bbrplus_set_pacing_rate c i bw gain).bbr.pacing_gain = c.bbr.pacing_gain ∧
    (bbrplus_set_pacing_rate c i bw gain).bbr.cwnd_gain = c.bbr.cwnd_gain ∧
    (bbrplus_set_pacing_rate c i bw gain).bbr.full_bw_cnt = c.bbr.full_bw_cnt ∧
    (bbrplus_set_pacing_rate c i bw gain).bbr.cycle_idx = c.bbr.cycle_idx ∧
    (bbrplus_set_pacing_rate c i bw gain).bbr.prior_cwnd = c.bbr.prior_cwnd ∧
    (bbrplus_set_pacing_rate c i bw gain).bbr.full_bw = c.bbr.full_bw ∧
    (bbrplus_set_pacing_rate c i bw gain).bbr.ack_epoch_mstamp = c.bbr.ack_epoch_mstamp ∧
    (bbrplus_set_pacing_rate c i bw gain).bbr.extra_acked0 = c.bbr.extra_acked0 ∧
    (bbrplus_set_pacing_rate c i bw gain).bbr.extra_acked1 = c.bbr.extra_acked1 ∧
    (bbrplus_set_pacing_rate c i bw gain).bbr.ack_epoch_acked = c.bbr.ack_epoch_acked ∧
    (bbrplus_set_pacing_rate c i bw gain).bbr.extra_acked_win_rtts = c.bbr.extra_acked_win_rtts ∧
    (bbrplus_set_pacing_rate c i bw gain).bbr.extra_acked_win_idx = c.bbr.extra_acked_win_idx ∧
    (bbrplus_set_pacing_rate c i bw gain).snd_cwnd = c.snd_cwnd := by
  simp only [bbrplus_set_pacing_rate]
  repeat' split
  all_goals simp

@[simp] theorem frame_set_pacing_min_rtt_us (c : Conn) (i : Input) (bw gain : Nat) :
    (bbrplus_set_pacing_rate c i bw gain).bbr.min_rtt_us = c.bbr.min_rtt_us :=
  (frame_set_pacing c i bw gain).1

@[simp] theorem frame_set_pacing_min_rtt_stamp (c : Conn) (i : Input) (bw gain : Nat) :
    (bbrplus_set_pacing_rate c i bw gain).bbr.min_rtt_stamp = c.bbr.min_rtt_stamp :=
  (frame_set_pacing c i bw gain).2.1

@[simp] theorem frame_set_pacing_probe_rtt_done_stamp (c : Conn) (i : Input) (bw gain : Nat) :
    (bbrplus_set_pacing_rate c i bw gain).bbr.probe_rtt_done_stamp = c.bbr.probe_rtt_done_stamp :=
  (frame_set_pacing c i bw gain).2.2.1

@[simp] theorem frame_set_pacing_bw (c : Conn) (i : Input) (bw gain : Nat) :
    (bbrplus_set_pacing_rate c i bw gain).bbr.bw = c.bbr.bw :=
  (frame_set_pacing c i bw gain).2.2.2.1

@[simp] theorem frame_set_pacing_rtt_cnt (c : Conn) (i : Input) (bw gain : Nat) :
    (bbrplus_set_pacing_rate c i bw gain).bbr.rtt_cnt = c.bbr.rtt_cnt :=
  (frame_set_pacing c i bw gain).2.2.2.2.1

@[simp] theorem frame_set_pacing_next_rtt_delivered (c : Conn) (i : Input) (bw gain : Nat) :
    (bbrplus_set_pacing_rate c i bw gain).bbr.next_rtt_delivered = c.bbr.next_rtt_delivered :=
  (frame_set_pacing c i bw gain).2.2.2.2.2.1

@[simp] theorem frame_set_pacing_cycle_mstamp (c : Conn) (i : Input) (bw gain : Nat) :
    (bbrplus_set_pacing_rate c i bw gain).bbr.cycle_mstamp = c.bbr.cycle_mstamp :=
  (frame_set_pacing c i bw gain).2.2.2.2.2.2.1

@[simp] theorem frame_set_pacing_mode (c : Conn) (i : Input) (bw gain : Nat) :
    (bbrplus_set_pacing_rate c i bw gain).bbr.mode = c.bbr.mode :=
  (frame_set_pacing c i bw gain).2.2.2.2.2.2.2.1

@[simp] theorem frame_set_pacing_prev_ca_state (c : Conn) (i : Input) (bw gain : Nat) :
    (bbrplus_set_pacing_rate c i bw gain).bbr.prev_ca_state = c.bbr.prev_ca_state :=
  (frame_set_pacing c i bw gain).2.2.2.2.2.2.2.2.1

@[simp] theorem frame_set_pacing_packet_conservation (c : Conn) (i : Input) (bw gain : Nat) :
    (bbrplus_set_pacing_rate c i bw gain).bbr.packet_conservation = c.bbr.packet_conservation :=
  (frame_set_pacing c i bw gain).2.2.2.2.2.2.2.2.2.1

@[simp] theorem frame_set_pacing_restore_cwnd (c : Conn) (i : Input) (bw gain : Nat) :
    (bbrplus_set_pacing_rate c i bw gain).bbr.restore_cwnd = c.bbr.restore_cwnd :=
  (frame_set_pacing c i bw gain).2.2.2.2.2.2.2.2.2.2.1

@[simp] theorem frame_set_pacing_round_start (c : Conn) (i : Input) (bw gain : Nat) :
    (bbrplus_set_pacing_rate c i bw gain).bbr.round_start = c.bbr.round_start :=
  (frame_set_pacing c i bw gain).2.2.2.2.2.2.2.2.2.2.2.1

@[simp] theorem frame_set_pacing_cycle_len (c : Conn) (i : Input) (bw gain : Nat) :
    (bbrplus_set_pacing_rate c i bw gain).bbr.cycle_len = c.bbr.cycle_len :=
  (frame_set_pacing c i bw gain).2.2.2.2.2.2.2.2.2.2.2.2.1

@[simp] theorem frame_set_pacing_tso_segs_goal (c : Conn) (i : Input) (bw gain : Nat) :
    (bbrplus_set_pacing_rate c i bw gain).bbr.tso_segs_goal = c.bbr.tso_segs_goal :=
  (frame_set_pacing c i bw gain).2.2.2.2.2.2.2.2.2.2.2.2.2.1

@[simp] theorem frame_set_pacing_idle_restart (c : Conn) (i : Input) (bw gain : Nat) :
    (bbrplus_set_pacing_rate c i bw gain).bbr.idle_restart = c.bbr.idle_restart :=
  (frame_set_pacing c i bw gain).2.2.2.2.2.2.2.2.2.2.2.2.2.2.1

@[simp] theorem frame_set_pacing_probe_rtt_round_done (c : Conn) (i : Input) (bw gain : Nat) :
    (bbrplus_set_pacing_rate c i bw gain).bbr.probe_rtt_round_done = c.bbr.probe_rtt_round_done :=
  (frame_set_pacing c i bw gain).2.2.2.2.2.2.2.2.2.2.2.2.2.2.2.1

@[simp] theorem frame_set_pacing_lt_is_sampling (c : Conn) (i : Input) (bw gain : Nat) :
    (bbrplus_set_pacing_rate c i bw gain).bbr.lt_is_sampling = c.bbr.lt_is_sampling :=
  (frame_set_pacing c i bw gain).2.2.2.2.2.2.2.2.2.2.2.2.2.2.2.2.1

@[simp] theorem frame_set_pacing_lt_rtt_cnt (c : Conn) (i : Input) (bw gain : Nat) :
    (bbrplus_set_pacing_rate c i bw gain).bbr.lt_rtt_cnt = c.bbr.lt_rtt_cnt :=
  (frame_set_pacing c i bw gain).2.2.2.2.2.2.2.2.2.2.2.2.2.2.2.2.2.1

@[simp] theorem frame_set_pacing_lt_use_bw (c : Conn) (i : Input) (bw gain : Nat) :
    (bbrplus_set_pacing_rate c i bw gain).bbr.lt_use_bw = c.bbr.lt_use_bw :=
  (frame_set_pacing c i bw gain).2.2.2.2.2.2.2.2.2.2.2.2.2.2.2.2.2.2.1

@[simp] theorem frame_set_pacing_lt_bw (c : Conn) (i : Input) (bw gain : Nat) :
    (bbrplus_set_pacing_rate c i bw gain).bbr.lt_bw = c.bbr.lt_bw :=
  (frame_set_pacing c i bw gain).2.2.2.2.2.2.2.2.2.2.2.2.2.2.2.2.2.2.2.1

@[simp] theorem frame_set_pacing_lt_last_delivered (c : Conn) (i : Input) (bw gain : Nat) :
    (bbrplus_set_pacing_rate c i bw gain).bbr.lt_last_delivered = c.bbr.lt_last_delivered :=
  (frame_set_pacing c i bw gain).2.2.2.2.2.2.2.2.2.2.2.2.2.2.2.2.2.2.2.2.1

@[simp] theorem frame_set_pacing_lt_last_stamp (c : Conn) (i : Input) (bw gain : Nat) :
    (bbrplus_set_pacing_rate c i bw gain).bbr.lt_last_stamp = c.bbr.lt_last_stamp :=
  (frame_set_pacing c i bw gain).2.2.2.2.2.2.2.2.2.2.2.2.2.2.2.2.2.2.2.2.2.1

@[simp] theorem frame_set_pacing_lt_last_lost (c : Conn) (i : Input) (bw gain : Nat) :
    (bbrplus_set_pacing_rate c i bw gain).bbr.lt_last_lost = c.bbr.lt_last_lost :=
  (frame_set_pacing c i bw gain).2.2.2.2.2.2.2.2.2.2.2.2.2.2.2.2.2.2.2.2.2.2.1

@[simp] theorem frame_set_pacing_pacing_gain (c : Conn) (i : Input) (bw gain : Nat) :
    (bbrplus_set_pacing_rate c i bw gain).bbr.pacing_gain = c.bbr.pacing_gain :=
  (frame_set_pacing c i bw gain).2.2.2.2.2.2.2.2.2.2.2.2.2.2.2.2.2.2.2.2.2.2.2.1

@[simp] theorem frame_set_pacing_cwnd_gain (c : Conn) (i : Input) (bw gain : Nat) :
    (bbrplus_set_pacing_rate c i bw gain).bbr.cwnd_gain = c.bbr.cwnd_gain :=
  (frame_set_pacing c i bw gain).2.2.2.2.2.2.2.2.2.2.2.2.2.2.2.2.2.2.2.2.2.2.2.2.1

@[simp] theorem frame_set_pacing_full_bw_cnt (c : Conn) (i : Input) (bw gain : Nat) :
    (bbrplus_set_pacing_rate c i bw gain).bbr.full_bw_cnt = c.bbr.full_bw_cnt :=
  (frame_set_pacing c i bw gain).2.2.2.2.2.2.2.2.2.2.2.2.2.2.2.2.2.2.2.2.2.2.2.2.2.1

@[simp] theorem frame_set_pacing_cycle_idx (c : Conn) (i : Input) (bw gain : Nat) :
    (bbrplus_set_pacing_rate c i bw gain).bbr.cycle_idx = c.bbr.cycle_idx :=
  (frame_set_pacing c i bw gain).2.2.2.2.2.2.2.2.2.2.2.2.2.2.2.2.2.2.2.2.2.2.2.2.2.2.1

@[simp] theorem frame_set_pacing_prior_cwnd (c : Conn) (i : Input) (bw gain : Nat) :
    (bbrplus_set_pacing_rate c i bw gain).bbr.prior_cwnd = c.bbr.prior_cwnd :=
  (frame_set_pacing c i bw gain).2.2.2.2.2.2.2.2.2.2.2.2.2.2.2.2.2.2.2.2.2.2.2.2.2.2.2.1

@[simp] theorem frame_set_pacing_full_bw (c : Conn) (i : Input) (bw gain : Nat) :
    (bbrplus_set_pacing_rate c i bw gain).bbr.full_bw = c.bbr.full_bw :=
  (frame_set_pacing c i bw gain).2.2.2.2.2.2.2.2.2.2.2.2.2.2.2.2.2.2.2.2.2.2.2.2.2.2.2.2.1

@[simp] theorem frame_set_pacing_ack_epoch_mstamp (c : Conn) (i : Input) (bw gain : Nat) :
    (bbrplus_set_pacing_rate c i bw gain).bbr.ack_epoch_mstamp = c.bbr.ack_epoch_mstamp :=
  (frame_set_pacing c i bw gain).2.2.2.2.2.2.2.2.2.2.2.2.2.2.2.2.2.2.2.2.2.2.2.2.2.2.2.2.2.1

@[simp] theorem frame_set_pacing_extra_acked0 (c : Conn) (i : Input) (bw gain : Nat) :
    (bbrplus_set_pacing_rate c i bw gain).bbr.extra_acked0 = c.bbr.extra_acked0 :=
  (frame_set_pacing c i bw gain).2.2.2.2.2.2.2.2.2.2.2.2.2.2.2.2.2.2.2.2.2.2.2.2.2.2.2.2.2.2.1

@[simp] theorem frame_set_pacing_extra_acked1 (c : Conn) (i : Input) (bw gain : Nat) :
    (bbrplus_set_pacing_rate c i bw gain).bbr.extra_acked1 = c.bbr.extra_acked1 :=
  (frame_set_pacing c i bw gain).2.2.2.2.2.2.2.2.2.2.2.2.2.2.2.2.2.2.2.2.2.2.2.2.2.2.2.2.2.2.2.1

@[simp] theorem frame_set_pacing_ack_epoch_acked (c : Conn) (i : Input) (bw gain : Nat) :
    (bbrplus_set_pacing_rate c i bw gain).bbr.ack_epoch_acked = c.bbr.ack_epoch_acked :=
  (frame_set_pacing c i bw gain).2.2.2.2.2.2.2.2.2.2.2.2.2.2.2.2.2.2.2.2.2.2.2.2.2.2.2.2.2.2.2.2.1

@[simp] theorem frame_set_pacing_extra_acked_win_rtts (c : Conn) (i : Input) (bw gain : Nat) :
    (bbrplus_set_pacing_rate c i bw gain).bbr.extra_acked_win_rtts = c.bbr.extra_acked_win_rtts :=
  (frame_set_pacing c i bw gain).2.2.2.2.2.2.2.2.2.2.2.2.2.2.2.2.2.2.2.2.2.2.2.2.2.2.2.2.2.2.2.2.2.1

@[simp] theorem frame_set_pacing_extra_acked_win_idx (c : Conn) (i : Input) (bw gain : Nat) :
    (bbrplus_set_pacing_rate c i bw gain).bbr.extra_acked_win_idx = c.bbr.extra_acked_win_idx :=
  (frame_set_pacing c i bw gain).2.2.2.2.2.2.2.2.2.2.2.2.2.2.2.2.2.2.2.2.2.2.2.2.2.2.2.2.2.2.2.2.2.2.1

@[simp] theorem frame_set_pacing_snd_cwnd (c : Conn) (i : Input) (bw gain : Nat) :
    (bbrplus_set_pacing_rate c i bw gain).snd_cwnd = c.snd_cwnd :=
  (frame_set_pacing c i bw gain).2.2.2.2.2.2.2.2.2.2.2.2.2.2.2.2.2.2.2.2.2.2.2.2.2.2.2.2.2.2.2.2.2.2.2

/-- Fields that `bbrplus_set_tso_segs_goal` never writes. -/
theorem frame_set_tso (c : Conn) (i : Input) :
    (bbrplus_set_tso_segs_goal c i).bbr.min_rtt_us = c.bbr.min_rtt_us ∧
    (bbrplus_set_tso_segs_goal c i).bbr.min_rtt_stamp = c.bbr.min_rtt_stamp ∧
    (bbrplus_set_tso_segs_goal c i).bbr.probe_rtt_done_stamp = c.bbr.probe_rtt_done_stamp ∧
    (bbrplus_set_tso_segs_goal c i).bbr.bw = c.bbr.bw ∧
    (bbrplus_set_tso_segs_goal c i).bbr.rtt_cnt = c.bbr.rtt_cnt ∧
    (bbrplus_set_tso_segs_goal c i).bbr.next_rtt_delivered = c.bbr.next_rtt_delivered ∧
    (bbrplus_set_tso_segs_goal c i).bbr.cycle_mstamp = c.bbr.cycle_mstamp ∧
    (bbrplus_set_tso_segs_goal c i).bbr.mode = c.bbr.mode ∧
    (bbrplus_set_tso_segs_goal c i).bbr.prev_ca_state = c.bbr.prev_ca_state ∧
    (bbrplus_set_tso_segs_goal c i).bbr.packet_conservation = c.bbr.packet_conservation ∧
    (bbrplus_set_tso_segs_goal c i).bbr.restore_cwnd = c.bbr.restore_cwnd ∧
    (bbrplus_set_tso_segs_goal c i).bbr.round_start = c.bbr.round_start ∧
    (bbrplus_set_tso_segs_goal c i).bbr.cycle_len = c.bbr.cycle_len ∧
    (bbrplus_set_tso_segs_goal c i).bbr.idle_restart = c.bbr.idle_restart ∧
    (bbrplus_set_tso_segs_goal c i).bbr.probe_rtt_round_done = c.bbr.probe_rtt_round_done ∧
    (bbrplus_set_tso_segs_goal c i).bbr.lt_is_sampling = c.bbr.lt_is_sampling ∧
    (bbrplus_set_tso_segs_goal c i).bbr.lt_rtt_cnt = c.bbr.lt_rtt_cnt ∧
    (bbrplus_set_tso_segs_goal c i).bbr.lt_use_bw = c.bbr.lt_use_bw ∧
    (bbrplus_set_tso_segs_goal c i).bbr.lt_bw = c.bbr.lt_bw ∧
    (bbrplus_set_tso_segs_goal c i).bbr.lt_last_delivered = c.bbr.lt_last_delivered ∧
    (bbrplus_set_tso_segs_goal c i).bbr.lt_last_stamp = c.bbr.lt_last_stamp ∧
    (bbrplus_set_tso_segs_goal c i).bbr.lt_last_lost = c.bbr.lt_last_lost ∧
    (bbrplus_set_tso_segs_goal c i).bbr.pacing_gain = c.bbr.pacing_gain ∧
    (bbrplus_set_tso_segs_goal c i).bbr.cwnd_gain = c.bbr.cwnd_gain ∧
    (bbrplus_set_tso_segs_goal c i).bbr.full_bw_cnt = c.bbr.full_bw_cnt ∧
    (bbrplus_set_tso_segs_goal c i).bbr.cycle_idx = c.bbr.cycle_idx ∧
    (bbrplus_set_tso_segs_goal c i).bbr.has_seen_rtt = c.bbr.has_seen_rtt ∧
    (bbrplus_set_tso_segs_goal c i).bbr.prior_cwnd = c.bbr.prior_cwnd ∧
    (bbrplus_set_tso_segs_goal c i).bbr.full_bw = c.bbr.full_bw ∧
    (bbrplus_set_tso_segs_goal c i).bbr.ack_epoch_mstamp = c.bbr.ack_epoch_mstamp ∧
    (bbrplus_set_tso_segs_goal c i).bbr.extra_acked0 = c.bbr.extra_acked0 ∧
    (bbrplus_set_tso_segs_goal c i).bbr.extra_acked1 = c.bbr.extra_acked1 ∧
    (bbrplus_set_tso_segs_goal c i).bbr.ack_epoch_acked = c.bbr.ack_epoch_acked ∧
    (bbrplus_set_tso_segs_goal c i).bbr.extra_acked_win_rtts = c.bbr.extra_acked_win_rtts ∧
    (bbrplus_set_tso_segs_goal c i).bbr.extra_acked_win_idx = c.bbr.extra_acked_win_idx ∧
    (bbrplus_set_tso_segs_goal c i).snd_cwnd = c.snd_cwnd ∧
    (bbrplus_set_tso_segs_goal c i).sk_pacing_rate = c.sk_pacing_rate := by
  simp [bbrplus_set_tso_segs_goal]

@[simp] theorem frame_set_tso_min_rtt_us (c : Conn) (i : Input) :
    (bbrplus_set_tso_segs_goal c i).bbr.min_rtt_us = c.bbr.min_rtt_us :=
  (frame_set_tso c i).1

@[simp] theorem frame_set_tso_min_rtt_stamp (c : Conn) (i : Input) :
    (bbrplus_set_tso_segs_goal c i).bbr.min_rtt_stamp = c.bbr.min_rtt_stamp :=
  (frame_set_tso c i).2.1

@[simp] theorem frame_set_tso_probe_rtt_done_stamp (c : Conn) (i : Input) :
    (bbrplus_set_tso_segs_goal c i).bbr.probe_rtt_done_stamp = c.bbr.probe_rtt_done_stamp :=
  (frame_set_tso c i).2.2.1

@[simp] theorem frame_set_tso_bw (c : Conn) (i : Input) :
    (bbrplus_set_tso_segs_goal c i).bbr.bw = c.bbr.bw :=
  (frame_set_tso c i).2.2.2.1

@[simp] theorem frame_set_tso_rtt_cnt (c : Conn) (i : Input) :
    (bbrplus_set_tso_segs_goal c i).bbr.rtt_cnt = c.bbr.rtt_cnt :=
  (frame_set_tso c i).2.2.2.2.1

@[simp] theorem frame_set_tso_next_rtt_delivered (c : Conn) (i : Input) :
    (bbrplus_set_tso_segs_goal c i).bbr.next_rtt_delivered = c.bbr.next_rtt_delivered :=
  (frame_set_tso c i).2.2.2.2.2.1

@[simp] theorem frame_set_tso_cycle_mstamp (c : Conn) (i : Input) :
    (bbrplus_set_tso_segs_goal c i).bbr.cycle_mstamp = c.bbr.cycle_mstamp :=
  (frame_set_tso c i).2.2.2.2.2.2.1

@[simp] theorem frame_set_tso_mode (c : Conn) (i : Input) :
    (bbrplus_set_tso_segs_goal c i).bbr.mode = c.bbr.mode :=
  (frame_set_tso c i).2.2.2.2.2.2.2.1

@[simp] theorem frame_set_tso_prev_ca_state (c : Conn) (i : Input) :
    (bbrplus_set_tso_segs_goal c i).bbr.prev_ca_state = c.bbr.prev_ca_state :=
  (frame_set_tso c i).2.2.2.2.2.2.2.2.1

@[simp] theorem frame_set_tso_packet_conservation (c : Conn) (i : Input) :
    (bbrplus_set_tso_segs_goal c i).bbr.packet_conservation = c.bbr.packet_conservation :=
  (frame_set_tso c i).2.2.2.2.2.2.2.2.2.1

@[simp] theorem frame_set_tso_restore_cwnd (c : Conn) (i : Input) :
    (bbrplus_set_tso_segs_goal c i).bbr.restore_cwnd = c.bbr.restore_cwnd :=
  (frame_set_tso c i).2.2.2.2.2.2.2.2.2.2.1

@[simp] theorem frame_set_tso_round_start (c : Conn) (i : Input) :
    (bbrplus_set_tso_segs_goal c i).bbr.round_start = c.bbr.round_start :=
  (frame_set_tso c i).2.2.2.2.2.2.2.2.2.2.2.1

@[simp] theorem frame_set_tso_cycle_len (c : Conn) (i : Input) :
    (bbrplus_set_tso_segs_goal c i).bbr.cycle_len = c.bbr.cycle_len :=
  (frame_set_tso c i).2.2.2.2.2.2.2.2.2.2.2.2.1

@[simp] theorem frame_set_tso_idle_restart (c : Conn) (i : Input) :
    (bbrplus_set_tso_segs_goal c i).bbr.idle_restart = c.bbr.idle_restart :=
  (frame_set_tso c i).2.2.2.2.2.2.2.2.2.2.2.2.2.1

@[simp] theorem frame_set_tso_probe_rtt_round_done (c : Conn) (i : Input) :
    (bbrplus_set_tso_segs_goal c i).bbr.probe_rtt_round_done = c.bbr.probe_rtt_round_done :=
  (frame_set_tso c i).2.2.2.2.2.2.2.2.2.2.2.2.2.2.1

@[simp] theorem frame_set_tso_lt_is_sampling (c : Conn) (i : Input) :
    (bbrplus_set_tso_segs_goal c i).bbr.lt_is_sampling = c.bbr.lt_is_sampling :=
  (frame_set_tso c i).2.2.2.2.2.2.2.2.2.2.2.2.2.2.2.1

@[simp] theorem frame_set_tso_lt_rtt_cnt (c : Conn) (i : Input) :
    (bbrplus_set_tso_segs_goal c i).bbr.lt_rtt_cnt = c.bbr.lt_rtt_cnt :=
  (frame_set_tso c i).2.2.2.2.2.2.2.2.2.2.2.2.2.2.2.2.1

@[simp] theorem frame_set_tso_lt_use_bw (c : Conn) (i : Input) :
    (bbrplus_set_tso_segs_goal c i).bbr.lt_use_bw = c.bbr.lt_use_bw :=
  (frame_set_tso c i).2.2.2.2.2.2.2.2.2.2.2.2.2.2.2.2.2.1

@[simp] theorem frame_set_tso_lt_bw (c : Conn) (i : Input) :
    (bbrplus_set_tso_segs_goal c i).bbr.lt_bw = c.bbr.lt_bw :=
  (frame_set_tso c i).2.2.2.2.2.2.2.2.2.2.2.2.2.2.2.2.2.2.1

@[simp] theorem frame_set_tso_lt_last_delivered (c : Conn) (i : Input) :
    (bbrplus_set_tso_segs_goal c i).bbr.lt_last_delivered = c.bbr.lt_last_delivered :=
  (frame_set_tso c i).2.2.2.2.2.2.2.2.2.2.2.2.2.2.2.2.2.2.2.1

@[simp] theorem frame_set_tso_lt_last_stamp (c : Conn) (i : Input) :
    (bbrplus_set_tso_segs_goal c i).bbr.lt_last_stamp = c.bbr.lt_last_stamp :=
  (frame_set_tso c i).2.2.2.2.2.2.2.2.2.2.2.2.2.2.2.2.2.2.2.2.1

@[simp] theorem frame_set_tso_lt_last_lost (c : Conn) (i : Input) :
    (bbrplus_set_tso_segs_goal c i).bbr.lt_last_lost = c.bbr.lt_last_lost :=
  (frame_set_tso c i).2.2.2.2.2.2.2.2.2.2.2.2.2.2.2.2.2.2.2.2.2.1

@[simp] theorem frame_set_tso_pacing_gain (c : Conn) (i : Input) :
    (bbrplus_set_tso_segs_goal c i).bbr.pacing_gain = c.bbr.pacing_gain :=
  (frame_set_tso c i).2.2.2.2.2.2.2.2.2.2.2.2.2.2.2.2.2.2.2.2.2.2.1

@[simp] theorem frame_set_tso_cwnd_gain (c : Conn) (i : Input) :
    (bbrplus_set_tso_segs_goal c i).bbr.cwnd_gain = c.bbr.cwnd_gain :=
  (frame_set_tso c i).2.2.2.2.2.2.2.2.2.2.2.2.2.2.2.2.2.2.2.2.2.2.2.1

@[simp] theorem frame_set_tso_full_bw_cnt (c : Conn) (i : Input) :
    (bbrplus_set_tso_segs_goal c i).bbr.full_bw_cnt = c.bbr.full_bw_cnt :=
  (frame_set_tso c i).2.2.2.2.2.2.2.2.2.2.2.2.2.2.2.2.2.2.2.2.2.2.2.2.1

@[simp] theorem frame_set_tso_cycle_idx (c : Conn) (i : Input) :
    (bbrplus_set_tso_segs_goal c i).bbr.cycle_idx = c.bbr.cycle_idx :=
  (frame_set_tso c i).2.2.2.2.2.2.2.2.2.2.2.2.2.2.2.2.2.2.2.2.2.2.2.2.2.1

@[simp] theorem frame_set_tso_has_seen_rtt (c : Conn) (i : Input) :
    (bbrplus_set_tso_segs_goal c i).bbr.has_seen_rtt = c.bbr.has_seen_rtt :=
  (frame_set_tso c i).2.2.2.2.2.2.2.2.2.2.2.2.2.2.2.2.2.2.2.2.2.2.2.2.2.2.1

@[simp] theorem frame_set_tso_prior_cwnd (c : Conn) (i : Input) :
    (bbrplus_set_tso_segs_goal c i).bbr.prior_cwnd = c.bbr.prior_cwnd :=
  (frame_set_tso c i).2.2.2.2.2.2.2.2.2.2.2.2.2.2.2.2.2.2.2.2.2.2.2.2.2.2.2.1

@[simp] theorem frame_set_tso_full_bw (c : Conn) (i : Input) :
    (bbrplus_set_tso_segs_goal c i).bbr.full_bw = c.bbr.full_bw :=
  (frame_set_tso c i).2.2.2.2.2.2.2.2.2.2.2.2.2.2.2.2.2.2.2.2.2.2.2.2.2.2.2.2.1

@[simp] theorem frame_set_tso_ack_epoch_mstamp (c : Conn) (i : Input) :
    (bbrplus_set_tso_segs_goal c i).bbr.ack_epoch_mstamp = c.bbr.ack_epoch_mstamp :=
  (frame_set_tso c i).2.2.2.2.2.2.2.2.2.2.2.2.2.2.2.2.2.2.2.2.2.2.2.2.2.2.2.2.2.1

@[simp] theorem frame_set_tso_extra_acked0 (c : Conn) (i : Input) :
    (bbrplus_set_tso_segs_goal c i).bbr.extra_acked0 = c.bbr.extra_acked0 :=
  (frame_set_tso c i).2.2.2.2.2.2.2.2.2.2.2.2.2.2.2.2.2.2.2.2.2.2.2.2.2.2.2.2.2.2.1

@[simp] theorem frame_set_tso_extra_acked1 (c : Conn) (i : Input) :
    (bbrplus_set_tso_segs_goal c i).bbr.extra_acked1 = c.bbr.extra_acked1 :=
  (frame_set_tso c i).2.2.2.2.2.2.2.2.2.2.2.2.2.2.2.2.2.2.2.2.2.2.2.2.2.2.2.2.2.2.2.1

@[simp] theorem frame_set_tso_ack_epoch_acked (c : Conn) (i : Input) :
    (bbrplus_set_tso_segs_goal c i).bbr.ack_epoch_acked = c.bbr.ack_epoch_acked :=
  (frame_set_tso c i).2.2.2.2.2.2.2.2.2.2.2.2.2.2.2.2.2.2.2.2.2.2.2.2.2.2.2.2.2.2.2.2.1

@[simp] theorem frame_set_tso_extra_acked_win_rtts (c : Conn) (i : Input) :
    (bbrplus_set_tso_segs_goal c i).bbr.extra_acked_win_rtts = c.bbr.extra_acked_win_rtts :=
  (frame_set_tso c i).2.2.2.2.2.2.2.2.2.2.2.2.2.2.2.2.2.2.2.2.2.2.2.2.2.2.2.2.2.2.2.2.2.1

@[simp] theorem frame_set_tso_extra_acked_win_idx (c : Conn) (i : Input) :
    (bbrplus_set_tso_segs_goal c i).bbr.extra_acked_win_idx = c.bbr.extra_acked_win_idx :=
  (frame_set_tso c i).2.2.2.2.2.2.2.2.2.2.2.2.2.2.2.2.2.2.2.2.2.2.2.2.2.2.2.2.2.2.2.2.2.2.1

@[simp] theorem frame_set_tso_snd_cwnd (c : Conn) (i : Input) :
    (bbrplus_set_tso_segs_goal c i).snd_cwnd = c.snd_cwnd :=
  (frame_set_tso c i).2.2.2.2.2.2.2.2.2.2.2.2.2.2.2.2.2.2.2.2.2.2.2.2.2.2.2.2.2.2.2.2.2.2.2.1

@[simp] theorem frame_set_tso_sk_pacing_rate (c : Conn) (i : Input) :
    (bbrplus_set_tso_segs_goal c i).sk_pacing_rate = c.sk_pacing_rate :=
  (frame_set_tso c i).2.2.2.2.2.2.2.2.2.2.2.2.2.2.2.2.2.2.2.2.2.2.2.2.2.2.2.2.2.2.2.2.2.2.2.2

/-- Fields that `bbrplus_set_cwnd_to_recover_or_restore` never writes. -/
theorem frame_recover (c : Conn) (i : Input) (rs : RateSample) (acked : Nat) :
    ((bbrplus_set_cwnd_to_recover_or_restore c i rs acked).conn).bbr.min_rtt_us = c.bbr.min_rtt_us ∧
    ((bbrplus_set_cwnd_to_recover_or_restore c i rs acked).conn).bbr.min_rtt_stamp = c.bbr.min_rtt_stamp ∧
    ((bbrplus_set_cwnd_to_recover_or_restore c i rs acked).conn).bbr.probe_rtt_done_stamp = c.bbr.probe_rtt_done_stamp ∧
    ((bbrplus_set_cwnd_to_recover_or_restore c i rs acked).conn).bbr.bw = c.bbr.bw ∧
    ((bbrplus_set_cwnd_to_recover_or_restore c i rs acked).conn).bbr.rtt_cnt = c.bbr.rtt_cnt ∧
    ((bbrplus_set_cwnd_to_recover_or_restore c i rs acked).conn).bbr.cycle_mstamp = c.bbr.cycle_mstamp ∧
    ((bbrplus_set_cwnd_to_recover_or_restore c i rs acked).conn).bbr.mode = c.bbr.mode ∧
    ((bbrplus_set_cwnd_to_recover_or_restore c i rs acked).conn).bbr.round_start = c.bbr.round_start ∧
    ((bbrplus_set_cwnd_to_recover_or_restore c i rs acked).conn).bbr.cycle_len = c.bbr.cycle_len ∧
    ((bbrplus_set_cwnd_to_recover_or_restore c i rs acked).conn).bbr.tso_segs_goal = c.bbr.tso_segs_goal ∧
    ((bbrplus_set_cwnd_to_recover_or_restore c i rs acked).conn).bbr.idle_restart = c.bbr.idle_restart ∧
    ((bbrplus_set_cwnd_to_recover_or_restore c i rs acked).conn).bbr.probe_rtt_round_done = c.bbr.probe_rtt_round_done ∧
    ((bbrplus_set_cwnd_to_recover_or_restore c i rs acked).conn).bbr.lt_is_sampling = c.bbr.lt_is_sampling ∧
    ((bbrplus_set_cwnd_to_recover_or_restore c i rs acked).conn).bbr.lt_rtt_cnt = c.bbr.lt_rtt_cnt ∧
    ((bbrplus_set_cwnd_to_recover_or_restore c i rs acked).conn).bbr.lt_use_bw = c.bbr.lt_use_bw ∧
    ((bbrplus_set_cwnd_to_recover_or_restore c i rs acked).conn).bbr.lt_bw = c.bbr.lt_bw ∧
    ((bbrplus_set_cwnd_to_recover_or_restore c i rs acked).conn).bbr.lt_last_delivered = c.bbr.lt_last_delivered ∧
    ((bbrplus_set_cwnd_to_recover_or_restore c i rs acked).conn).bbr.lt_last_stamp = c.bbr.lt_last_stamp ∧
    ((bbrplus_set_cwnd_to_recover_or_restore c i rs acked).conn).bbr.lt_last_lost = c.bbr.lt_last_lost ∧
    ((bbrplus_set_cwnd_to_recover_or_restore c i rs acked).conn).bbr.pacing_gain = c.bbr.pacing_gain ∧
    ((bbrplus_set_cwnd_to_recover_or_restore c i rs acked).conn).bbr.cwnd_gain = c.bbr.cwnd_gain ∧
    ((bbrplus_set_cwnd_to_recover_or_restore c i rs acked).conn).bbr.full_bw_cnt = c.bbr.full_bw_cnt ∧
    ((bbrplus_set_cwnd_to_recover_or_restore c i rs acked).conn).bbr.cycle_idx = c.bbr.cycle_idx ∧
    ((bbrplus_set_cwnd_to_recover_or_restore c i rs acked).conn).bbr.has_seen_rtt = c.bbr.has_seen_rtt ∧
    ((bbrplus_set_cwnd_to_recover_or_restore c i rs acked).conn).bbr.prior_cwnd = c.bbr.prior_cwnd ∧
    ((bbrplus_set_cwnd_to_recover_or_restore c i rs acked).conn).bbr.full_bw = c.bbr.full_bw ∧
    ((bbrplus_set_cwnd_to_recover_or_restore c i rs acked).conn).bbr.ack_epoch_mstamp = c.bbr.ack_epoch_mstamp ∧
    ((bbrplus_set_cwnd_to_recover_or_restore c i rs acked).conn).bbr.extra_acked0 = c.bbr.extra_acked0 ∧
    ((bbrplus_set_cwnd_to_recover_or_restore c i rs acked).conn).bbr.extra_acked1 = c.bbr.extra_acked1 ∧
    ((bbrplus_set_cwnd_to_recover_or_restore c i rs acked).conn).bbr.ack_epoch_acked = c.bbr.ack_epoch_acked ∧
    ((bbrplus_set_cwnd_to_recover_or_restore c i rs acked).conn).bbr.extra_acked_win_rtts = c.bbr.extra_acked_win_rtts ∧
    ((bbrplus_set_cwnd_to_recover_or_restore c i rs acked).conn).bbr.extra_acked_win_idx = c.bbr.extra_acked_win_idx ∧
    ((bbrplus_set_cwnd_to_recover_or_restore c i rs acked).conn).snd_cwnd = c.snd_cwnd ∧
    ((bbrplus_set_cwnd_to_recover_or_restore c i rs acked).conn).sk_pacing_rate = c.sk_pacing_rate := by
  simp only [bbrplus_set_cwnd_to_recover_or_restore]
  repeat' split
  all_goals simp

@[simp] theorem frame_recover_min_rtt_us (c : Conn) (i : Input) (rs : RateSample) (acked : Nat) :
    ((bbrplus_set_cwnd_to_recover_or_restore c i rs acked).conn).bbr.min_rtt_us = c.bbr.min_rtt_us :=
  (frame_recover c i rs acked).1

@[simp] theorem frame_recover_min_rtt_stamp (c : Conn) (i : Input) (rs : RateSample) (acked : Nat) :
    ((bbrplus_set_cwnd_to_recover_or_restore c i rs acked).conn).bbr.min_rtt_stamp = c.bbr.min_rtt_stamp :=
  (frame_recover c i rs acked).2.1

@[simp] theorem frame_recover_probe_rtt_done_stamp (c : Conn) (i : Input) (rs : RateSample) (acked : Nat) :
    ((bbrplus_set_cwnd_to_recover_or_restore c i rs acked).conn).bbr.probe_rtt_done_stamp = c.bbr.probe_rtt_done_stamp :=
  (frame_recover c i rs acked).2.2.1

@[simp] theorem frame_recover_bw (c : Conn) (i : Input) (rs : RateSample) (acked : Nat) :
    ((bbrplus_set_cwnd_to_recover_or_restore c i rs acked).conn).bbr.bw = c.bbr.bw :=
  (frame_recover c i rs acked).2.2.2.1

@[simp] theorem frame_recover_rtt_cnt (c : Conn) (i : Input) (rs : RateSample) (acked : Nat) :
    ((bbrplus_set_cwnd_to_recover_or_restore c i rs acked).conn).bbr.rtt_cnt = c.bbr.rtt_cnt :=
  (frame_recover c i rs acked).2.2.2.2.1

@[simp] theorem frame_recover_cycle_mstamp (c : Conn) (i : Input) (rs : RateSample) (acked : Nat) :
    ((bbrplus_set_cwnd_to_recover_or_restore c i rs acked).conn).bbr.cycle_mstamp = c.bbr.cycle_mstamp :=
  (frame_recover c i rs acked).2.2.2.2.2.1

@[simp] theorem frame_recover_mode (c : Conn) (i : Input) (rs : RateSample) (acked : Nat) :
    ((bbrplus_set_cwnd_to_recover_or_restore c i rs acked).conn).bbr.mode = c.bbr.mode :=
  (frame_recover c i rs acked).2.2.2.2.2.2.1

@[simp] theorem frame_recover_round_start (c : Conn) (i : Input) (rs : RateSample) (acked : Nat) :
    ((bbrplus_set_cwnd_to_recover_or_restore c i rs acked).conn).bbr.round_start = c.bbr.round_start :=
  (frame_recover c i rs acked).2.2.2.2.2.2.2.1

@[simp] theorem frame_recover_cycle_len (c : Conn) (i : Input) (rs : RateSample) (acked : Nat) :
    ((bbrplus_set_cwnd_to_recover_or_restore c i rs acked).conn).bbr.cycle_len = c.bbr.cycle_len :=
  (frame_recover c i rs acked).2.2.2.2.2.2.2.2.1

@[simp] theorem frame_recover_tso_segs_goal (c : Conn) (i : Input) (rs : RateSample) (acked : Nat) :
    ((bbrplus_set_cwnd_to_recover_or_restore c i rs acked).conn).bbr.tso_segs_goal = c.bbr.tso_segs_goal :=
  (frame_recover c i rs acked).2.2.2.2.2.2.2.2.2.1

@[simp] theorem frame_recover_idle_restart (c : Conn) (i : Input) (rs : RateSample) (acked : Nat) :
    ((bbrplus_set_cwnd_to_recover_or_restore c i rs acked).conn).bbr.idle_restart = c.bbr.idle_restart :=
  (frame_recover c i rs acked).2.2.2.2.2.2.2.2.2.2.1

@[simp] theorem frame_recover_probe_rtt_round_done (c : Conn) (i : Input) (rs : RateSample) (acked : Nat) :
    ((bbrplus_set_cwnd_to_recover_or_restore c i rs acked).conn).bbr.probe_rtt_round_done = c.bbr.probe_rtt_round_done :=
  (frame_recover c i rs acked).2.2.2.2.2.2.2.2.2.2.2.1

@[simp] theorem frame_recover_lt_is_sampling (c : Conn) (i : Input) (rs : RateSample) (acked : Nat) :
    ((bbrplus_set_cwnd_to_recover_or_restore c i rs acked).conn).bbr.lt_is_sampling = c.bbr.lt_is_sampling :=
  (frame_recover c i rs acked).2.2.2.2.2.2.2.2.2.2.2.2.1

@[simp] theorem frame_recover_lt_rtt_cnt (c : Conn) (i : Input) (rs : RateSample) (acked : Nat) :
    ((bbrplus_set_cwnd_to_recover_or_restore c i rs acked).conn).bbr.lt_rtt_cnt = c.bbr.lt_rtt_cnt :=
  (frame_recover c i rs acked).2.2.2.2.2.2.2.2.2.2.2.2.2.1

@[simp] theorem frame_recover_lt_use_bw (c : Conn) (i : Input) (rs : RateSample) (acked : Nat) :
    ((bbrplus_set_cwnd_to_recover_or_restore c i rs acked).conn).bbr.lt_use_bw = c.bbr.lt_use_bw :=
  (frame_recover c i rs acked).2.2.2.2.2.2.2.2.2.2.2.2.2.2.1

@[simp] theorem frame_recover_lt_bw (c : Conn) (i : Input) (rs : RateSample) (acked : Nat) :
    ((bbrplus_set_cwnd_to_recover_or_restore c i rs acked).conn).bbr.lt_bw = c.bbr.lt_bw :=
  (frame_recover c i rs acked).2.2.2.2.2.2.2.2.2.2.2.2.2.2.2.1

@[simp] theorem frame_recover_lt_last_delivered (c : Conn) (i : Input) (rs : RateSample) (acked : Nat) :
    ((bbrplus_set_cwnd_to_recover_or_restore c i rs acked).conn).bbr.lt_last_delivered = c.bbr.lt_last_delivered :=
  (frame_recover c i rs acked).2.2.2.2.2.2.2.2.2.2.2.2.2.2.2.2.1

@[simp] theorem frame_recover_lt_last_stamp (c : Conn) (i : Input) (rs : RateSample) (acked : Nat) :
    ((bbrplus_set_cwnd_to_recover_or_restore c i rs acked).conn).bbr.lt_last_stamp = c.bbr.lt_last_stamp :=
  (frame_recover c i rs acked).2.2.2.2.2.2.2.2.2.2.2.2.2.2.2.2.2.1

@[simp] theorem frame_recover_lt_last_lost (c : Conn) (i : Input) (rs : RateSample) (acked : Nat) :
    ((bbrplus_set_cwnd_to_recover_or_restore c i rs acked).conn).bbr.lt_last_lost = c.bbr.lt_last_lost :=
  (frame_recover c i rs acked).2.2.2.2.2.2.2.2.2.2.2.2.2.2.2.2.2.2.1

@[simp] theorem frame_recover_pacing_gain (c : Conn) (i : Input) (rs : RateSample) (acked : Nat) :
    ((bbrplus_set_cwnd_to_recover_or_restore c i rs acked).conn).bbr.pacing_gain = c.bbr.pacing_gain :=
  (frame_recover c i rs acked).2.2.2.2.2.2.2.2.2.2.2.2.2.2.2.2.2.2.2.1

@[simp] theorem frame_recover_cwnd_gain (c : Conn) (i : Input) (rs : RateSample) (acked : Nat) :
    ((bbrplus_set_cwnd_to_recover_or_restore c i rs acked).conn).bbr.cwnd_gain = c.bbr.cwnd_gain :=
  (frame_recover c i rs acked).2.2.2.2.2.2.2.2.2.2.2.2.2.2.2.2.2.2.2.2.1

@[simp] theorem frame_recover_full_bw_cnt (c : Conn) (i : Input) (rs : RateSample) (acked : Nat) :
    ((bbrplus_set_cwnd_to_recover_or_restore c i rs acked).conn).bbr.full_bw_cnt = c.bbr.full_bw_cnt :=
  (frame_recover c i rs acked).2.2.2.2.2.2.2.2.2.2.2.2.2.2.2.2.2.2.2.2.2.1

@[simp] theorem frame_recover_cycle_idx (c : Conn) (i : Input) (rs : RateSample) (acked : Nat) :
    ((bbrplus_set_cwnd_to_recover_or_restore c i rs acked).conn).bbr.cycle_idx = c.bbr.cycle_idx :=
  (frame_recover c i rs acked).2.2.2.2.2.2.2.2.2.2.2.2.2.2.2.2.2.2.2.2.2.2.1

@[simp] theorem frame_recover_has_seen_rtt (c : Conn) (i : Input) (rs : RateSample) (acked : Nat) :
    ((bbrplus_set_cwnd_to_recover_or_restore c i rs acked).conn).bbr.has_seen_rtt = c.bbr.has_seen_rtt :=
  (frame_recover c i rs acked).2.2.2.2.2.2.2.2.2.2.2.2.2.2.2.2.2.2.2.2.2.2.2.1

@[simp] theorem frame_recover_prior_cwnd (c : Conn) (i : Input) (rs : RateSample) (acked : Nat) :
    ((bbrplus_set_cwnd_to_recover_or_restore c i rs acked).conn).bbr.prior_cwnd = c.bbr.prior_cwnd :=
  (frame_recover c i rs acked).2.2.2.2.2.2.2.2.2.2.2.2.2.2.2.2.2.2.2.2.2.2.2.2.1

@[simp] theorem frame_recover_full_bw (c : Conn) (i : Input) (rs : RateSample) (acked : Nat) :
    ((bbrplus_set_cwnd_to_recover_or_restore c i rs acked).conn).bbr.full_bw = c.bbr.full_bw :=
  (frame_recover c i rs acked).2.2.2.2.2.2.2.2.2.2.2.2.2.2.2.2.2.2.2.2.2.2.2.2.2.1

@[simp] theorem frame_recover_ack_epoch_mstamp (c : Conn) (i : Input) (rs : RateSample) (acked : Nat) :
    ((bbrplus_set_cwnd_to_recover_or_restore c i rs acked).conn).bbr.ack_epoch_mstamp = c.bbr.ack_epoch_mstamp :=
  (frame_recover c i rs acked).2.2.2.2.2.2.2.2.2.2.2.2.2.2.2.2.2.2.2.2.2.2.2.2.2.2.1

@[simp] theorem frame_recover_extra_acked0 (c : Conn) (i : Input) (rs : RateSample) (acked : Nat) :
    ((bbrplus_set_cwnd_to_recover_or_restore c i rs acked).conn).bbr.extra_acked0 = c.bbr.extra_acked0 :=
  (frame_recover c i rs acked).2.2.2.2.2.2.2.2.2.2.2.2.2.2.2.2.2.2.2.2.2.2.2.2.2.2.2.1

@[simp] theorem frame_recover_extra_acked1 (c : Conn) (i : Input) (rs : RateSample) (acked : Nat) :
    ((bbrplus_set_cwnd_to_recover_or_restore c i rs acked).conn).bbr.extra_acked1 = c.bbr.extra_acked1 :=
  (frame_recover c i rs acked).2.2.2.2.2.2.2.2.2.2.2.2.2.2.2.2.2.2.2.2.2.2.2.2.2.2.2.2.1

@[simp] theorem frame_recover_ack_epoch_acked (c : Conn) (i : Input) (rs : RateSample) (acked : Nat) :
    ((bbrplus_set_cwnd_to_recover_or_restore c i rs acked).conn).bbr.ack_epoch_acked = c.bbr.ack_epoch_acked :=
  (frame_recover c i rs acked).2.2.2.2.2.2.2.2.2.2.2.2.2.2.2.2.2.2.2.2.2.2.2.2.2.2.2.2.2.1

@[simp] theorem frame_recover_extra_acked_win_rtts (c : Conn) (i : Input) (rs : RateSample) (acked : Nat) :
    ((bbrplus_set_cwnd_to_recover_or_restore c i rs acked).conn).bbr.extra_acked_win_rtts = c.bbr.extra_acked_win_rtts :=
  (frame_recover c i rs acked).2.2.2.2.2.2.2.2.2.2.2.2.2.2.2.2.2.2.2.2.2.2.2.2.2.2.2.2.2.2.1

@[simp] theorem frame_recover_extra_acked_win_idx (c : Conn) (i : Input) (rs : RateSample) (acked : Nat) :
    ((bbrplus_set_cwnd_to_recover_or_restore c i rs acked).conn).bbr.extra_acked_win_idx = c.bbr.extra_acked_win_idx :=
  (frame_recover c i rs acked).2.2.2.2.2.2.2.2.2.2.2.2.2.2.2.2.2.2.2.2.2.2.2.2.2.2.2.2.2.2.2.1

@[simp] theorem frame_recover_snd_cwnd (c : Conn) (i : Input) (rs : RateSample) (acked : Nat) :
    ((bbrplus_set_cwnd_to_recover_or_restore c i rs acked).conn).snd_cwnd = c.snd_cwnd :=
  (frame_recover c i rs acked).2.2.2.2.2.2.2.2.2.2.2.2.2.2.2.2.2.2.2.2.2.2.2.2.2.2.2.2.2.2.2.2.1

@[simp] theorem frame_recover_sk_pacing_rate (c : Conn) (i : Input) (rs : RateSample) (acked : Nat) :
    ((bbrplus_set_cwnd_to_recover_or_restore c i rs acked).conn).sk_pacing_rate = c.sk_pacing_rate :=
  (frame_recover c i rs acked).2.2.2.2.2.2.2.2.2.2.2.2.2.2.2.2.2.2.2.2.2.2.2.2.2.2.2.2.2.2.2.2.2

/-- Fields that `bbrplus_set_cwnd` never writes. -/
theorem frame_set_cwnd_fn (c : Conn) (i : Input) (rs : RateSample) (acked bw gain : Nat) :
    (bbrplus_set_cwnd c i rs acked bw gain).bbr.min_rtt_us = c.bbr.min_rtt_us ∧
    (bbrplus_set_cwnd c i rs acked bw gain).bbr.min_rtt_stamp = c.bbr.min_rtt_stamp ∧
    (bbrplus_set_cwnd c i rs acked bw gain).bbr.probe_rtt_done_stamp = c.bbr.probe_rtt_done_stamp ∧
    (bbrplus_set_cwnd c i rs acked bw gain).bbr.bw = c.bbr.bw ∧
    (bbrplus_set_cwnd c i rs acked bw gain).bbr.rtt_cnt = c.bbr.rtt_cnt ∧
    (bbrplus_set_cwnd c i rs acked bw gain).bbr.cycle_mstamp = c.bbr.cycle_mstamp ∧
    (bbrplus_set_cwnd c i rs acked bw gain).bbr.mode = c.bbr.mode ∧
    (bbrplus_set_cwnd c i rs acked bw gain).bbr.round_start = c.bbr.round_start ∧
    (bbrplus_set_cwnd c i rs acked bw gain).bbr.cycle_len = c.bbr.cycle_len ∧
    (bbrplus_set_cwnd c i rs acked bw gain).bbr.tso_segs_goal = c.bbr.tso_segs_goal ∧
    (bbrplus_set_cwnd c i rs acked bw gain).bbr.idle_restart = c.bbr.idle_restart ∧
    (bbrplus_set_cwnd c i rs acked bw gain).bbr.probe_rtt_round_done = c.bbr.probe_rtt_round_done ∧
    (bbrplus_set_cwnd c i rs acked bw gain).bbr.lt_is_sampling = c.bbr.lt_is_sampling ∧
    (bbrplus_set_cwnd c i rs acked bw gain).bbr.lt_rtt_cnt = c.bbr.lt_rtt_cnt ∧
    (bbrplus_set_cwnd c i rs acked bw gain).bbr.lt_use_bw = c.bbr.lt_use_bw ∧
    (bbrplus_set_cwnd c i rs acked bw gain).bbr.lt_bw = c.bbr.lt_bw ∧
    (bbrplus_set_cwnd c i rs acked bw gain).bbr.lt_last_delivered = c.bbr.lt_last_delivered ∧
    (bbrplus_set_cwnd c i rs acked bw gain).bbr.lt_last_stamp = c.bbr.lt_last_stamp ∧
    (bbrplus_set_cwnd c i rs acked bw gain).bbr.lt_last_lost = c.bbr.lt_last_lost ∧
    (bbrplus_set_cwnd c i rs acked bw gain).bbr.pacing_gain = c.bbr.pacing_gain ∧
    (bbrplus_set_cwnd c i rs acked bw gain).bbr.cwnd_gain = c.bbr.cwnd_gain ∧
    (bbrplus_set_cwnd c i rs acked bw gain).bbr.full_bw_cnt = c.bbr.full_bw_cnt ∧
    (bbrplus_set_cwnd c i rs acked bw gain).bbr.cycle_idx = c.bbr.cycle_idx ∧
    (bbrplus_set_cwnd c i rs acked bw gain).bbr.has_seen_rtt = c.bbr.has_seen_rtt ∧
    (bbrplus_set_cwnd c i rs acked bw gain).bbr.prior_cwnd = c.bbr.prior_cwnd ∧
    (bbrplus_set_cwnd c i rs acked bw gain).bbr.full_bw = c.bbr.full_bw ∧
    (bbrplus_set_cwnd c i rs acked bw gain).bbr.ack_epoch_mstamp = c.bbr.ack_epoch_mstamp ∧
    (bbrplus_set_cwnd c i rs acked bw gain).bbr.extra_acked0 = c.bbr.extra_acked0 ∧
    (bbrplus_set_cwnd c i rs acked bw gain).bbr.extra_acked1 = c.bbr.extra_acked1 ∧
    (bbrplus_set_cwnd c i rs acked bw gain).bbr.ack_epoch_acked = c.bbr.ack_epoch_acked ∧
    (bbrplus_set_cwnd c i rs acked bw gain).bbr.extra_acked_win_rtts = c.bbr.extra_acked_win_rtts ∧
    (bbrplus_set_cwnd c i rs acked bw gain).bbr.extra_acked_win_idx = c.bbr.extra_acked_win_idx ∧
    (bbrplus_set_cwnd c i rs acked bw gain).sk_pacing_rate = c.sk_pacing_rate := by
  simp only [bbrplus_set_cwnd]
  repeat' split
  all_goals simp

@[simp] theorem frame_set_cwnd_fn_min_rtt_us (c : Conn) (i : Input) (rs : RateSample) (acked bw gain : Nat) :
    (bbrplus_set_cwnd c i rs acked bw gain).bbr.min_rtt_us = c.bbr.min_rtt_us :=
  (frame_set_cwnd_fn c i rs acked bw gain).1

@[simp] theorem frame_set_cwnd_fn_min_rtt_stamp (c : Conn) (i : Input) (rs : RateSample) (acked bw gain : Nat) :
    (bbrplus_set_cwnd c i rs acked bw gain).bbr.min_rtt_stamp = c.bbr.min_rtt_stamp :=
  (frame_set_cwnd_fn c i rs acked bw gain).2.1

@[simp] theorem frame_set_cwnd_fn_probe_rtt_done_stamp (c : Conn) (i : Input) (rs : RateSample) (acked bw gain : Nat) :
    (bbrplus_set_cwnd c i rs acked bw gain).bbr.probe_rtt_done_stamp = c.bbr.probe_rtt_done_stamp :=
  (frame_set_cwnd_fn c i rs acked bw gain).2.2.1

@[simp] theorem frame_set_cwnd_fn_bw (c : Conn) (i : Input) (rs : RateSample) (acked bw gain : Nat) :
    (bbrplus_set_cwnd c i rs acked bw gain).bbr.bw = c.bbr.bw :=
  (frame_set_cwnd_fn c i rs acked bw gain).2.2.2.1

@[simp] theorem frame_set_cwnd_fn_rtt_cnt (c : Conn) (i : Input) (rs : RateSample) (acked bw gain : Nat) :
    (bbrplus_set_cwnd c i rs acked bw gain).bbr.rtt_cnt = c.bbr.rtt_cnt :=
  (frame_set_cwnd_fn c i rs acked bw gain).2.2.2.2.1

@[simp] theorem frame_set_cwnd_fn_cycle_mstamp (c : Conn) (i : Input) (rs : RateSample) (acked bw gain : Nat) :
    (bbrplus_set_cwnd c i rs acked bw gain).bbr.cycle_mstamp = c.bbr.cycle_mstamp :=
  (frame_set_cwnd_fn c i rs acked bw gain).2.2.2.2.2.1

@[simp] theorem frame_set_cwnd_fn_mode (c : Conn) (i : Input) (rs : RateSample) (acked bw gain : Nat) :
    (bbrplus_set_cwnd c i rs acked bw gain).bbr.mode = c.bbr.mode :=
  (frame_set_cwnd_fn c i rs acked bw gain).2.2.2.2.2.2.1

@[simp] theorem frame_set_cwnd_fn_round_start (c : Conn) (i : Input) (rs : RateSample) (acked bw gain : Nat) :
    (bbrplus_set_cwnd c i rs acked bw gain).bbr.round_start = c.bbr.round_start :=
  (frame_set_cwnd_fn c i rs acked bw gain).2.2.2.2.2.2.2.1

@[simp] theorem frame_set_cwnd_fn_cycle_len (c : Conn) (i : Input) (rs : RateSample) (acked bw gain : Nat) :
    (bbrplus_set_cwnd c i rs acked bw gain).bbr.cycle_len = c.bbr.cycle_len :=
  (frame_set_cwnd_fn c i rs acked bw gain).2.2.2.2.2.2.2.2.1

@[simp] theorem frame_set_cwnd_fn_tso_segs_goal (c : Conn) (i : Input) (rs : RateSample) (acked bw gain : Nat) :
    (bbrplus_set_cwnd c i rs acked bw gain).bbr.tso_segs_goal = c.bbr.tso_segs_goal :=
  (frame_set_cwnd_fn c i rs acked bw gain).2.2.2.2.2.2.2.2.2.1

@[simp] theorem frame_set_cwnd_fn_idle_restart (c : Conn) (i : Input) (rs : RateSample) (acked bw gain : Nat) :
    (bbrplus_set_cwnd c i rs acked bw gain).bbr.idle_restart = c.bbr.idle_restart :=
  (frame_set_cwnd_fn c i rs acked bw gain).2.2.2.2.2.2.2.2.2.2.1

@[simp] theorem frame_set_cwnd_fn_probe_rtt_round_done (c : Conn) (i : Input) (rs : RateSample) (acked bw gain : Nat) :
    (bbrplus_set_cwnd c i rs acked bw gain).bbr.probe_rtt_round_done = c.bbr.probe_rtt_round_done :=
  (frame_set_cwnd_fn c i rs acked bw gain).2.2.2.2.2.2.2.2.2.2.2.1

@[simp] theorem frame_set_cwnd_fn_lt_is_sampling (c : Conn) (i : Input) (rs : RateSample) (acked bw gain : Nat) :
    (bbrplus_set_cwnd c i rs acked bw gain).bbr.lt_is_sampling = c.bbr.lt_is_sampling :=
  (frame_set_cwnd_fn c i rs acked bw gain).2.2.2.2.2.2.2.2.2.2.2.2.1

@[simp] theorem frame_set_cwnd_fn_lt_rtt_cnt (c : Conn) (i : Input) (rs : RateSample) (acked bw gain : Nat) :
    (bbrplus_set_cwnd c i rs acked bw gain).bbr.lt_rtt_cnt = c.bbr.lt_rtt_cnt :=
  (frame_set_cwnd_fn c i rs acked bw gain).2.2.2.2.2.2.2.2.2.2.2.2.2.1

@[simp] theorem frame_set_cwnd_fn_lt_use_bw (c : Conn) (i : Input) (rs : RateSample) (acked bw gain : Nat) :
    (bbrplus_set_cwnd c i rs acked bw gain).bbr.lt_use_bw = c.bbr.lt_use_bw :=
  (frame_set_cwnd_fn c i rs acked bw gain).2.2.2.2.2.2.2.2.2.2.2.2.2.2.1

@[simp] theorem frame_set_cwnd_fn_lt_bw (c : Conn) (i : Input) (rs : RateSample) (acked bw gain : Nat) :
    (bbrplus_set_cwnd c i rs acked bw gain).bbr.lt_bw = c.bbr.lt_bw :=
  (frame_set_cwnd_fn c i rs acked bw gain).2.2.2.2.2.2.2.2.2.2.2.2.2.2.2.1

@[simp] theorem frame_set_cwnd_fn_lt_last_delivered (c : Conn) (i : Input) (rs : RateSample) (acked bw gain : Nat) :
    (bbrplus_set_cwnd c i rs acked bw gain).bbr.lt_last_delivered = c.bbr.lt_last_delivered :=
  (frame_set_cwnd_fn c i rs acked bw gain).2.2.2.2.2.2.2.2.2.2.2.2.2.2.2.2.1

@[simp] theorem frame_set_cwnd_fn_lt_last_stamp (c : Conn) (i : Input) (rs : RateSample) (acked bw gain : Nat) :
    (bbrplus_set_cwnd c i rs acked bw gain).bbr.lt_last_stamp = c.bbr.lt_last_stamp :=
  (frame_set_cwnd_fn c i rs acked bw gain).2.2.2.2.2.2.2.2.2.2.2.2.2.2.2.2.2.1

@[simp] theorem frame_set_cwnd_fn_lt_last_lost (c : Conn) (i : Input) (rs : RateSample) (acked bw gain : Nat) :
    (bbrplus_set_cwnd c i rs acked bw gain).bbr.lt_last_lost = c.bbr.lt_last_lost :=
  (frame_set_cwnd_fn c i rs acked bw gain).2.2.2.2.2.2.2.2.2.2.2.2.2.2.2.2.2.2.1

@[simp] theorem frame_set_cwnd_fn_pacing_gain (c : Conn) (i : Input) (rs : RateSample) (acked bw gain : Nat) :
    (bbrplus_set_cwnd c i rs acked bw gain).bbr.pacing_gain = c.bbr.pacing_gain :=
  (frame_set_cwnd_fn c i rs acked bw gain).2.2.2.2.2.2.2.2.2.2.2.2.2.2.2.2.2.2.2.1

@[simp] theorem frame_set_cwnd_fn_cwnd_gain (c : Conn) (i : Input) (rs : RateSample) (acked bw gain : Nat) :
    (bbrplus_set_cwnd c i rs acked bw gain).bbr.cwnd_gain = c.bbr.cwnd_gain :=
  (frame_set_cwnd_fn c i rs acked bw gain).2.2.2.2.2.2.2.2.2.2.2.2.2.2.2.2.2.2.2.2.1

@[simp] theorem frame_set_cwnd_fn_full_bw_cnt (c : Conn) (i : Input) (rs : RateSample) (acked bw gain : Nat) :
    (bbrplus_set_cwnd c i rs acked bw gain).bbr.full_bw_cnt = c.bbr.full_bw_cnt :=
  (frame_set_cwnd_fn c i rs acked bw gain).2.2.2.2.2.2.2.2.2.2.2.2.2.2.2.2.2.2.2.2.2.1

@[simp] theorem frame_set_cwnd_fn_cycle_idx (c : Conn) (i : Input) (rs : RateSample) (acked bw gain : Nat) :
    (bbrplus_set_cwnd c i rs acked bw gain).bbr.cycle_idx = c.bbr.cycle_idx :=
  (frame_set_cwnd_fn c i rs acked bw gain).2.2.2.2.2.2.2.2.2.2.2.2.2.2.2.2.2.2.2.2.2.2.1

@[simp] theorem frame_set_cwnd_fn_has_seen_rtt (c : Conn) (i : Input) (rs : RateSample) (acked bw gain : Nat) :
    (bbrplus_set_cwnd c i rs acked bw gain).bbr.has_seen_rtt = c.bbr.has_seen_rtt :=
  (frame_set_cwnd_fn c i rs acked bw gain).2.2.2.2.2.2.2.2.2.2.2.2.2.2.2.2.2.2.2.2.2.2.2.1

@[simp] theorem frame_set_cwnd_fn_prior_cwnd (c : Conn) (i : Input) (rs : RateSample) (acked bw gain : Nat) :
    (bbrplus_set_cwnd c i rs acked bw gain).bbr.prior_cwnd = c.bbr.prior_cwnd :=
  (frame_set_cwnd_fn c i rs acked bw gain).2.2.2.2.2.2.2.2.2.2.2.2.2.2.2.2.2.2.2.2.2.2.2.2.1

@[simp] theorem frame_set_cwnd_fn_full_bw (c : Conn) (i : Input) (rs : RateSample) (acked bw gain : Nat) :
    (bbrplus_set_cwnd c i rs acked bw gain).bbr.full_bw = c.bbr.full_bw :=
  (frame_set_cwnd_fn c i rs acked bw gain).2.2.2.2.2.2.2.2.2.2.2.2.2.2.2.2.2.2.2.2.2.2.2.2.2.1

@[simp] theorem frame_set_cwnd_fn_ack_epoch_mstamp (c : Conn) (i : Input) (rs : RateSample) (acked bw gain : Nat) :
    (bbrplus_set_cwnd c i rs acked bw gain).bbr.ack_epoch_mstamp = c.bbr.ack_epoch_mstamp :=
  (frame_set_cwnd_fn c i rs acked bw gain).2.2.2.2.2.2.2.2.2.2.2.2.2.2.2.2.2.2.2.2.2.2.2.2.2.2.1

@[simp] theorem frame_set_cwnd_fn_extra_acked0 (c : Conn) (i : Input) (rs : RateSample) (acked bw gain : Nat) :
    (bbrplus_set_cwnd c i rs acked bw gain).bbr.extra_acked0 = c.bbr.extra_acked0 :=
  (frame_set_cwnd_fn c i rs acked bw gain).2.2.2.2.2.2.2.2.2.2.2.2.2.2.2.2.2.2.2.2.2.2.2.2.2.2.2.1

@[simp] theorem frame_set_cwnd_fn_extra_acked1 (c : Conn) (i : Input) (rs : RateSample) (acked bw gain : Nat) :
    (bbrplus_set_cwnd c i rs acked bw gain).bbr.extra_acked1 = c.bbr.extra_acked1 :=
  (frame_set_cwnd_fn c i rs acked bw gain).2.2.2.2.2.2.2.2.2.2.2.2.2.2.2.2.2.2.2.2.2.2.2.2.2.2.2.2.1

@[simp] theorem frame_set_cwnd_fn_ack_epoch_acked (c : Conn) (i : Input) (rs : RateSample) (acked bw gain : Nat) :
    (bbrplus_set_cwnd c i rs acked bw gain).bbr.ack_epoch_acked = c.bbr.ack_epoch_acked :=
  (frame_set_cwnd_fn c i rs acked bw gain).2.2.2.2.2.2.2.2.2.2.2.2.2.2.2.2.2.2.2.2.2.2.2.2.2.2.2.2.2.1

@[simp] theorem frame_set_cwnd_fn_extra_acked_win_rtts (c : Conn) (i : Input) (rs : RateSample) (acked bw gain : Nat) :
    (bbrplus_set_cwnd c i rs acked bw gain).bbr.extra_acked_win_rtts = c.bbr.extra_acked_win_rtts :=
  (frame_set_cwnd_fn c i rs acked bw gain).2.2.2.2.2.2.2.2.2.2.2.2.2.2.2.2.2.2.2.2.2.2.2.2.2.2.2.2.2.2.1

@[simp] theorem frame_set_cwnd_fn_extra_acked_win_idx (c : Conn) (i : Input) (rs : RateSample) (acked bw gain : Nat) :
    (bbrplus_set_cwnd c i rs acked bw gain).bbr.extra_acked_win_idx = c.bbr.extra_acked_win_idx :=
  (frame_set_cwnd_fn c i rs acked bw gain).2.2.2.2.2.2.2.2.2.2.2.2.2.2.2.2.2.2.2.2.2.2.2.2.2.2.2.2.2.2.2.1

@[simp] theorem frame_set_cwnd_fn_sk_pacing_rate (c : Conn) (i : Input) (rs : RateSample) (acked bw gain : Nat) :
    (bbrplus_set_cwnd c i rs acked bw gain).sk_pacing_rate = c.sk_pacing_rate :=
  (frame_set_cwnd_fn c i rs acked bw gain).2.2.2.2.2.2.2.2.2.2.2.2.2.2.2.2.2.2.2.2.2.2.2.2.2.2.2.2.2.2.2.2

/-- Fields that `bbrplus_cwnd_event` never writes. -/
theorem frame_cwnd_event (c : Conn) (i : Input) (ev : Nat) :
    (bbrplus_cwnd_event c i ev).bbr.min_rtt_us = c.bbr.min_rtt_us ∧
    (bbrplus_cwnd_event c i ev).bbr.min_rtt_stamp = c.bbr.min_rtt_stamp ∧
    (bbrplus_cwnd_event c i ev).bbr.probe_rtt_done_stamp = c.bbr.probe_rtt_done_stamp ∧
    (bbrplus_cwnd_event c i ev).bbr.bw = c.bbr.bw ∧
    (bbrplus_cwnd_event c i ev).bbr.rtt_cnt = c.bbr.rtt_cnt ∧
    (bbrplus_cwnd_event c i ev).bbr.next_rtt_delivered = c.bbr.next_rtt_delivered ∧
    (bbrplus_cwnd_event c i ev).bbr.cycle_mstamp = c.bbr.cycle_mstamp ∧
    (bbrplus_cwnd_event c i ev).bbr.mode = c.bbr.mode ∧
    (bbrplus_cwnd_event c i ev).bbr.prev_ca_state = c.bbr.prev_ca_state ∧
    (bbrplus_cwnd_event c i ev).bbr.packet_conservation = c.bbr.packet_conservation ∧
    (bbrplus_cwnd_event c i ev).bbr.restore_cwnd = c.bbr.restore_cwnd ∧
    (bbrplus_cwnd_event c i ev).bbr.round_start = c.bbr.round_start ∧
    (bbrplus_cwnd_event c i ev).bbr.cycle_len = c.bbr.cycle_len ∧
    (bbrplus_cwnd_event c i ev).bbr.tso_segs_goal = c.bbr.tso_segs_goal ∧
    (bbrplus_cwnd_event c i ev).bbr.probe_rtt_round_done = c.bbr.probe_rtt_round_done ∧
    (bbrplus_cwnd_event c i ev).bbr.lt_is_sampling = c.bbr.lt_is_sampling ∧
    (bbrplus_cwnd_event c i ev).bbr.lt_rtt_cnt = c.bbr.lt_rtt_cnt ∧
    (bbrplus_cwnd_event c i ev).bbr.lt_use_bw = c.bbr.lt_use_bw ∧
    (bbrplus_cwnd_event c i ev).bbr.lt_bw = c.bbr.lt_bw ∧
    (bbrplus_cwnd_event c i ev).bbr.lt_last_delivered = c.bbr.lt_last_delivered ∧
    (bbrplus_cwnd_event c i ev).bbr.lt_last_stamp = c.bbr.lt_last_stamp ∧
    (bbrplus_cwnd_event c i ev).bbr.lt_last_lost = c.bbr.lt_last_lost ∧
    (bbrplus_cwnd_event c i ev).bbr.pacing_gain = c.bbr.pacing_gain ∧
    (bbrplus_cwnd_event c i ev).bbr.cwnd_gain = c.bbr.cwnd_gain ∧
    (bbrplus_cwnd_event c i ev).bbr.full_bw_cnt = c.bbr.full_bw_cnt ∧
    (bbrplus_cwnd_event c i ev).bbr.cycle_idx = c.bbr.cycle_idx ∧
    (bbrplus_cwnd_event c i ev).bbr.prior_cwnd = c.bbr.prior_cwnd ∧
    (bbrplus_cwnd_event c i ev).bbr.full_bw = c.bbr.full_bw ∧
    (bbrplus_cwnd_event c i ev).bbr.extra_acked0 = c.bbr.extra_acked0 ∧
    (bbrplus_cwnd_event c i ev).bbr.extra_acked1 = c.bbr.extra_acked1 ∧
    (bbrplus_cwnd_event c i ev).bbr.extra_acked_win_rtts = c.bbr.extra_acked_win_rtts ∧
    (bbrplus_cwnd_event c i ev).bbr.extra_acked_win_idx = c.bbr.extra_acked_win_idx ∧
    (bbrplus_cwnd_event c i ev).snd_cwnd = c.snd_cwnd := by
  simp only [bbrplus_cwnd_event]
  repeat' split
  all_goals simp

@[simp] theorem frame_cwnd_event_min_rtt_us (c : Conn) (i : Input) (ev : Nat) :
    (bbrplus_cwnd_event c i ev).bbr.min_rtt_us = c.bbr.min_rtt_us :=
  (frame_cwnd_event c i ev).1

@[simp] theorem frame_cwnd_event_min_rtt_stamp (c : Conn) (i : Input) (ev : Nat) :
    (bbrplus_cwnd_event c i ev).bbr.min_rtt_stamp = c.bbr.min_rtt_stamp :=
  (frame_cwnd_event c i ev).2.1

@[simp] theorem frame_cwnd_event_probe_rtt_done_stamp (c : Conn) (i : Input) (ev : Nat) :
    (bbrplus_cwnd_event c i ev).bbr.probe_rtt_done_stamp = c.bbr.probe_rtt_done_stamp :=
  (frame_cwnd_event c i ev).2.2.1

@[simp] theorem frame_cwnd_event_bw (c : Conn) (i : Input) (ev : Nat) :
    (bbrplus_cwnd_event c i ev).bbr.bw = c.bbr.bw :=
  (frame_cwnd_event c i ev).2.2.2.1

@[simp] theorem frame_cwnd_event_rtt_cnt (c : Conn) (i : Input) (ev : Nat) :
    (bbrplus_cwnd_event c i ev).bbr.rtt_cnt = c.bbr.rtt_cnt :=
  (frame_cwnd_event c i ev).2.2.2.2.1

@[simp] theorem frame_cwnd_event_next_rtt_delivered (c : Conn) (i : Input) (ev : Nat) :
    (bbrplus_cwnd_event c i ev).bbr.next_rtt_delivered = c.bbr.next_rtt_delivered :=
  (frame_cwnd_event c i ev).2.2.2.2.2.1

@[simp] theorem frame_cwnd_event_cycle_mstamp (c : Conn) (i : Input) (ev : Nat) :
    (bbrplus_cwnd_event c i ev).bbr.cycle_mstamp = c.bbr.cycle_mstamp :=
  (frame_cwnd_event c i ev).2.2.2.2.2.2.1

@[simp] theorem frame_cwnd_event_mode (c : Conn) (i : Input) (ev : Nat) :
    (bbrplus_cwnd_event c i ev).bbr.mode = c.bbr.mode :=
  (frame_cwnd_event c i ev).2.2.2.2.2.2.2.1

@[simp] theorem frame_cwnd_event_prev_ca_state (c : Conn) (i : Input) (ev : Nat) :
    (bbrplus_cwnd_event c i ev).bbr.prev_ca_state = c.bbr.prev_ca_state :=
  (frame_cwnd_event c i ev).2.2.2.2.2.2.2.2.1

@[simp] theorem frame_cwnd_event_packet_conservation (c : Conn) (i : Input) (ev : Nat) :
    (bbrplus_cwnd_event c i ev).bbr.packet_conservation = c.bbr.packet_conservation :=
  (frame_cwnd_event c i ev).2.2.2.2.2.2.2.2.2.1

@[simp] theorem frame_cwnd_event_restore_cwnd (c : Conn) (i : Input) (ev : Nat) :
    (bbrplus_cwnd_event c i ev).bbr.restore_cwnd = c.bbr.restore_cwnd :=
  (frame_cwnd_event c i ev).2.2.2.2.2.2.2.2.2.2.1

@[simp] theorem frame_cwnd_event_round_start (c : Conn) (i : Input) (ev : Nat) :
    (bbrplus_cwnd_event c i ev).bbr.round_start = c.bbr.round_start :=
  (frame_cwnd_event c i ev).2.2.2.2.2.2.2.2.2.2.2.1

@[simp] theorem frame_cwnd_event_cycle_len (c : Conn) (i : Input) (ev : Nat) :
    (bbrplus_cwnd_event c i ev).bbr.cycle_len = c.bbr.cycle_len :=
  (frame_cwnd_event c i ev).2.2.2.2.2.2.2.2.2.2.2.2.1

@[simp] theorem frame_cwnd_event_tso_segs_goal (c : Conn) (i : Input) (ev : Nat) :
    (bbrplus_cwnd_event c i ev).bbr.tso_segs_goal = c.bbr.tso_segs_goal :=
  (frame_cwnd_event c i ev).2.2.2.2.2.2.2.2.2.2.2.2.2.1

@[simp] theorem frame_cwnd_event_probe_rtt_round_done (c : Conn) (i : Input) (ev : Nat) :
    (bbrplus_cwnd_event c i ev).bbr.probe_rtt_round_done = c.bbr.probe_rtt_round_done :=
  (frame_cwnd_event c i ev).2.2.2.2.2.2.2.2.2.2.2.2.2.2.1

@[simp] theorem frame_cwnd_event_lt_is_sampling (c : Conn) (i : Input) (ev : Nat) :
    (bbrplus_cwnd_event c i ev).bbr.lt_is_sampling = c.bbr.lt_is_sampling :=
  (frame_cwnd_event c i ev).2.2.2.2.2.2.2.2.2.2.2.2.2.2.2.1

@[simp] theorem frame_cwnd_event_lt_rtt_cnt (c : Conn) (i : Input) (ev : Nat) :
    (bbrplus_cwnd_event c i ev).bbr.lt_rtt_cnt = c.bbr.lt_rtt_cnt :=
  (frame_cwnd_event c i ev).2.2.2.2.2.2.2.2.2.2.2.2.2.2.2.2.1

@[simp] theorem frame_cwnd_event_lt_use_bw (c : Conn) (i : Input) (ev : Nat) :
    (bbrplus_cwnd_event c i ev).bbr.lt_use_bw = c.bbr.lt_use_bw :=
  (frame_cwnd_event c i ev).2.2.2.2.2.2.2.2.2.2.2.2.2.2.2.2.2.1

@[simp] theorem frame_cwnd_event_lt_bw (c : Conn) (i : Input) (ev : Nat) :
    (bbrplus_cwnd_event c i ev).bbr.lt_bw = c.bbr.lt_bw :=
  (frame_cwnd_event c i ev).2.2.2.2.2.2.2.2.2.2.2.2.2.2.2.2.2.2.1

@[simp] theorem frame_cwnd_event_lt_last_delivered (c : Conn) (i : Input) (ev : Nat) :
    (bbrplus_cwnd_event c i ev).bbr.lt_last_delivered = c.bbr.lt_last_delivered :=
  (frame_cwnd_event c i ev).2.2.2.2.2.2.2.2.2.2.2.2.2.2.2.2.2.2.2.1

@[simp] theorem frame_cwnd_event_lt_last_stamp (c : Conn) (i : Input) (ev : Nat) :
    (bbrplus_cwnd_event c i ev).bbr.lt_last_stamp = c.bbr.lt_last_stamp :=
  (frame_cwnd_event c i ev).2.2.2.2.2.2.2.2.2.2.2.2.2.2.2.2.2.2.2.2.1

@[simp] theorem frame_cwnd_event_lt_last_lost (c : Conn) (i : Input) (ev : Nat) :
    (bbrplus_cwnd_event c i ev).bbr.lt_last_lost = c.bbr.lt_last_lost :=
  (frame_cwnd_event c i ev).2.2.2.2.2.2.2.2.2.2.2.2.2.2.2.2.2.2.2.2.2.1

@[simp] theorem frame_cwnd_event_pacing_gain (c : Conn) (i : Input) (ev : Nat) :
    (bbrplus_cwnd_event c i ev).bbr.pacing_gain = c.bbr.pacing_gain :=
  (frame_cwnd_event c i ev).2.2.2.2.2.2.2.2.2.2.2.2.2.2.2.2.2.2.2.2.2.2.1

@[simp] theorem frame_cwnd_event_cwnd_gain (c : Conn) (i : Input) (ev : Nat) :
    (bbrplus_cwnd_event c i ev).bbr.cwnd_gain = c.bbr.cwnd_gain :=
  (frame_cwnd_event c i ev).2.2.2.2.2.2.2.2.2.2.2.2.2.2.2.2.2.2.2.2.2.2.2.1

@[simp] theorem frame_cwnd_event_full_bw_cnt (c : Conn) (i : Input) (ev : Nat) :
    (bbrplus_cwnd_event c i ev).bbr.full_bw_cnt = c.bbr.full_bw_cnt :=
  (frame_cwnd_event c i ev).2.2.2.2.2.2.2.2.2.2.2.2.2.2.2.2.2.2.2.2.2.2.2.2.1

@[simp] theorem frame_cwnd_event_cycle_idx (c : Conn) (i : Input) (ev : Nat) :
    (bbrplus_cwnd_event c i ev).bbr.cycle_idx = c.bbr.cycle_idx :=
  (frame_cwnd_event c i ev).2.2.2.2.2.2.2.2.2.2.2.2.2.2.2.2.2.2.2.2.2.2.2.2.2.1

@[simp] theorem frame_cwnd_event_prior_cwnd (c : Conn) (i : Input) (ev : Nat) :
    (bbrplus_cwnd_event c i ev).bbr.prior_cwnd = c.bbr.prior_cwnd :=
  (frame_cwnd_event c i ev).2.2.2.2.2.2.2.2.2.2.2.2.2.2.2.2.2.2.2.2.2.2.2.2.2.2.1

@[simp] theorem frame_cwnd_event_full_bw (c : Conn) (i : Input) (ev : Nat) :
    (bbrplus_cwnd_event c i ev).bbr.full_bw = c.bbr.full_bw :=
  (frame_cwnd_event c i ev).2.2.2.2.2.2.2.2.2.2.2.2.2.2.2.2.2.2.2.2.2.2.2.2.2.2.2.1

@[simp] theorem frame_cwnd_event_extra_acked0 (c : Conn) (i : Input) (ev : Nat) :
    (bbrplus_cwnd_event c i ev).bbr.extra_acked0 = c.bbr.extra_acked0 :=
  (frame_cwnd_event c i ev).2.2.2.2.2.2.2.2.2.2.2.2.2.2.2.2.2.2.2.2.2.2.2.2.2.2.2.2.1

@[simp] theorem frame_cwnd_event_extra_acked1 (c : Conn) (i : Input) (ev : Nat) :
    (bbrplus_cwnd_event c i ev).bbr.extra_acked1 = c.bbr.extra_acked1 :=
  (frame_cwnd_event c i ev).2.2.2.2.2.2.2.2.2.2.2.2.2.2.2.2.2.2.2.2.2.2.2.2.2.2.2.2.2.1

@[simp] theorem frame_cwnd_event_extra_acked_win_rtts (c : Conn) (i : Input) (ev : Nat) :
    (bbrplus_cwnd_event c i ev).bbr.extra_acked_win_rtts = c.bbr.extra_acked_win_rtts :=
  (frame_cwnd_event c i ev).2.2.2.2.2.2.2.2.2.2.2.2.2.2.2.2.2.2.2.2.2.2.2.2.2.2.2.2.2.2.1

@[simp] theorem frame_cwnd_event_extra_acked_win_idx (c : Conn) (i : Input) (ev : Nat) :
    (bbrplus_cwnd_event c i ev).bbr.extra_acked_win_idx = c.bbr.extra_acked_win_idx :=
  (frame_cwnd_event c i ev).2.2.2.2.2.2.2.2.2.2.2.2.2.2.2.2.2.2.2.2.2.2.2.2.2.2.2.2.2.2.2.1

@[simp] theorem frame_cwnd_event_snd_cwnd (c : Conn) (i : Input) (ev : Nat) :
    (bbrplus_cwnd_event c i ev).snd_cwnd = c.snd_cwnd :=
  (frame_cwnd_event c i ev).2.2.2.2.2.2.2.2.2.2.2.2.2.2.2.2.2.2.2.2.2.2.2.2.2.2.2.2.2.2.2.2

/-- Fields that `bbrplus_set_state` never writes. -/
theorem frame_set_state (c : Conn) (i : Input) (st : Nat) :
    (bbrplus_set_state c i st).bbr.min_rtt_us = c.bbr.min_rtt_us ∧
    (bbrplus_set_state c i st).bbr.min_rtt_stamp = c.bbr.min_rtt_stamp ∧
    (bbrplus_set_state c i st).bbr.probe_rtt_done_stamp = c.bbr.probe_rtt_done_stamp ∧
    (bbrplus_set_state c i st).bbr.bw = c.bbr.bw ∧
    (bbrplus_set_state c i st).bbr.rtt_cnt = c.bbr.rtt_cnt ∧
    (bbrplus_set_state c i st).bbr.next_rtt_delivered = c.bbr.next_rtt_delivered ∧
    (bbrplus_set_state c i st).bbr.packet_conservation = c.bbr.packet_conservation ∧
    (bbrplus_set_state c i st).bbr.restore_cwnd = c.bbr.restore_cwnd ∧
    (bbrplus_set_state c i st).bbr.cycle_len = c.bbr.cycle_len ∧
    (bbrplus_set_state c i st).bbr.tso_segs_goal = c.bbr.tso_segs_goal ∧
    (bbrplus_set_state c i st).bbr.idle_restart = c.bbr.idle_restart ∧
    (bbrplus_set_state c i st).bbr.probe_rtt_round_done = c.bbr.probe_rtt_round_done ∧
    (bbrplus_set_state c i st).bbr.full_bw_cnt = c.bbr.full_bw_cnt ∧
    (bbrplus_set_state c i st).bbr.has_seen_rtt = c.bbr.has_seen_rtt ∧
    (bbrplus_set_state c i st).bbr.prior_cwnd = c.bbr.prior_cwnd ∧
    (bbrplus_set_state c i st).bbr.ack_epoch_mstamp = c.bbr.ack_epoch_mstamp ∧
    (bbrplus_set_state c i st).bbr.extra_acked0 = c.bbr.extra_acked0 ∧
    (bbrplus_set_state c i st).bbr.extra_acked1 = c.bbr.extra_acked1 ∧
    (bbrplus_set_state c i st).bbr.ack_epoch_acked = c.bbr.ack_epoch_acked ∧
    (bbrplus_set_state c i st).bbr.extra_acked_win_rtts = c.bbr.extra_acked_win_rtts ∧
    (bbrplus_set_state c i st).bbr.extra_acked_win_idx = c.bbr.extra_acked_win_idx ∧
    (bbrplus_set_state c i st).snd_cwnd = c.snd_cwnd ∧
    (bbrplus_set_state c i st).sk_pacing_rate = c.sk_pacing_rate := by
  simp only [bbrplus_set_state]
  repeat' split
  all_goals simp

@[simp] theorem frame_set_state_min_rtt_us (c : Conn) (i : Input) (st : Nat) :
    (bbrplus_set_state c i st).bbr.min_rtt_us = c.bbr.min_rtt_us :=
  (frame_set_state c i st).1

@[simp] theorem frame_set_state_min_rtt_stamp (c : Conn) (i : Input) (st : Nat) :
    (bbrplus_set_state c i st).bbr.min_rtt_stamp = c.bbr.min_rtt_stamp :=
  (frame_set_state c i st).2.1

@[simp] theorem frame_set_state_probe_rtt_done_stamp (c : Conn) (i : Input) (st : Nat) :
    (bbrplus_set_state c i st).bbr.probe_rtt_done_stamp = c.bbr.probe_rtt_done_stamp :=
  (frame_set_state c i st).2.2.1

@[simp] theorem frame_set_state_bw (c : Conn) (i : Input) (st : Nat) :
    (bbrplus_set_state c i st).bbr.bw = c.bbr.bw :=
  (frame_set_state c i st).2.2.2.1

@[simp] theorem frame_set_state_rtt_cnt (c : Conn) (i : Input) (st : Nat) :
    (bbrplus_set_state c i st).bbr.rtt_cnt = c.bbr.rtt_cnt :=
  (frame_set_state c i st).2.2.2.2.1

@[simp] theorem frame_set_state_next_rtt_delivered (c : Conn) (i : Input) (st : Nat) :
    (bbrplus_set_state c i st).bbr.next_rtt_delivered = c.bbr.next_rtt_delivered :=
  (frame_set_state c i st).2.2.2.2.2.1

@[simp] theorem frame_set_state_packet_conservation (c : Conn) (i : Input) (st : Nat) :
    (bbrplus_set_state c i st).bbr.packet_conservation = c.bbr.packet_conservation :=
  (frame_set_state c i st).2.2.2.2.2.2.1

@[simp] theorem frame_set_state_restore_cwnd (c : Conn) (i : Input) (st : Nat) :
    (bbrplus_set_state c i st).bbr.restore_cwnd = c.bbr.restore_cwnd :=
  (frame_set_state c i st).2.2.2.2.2.2.2.1

@[simp] theorem frame_set_state_cycle_len (c : Conn) (i : Input) (st : Nat) :
    (bbrplus_set_state c i st).bbr.cycle_len = c.bbr.cycle_len :=
  (frame_set_state c i st).2.2.2.2.2.2.2.2.1

@[simp] theorem frame_set_state_tso_segs_goal (c : Conn) (i : Input) (st : Nat) :
    (bbrplus_set_state c i st).bbr.tso_segs_goal = c.bbr.tso_segs_goal :=
  (frame_set_state c i st).2.2.2.2.2.2.2.2.2.1

@[simp] theorem frame_set_state_idle_restart (c : Conn) (i : Input) (st : Nat) :
    (bbrplus_set_state c i st).bbr.idle_restart = c.bbr.idle_restart :=
  (frame_set_state c i st).2.2.2.2.2.2.2.2.2.2.1

@[simp] theorem frame_set_state_probe_rtt_round_done (c : Conn) (i : Input) (st : Nat) :
    (bbrplus_set_state c i st).bbr.probe_rtt_round_done = c.bbr.probe_rtt_round_done :=
  (frame_set_state c i st).2.2.2.2.2.2.2.2.2.2.2.1

@[simp] theorem frame_set_state_full_bw_cnt (c : Conn) (i : Input) (st : Nat) :
    (bbrplus_set_state c i st).bbr.full_bw_cnt = c.bbr.full_bw_cnt :=
  (frame_set_state c i st).2.2.2.2.2.2.2.2.2.2.2.2.1

@[simp] theorem frame_set_state_has_seen_rtt (c : Conn) (i : Input) (st : Nat) :
    (bbrplus_set_state c i st).bbr.has_seen_rtt = c.bbr.has_seen_rtt :=
  (frame_set_state c i st).2.2.2.2.2.2.2.2.2.2.2.2.2.1

@[simp] theorem frame_set_state_prior_cwnd (c : Conn) (i : Input) (st : Nat) :
    (bbrplus_set_state c i st).bbr.prior_cwnd = c.bbr.prior_cwnd :=
  (frame_set_state c i st).2.2.2.2.2.2.2.2.2.2.2.2.2.2.1

@[simp] theorem frame_set_state_ack_epoch_mstamp (c : Conn) (i : Input) (st : Nat) :
    (bbrplus_set_state c i st).bbr.ack_epoch_mstamp = c.bbr.ack_epoch_mstamp :=
  (frame_set_state c i st).2.2.2.2.2.2.2.2.2.2.2.2.2.2.2.1

@[simp] theorem frame_set_state_extra_acked0 (c : Conn) (i : Input) (st : Nat) :
    (bbrplus_set_state c i st).bbr.extra_acked0 = c.bbr.extra_acked0 :=
  (frame_set_state c i st).2.2.2.2.2.2.2.2.2.2.2.2.2.2.2.2.1

@[simp] theorem frame_set_state_extra_acked1 (c : Conn) (i : Input) (st : Nat) :
    (bbrplus_set_state c i st).bbr.extra_acked1 = c.bbr.extra_acked1 :=
  (frame_set_state c i st).2.2.2.2.2.2.2.2.2.2.2.2.2.2.2.2.2.1

@[simp] theorem frame_set_state_ack_epoch_acked (c : Conn) (i : Input) (st : Nat) :
    (bbrplus_set_state c i st).bbr.ack_epoch_acked = c.bbr.ack_epoch_acked :=
  (frame_set_state c i st).2.2.2.2.2.2.2.2.2.2.2.2.2.2.2.2.2.2.1

@[simp] theorem frame_set_state_extra_acked_win_rtts (c : Conn) (i : Input) (st : Nat) :
    (bbrplus_set_state c i st).bbr.extra_acked_win_rtts = c.bbr.extra_acked_win_rtts :=
  (frame_set_state c i st).2.2.2.2.2.2.2.2.2.2.2.2.2.2.2.2.2.2.2.1

@[simp] theorem frame_set_state_extra_acked_win_idx (c : Conn) (i : Input) (st : Nat) :
    (bbrplus_set_state c i st).bbr.extra_acked_win_idx = c.bbr.extra_acked_win_idx :=
  (frame_set_state c i st).2.2.2.2.2.2.2.2.2.2.2.2.2.2.2.2.2.2.2.2.1

@[simp] theorem frame_set_state_snd_cwnd (c : Conn) (i : Input) (st : Nat) :
    (bbrplus_set_state c i st).snd_cwnd = c.snd_cwnd :=
  (frame_set_state c i st).2.2.2.2.2.2.2.2.2.2.2.2.2.2.2.2.2.2.2.2.2.1

@[simp] theorem frame_set_state_sk_pacing_rate (c : Conn) (i : Input) (st : Nat) :
    (bbrplus_set_state c i st).sk_pacing_rate = c.sk_pacing_rate :=
  (frame_set_state c i st).2.2.2.2.2.2.2.2.2.2.2.2.2.2.2.2.2.2.2.2.2.2


/-! ## Claim C10 -/

theorem update_min_rtt_idle_restart (c : Conn) (i : Input) (rs : RateSample) :
    (bbrplus_update_min_rtt c i rs).bbr.idle_restart = false := by
  simp [bbrplus_update_min_rtt]

/-- C10: at the end of every `cong_control` invocation, for any state and any
rate sample, `idle_restart` is cleared — `bbrplus_update_min_rtt`
unconditionally ends with `bbrplus->idle_restart = 0`, and the remaining
steps of `bbrplus_main` never write it.  Hence the flag set by
`cwnd_event(TX_START)` suppresses PROBE_RTT entry for at most the single
next invocation. -/
theorem claim_C10 (c : Conn) (i : Input) (rs : RateSample) :
    (bbrplus_main c i rs).bbr.idle_restart = false := by
  simp [bbrplus_main, bbrplus_update_model, update_min_rtt_idle_restart]

/-! ## Claim C9 -/

/-- C9: once past the initial-RTT seeding (`has_seen_rtt`, or no smoothed RTT
visible so the seeding cannot trigger), `bbrplus_set_pacing_rate` publishes
`max(previous rate, new rate)` while full bandwidth has not been reached and
the new rate unconditionally afterwards; the newly computed rate is capped by
the host's `sk_max_pacing_rate`. -/
theorem claim_C9 (c : Conn) (i : Input) (bw gain : Nat)
    (h : c.bbr.has_seen_rtt = true ∨ i.srtt_us = 0) :
    (bbrplus_set_pacing_rate c i bw gain).sk_pacing_rate =
      (if bbrplus_full_bw_reached c.bbr then bbrplus_bw_to_pacing_rate i bw gain
       else max c.sk_pacing_rate (bbrplus_bw_to_pacing_rate i bw gain)) ∧
    bbrplus_bw_to_pacing_rate i bw gain ≤ i.sk_max_pacing_rate := by
  constructor
  · have hre : ¬ (¬ c.bbr.has_seen_rtt = true ∧ i.srtt_us ≠ 0) := by
      rcases h with h | h <;> simp [h]
    simp only [bbrplus_set_pacing_rate, if_neg hre]
    rcases Bool.eq_false_or_eq_true (bbrplus_full_bw_reached c.bbr) with hf | hf
    · simp [hf]
    · simp [hf]
      split <;> simp <;> omega
  · calc min (bbrplus_rate_bytes_per_sec i bw gain) i.sk_max_pacing_rate % u32mod
        ≤ min (bbrplus_rate_bytes_per_sec i bw gain) i.sk_max_pacing_rate := Nat.mod_le _ _
      _ ≤ i.sk_max_pacing_rate := Nat.min_le_right _ _

/-- Witness for C9 at a concrete input: a fresh connection (no smoothed RTT,
full bandwidth not reached) publishes the max of the previous and new rate. -/
theorem claim_C9_witness :
    (bbrplus_set_pacing_rate (bbrplus_init inp0 10) inp0 100 256).sk_pacing_rate =
      (if bbrplus_full_bw_reached (bbrplus_init inp0 10).bbr then
        bbrplus_bw_to_pacing_rate inp0 100 256
       else max (bbrplus_init inp0 10).sk_pacing_rate (bbrplus_bw_to_pacing_rate inp0 100 256)) ∧
    bbrplus_bw_to_pacing_rate inp0 100 256 ≤ inp0.sk_max_pacing_rate :=
  claim_C9 (bbrplus_init inp0 10) inp0 100 256 (Or.inr rfl)

/-! ## Claim C8 -/

/-- C8: on a valid rate sample, the bandwidth sample
`delivered * 2^24 / interval_us` is admitted to the max filter (keyed by the
round count after boundary detection) exactly when the sample is not
app-limited or is at least the filter's current maximum; consequently an
admitted app-limited sample (within the u32 range of the filter) can never
lower the filter's returned value. -/
theorem claim_C8 (c : Conn) (i : Input) (rs : RateSample)
    (hd : 0 ≤ rs.delivered) (hi : 0 < rs.interval_us) :
    ((bbrplus_update_bw c i rs).bbr.bw =
      (if ¬ rs.is_app_limited ∨
          rs.delivered.toNat * BW_UNIT % u64mod / rs.interval_us.toNat ≥ bbrplus_max_bw c.bbr then
        minmax_running_max c.bbr.bw bbrplus_bw_rtts
          (if ¬ u32before rs.prior_delivered c.bbr.next_rtt_delivered then
            (c.bbr.rtt_cnt + 1) % u32mod
           else c.bbr.rtt_cnt)
          (rs.delivered.toNat * BW_UNIT % u64mod / rs.interval_us.toNat % u32mod)
       else c.bbr.bw)) ∧
    (rs.is_app_limited = true →
      rs.delivered.toNat * BW_UNIT % u64mod / rs.interval_us.toNat < u32mod →
      bbrplus_max_bw (bbrplus_update_bw c i rs).bbr ≥ bbrplus_max_bw c.bbr) := by
  have hvalid : ¬ (rs.delivered < 0 ∨ rs.interval_us ≤ 0) := by omega
  have hmain : (bbrplus_update_bw c i rs).bbr.bw =
      (if ¬ rs.is_app_limited ∨
          rs.delivered.toNat * BW_UNIT % u64mod / rs.interval_us.toNat ≥ bbrplus_max_bw c.bbr then
        minmax_running_max c.bbr.bw bbrplus_bw_rtts
          (if ¬ u32before rs.prior_delivered c.bbr.next_rtt_delivered then
            (c.bbr.rtt_cnt + 1) % u32mod
           else c.bbr.rtt_cnt)
          (rs.delivered.toNat * BW_UNIT % u64mod / rs.interval_us.toNat % u32mod)
       else c.bbr.bw) := by
    simp only [bbrplus_update_bw, if_neg hvalid, bbrplus_max_bw, minmax_get]
    split <;> split <;> simp_all
    all_goals rw [if_neg (by omega)]
  refine ⟨hmain, ?_⟩
  intro happ hlt
  rw [bbrplus_max_bw, minmax_get, hmain]
  by_cases hge :
      rs.delivered.toNat * BW_UNIT % u64mod / rs.interval_us.toNat ≥ bbrplus_max_bw c.bbr
  · rw [if_pos (Or.inr hge)]
    have hv : rs.delivered.toNat * BW_UNIT % u64mod / rs.interval_us.toNat % u32mod =
        rs.delivered.toNat * BW_UNIT % u64mod / rs.interval_us.toNat := Nat.mod_eq_of_lt hlt
    rw [hv]
    rw [show ((minmax_running_max c.bbr.bw bbrplus_bw_rtts
        (if ¬ u32before rs.prior_delivered c.bbr.next_rtt_delivered then
          (c.bbr.rtt_cnt + 1) % u32mod
         else c.bbr.rtt_cnt)
        (rs.delivered.toNat * BW_UNIT % u64mod / rs.interval_us.toNat)).s0.v =
        rs.delivered.toNat * BW_UNIT % u64mod / rs.interval_us.toNat) from
      minmax_get_running_max_of_ge _ _ _ _ hge]
    exact hge
  · rw [if_neg (by simp [happ, hge])]
    exact Nat.le_refl _

/-- Witness for C8 at a concrete input: a fresh connection receiving a valid
app-limited 80 pkt / 1 ms sample admits it (the filter held 0) and the
filter's maximum does not decrease. -/
theorem claim_C8_witness :
    ((bbrplus_update_bw (bbrplus_init inp0 10) inp0 c8_rs).bbr.bw =
      (if ¬ c8_rs.is_app_limited ∨
          c8_rs.delivered.toNat * BW_UNIT % u64mod / c8_rs.interval_us.toNat ≥
            bbrplus_max_bw (bbrplus_init inp0 10).bbr then
        minmax_running_max (bbrplus_init inp0 10).bbr.bw bbrplus_bw_rtts
          (if ¬ u32before c8_rs.prior_delivered (bbrplus_init inp0 10).bbr.next_rtt_delivered then
            ((bbrplus_init inp0 10).bbr.rtt_cnt + 1) % u32mod
           else (bbrplus_init inp0 10).bbr.rtt_cnt)
          (c8_rs.delivered.toNat * BW_UNIT % u64mod / c8_rs.interval_us.toNat % u32mod)
       else (bbrplus_init inp0 10).bbr.bw)) ∧
    (c8_rs.is_app_limited = true →
      c8_rs.delivered.toNat * BW_UNIT % u64mod / c8_rs.interval_us.toNat < u32mod →
      bbrplus_max_bw (bbrplus_update_bw (bbrplus_init inp0 10) inp0 c8_rs).bbr ≥
        bbrplus_max_bw (bbrplus_init inp0 10).bbr) :=
  claim_C8 (bbrplus_init inp0 10) inp0 c8_rs (by decide) (by decide)

/-! ## Claim C7 -/

/-- C7 (as stated) is false: on an invalid sample (`interval_us = 0`) whose
`prior_delivered` does satisfy the round-boundary condition against a fresh
connection, round detection does not run — `rtt_cnt` stays 0 and
`round_start` ends false, where the claim predicts an increment and
`round_start = true`. -/
theorem claim_C7_counterexample :
    u32before c7_rs.prior_delivered (bbrplus_init inp0 10).bbr.next_rtt_delivered = false ∧
    (bbrplus_update_bw (bbrplus_init inp0 10) inp0 c7_rs).bbr.rtt_cnt =
      (bbrplus_init inp0 10).bbr.rtt_cnt ∧
    (bbrplus_update_bw (bbrplus_init inp0 10) inp0 c7_rs).bbr.round_start = false := by
  decide

/-- C7 (amended): on an invalid rate sample (`delivered < 0` or
`interval_us ≤ 0`), `bbrplus_update_bw` returns after merely clearing
`round_start`: the bandwidth filter is not updated and round-boundary
detection does not run at all (no `rtt_cnt` increment, no `round_start`),
even when `prior_delivered ≥ next_rtt_delivered` holds, because the validity
guard precedes the round check in the source. -/
theorem claim_C7 (c : Conn) (i : Input) (rs : RateSample)
    (h : rs.delivered < 0 ∨ rs.interval_us ≤ 0) :
    bbrplus_update_bw c i rs = { c with bbr := { c.bbr with round_start := false } } := by
  simp only [bbrplus_update_bw, if_pos h]

/-- Witness for C7 at a concrete input. -/
theorem claim_C7_witness :
    bbrplus_update_bw (bbrplus_init inp0 10) inp0 c7_rs =
      { bbrplus_init inp0 10 with bbr :=
          { (bbrplus_init inp0 10).bbr with round_start := false } } :=
  claim_C7 (bbrplus_init inp0 10) inp0 c7_rs (by decide)

/-! ## Claim C6 -/

theorem check_full_id_of_reached (c : Conn) (rs : RateSample)
    (h : bbrplus_full_bw_reached c.bbr = true) :
    bbrplus_check_full_bw_reached c rs = c := by
  simp only [bbrplus_check_full_bw_reached]
  rw [if_pos (Or.inl h)]

theorem main_full_bw_reached (c : Conn) (i : Input) (rs : RateSample)
    (h : bbrplus_full_bw_reached c.bbr = true) :
    bbrplus_full_bw_reached (bbrplus_main c i rs).bbr = true := by
  have h3 : bbrplus_full_bw_cnt ≤ c.bbr.full_bw_cnt := by
    simpa [bbrplus_full_bw_reached] using h
  simp only [bbrplus_main, bbrplus_update_model]
  rw [check_full_id_of_reached _ _ (by
    simp only [bbrplus_full_bw_reached, frame_update_cycle_phase_full_bw_cnt,
      frame_update_ack_aggregation_full_bw_cnt, frame_update_bw_full_bw_cnt]
    simpa [bbrplus_full_bw_reached] using h)]
  simp only [bbrplus_full_bw_reached, frame_set_cwnd_fn_full_bw_cnt,
    frame_set_tso_full_bw_cnt, frame_set_pacing_full_bw_cnt,
    frame_update_min_rtt_full_bw_cnt, frame_check_drain_full_bw_cnt,
    frame_update_cycle_phase_full_bw_cnt, frame_update_ack_aggregation_full_bw_cnt,
    frame_update_bw_full_bw_cnt]
  simpa [bbrplus_full_bw_reached] using h

theorem step_full_bw_reached (c : Conn) (e : Event)
    (h : bbrplus_full_bw_reached c.bbr = true) :
    bbrplus_full_bw_reached (bbrplus_step c e).bbr = true := by
  cases e with
  | ack i rs => exact main_full_bw_reached c i rs h
  | cwndEvent i ev =>
    simpa [bbrplus_step, bbrplus_full_bw_reached, frame_cwnd_event_full_bw_cnt]
      using h
  | setState i st =>
    simpa [bbrplus_step, bbrplus_full_bw_reached, frame_set_state_full_bw_cnt]
      using h
  | ssthreshEv =>
    simpa [bbrplus_step, bbrplus_ssthresh, bbrplus_full_bw_reached,
      frame_save_cwnd_full_bw_cnt] using h

/-- C6: once `full_bw_cnt` has reached 3 (so `bbrplus_full_bw_reached` holds),
it holds after every later event sequence — ACKs, `cwnd_event`,
`set_state(LOSS)` (which resets `full_bw` but not `full_bw_cnt`) and
`ssthresh` all preserve `full_bw_cnt`, because
`bbrplus_check_full_bw_reached` returns immediately once full bandwidth is
reached and nothing else writes the counter. -/
theorem claim_C6 (c : Conn) (evs : List Event)
    (h : bbrplus_full_bw_reached c.bbr = true) :
    bbrplus_full_bw_reached (bbrplus_run c evs).bbr = true := by
  induction evs generalizing c with
  | nil => simpa [bbrplus_run] using h
  | cons e t ih =>
    have : bbrplus_run c (e :: t) = bbrplus_run (bbrplus_step c e) t := rfl
    rw [this]
    exact ih _ (step_full_bw_reached c e h)

/-- Witness for C6 at a concrete input: a connection with `full_bw_cnt = 3`
still reports full bandwidth after an RTO (`set_state(LOSS)`) followed by a
round-starting ACK. -/
theorem claim_C6_witness :
    bbrplus_full_bw_reached (bbrplus_run c6_state c6_evs).bbr = true :=
  claim_C6 c6_state c6_evs (by decide)

/-! ## Claim C5 -/

theorem set_cycle_idx_lt8 (b : Bbrplus) (k : Nat) :
    (bbrplus_set_cycle_idx b k).cycle_idx < 8 := by
  simp [bbrplus_set_cycle_idx]
  omega

theorem advance_cycle_phase_idx_lt8 (b : Bbrplus) (i : Input) :
    (bbrplus_advance_cycle_phase b i).cycle_idx < 8 := by
  simp [bbrplus_advance_cycle_phase, CYCLE_LEN]
  omega

theorem reset_probe_bw_mode_idx_lt8 (b : Bbrplus) (i : Input) :
    (bbrplus_reset_probe_bw_mode b i).cycle_idx < 8 := by
  simp only [bbrplus_reset_probe_bw_mode]
  exact advance_cycle_phase_idx_lt8 _ _

theorem reset_mode_idx_lt8 (b : Bbrplus) (i : Input) (h : b.cycle_idx < 8) :
    (bbrplus_reset_mode b i).cycle_idx < 8 := by
  simp only [bbrplus_reset_mode]
  split
  · simpa using h
  · exact reset_probe_bw_mode_idx_lt8 _ _

theorem lt_sampling_idx_lt8 (c : Conn) (i : Input) (rs : RateSample)
    (h : c.bbr.cycle_idx < 8) :
    (bbrplus_lt_bw_sampling c i rs).bbr.cycle_idx < 8 := by
  simp only [bbrplus_lt_bw_sampling]
  repeat' split
  all_goals simp_all [reset_probe_bw_mode_idx_lt8]

theorem cycleInv_update_bw (c : Conn) (i : Input) (rs : RateSample)
    (h : bbrplusCycleInv c) : bbrplusCycleInv (bbrplus_update_bw c i rs) := by
  obtain ⟨h1, h2⟩ := h
  constructor
  · simp only [bbrplus_update_bw]
    repeat' split
    all_goals simp_all [lt_sampling_idx_lt8]
  · rw [frame_update_bw_cycle_len]
    exact h2

theorem cycleInv_drain_cycling (c : Conn) (i : Input) (rs : RateSample)
    (h : bbrplusCycleInv c) : bbrplusCycleInv (bbrplus_drain_to_target_cycling c i rs) := by
  obtain ⟨h1, h2⟩ := h
  simp only [bbrplus_drain_to_target_cycling, bbrplusCycleInv]
  repeat' split
  all_goals simp_all [set_cycle_idx_lt8, bbrplus_cycle_rand, CYCLE_LEN]
  all_goals omega

theorem cycleInv_update_cycle_phase (c : Conn) (i : Input) (rs : RateSample)
    (h : bbrplusCycleInv c) : bbrplusCycleInv (bbrplus_update_cycle_phase c i rs) := by
  simp only [bbrplus_update_cycle_phase]
  split
  · exact cycleInv_drain_cycling c i rs h
  · split
    · exact ⟨by simpa using advance_cycle_phase_idx_lt8 c.bbr i, by simpa using h.2⟩
    · exact h

theorem cycleInv_check_drain (c : Conn) (i : Input)
    (h : bbrplusCycleInv c) : bbrplusCycleInv (bbrplus_check_drain c i) := by
  obtain ⟨h1, h2⟩ := h
  simp only [bbrplus_check_drain, bbrplusCycleInv]
  repeat' split
  all_goals simp_all [reset_probe_bw_mode_idx_lt8]

theorem cycleInv_update_min_rtt (c : Conn) (i : Input) (rs : RateSample)
    (h : bbrplusCycleInv c) : bbrplusCycleInv (bbrplus_update_min_rtt c i rs) := by
  obtain ⟨h1, h2⟩ := h
  have hidx : (bbrplus_probe_rtt_handle
      (bbrplus_probe_rtt_enter (bbrplus_min_rtt_refresh c i rs (bbrplus_min_rtt_expired c i))
        (bbrplus_min_rtt_expired c i)) i).bbr.cycle_idx < 8 := by
    simp only [bbrplus_probe_rtt_handle]
    repeat' split
    all_goals simp_all
    all_goals exact reset_mode_idx_lt8 _ _ (by simpa using h1)
  constructor
  · simpa [bbrplus_update_min_rtt] using hidx
  · simpa [bbrplus_update_min_rtt] using h2

theorem cycleInv_main (c : Conn) (i : Input) (rs : RateSample)
    (h : bbrplusCycleInv c) : bbrplusCycleInv (bbrplus_main c i rs) := by
  have h1 := cycleInv_update_bw c i rs h
  have h2 : bbrplusCycleInv (bbrplus_update_ack_aggregation (bbrplus_update_bw c i rs) i rs) :=
    ⟨by simpa using h1.1, by simpa using h1.2⟩
  have h3 := cycleInv_update_cycle_phase _ i rs h2
  have h4 : bbrplusCycleInv (bbrplus_check_full_bw_reached
      (bbrplus_update_cycle_phase
        (bbrplus_update_ack_aggregation (bbrplus_update_bw c i rs) i rs) i rs) rs) :=
    ⟨by simpa using h3.1, by simpa using h3.2⟩
  have h5 := cycleInv_check_drain _ i h4
  have h6 := cycleInv_update_min_rtt _ i rs h5
  constructor
  · simpa [bbrplus_main, bbrplus_update_model] using h6.1
  · simpa [bbrplus_main, bbrplus_update_model] using h6.2

theorem cycleInv_set_state (c : Conn) (i : Input) (st : Nat)
    (h : bbrplusCycleInv c) : bbrplusCycleInv (bbrplus_set_state c i st) := by
  obtain ⟨h1, h2⟩ := h
  constructor
  · simp only [bbrplus_set_state]
    split
    · exact lt_sampling_idx_lt8 _ _ _ (by simpa using h1)
    · exact h1
  · rw [frame_set_state_cycle_len]
    exact h2

theorem cycleInv_step (c : Conn) (e : Event)
    (h : bbrplusCycleInv c) : bbrplusCycleInv (bbrplus_step c e) := by
  cases e with
  | ack i rs => exact cycleInv_main c i rs h
  | cwndEvent i ev =>
    exact ⟨by simpa [bbrplus_step] using h.1, by simpa [bbrplus_step] using h.2⟩
  | setState i st => exact cycleInv_set_state c i st h
  | ssthreshEv =>
    exact ⟨by simpa [bbrplus_step, bbrplus_ssthresh] using h.1,
           by simpa [bbrplus_step, bbrplus_ssthresh] using h.2⟩

theorem cycleInv_run (c : Conn) (evs : List Event)
    (h : bbrplusCycleInv c) : bbrplusCycleInv (bbrplus_run c evs) := by
  induction evs generalizing c with
  | nil => simpa [bbrplus_run] using h
  | cons e t ih =>
    have hstep : bbrplus_run c (e :: t) = bbrplus_run (bbrplus_step c e) t := rfl
    rw [hstep]
    exact ih _ (cycleInv_step c e h)

/-- C5 (amended): from `init`, along every event sequence, `cycle_idx` stays
in `[0,7]`; `cycle_len`, however, is either 0 (its `init` value, which it
keeps until the first drain-to-target probing cycle begins, including at the
instant PROBE_BW is first entered) or in `[2,8]`. -/
theorem claim_C5 (i0 : Input) (cwnd0 : Nat) (evs : List Event) :
    bbrplusCycleInv (bbrplus_run (bbrplus_init i0 cwnd0) evs) := by
  apply cycleInv_run
  constructor
  · simp only [bbrplus_init, bbrplus_reset_startup_mode, bbrplus_init_pacing_rate_from_rtt,
      bbrplus_reset_lt_bw_sampling, bbrplus_reset_lt_bw_sampling_interval]
    split <;> simp
  · left
    simp only [bbrplus_init, bbrplus_reset_startup_mode, bbrplus_init_pacing_rate_from_rtt,
      bbrplus_reset_lt_bw_sampling, bbrplus_reset_lt_bw_sampling_interval]
    split <;> simp

set_option maxRecDepth 10000 in
/-- C5 counterexample: after four round-starting ACKs at constant bandwidth
from `init`, the connection is in PROBE_BW while `cycle_len` is still 0,
outside the claimed `[2,8]`. -/
theorem claim_C5_counterexample :
    (bbrplus_run (bbrplus_init inp0 10) c5_trace).bbr.mode = Mode.PROBE_BW ∧
    (bbrplus_run (bbrplus_init inp0 10) c5_trace).bbr.cycle_len = 0 := by
  decide

/-! ## Claim C4 -/

theorem check_full_id_of_not_round (c : Conn) (rs : RateSample)
    (h : c.bbr.round_start = false) :
    bbrplus_check_full_bw_reached c rs = c := by
  simp only [bbrplus_check_full_bw_reached]
  rw [if_pos (Or.inr (Or.inl (by simp [h])))]

theorem set_cwnd_zero (c : Conn) (i : Input) (rs : RateSample) (bw gain : Nat) :
    bbrplus_set_cwnd c i rs 0 bw gain = c := by
  simp [bbrplus_set_cwnd]

/-- C4 (amended): a `cong_control` invocation with a null rate sample
(`delivered = 0`, `interval_us = 0`, `acked_sacked = 0`) leaves the whole
estimator state untouched — round accounting (`rtt_cnt`), the bandwidth
filter, the LT estimator, full-bandwidth detection, the ACK-aggregation
state, the recovery bookkeeping (`prev_ca_state`, `packet_conservation`) and
the published cwnd are all unchanged — while `round_start` and
`idle_restart` are cleared.  (The wall-clock-driven fields — min-RTT state,
mode, gains, PROBE_BW cycling, PROBE_RTT bookkeeping, `prior_cwnd`,
`restore_cwnd`, `next_rtt_delivered`, `tso_segs_goal`, `has_seen_rtt`, and
the pacing rate — may still change, which is what falsifies the claim as
stated.) -/
theorem claim_C4 (c : Conn) (i : Input) (rs : RateSample)
    (_h1 : rs.delivered = 0) (h2 : rs.interval_us = 0) (h3 : rs.acked_sacked = 0) :
    (bbrplus_main c i rs).bbr.rtt_cnt = c.bbr.rtt_cnt ∧
    (bbrplus_main c i rs).bbr.prev_ca_state = c.bbr.prev_ca_state ∧
    (bbrplus_main c i rs).bbr.packet_conservation = c.bbr.packet_conservation ∧
    (bbrplus_main c i rs).bbr.bw = c.bbr.bw ∧
    (bbrplus_main c i rs).bbr.lt_is_sampling = c.bbr.lt_is_sampling ∧
    (bbrplus_main c i rs).bbr.lt_rtt_cnt = c.bbr.lt_rtt_cnt ∧
    (bbrplus_main c i rs).bbr.lt_use_bw = c.bbr.lt_use_bw ∧
    (bbrplus_main c i rs).bbr.lt_bw = c.bbr.lt_bw ∧
    (bbrplus_main c i rs).bbr.lt_last_delivered = c.bbr.lt_last_delivered ∧
    (bbrplus_main c i rs).bbr.lt_last_stamp = c.bbr.lt_last_stamp ∧
    (bbrplus_main c i rs).bbr.lt_last_lost = c.bbr.lt_last_lost ∧
    (bbrplus_main c i rs).bbr.full_bw = c.bbr.full_bw ∧
    (bbrplus_main c i rs).bbr.full_bw_cnt = c.bbr.full_bw_cnt ∧
    (bbrplus_main c i rs).bbr.ack_epoch_mstamp = c.bbr.ack_epoch_mstamp ∧
    (bbrplus_main c i rs).bbr.ack_epoch_acked = c.bbr.ack_epoch_acked ∧
    (bbrplus_main c i rs).bbr.extra_acked0 = c.bbr.extra_acked0 ∧
    (bbrplus_main c i rs).bbr.extra_acked1 = c.bbr.extra_acked1 ∧
    (bbrplus_main c i rs).bbr.extra_acked_win_rtts = c.bbr.extra_acked_win_rtts ∧
    (bbrplus_main c i rs).bbr.extra_acked_win_idx = c.bbr.extra_acked_win_idx ∧
    (bbrplus_main c i rs).snd_cwnd = c.snd_cwnd ∧
    (bbrplus_main c i rs).bbr.round_start = false ∧
    (bbrplus_main c i rs).bbr.idle_restart = false := by
  have e1 : bbrplus_update_bw c i rs =
      { c with bbr := { c.bbr with round_start := false } } := by
    simp only [bbrplus_update_bw, if_pos (Or.inr (by omega : rs.interval_us ≤ 0))]
  have e2 : bbrplus_update_ack_aggregation
      { c with bbr := { c.bbr with round_start := false } } i rs =
      { c with bbr := { c.bbr with round_start := false } } := by
    simp only [bbrplus_update_ack_aggregation]
    rw [if_pos (Or.inr (Or.inl h3))]
  simp only [bbrplus_main, bbrplus_update_model, e1, e2, h3, set_cwnd_zero]
  rw [check_full_id_of_not_round _ _ (by simp)]
  simp [update_min_rtt_idle_restart]


/-- C4 (as stated) is false: from a fresh connection, a `cong_control`
invocation with the null sample still recomputes `tso_segs_goal` from the
host's `tcp_tso_autosize` answer — a state-object field other than
`round_start` changes (from 0 to 5). -/
theorem claim_C4_counterexample :
    rs0.delivered = 0 ∧ rs0.interval_us = 0 ∧ rs0.acked_sacked = 0 ∧
    (bbrplus_init inp0 10).bbr.tso_segs_goal = 0 ∧
    (bbrplus_main (bbrplus_init inp0 10) c4_inp rs0).bbr.tso_segs_goal = 5 := by
  decide

/-- Witness for C4 at a concrete input: the null sample leaves `rtt_cnt` of
a fresh connection unchanged. -/
theorem claim_C4_witness :
    (bbrplus_main (bbrplus_init inp0 10) c4_inp rs0).bbr.rtt_cnt =
      (bbrplus_init inp0 10).bbr.rtt_cnt :=
  (claim_C4 (bbrplus_init inp0 10) c4_inp rs0 rfl rfl rfl).1

/-! ## Claim C3 -/

set_option maxRecDepth 10000 in
/-- C3 (as stated) is false: a concrete trace latches `lt_use_bw` (two
consecutive lossy, consistent LT intervals, events 1-8), then reaches full
bandwidth and drains (events 9-11); the DRAIN exit re-enters PROBE_BW via
`bbrplus_advance_cycle_phase`, whose `pacing_gain` store lacks the
`lt_use_bw` guard of `bbrplus_set_cycle_idx`, so the trace ends with
`lt_use_bw` still set (LT was never reset) and `pacing_gain = 320`
(the 5/4 probing gain), not `BBRPLUS_UNIT = 256`. -/
theorem claim_C3_counterexample :
    (bbrplus_run (bbrplus_init inp0 10) c3_trace).bbr.lt_use_bw = true ∧
    (bbrplus_run (bbrplus_init inp0 10) c3_trace).bbr.pacing_gain = 320 ∧
    (320 : Nat) ≠ BBRPLUS_UNIT := by
  decide

/-- C3 (amended): while `lt_use_bw` is set, the effective bandwidth reported
to the cwnd and pacing-rate computations (`bbrplus_bw`) is `lt_bw` rather
than the windowed-max filter value; and the PROBE_BW gain-cycling update
`bbrplus_set_cycle_idx` keeps `pacing_gain = 1.0`.  (Mode resets —
PROBE_BW re-entry through `bbrplus_advance_cycle_phase`, or STARTUP entry on
PROBE_RTT exit — may set `pacing_gain ≠ 1.0` while `lt_use_bw` remains set,
which is what falsifies the claim as stated.) -/
theorem claim_C3 (b : Bbrplus) (k : Nat) (h : b.lt_use_bw = true) :
    bbrplus_bw b = b.lt_bw ∧
    (bbrplus_set_cycle_idx b k).pacing_gain = BBRPLUS_UNIT := by
  constructor
  · simp [bbrplus_bw, h]
  · simp [bbrplus_set_cycle_idx, h]

/-- Witness for C3 at a concrete input: a connection with `lt_use_bw`
latched reports `lt_bw` as its bandwidth and keeps `pacing_gain = 1.0`
through a gain-cycling update. -/
theorem claim_C3_witness :
    bbrplus_bw c3w_state.bbr = c3w_state.bbr.lt_bw ∧
    (bbrplus_set_cycle_idx c3w_state.bbr 0).pacing_gain = BBRPLUS_UNIT :=
  claim_C3 c3w_state.bbr 0 (by decide)
